import Mathlib

/-!
# XML schema bindings: enumerations, record readers, document drivers and the apex writer

A shallow embedding of the generated C++ bindings

* `android_audio_policy_configuration_V7_0_enums.cpp` (enumeration tables and conversions),
* `android_audio_policy_configuration_V7_0.cpp` (record readers and the document driver),
* `com_android_apex.cpp` (apex-info-list reader, driver and writer),

followed by the properties established about them.  C++ strings are modelled by `String`
(comparison of UTF-8 byte strings coincides with comparison of the decoded text), `std::vector`
by `List`, `std::optional` by `Option`, and a function that can leave through a C++ exception
returns `Except CppException`.
-/

set_option autoImplicit false

/-! ## C++ library primitives -/

/-- The exceptions the numeric conversions of the standard library throw. -/
inductive CppException where
  | invalid_argument
  | out_of_range
deriving DecidableEq

deriving instance DecidableEq for Except

/-- Modelled from the spec: standard library `std::map::find` on a map built from an initialiser
list of pairs; the first pair inserted for a key is the one kept, and `find` returns its value. -/
def map_find {E : Type} (table : List (String × E)) (value : String) : Option E :=
  match table with
  | [] => none
  | (key, second) :: rest => if value = key then some second else map_find rest value

/-- Decimal digit character of a number below ten. -/
def digitChar (d : Nat) : Char :=
  Char.ofNat (48 + d)

/-- Digits of a natural number, most significant first, pushed in front of `acc`; `fuel` bounds
the number of digits produced. -/
def decimalCore : Nat → Nat → List Char → List Char
  | 0, _, acc => acc
  | fuel + 1, n, acc =>
    if n / 10 = 0 then digitChar (n % 10) :: acc
    else decimalCore fuel (n / 10) (digitChar (n % 10) :: acc)

/-- Decimal text of a natural number, without leading zeros. -/
def decimalNat (n : Nat) : List Char :=
  decimalCore (n + 1) n []

/-- Decimal text of an integer: a minus sign for negative values, no sign otherwise.  This is the
text both `std::to_string` and `operator<<` produce for a signed integer. -/
def decimalInt (i : Int) : List Char :=
  match i with
  | Int.ofNat n => decimalNat n
  | Int.negSucc n => '-' :: decimalNat (n + 1)

/-- Modelled from the spec: standard library `std::to_string(int)`. -/
def to_string (i : Int) : String :=
  String.mk (decimalInt i)


/-- The C library predicate `isspace` in the classic locale: space, tab, line feed, vertical tab,
form feed and carriage return. -/
def isspace (c : Char) : Bool :=
  c = ' ' || c = '\t' || c = '\n' || c = '\x0b' || c = '\x0c' || c = '\r'

/-- The C library predicate `isdigit`. -/
def isdigit (c : Char) : Bool :=
  48 ≤ c.toNat && c.toNat ≤ 57

/-- Value of a run of decimal digits, continuing from `acc`. -/
def digitsValue (acc : Nat) (ds : List Char) : Nat :=
  ds.foldl (fun a c => 10 * a + (c.toNat - 48)) acc

/-- Modelled from the spec: the subject sequence the C library conversions `strtoll`, `strtol` and
`strtoul` recognise in base ten: leading `isspace` characters are skipped, then an optional sign,
then the longest run of decimal digits; what follows is ignored.  The result is the sign (true
for minus) and the magnitude, or nothing when there is no digit. -/
def numericPrefix (s : List Char) : Option (Bool × Nat) :=
  let body := s.dropWhile isspace
  let signed : Bool × List Char :=
    match body with
    | [] => (false, body)
    | c :: rest => if c = '-' then (true, rest) else if c = '+' then (false, rest) else (false, body)
  let ds := signed.2.takeWhile isdigit
  if ds = [] then none else some (signed.1, digitsValue 0 ds)

/-- Least value of `long long` (and of `int64_t`). -/
def LLONG_MIN : Int := -(2 ^ 63)

/-- Greatest value of `long long` (and of `int64_t`). -/
def LLONG_MAX : Int := 2 ^ 63 - 1

/-- Least value of `int`. -/
def INT_MIN : Int := -(2 ^ 31)

/-- Greatest value of `int`. -/
def INT_MAX : Int := 2 ^ 31 - 1

/-- Greatest value of `unsigned long` on the 64-bit targets the bindings are built for. -/
def ULONG_MAX : Nat := 2 ^ 64 - 1

/-- Signed value of a sign and magnitude pair. -/
def signedValue (p : Bool × Nat) : Int :=
  if p.1 then -(p.2 : Int) else (p.2 : Int)

/-- Modelled from the spec: standard library `std::stoll`: `invalid_argument` when no conversion
can be performed, `out_of_range` when the value does not fit `long long`. -/
def stoll (str : String) : Except CppException Int :=
  match numericPrefix str.data with
  | none => .error .invalid_argument
  | some p =>
    if signedValue p < LLONG_MIN ∨ LLONG_MAX < signedValue p then .error .out_of_range
    else .ok (signedValue p)

/-- Modelled from the spec: standard library `std::stoi`: `invalid_argument` when no conversion can
be performed, `out_of_range` when the value does not fit `int`. -/
def stoi (str : String) : Except CppException Int :=
  match numericPrefix str.data with
  | none => .error .invalid_argument
  | some p =>
    if signedValue p < INT_MIN ∨ INT_MAX < signedValue p then .error .out_of_range
    else .ok (signedValue p)

/-- Modelled from the spec: standard library `std::stoul`: `invalid_argument` when no conversion
can be performed, `out_of_range` when the magnitude does not fit `unsigned long`; a minus sign
negates the magnitude in unsigned arithmetic. -/
def stoul (str : String) : Except CppException Nat :=
  match numericPrefix str.data with
  | none => .error .invalid_argument
  | some p =>
    if ULONG_MAX < p.2 then .error .out_of_range
    else .ok (if p.1 then (ULONG_MAX + 1 - p.2) % (ULONG_MAX + 1) else p.2)

/-- The conversion `static_cast<unsigned int>` of an `unsigned long`. -/
def static_cast_unsigned_int (v : Nat) : Nat :=
  v % 2 ^ 32

/-- Tokens of a list of characters: maximal runs of characters that are not `isspace`; `cur` is
the token being read, in reverse. -/
def tokensCore (cur : List Char) : List Char → List String
  | [] => if cur = [] then [] else [String.mk cur.reverse]
  | c :: cs =>
    if isspace c then
      (if cur = [] then tokensCore [] cs else String.mk cur.reverse :: tokensCore [] cs)
    else tokensCore (c :: cur) cs

/-- Modelled from the spec: the strings the loop `for (std::string str; _stream >> str; )` yields
over `std::istringstream _stream(_raw)`: the whitespace separated tokens of `_raw`, in order. -/
def istringstream_tokens (_raw : String) : List String :=
  tokensCore [] _raw.data

/-! ## The XML tree the backend hands to the bindings -/

/-- Modelled from the spec: the node kinds of the XML backend that the bindings can meet among
the children of an element. -/
inductive XmlElementType where
  | XML_ELEMENT_NODE
  | XML_TEXT_NODE
  | XML_CDATA_SECTION_NODE
  | XML_ENTITY_REF_NODE
  | XML_PI_NODE
  | XML_COMMENT_NODE
deriving DecidableEq

/-- Modelled from the spec: a node of the tree of the XML backend: its kind, its name (the local
name for an element, the target for a processing instruction), its attributes as name and value
pairs in document order (values after entity expansion), its children in document order and its
character content (for a text or CDATA node the text, for an entity reference the replacement
text). -/
inductive XmlNode where
  | mk (type : XmlElementType) (name : String) (properties : List (String × String))
      (children : List XmlNode) (content : String)

namespace XmlNode

/-- Field `type` of a node. -/
def type : XmlNode → XmlElementType
  | mk t _ _ _ _ => t

/-- Field `name` of a node. -/
def name : XmlNode → String
  | mk _ n _ _ _ => n

/-- Field `properties` of a node. -/
def properties : XmlNode → List (String × String)
  | mk _ _ p _ _ => p

/-- Field `children` of a node (`xmlChildrenNode` in the sources). -/
def xmlChildrenNode : XmlNode → List XmlNode
  | mk _ _ _ c _ => c

/-- Field `content` of a node. -/
def content : XmlNode → String
  | mk _ _ _ _ c => c

/-- An element node with the given name, attributes and children. -/
def element (name : String) (properties : List (String × String)) (children : List XmlNode) :
    XmlNode :=
  mk .XML_ELEMENT_NODE name properties children ""

/-- A text node. -/
def text (content : String) : XmlNode :=
  mk .XML_TEXT_NODE "text" [] [] content

end XmlNode

/-- Modelled from the spec: backend function `xmlGetProp`: the value of the first attribute of an
element with the given name, nothing when the node is not an element or has no such attribute. -/
def xmlGetProp (cur : XmlNode) (attributeName : String) : Option String :=
  if cur.type = .XML_ELEMENT_NODE then map_find cur.properties attributeName else none

/-- Modelled from the spec: backend function `xmlNodeListGetString` with in-line expansion: the
concatenated content of the text, CDATA and entity reference nodes of a node list, nothing when
the list holds no such node. -/
def xmlNodeListGetString (list : List XmlNode) : Option String :=
  match list.filter (fun n => n.type = .XML_TEXT_NODE || n.type = .XML_CDATA_SECTION_NODE
      || n.type = .XML_ENTITY_REF_NODE) with
  | [] => none
  | ns => some (String.join (ns.map XmlNode.content))

/-- Source function getXmlAttribute (the same in both translation units): the attribute value,
or the empty string when `xmlGetProp` returns null. -/
def getXmlAttribute (cur : XmlNode) (attributeName : String) : String :=
  match xmlGetProp cur attributeName with
  | none => ""
  | some xmlValue => xmlValue

/-- The text a reader takes from a simple-typed child element: `xmlNodeListGetString` of its
children, or the empty string when that is null. -/
def childText (_child : XmlNode) : String :=
  match xmlNodeListGetString _child.xmlChildrenNode with
  | none => ""
  | some xmlValue => xmlValue

/-- Modelled from the spec: a document of the XML backend; `xmlDocGetRootElement` is its root
element, null for a document without one. -/
structure XmlDoc where
  xmlDocGetRootElement : Option XmlNode

/-- Modelled from the spec: the entry points of the XML backend the drivers call.  `xmlParseFile`
and `xmlParseDoc` return null (nothing) when they reject their input.  `xmlXIncludeProcess`
substitutes inclusions in place: given the root element it returns its status (negative on
failure) and the state of that root element after the substitution. -/
structure XmlBackend where
  xmlParseFile : String → Option XmlDoc
  xmlParseDoc : String → Option XmlDoc
  xmlXIncludeProcess : XmlNode → Int × XmlNode

namespace V7_0

/-- Modelled from the spec: the enum class Version, whose declaration sits in the enums header that is
not part of the sources; a closed tag set made of the tags that VersionString and the switch of
toString name, plus the UNKNOWN sentinel. -/
inductive Version where
  | UNKNOWN
  | _7_0
deriving DecidableEq

/-- The lookup table VersionString, in the order of its initialiser list. -/
def VersionString : List (String × Version) :=
  [
    ("7.0", Version._7_0) ]

/-- Source function stringToVersion: find the key in VersionString, else the sentinel. -/
def stringToVersion (value : String) : Version :=
  match map_find VersionString value with
  | some second => second
  | none => .UNKNOWN

/-- Source function toString(Version); the argument static_cast_int is the cast of the enum to its
underlying integer, fixed by the enum declaration. -/
def Version.toString (static_cast_int : Version → Int) (o : Version) : String :=
  match o with
  | Version._7_0 => "7.0"
  | _ => to_string (static_cast_int o)

/-- Modelled from the spec: the enum class HalVersion, whose declaration sits in the enums header that is
not part of the sources; a closed tag set made of the tags that HalVersionString and the switch of
toString name, plus the UNKNOWN sentinel. -/
inductive HalVersion where
  | UNKNOWN
  | _2_0
  | _3_0
deriving DecidableEq

/-- The lookup table HalVersionString, in the order of its initialiser list. -/
def HalVersionString : List (String × HalVersion) :=
  [
    ("2.0", HalVersion._2_0),
    ("3.0", HalVersion._3_0) ]

/-- Source function stringToHalVersion: find the key in HalVersionString, else the sentinel. -/
def stringToHalVersion (value : String) : HalVersion :=
  match map_find HalVersionString value with
  | some second => second
  | none => .UNKNOWN

/-- Source function toString(HalVersion); the argument static_cast_int is the cast of the enum to its
underlying integer, fixed by the enum declaration. -/
def HalVersion.toString (static_cast_int : HalVersion → Int) (o : HalVersion) : String :=
  match o with
  | HalVersion._2_0 => "2.0"
  | HalVersion._3_0 => "3.0"
  | _ => to_string (static_cast_int o)

/-- Modelled from the spec: the enum class AudioInOutFlag, whose declaration sits in the enums header that is
not part of the sources; a closed tag set made of the tags that AudioInOutFlagString and the switch of
toString name, plus the UNKNOWN sentinel. -/
inductive AudioInOutFlag where
  | UNKNOWN
  | AUDIO_OUTPUT_FLAG_DIRECT
  | AUDIO_OUTPUT_FLAG_PRIMARY
  | AUDIO_OUTPUT_FLAG_FAST
  | AUDIO_OUTPUT_FLAG_DEEP_BUFFER
  | AUDIO_OUTPUT_FLAG_COMPRESS_OFFLOAD
  | AUDIO_OUTPUT_FLAG_NON_BLOCKING
  | AUDIO_OUTPUT_FLAG_HW_AV_SYNC
  | AUDIO_OUTPUT_FLAG_TTS
  | AUDIO_OUTPUT_FLAG_RAW
  | AUDIO_OUTPUT_FLAG_SYNC
  | AUDIO_OUTPUT_FLAG_IEC958_NONAUDIO
  | AUDIO_OUTPUT_FLAG_DIRECT_PCM
  | AUDIO_OUTPUT_FLAG_MMAP_NOIRQ
  | AUDIO_OUTPUT_FLAG_VOIP_RX
  | AUDIO_OUTPUT_FLAG_INCALL_MUSIC
  | AUDIO_OUTPUT_FLAG_GAPLESS_OFFLOAD
  | AUDIO_INPUT_FLAG_FAST
  | AUDIO_INPUT_FLAG_HW_HOTWORD
  | AUDIO_INPUT_FLAG_RAW
  | AUDIO_INPUT_FLAG_SYNC
  | AUDIO_INPUT_FLAG_MMAP_NOIRQ
  | AUDIO_INPUT_FLAG_VOIP_TX
  | AUDIO_INPUT_FLAG_HW_AV_SYNC
  | AUDIO_INPUT_FLAG_DIRECT
deriving DecidableEq

/-- The lookup table AudioInOutFlagString, in the order of its initialiser list. -/
def AudioInOutFlagString : List (String × AudioInOutFlag) :=
  [
    ("AUDIO_OUTPUT_FLAG_DIRECT", AudioInOutFlag.AUDIO_OUTPUT_FLAG_DIRECT),
    ("AUDIO_OUTPUT_FLAG_PRIMARY", AudioInOutFlag.AUDIO_OUTPUT_FLAG_PRIMARY),
    ("AUDIO_OUTPUT_FLAG_FAST", AudioInOutFlag.AUDIO_OUTPUT_FLAG_FAST),
    ("AUDIO_OUTPUT_FLAG_DEEP_BUFFER", AudioInOutFlag.AUDIO_OUTPUT_FLAG_DEEP_BUFFER),
    ("AUDIO_OUTPUT_FLAG_COMPRESS_OFFLOAD", AudioInOutFlag.AUDIO_OUTPUT_FLAG_COMPRESS_OFFLOAD),
    ("AUDIO_OUTPUT_FLAG_NON_BLOCKING", AudioInOutFlag.AUDIO_OUTPUT_FLAG_NON_BLOCKING),
    ("AUDIO_OUTPUT_FLAG_HW_AV_SYNC", AudioInOutFlag.AUDIO_OUTPUT_FLAG_HW_AV_SYNC),
    ("AUDIO_OUTPUT_FLAG_TTS", AudioInOutFlag.AUDIO_OUTPUT_FLAG_TTS),
    ("AUDIO_OUTPUT_FLAG_RAW", AudioInOutFlag.AUDIO_OUTPUT_FLAG_RAW),
    ("AUDIO_OUTPUT_FLAG_SYNC", AudioInOutFlag.AUDIO_OUTPUT_FLAG_SYNC),
    ("AUDIO_OUTPUT_FLAG_IEC958_NONAUDIO", AudioInOutFlag.AUDIO_OUTPUT_FLAG_IEC958_NONAUDIO),
    ("AUDIO_OUTPUT_FLAG_DIRECT_PCM", AudioInOutFlag.AUDIO_OUTPUT_FLAG_DIRECT_PCM),
    ("AUDIO_OUTPUT_FLAG_MMAP_NOIRQ", AudioInOutFlag.AUDIO_OUTPUT_FLAG_MMAP_NOIRQ),
    ("AUDIO_OUTPUT_FLAG_VOIP_RX", AudioInOutFlag.AUDIO_OUTPUT_FLAG_VOIP_RX),
    ("AUDIO_OUTPUT_FLAG_INCALL_MUSIC", AudioInOutFlag.AUDIO_OUTPUT_FLAG_INCALL_MUSIC),
    ("AUDIO_OUTPUT_FLAG_GAPLESS_OFFLOAD", AudioInOutFlag.AUDIO_OUTPUT_FLAG_GAPLESS_OFFLOAD),
    ("AUDIO_INPUT_FLAG_FAST", AudioInOutFlag.AUDIO_INPUT_FLAG_FAST),
    ("AUDIO_INPUT_FLAG_HW_HOTWORD", AudioInOutFlag.AUDIO_INPUT_FLAG_HW_HOTWORD),
    ("AUDIO_INPUT_FLAG_RAW", AudioInOutFlag.AUDIO_INPUT_FLAG_RAW),
    ("AUDIO_INPUT_FLAG_SYNC", AudioInOutFlag.AUDIO_INPUT_FLAG_SYNC),
    ("AUDIO_INPUT_FLAG_MMAP_NOIRQ", AudioInOutFlag.AUDIO_INPUT_FLAG_MMAP_NOIRQ),
    ("AUDIO_INPUT_FLAG_VOIP_TX", AudioInOutFlag.AUDIO_INPUT_FLAG_VOIP_TX),
    ("AUDIO_INPUT_FLAG_HW_AV_SYNC", AudioInOutFlag.AUDIO_INPUT_FLAG_HW_AV_SYNC),
    ("AUDIO_INPUT_FLAG_DIRECT", AudioInOutFlag.AUDIO_INPUT_FLAG_DIRECT) ]

/-- Source function stringToAudioInOutFlag: find the key in AudioInOutFlagString, else the sentinel. -/
def stringToAudioInOutFlag (value : String) : AudioInOutFlag :=
  match map_find AudioInOutFlagString value with
  | some second => second
  | none => .UNKNOWN

/-- Source function toString(AudioInOutFlag); the argument static_cast_int is the cast of the enum to its
underlying integer, fixed by the enum declaration. -/
def AudioInOutFlag.toString (static_cast_int : AudioInOutFlag → Int) (o : AudioInOutFlag) : String :=
  match o with
  | AudioInOutFlag.AUDIO_OUTPUT_FLAG_DIRECT => "AUDIO_OUTPUT_FLAG_DIRECT"
  | AudioInOutFlag.AUDIO_OUTPUT_FLAG_PRIMARY => "AUDIO_OUTPUT_FLAG_PRIMARY"
  | AudioInOutFlag.AUDIO_OUTPUT_FLAG_FAST => "AUDIO_OUTPUT_FLAG_FAST"
  | AudioInOutFlag.AUDIO_OUTPUT_FLAG_DEEP_BUFFER => "AUDIO_OUTPUT_FLAG_DEEP_BUFFER"
  | AudioInOutFlag.AUDIO_OUTPUT_FLAG_COMPRESS_OFFLOAD => "AUDIO_OUTPUT_FLAG_COMPRESS_OFFLOAD"
  | AudioInOutFlag.AUDIO_OUTPUT_FLAG_NON_BLOCKING => "AUDIO_OUTPUT_FLAG_NON_BLOCKING"
  | AudioInOutFlag.AUDIO_OUTPUT_FLAG_HW_AV_SYNC => "AUDIO_OUTPUT_FLAG_HW_AV_SYNC"
  | AudioInOutFlag.AUDIO_OUTPUT_FLAG_TTS => "AUDIO_OUTPUT_FLAG_TTS"
  | AudioInOutFlag.AUDIO_OUTPUT_FLAG_RAW => "AUDIO_OUTPUT_FLAG_RAW"
  | AudioInOutFlag.AUDIO_OUTPUT_FLAG_SYNC => "AUDIO_OUTPUT_FLAG_SYNC"
  | AudioInOutFlag.AUDIO_OUTPUT_FLAG_IEC958_NONAUDIO => "AUDIO_OUTPUT_FLAG_IEC958_NONAUDIO"
  | AudioInOutFlag.AUDIO_OUTPUT_FLAG_DIRECT_PCM => "AUDIO_OUTPUT_FLAG_DIRECT_PCM"
  | AudioInOutFlag.AUDIO_OUTPUT_FLAG_MMAP_NOIRQ => "AUDIO_OUTPUT_FLAG_MMAP_NOIRQ"
  | AudioInOutFlag.AUDIO_OUTPUT_FLAG_VOIP_RX => "AUDIO_OUTPUT_FLAG_VOIP_RX"
  | AudioInOutFlag.AUDIO_OUTPUT_FLAG_INCALL_MUSIC => "AUDIO_OUTPUT_FLAG_INCALL_MUSIC"
  | AudioInOutFlag.AUDIO_OUTPUT_FLAG_GAPLESS_OFFLOAD => "AUDIO_OUTPUT_FLAG_GAPLESS_OFFLOAD"
  | AudioInOutFlag.AUDIO_INPUT_FLAG_FAST => "AUDIO_INPUT_FLAG_FAST"
  | AudioInOutFlag.AUDIO_INPUT_FLAG_HW_HOTWORD => "AUDIO_INPUT_FLAG_HW_HOTWORD"
  | AudioInOutFlag.AUDIO_INPUT_FLAG_RAW => "AUDIO_INPUT_FLAG_RAW"
  | AudioInOutFlag.AUDIO_INPUT_FLAG_SYNC => "AUDIO_INPUT_FLAG_SYNC"
  | AudioInOutFlag.AUDIO_INPUT_FLAG_MMAP_NOIRQ => "AUDIO_INPUT_FLAG_MMAP_NOIRQ"
  | AudioInOutFlag.AUDIO_INPUT_FLAG_VOIP_TX => "AUDIO_INPUT_FLAG_VOIP_TX"
  | AudioInOutFlag.AUDIO_INPUT_FLAG_HW_AV_SYNC => "AUDIO_INPUT_FLAG_HW_AV_SYNC"
  | AudioInOutFlag.AUDIO_INPUT_FLAG_DIRECT => "AUDIO_INPUT_FLAG_DIRECT"
  | _ => to_string (static_cast_int o)

/-- Modelled from the spec: the enum class Role, whose declaration sits in the enums header that is
not part of the sources; a closed tag set made of the tags that RoleString and the switch of
toString name, plus the UNKNOWN sentinel. -/
inductive Role where
  | UNKNOWN
  | sink
  | source
deriving DecidableEq

/-- The lookup table RoleString, in the order of its initialiser list. -/
def RoleString : List (String × Role) :=
  [
    ("sink", Role.sink),
    ("source", Role.source) ]

/-- Source function stringToRole: find the key in RoleString, else the sentinel. -/
def stringToRole (value : String) : Role :=
  match map_find RoleString value with
  | some second => second
  | none => .UNKNOWN

/-- Source function toString(Role); the argument static_cast_int is the cast of the enum to its
underlying integer, fixed by the enum declaration. -/
def Role.toString (static_cast_int : Role → Int) (o : Role) : String :=
  match o with
  | Role.sink => "sink"
  | Role.source => "source"
  | _ => to_string (static_cast_int o)

/-- Modelled from the spec: the enum class AudioDevice, whose declaration sits in the enums header that is
not part of the sources; a closed tag set made of the tags that AudioDeviceString and the switch of
toString name, plus the UNKNOWN sentinel. -/
inductive AudioDevice where
  | UNKNOWN
  | AUDIO_DEVICE_NONE
  | AUDIO_DEVICE_OUT_EARPIECE
  | AUDIO_DEVICE_OUT_SPEAKER
  | AUDIO_DEVICE_OUT_WIRED_HEADSET
  | AUDIO_DEVICE_OUT_WIRED_HEADPHONE
  | AUDIO_DEVICE_OUT_BLUETOOTH_SCO
  | AUDIO_DEVICE_OUT_BLUETOOTH_SCO_HEADSET
  | AUDIO_DEVICE_OUT_BLUETOOTH_SCO_CARKIT
  | AUDIO_DEVICE_OUT_BLUETOOTH_A2DP
  | AUDIO_DEVICE_OUT_BLUETOOTH_A2DP_HEADPHONES
  | AUDIO_DEVICE_OUT_BLUETOOTH_A2DP_SPEAKER
  | AUDIO_DEVICE_OUT_HDMI
  | AUDIO_DEVICE_OUT_HDMI_EARC
  | AUDIO_DEVICE_OUT_AUX_DIGITAL
  | AUDIO_DEVICE_OUT_ANLG_DOCK_HEADSET
  | AUDIO_DEVICE_OUT_DGTL_DOCK_HEADSET
  | AUDIO_DEVICE_OUT_USB_ACCESSORY
  | AUDIO_DEVICE_OUT_USB_DEVICE
  | AUDIO_DEVICE_OUT_REMOTE_SUBMIX
  | AUDIO_DEVICE_OUT_TELEPHONY_TX
  | AUDIO_DEVICE_OUT_LINE
  | AUDIO_DEVICE_OUT_HDMI_ARC
  | AUDIO_DEVICE_OUT_SPDIF
  | AUDIO_DEVICE_OUT_FM
  | AUDIO_DEVICE_OUT_AUX_LINE
  | AUDIO_DEVICE_OUT_SPEAKER_SAFE
  | AUDIO_DEVICE_OUT_IP
  | AUDIO_DEVICE_OUT_BUS
  | AUDIO_DEVICE_OUT_PROXY
  | AUDIO_DEVICE_OUT_USB_HEADSET
  | AUDIO_DEVICE_OUT_HEARING_AID
  | AUDIO_DEVICE_OUT_ECHO_CANCELLER
  | AUDIO_DEVICE_OUT_BLE_HEADSET
  | AUDIO_DEVICE_OUT_BLE_SPEAKER
  | AUDIO_DEVICE_OUT_DEFAULT
  | AUDIO_DEVICE_OUT_STUB
  | AUDIO_DEVICE_IN_COMMUNICATION
  | AUDIO_DEVICE_IN_AMBIENT
  | AUDIO_DEVICE_IN_BUILTIN_MIC
  | AUDIO_DEVICE_IN_BLUETOOTH_SCO_HEADSET
  | AUDIO_DEVICE_IN_WIRED_HEADSET
  | AUDIO_DEVICE_IN_HDMI
  | AUDIO_DEVICE_IN_AUX_DIGITAL
  | AUDIO_DEVICE_IN_VOICE_CALL
  | AUDIO_DEVICE_IN_TELEPHONY_RX
  | AUDIO_DEVICE_IN_BACK_MIC
  | AUDIO_DEVICE_IN_REMOTE_SUBMIX
  | AUDIO_DEVICE_IN_ANLG_DOCK_HEADSET
  | AUDIO_DEVICE_IN_DGTL_DOCK_HEADSET
  | AUDIO_DEVICE_IN_USB_ACCESSORY
  | AUDIO_DEVICE_IN_USB_DEVICE
  | AUDIO_DEVICE_IN_FM_TUNER
  | AUDIO_DEVICE_IN_TV_TUNER
  | AUDIO_DEVICE_IN_LINE
  | AUDIO_DEVICE_IN_SPDIF
  | AUDIO_DEVICE_IN_BLUETOOTH_A2DP
  | AUDIO_DEVICE_IN_LOOPBACK
  | AUDIO_DEVICE_IN_IP
  | AUDIO_DEVICE_IN_BUS
  | AUDIO_DEVICE_IN_PROXY
  | AUDIO_DEVICE_IN_USB_HEADSET
  | AUDIO_DEVICE_IN_BLUETOOTH_BLE
  | AUDIO_DEVICE_IN_HDMI_ARC
  | AUDIO_DEVICE_IN_HDMI_EARC
  | AUDIO_DEVICE_IN_ECHO_REFERENCE
  | AUDIO_DEVICE_IN_BLE_HEADSET
  | AUDIO_DEVICE_IN_DEFAULT
  | AUDIO_DEVICE_IN_STUB
deriving DecidableEq

/-- The lookup table AudioDeviceString, in the order of its initialiser list. -/
def AudioDeviceString : List (String × AudioDevice) :=
  [
    ("AUDIO_DEVICE_NONE", AudioDevice.AUDIO_DEVICE_NONE),
    ("AUDIO_DEVICE_OUT_EARPIECE", AudioDevice.AUDIO_DEVICE_OUT_EARPIECE),
    ("AUDIO_DEVICE_OUT_SPEAKER", AudioDevice.AUDIO_DEVICE_OUT_SPEAKER),
    ("AUDIO_DEVICE_OUT_WIRED_HEADSET", AudioDevice.AUDIO_DEVICE_OUT_WIRED_HEADSET),
    ("AUDIO_DEVICE_OUT_WIRED_HEADPHONE", AudioDevice.AUDIO_DEVICE_OUT_WIRED_HEADPHONE),
    ("AUDIO_DEVICE_OUT_BLUETOOTH_SCO", AudioDevice.AUDIO_DEVICE_OUT_BLUETOOTH_SCO),
    ("AUDIO_DEVICE_OUT_BLUETOOTH_SCO_HEADSET", AudioDevice.AUDIO_DEVICE_OUT_BLUETOOTH_SCO_HEADSET),
    ("AUDIO_DEVICE_OUT_BLUETOOTH_SCO_CARKIT", AudioDevice.AUDIO_DEVICE_OUT_BLUETOOTH_SCO_CARKIT),
    ("AUDIO_DEVICE_OUT_BLUETOOTH_A2DP", AudioDevice.AUDIO_DEVICE_OUT_BLUETOOTH_A2DP),
    ("AUDIO_DEVICE_OUT_BLUETOOTH_A2DP_HEADPHONES", AudioDevice.AUDIO_DEVICE_OUT_BLUETOOTH_A2DP_HEADPHONES),
    ("AUDIO_DEVICE_OUT_BLUETOOTH_A2DP_SPEAKER", AudioDevice.AUDIO_DEVICE_OUT_BLUETOOTH_A2DP_SPEAKER),
    ("AUDIO_DEVICE_OUT_HDMI", AudioDevice.AUDIO_DEVICE_OUT_HDMI),
    ("AUDIO_DEVICE_OUT_HDMI_EARC", AudioDevice.AUDIO_DEVICE_OUT_HDMI_EARC),
    ("AUDIO_DEVICE_OUT_AUX_DIGITAL", AudioDevice.AUDIO_DEVICE_OUT_AUX_DIGITAL),
    ("AUDIO_DEVICE_OUT_ANLG_DOCK_HEADSET", AudioDevice.AUDIO_DEVICE_OUT_ANLG_DOCK_HEADSET),
    ("AUDIO_DEVICE_OUT_DGTL_DOCK_HEADSET", AudioDevice.AUDIO_DEVICE_OUT_DGTL_DOCK_HEADSET),
    ("AUDIO_DEVICE_OUT_USB_ACCESSORY", AudioDevice.AUDIO_DEVICE_OUT_USB_ACCESSORY),
    ("AUDIO_DEVICE_OUT_USB_DEVICE", AudioDevice.AUDIO_DEVICE_OUT_USB_DEVICE),
    ("AUDIO_DEVICE_OUT_REMOTE_SUBMIX", AudioDevice.AUDIO_DEVICE_OUT_REMOTE_SUBMIX),
    ("AUDIO_DEVICE_OUT_TELEPHONY_TX", AudioDevice.AUDIO_DEVICE_OUT_TELEPHONY_TX),
    ("AUDIO_DEVICE_OUT_LINE", AudioDevice.AUDIO_DEVICE_OUT_LINE),
    ("AUDIO_DEVICE_OUT_HDMI_ARC", AudioDevice.AUDIO_DEVICE_OUT_HDMI_ARC),
    ("AUDIO_DEVICE_OUT_SPDIF", AudioDevice.AUDIO_DEVICE_OUT_SPDIF),
    ("AUDIO_DEVICE_OUT_FM", AudioDevice.AUDIO_DEVICE_OUT_FM),
    ("AUDIO_DEVICE_OUT_AUX_LINE", AudioDevice.AUDIO_DEVICE_OUT_AUX_LINE),
    ("AUDIO_DEVICE_OUT_SPEAKER_SAFE", AudioDevice.AUDIO_DEVICE_OUT_SPEAKER_SAFE),
    ("AUDIO_DEVICE_OUT_IP", AudioDevice.AUDIO_DEVICE_OUT_IP),
    ("AUDIO_DEVICE_OUT_BUS", AudioDevice.AUDIO_DEVICE_OUT_BUS),
    ("AUDIO_DEVICE_OUT_PROXY", AudioDevice.AUDIO_DEVICE_OUT_PROXY),
    ("AUDIO_DEVICE_OUT_USB_HEADSET", AudioDevice.AUDIO_DEVICE_OUT_USB_HEADSET),
    ("AUDIO_DEVICE_OUT_HEARING_AID", AudioDevice.AUDIO_DEVICE_OUT_HEARING_AID),
    ("AUDIO_DEVICE_OUT_ECHO_CANCELLER", AudioDevice.AUDIO_DEVICE_OUT_ECHO_CANCELLER),
    ("AUDIO_DEVICE_OUT_BLE_HEADSET", AudioDevice.AUDIO_DEVICE_OUT_BLE_HEADSET),
    ("AUDIO_DEVICE_OUT_BLE_SPEAKER", AudioDevice.AUDIO_DEVICE_OUT_BLE_SPEAKER),
    ("AUDIO_DEVICE_OUT_DEFAULT", AudioDevice.AUDIO_DEVICE_OUT_DEFAULT),
    ("AUDIO_DEVICE_OUT_STUB", AudioDevice.AUDIO_DEVICE_OUT_STUB),
    ("AUDIO_DEVICE_IN_COMMUNICATION", AudioDevice.AUDIO_DEVICE_IN_COMMUNICATION),
    ("AUDIO_DEVICE_IN_AMBIENT", AudioDevice.AUDIO_DEVICE_IN_AMBIENT),
    ("AUDIO_DEVICE_IN_BUILTIN_MIC", AudioDevice.AUDIO_DEVICE_IN_BUILTIN_MIC),
    ("AUDIO_DEVICE_IN_BLUETOOTH_SCO_HEADSET", AudioDevice.AUDIO_DEVICE_IN_BLUETOOTH_SCO_HEADSET),
    ("AUDIO_DEVICE_IN_WIRED_HEADSET", AudioDevice.AUDIO_DEVICE_IN_WIRED_HEADSET),
    ("AUDIO_DEVICE_IN_HDMI", AudioDevice.AUDIO_DEVICE_IN_HDMI),
    ("AUDIO_DEVICE_IN_AUX_DIGITAL", AudioDevice.AUDIO_DEVICE_IN_AUX_DIGITAL),
    ("AUDIO_DEVICE_IN_VOICE_CALL", AudioDevice.AUDIO_DEVICE_IN_VOICE_CALL),
    ("AUDIO_DEVICE_IN_TELEPHONY_RX", AudioDevice.AUDIO_DEVICE_IN_TELEPHONY_RX),
    ("AUDIO_DEVICE_IN_BACK_MIC", AudioDevice.AUDIO_DEVICE_IN_BACK_MIC),
    ("AUDIO_DEVICE_IN_REMOTE_SUBMIX", AudioDevice.AUDIO_DEVICE_IN_REMOTE_SUBMIX),
    ("AUDIO_DEVICE_IN_ANLG_DOCK_HEADSET", AudioDevice.AUDIO_DEVICE_IN_ANLG_DOCK_HEADSET),
    ("AUDIO_DEVICE_IN_DGTL_DOCK_HEADSET", AudioDevice.AUDIO_DEVICE_IN_DGTL_DOCK_HEADSET),
    ("AUDIO_DEVICE_IN_USB_ACCESSORY", AudioDevice.AUDIO_DEVICE_IN_USB_ACCESSORY),
    ("AUDIO_DEVICE_IN_USB_DEVICE", AudioDevice.AUDIO_DEVICE_IN_USB_DEVICE),
    ("AUDIO_DEVICE_IN_FM_TUNER", AudioDevice.AUDIO_DEVICE_IN_FM_TUNER),
    ("AUDIO_DEVICE_IN_TV_TUNER", AudioDevice.AUDIO_DEVICE_IN_TV_TUNER),
    ("AUDIO_DEVICE_IN_LINE", AudioDevice.AUDIO_DEVICE_IN_LINE),
    ("AUDIO_DEVICE_IN_SPDIF", AudioDevice.AUDIO_DEVICE_IN_SPDIF),
    ("AUDIO_DEVICE_IN_BLUETOOTH_A2DP", AudioDevice.AUDIO_DEVICE_IN_BLUETOOTH_A2DP),
    ("AUDIO_DEVICE_IN_LOOPBACK", AudioDevice.AUDIO_DEVICE_IN_LOOPBACK),
    ("AUDIO_DEVICE_IN_IP", AudioDevice.AUDIO_DEVICE_IN_IP),
    ("AUDIO_DEVICE_IN_BUS", AudioDevice.AUDIO_DEVICE_IN_BUS),
    ("AUDIO_DEVICE_IN_PROXY", AudioDevice.AUDIO_DEVICE_IN_PROXY),
    ("AUDIO_DEVICE_IN_USB_HEADSET", AudioDevice.AUDIO_DEVICE_IN_USB_HEADSET),
    ("AUDIO_DEVICE_IN_BLUETOOTH_BLE", AudioDevice.AUDIO_DEVICE_IN_BLUETOOTH_BLE),
    ("AUDIO_DEVICE_IN_HDMI_ARC", AudioDevice.AUDIO_DEVICE_IN_HDMI_ARC),
    ("AUDIO_DEVICE_IN_HDMI_EARC", AudioDevice.AUDIO_DEVICE_IN_HDMI_EARC),
    ("AUDIO_DEVICE_IN_ECHO_REFERENCE", AudioDevice.AUDIO_DEVICE_IN_ECHO_REFERENCE),
    ("AUDIO_DEVICE_IN_BLE_HEADSET", AudioDevice.AUDIO_DEVICE_IN_BLE_HEADSET),
    ("AUDIO_DEVICE_IN_DEFAULT", AudioDevice.AUDIO_DEVICE_IN_DEFAULT),
    ("AUDIO_DEVICE_IN_STUB", AudioDevice.AUDIO_DEVICE_IN_STUB) ]

/-- Source function stringToAudioDevice: find the key in AudioDeviceString, else the sentinel. -/
def stringToAudioDevice (value : String) : AudioDevice :=
  match map_find AudioDeviceString value with
  | some second => second
  | none => .UNKNOWN

/-- Source function toString(AudioDevice); the argument static_cast_int is the cast of the enum to its
underlying integer, fixed by the enum declaration. -/
def AudioDevice.toString (static_cast_int : AudioDevice → Int) (o : AudioDevice) : String :=
  match o with
  | AudioDevice.AUDIO_DEVICE_NONE => "AUDIO_DEVICE_NONE"
  | AudioDevice.AUDIO_DEVICE_OUT_EARPIECE => "AUDIO_DEVICE_OUT_EARPIECE"
  | AudioDevice.AUDIO_DEVICE_OUT_SPEAKER => "AUDIO_DEVICE_OUT_SPEAKER"
  | AudioDevice.AUDIO_DEVICE_OUT_WIRED_HEADSET => "AUDIO_DEVICE_OUT_WIRED_HEADSET"
  | AudioDevice.AUDIO_DEVICE_OUT_WIRED_HEADPHONE => "AUDIO_DEVICE_OUT_WIRED_HEADPHONE"
  | AudioDevice.AUDIO_DEVICE_OUT_BLUETOOTH_SCO => "AUDIO_DEVICE_OUT_BLUETOOTH_SCO"
  | AudioDevice.AUDIO_DEVICE_OUT_BLUETOOTH_SCO_HEADSET => "AUDIO_DEVICE_OUT_BLUETOOTH_SCO_HEADSET"
  | AudioDevice.AUDIO_DEVICE_OUT_BLUETOOTH_SCO_CARKIT => "AUDIO_DEVICE_OUT_BLUETOOTH_SCO_CARKIT"
  | AudioDevice.AUDIO_DEVICE_OUT_BLUETOOTH_A2DP => "AUDIO_DEVICE_OUT_BLUETOOTH_A2DP"
  | AudioDevice.AUDIO_DEVICE_OUT_BLUETOOTH_A2DP_HEADPHONES => "AUDIO_DEVICE_OUT_BLUETOOTH_A2DP_HEADPHONES"
  | AudioDevice.AUDIO_DEVICE_OUT_BLUETOOTH_A2DP_SPEAKER => "AUDIO_DEVICE_OUT_BLUETOOTH_A2DP_SPEAKER"
  | AudioDevice.AUDIO_DEVICE_OUT_HDMI => "AUDIO_DEVICE_OUT_HDMI"
  | AudioDevice.AUDIO_DEVICE_OUT_HDMI_EARC => "AUDIO_DEVICE_OUT_HDMI_EARC"
  | AudioDevice.AUDIO_DEVICE_OUT_AUX_DIGITAL => "AUDIO_DEVICE_OUT_AUX_DIGITAL"
  | AudioDevice.AUDIO_DEVICE_OUT_ANLG_DOCK_HEADSET => "AUDIO_DEVICE_OUT_ANLG_DOCK_HEADSET"
  | AudioDevice.AUDIO_DEVICE_OUT_DGTL_DOCK_HEADSET => "AUDIO_DEVICE_OUT_DGTL_DOCK_HEADSET"
  | AudioDevice.AUDIO_DEVICE_OUT_USB_ACCESSORY => "AUDIO_DEVICE_OUT_USB_ACCESSORY"
  | AudioDevice.AUDIO_DEVICE_OUT_USB_DEVICE => "AUDIO_DEVICE_OUT_USB_DEVICE"
  | AudioDevice.AUDIO_DEVICE_OUT_REMOTE_SUBMIX => "AUDIO_DEVICE_OUT_REMOTE_SUBMIX"
  | AudioDevice.AUDIO_DEVICE_OUT_TELEPHONY_TX => "AUDIO_DEVICE_OUT_TELEPHONY_TX"
  | AudioDevice.AUDIO_DEVICE_OUT_LINE => "AUDIO_DEVICE_OUT_LINE"
  | AudioDevice.AUDIO_DEVICE_OUT_HDMI_ARC => "AUDIO_DEVICE_OUT_HDMI_ARC"
  | AudioDevice.AUDIO_DEVICE_OUT_SPDIF => "AUDIO_DEVICE_OUT_SPDIF"
  | AudioDevice.AUDIO_DEVICE_OUT_FM => "AUDIO_DEVICE_OUT_FM"
  | AudioDevice.AUDIO_DEVICE_OUT_AUX_LINE => "AUDIO_DEVICE_OUT_AUX_LINE"
  | AudioDevice.AUDIO_DEVICE_OUT_SPEAKER_SAFE => "AUDIO_DEVICE_OUT_SPEAKER_SAFE"
  | AudioDevice.AUDIO_DEVICE_OUT_IP => "AUDIO_DEVICE_OUT_IP"
  | AudioDevice.AUDIO_DEVICE_OUT_BUS => "AUDIO_DEVICE_OUT_BUS"
  | AudioDevice.AUDIO_DEVICE_OUT_PROXY => "AUDIO_DEVICE_OUT_PROXY"
  | AudioDevice.AUDIO_DEVICE_OUT_USB_HEADSET => "AUDIO_DEVICE_OUT_USB_HEADSET"
  | AudioDevice.AUDIO_DEVICE_OUT_HEARING_AID => "AUDIO_DEVICE_OUT_HEARING_AID"
  | AudioDevice.AUDIO_DEVICE_OUT_ECHO_CANCELLER => "AUDIO_DEVICE_OUT_ECHO_CANCELLER"
  | AudioDevice.AUDIO_DEVICE_OUT_BLE_HEADSET => "AUDIO_DEVICE_OUT_BLE_HEADSET"
  | AudioDevice.AUDIO_DEVICE_OUT_BLE_SPEAKER => "AUDIO_DEVICE_OUT_BLE_SPEAKER"
  | AudioDevice.AUDIO_DEVICE_OUT_DEFAULT => "AUDIO_DEVICE_OUT_DEFAULT"
  | AudioDevice.AUDIO_DEVICE_OUT_STUB => "AUDIO_DEVICE_OUT_STUB"
  | AudioDevice.AUDIO_DEVICE_IN_COMMUNICATION => "AUDIO_DEVICE_IN_COMMUNICATION"
  | AudioDevice.AUDIO_DEVICE_IN_AMBIENT => "AUDIO_DEVICE_IN_AMBIENT"
  | AudioDevice.AUDIO_DEVICE_IN_BUILTIN_MIC => "AUDIO_DEVICE_IN_BUILTIN_MIC"
  | AudioDevice.AUDIO_DEVICE_IN_BLUETOOTH_SCO_HEADSET => "AUDIO_DEVICE_IN_BLUETOOTH_SCO_HEADSET"
  | AudioDevice.AUDIO_DEVICE_IN_WIRED_HEADSET => "AUDIO_DEVICE_IN_WIRED_HEADSET"
  | AudioDevice.AUDIO_DEVICE_IN_HDMI => "AUDIO_DEVICE_IN_HDMI"
  | AudioDevice.AUDIO_DEVICE_IN_AUX_DIGITAL => "AUDIO_DEVICE_IN_AUX_DIGITAL"
  | AudioDevice.AUDIO_DEVICE_IN_VOICE_CALL => "AUDIO_DEVICE_IN_VOICE_CALL"
  | AudioDevice.AUDIO_DEVICE_IN_TELEPHONY_RX => "AUDIO_DEVICE_IN_TELEPHONY_RX"
  | AudioDevice.AUDIO_DEVICE_IN_BACK_MIC => "AUDIO_DEVICE_IN_BACK_MIC"
  | AudioDevice.AUDIO_DEVICE_IN_REMOTE_SUBMIX => "AUDIO_DEVICE_IN_REMOTE_SUBMIX"
  | AudioDevice.AUDIO_DEVICE_IN_ANLG_DOCK_HEADSET => "AUDIO_DEVICE_IN_ANLG_DOCK_HEADSET"
  | AudioDevice.AUDIO_DEVICE_IN_DGTL_DOCK_HEADSET => "AUDIO_DEVICE_IN_DGTL_DOCK_HEADSET"
  | AudioDevice.AUDIO_DEVICE_IN_USB_ACCESSORY => "AUDIO_DEVICE_IN_USB_ACCESSORY"
  | AudioDevice.AUDIO_DEVICE_IN_USB_DEVICE => "AUDIO_DEVICE_IN_USB_DEVICE"
  | AudioDevice.AUDIO_DEVICE_IN_FM_TUNER => "AUDIO_DEVICE_IN_FM_TUNER"
  | AudioDevice.AUDIO_DEVICE_IN_TV_TUNER => "AUDIO_DEVICE_IN_TV_TUNER"
  | AudioDevice.AUDIO_DEVICE_IN_LINE => "AUDIO_DEVICE_IN_LINE"
  | AudioDevice.AUDIO_DEVICE_IN_SPDIF => "AUDIO_DEVICE_IN_SPDIF"
  | AudioDevice.AUDIO_DEVICE_IN_BLUETOOTH_A2DP => "AUDIO_DEVICE_IN_BLUETOOTH_A2DP"
  | AudioDevice.AUDIO_DEVICE_IN_LOOPBACK => "AUDIO_DEVICE_IN_LOOPBACK"
  | AudioDevice.AUDIO_DEVICE_IN_IP => "AUDIO_DEVICE_IN_IP"
  | AudioDevice.AUDIO_DEVICE_IN_BUS => "AUDIO_DEVICE_IN_BUS"
  | AudioDevice.AUDIO_DEVICE_IN_PROXY => "AUDIO_DEVICE_IN_PROXY"
  | AudioDevice.AUDIO_DEVICE_IN_USB_HEADSET => "AUDIO_DEVICE_IN_USB_HEADSET"
  | AudioDevice.AUDIO_DEVICE_IN_BLUETOOTH_BLE => "AUDIO_DEVICE_IN_BLUETOOTH_BLE"
  | AudioDevice.AUDIO_DEVICE_IN_HDMI_ARC => "AUDIO_DEVICE_IN_HDMI_ARC"
  | AudioDevice.AUDIO_DEVICE_IN_HDMI_EARC => "AUDIO_DEVICE_IN_HDMI_EARC"
  | AudioDevice.AUDIO_DEVICE_IN_ECHO_REFERENCE => "AUDIO_DEVICE_IN_ECHO_REFERENCE"
  | AudioDevice.AUDIO_DEVICE_IN_BLE_HEADSET => "AUDIO_DEVICE_IN_BLE_HEADSET"
  | AudioDevice.AUDIO_DEVICE_IN_DEFAULT => "AUDIO_DEVICE_IN_DEFAULT"
  | AudioDevice.AUDIO_DEVICE_IN_STUB => "AUDIO_DEVICE_IN_STUB"
  | _ => to_string (static_cast_int o)

/-- Modelled from the spec: the enum class AudioFormat, whose declaration sits in the enums header that is
not part of the sources; a closed tag set made of the tags that AudioFormatString and the switch of
toString name, plus the UNKNOWN sentinel. -/
inductive AudioFormat where
  | UNKNOWN
  | AUDIO_FORMAT_DEFAULT
  | AUDIO_FORMAT_PCM_16_BIT
  | AUDIO_FORMAT_PCM_8_BIT
  | AUDIO_FORMAT_PCM_32_BIT
  | AUDIO_FORMAT_PCM_8_24_BIT
  | AUDIO_FORMAT_PCM_FLOAT
  | AUDIO_FORMAT_PCM_24_BIT_PACKED
  | AUDIO_FORMAT_MP3
  | AUDIO_FORMAT_AMR_NB
  | AUDIO_FORMAT_AMR_WB
  | AUDIO_FORMAT_AAC
  | AUDIO_FORMAT_AAC_MAIN
  | AUDIO_FORMAT_AAC_LC
  | AUDIO_FORMAT_AAC_SSR
  | AUDIO_FORMAT_AAC_LTP
  | AUDIO_FORMAT_AAC_HE_V1
  | AUDIO_FORMAT_AAC_SCALABLE
  | AUDIO_FORMAT_AAC_ERLC
  | AUDIO_FORMAT_AAC_LD
  | AUDIO_FORMAT_AAC_HE_V2
  | AUDIO_FORMAT_AAC_ELD
  | AUDIO_FORMAT_AAC_XHE
  | AUDIO_FORMAT_HE_AAC_V1
  | AUDIO_FORMAT_HE_AAC_V2
  | AUDIO_FORMAT_VORBIS
  | AUDIO_FORMAT_OPUS
  | AUDIO_FORMAT_AC3
  | AUDIO_FORMAT_E_AC3
  | AUDIO_FORMAT_E_AC3_JOC
  | AUDIO_FORMAT_DTS
  | AUDIO_FORMAT_DTS_HD
  | AUDIO_FORMAT_IEC61937
  | AUDIO_FORMAT_DOLBY_TRUEHD
  | AUDIO_FORMAT_EVRC
  | AUDIO_FORMAT_EVRCB
  | AUDIO_FORMAT_EVRCWB
  | AUDIO_FORMAT_EVRCNW
  | AUDIO_FORMAT_AAC_ADIF
  | AUDIO_FORMAT_WMA
  | AUDIO_FORMAT_WMA_PRO
  | AUDIO_FORMAT_AMR_WB_PLUS
  | AUDIO_FORMAT_MP2
  | AUDIO_FORMAT_QCELP
  | AUDIO_FORMAT_DSD
  | AUDIO_FORMAT_FLAC
  | AUDIO_FORMAT_ALAC
  | AUDIO_FORMAT_APE
  | AUDIO_FORMAT_AAC_ADTS
  | AUDIO_FORMAT_AAC_ADTS_MAIN
  | AUDIO_FORMAT_AAC_ADTS_LC
  | AUDIO_FORMAT_AAC_ADTS_SSR
  | AUDIO_FORMAT_AAC_ADTS_LTP
  | AUDIO_FORMAT_AAC_ADTS_HE_V1
  | AUDIO_FORMAT_AAC_ADTS_SCALABLE
  | AUDIO_FORMAT_AAC_ADTS_ERLC
  | AUDIO_FORMAT_AAC_ADTS_LD
  | AUDIO_FORMAT_AAC_ADTS_HE_V2
  | AUDIO_FORMAT_AAC_ADTS_ELD
  | AUDIO_FORMAT_AAC_ADTS_XHE
  | AUDIO_FORMAT_SBC
  | AUDIO_FORMAT_APTX
  | AUDIO_FORMAT_APTX_HD
  | AUDIO_FORMAT_AC4
  | AUDIO_FORMAT_LDAC
  | AUDIO_FORMAT_MAT
  | AUDIO_FORMAT_MAT_1_0
  | AUDIO_FORMAT_MAT_2_0
  | AUDIO_FORMAT_MAT_2_1
  | AUDIO_FORMAT_AAC_LATM
  | AUDIO_FORMAT_AAC_LATM_LC
  | AUDIO_FORMAT_AAC_LATM_HE_V1
  | AUDIO_FORMAT_AAC_LATM_HE_V2
  | AUDIO_FORMAT_CELT
  | AUDIO_FORMAT_APTX_ADAPTIVE
  | AUDIO_FORMAT_LHDC
  | AUDIO_FORMAT_LHDC_LL
  | AUDIO_FORMAT_APTX_TWSP
  | AUDIO_FORMAT_LC3
  | AUDIO_FORMAT_MPEGH_BL_L3
  | AUDIO_FORMAT_MPEGH_BL_L4
  | AUDIO_FORMAT_MPEGH_LC_L3
  | AUDIO_FORMAT_MPEGH_LC_L4
  | AUDIO_FORMAT_IEC60958
  | AUDIO_FORMAT_DTS_UHD
  | AUDIO_FORMAT_DRA
deriving DecidableEq

/-- The lookup table AudioFormatString, in the order of its initialiser list. -/
def AudioFormatString : List (String × AudioFormat) :=
  [
    ("AUDIO_FORMAT_DEFAULT", AudioFormat.AUDIO_FORMAT_DEFAULT),
    ("AUDIO_FORMAT_PCM_16_BIT", AudioFormat.AUDIO_FORMAT_PCM_16_BIT),
    ("AUDIO_FORMAT_PCM_8_BIT", AudioFormat.AUDIO_FORMAT_PCM_8_BIT),
    ("AUDIO_FORMAT_PCM_32_BIT", AudioFormat.AUDIO_FORMAT_PCM_32_BIT),
    ("AUDIO_FORMAT_PCM_8_24_BIT", AudioFormat.AUDIO_FORMAT_PCM_8_24_BIT),
    ("AUDIO_FORMAT_PCM_FLOAT", AudioFormat.AUDIO_FORMAT_PCM_FLOAT),
    ("AUDIO_FORMAT_PCM_24_BIT_PACKED", AudioFormat.AUDIO_FORMAT_PCM_24_BIT_PACKED),
    ("AUDIO_FORMAT_MP3", AudioFormat.AUDIO_FORMAT_MP3),
    ("AUDIO_FORMAT_AMR_NB", AudioFormat.AUDIO_FORMAT_AMR_NB),
    ("AUDIO_FORMAT_AMR_WB", AudioFormat.AUDIO_FORMAT_AMR_WB),
    ("AUDIO_FORMAT_AAC", AudioFormat.AUDIO_FORMAT_AAC),
    ("AUDIO_FORMAT_AAC_MAIN", AudioFormat.AUDIO_FORMAT_AAC_MAIN),
    ("AUDIO_FORMAT_AAC_LC", AudioFormat.AUDIO_FORMAT_AAC_LC),
    ("AUDIO_FORMAT_AAC_SSR", AudioFormat.AUDIO_FORMAT_AAC_SSR),
    ("AUDIO_FORMAT_AAC_LTP", AudioFormat.AUDIO_FORMAT_AAC_LTP),
    ("AUDIO_FORMAT_AAC_HE_V1", AudioFormat.AUDIO_FORMAT_AAC_HE_V1),
    ("AUDIO_FORMAT_AAC_SCALABLE", AudioFormat.AUDIO_FORMAT_AAC_SCALABLE),
    ("AUDIO_FORMAT_AAC_ERLC", AudioFormat.AUDIO_FORMAT_AAC_ERLC),
    ("AUDIO_FORMAT_AAC_LD", AudioFormat.AUDIO_FORMAT_AAC_LD),
    ("AUDIO_FORMAT_AAC_HE_V2", AudioFormat.AUDIO_FORMAT_AAC_HE_V2),
    ("AUDIO_FORMAT_AAC_ELD", AudioFormat.AUDIO_FORMAT_AAC_ELD),
    ("AUDIO_FORMAT_AAC_XHE", AudioFormat.AUDIO_FORMAT_AAC_XHE),
    ("AUDIO_FORMAT_HE_AAC_V1", AudioFormat.AUDIO_FORMAT_HE_AAC_V1),
    ("AUDIO_FORMAT_HE_AAC_V2", AudioFormat.AUDIO_FORMAT_HE_AAC_V2),
    ("AUDIO_FORMAT_VORBIS", AudioFormat.AUDIO_FORMAT_VORBIS),
    ("AUDIO_FORMAT_OPUS", AudioFormat.AUDIO_FORMAT_OPUS),
    ("AUDIO_FORMAT_AC3", AudioFormat.AUDIO_FORMAT_AC3),
    ("AUDIO_FORMAT_E_AC3", AudioFormat.AUDIO_FORMAT_E_AC3),
    ("AUDIO_FORMAT_E_AC3_JOC", AudioFormat.AUDIO_FORMAT_E_AC3_JOC),
    ("AUDIO_FORMAT_DTS", AudioFormat.AUDIO_FORMAT_DTS),
    ("AUDIO_FORMAT_DTS_HD", AudioFormat.AUDIO_FORMAT_DTS_HD),
    ("AUDIO_FORMAT_IEC61937", AudioFormat.AUDIO_FORMAT_IEC61937),
    ("AUDIO_FORMAT_DOLBY_TRUEHD", AudioFormat.AUDIO_FORMAT_DOLBY_TRUEHD),
    ("AUDIO_FORMAT_EVRC", AudioFormat.AUDIO_FORMAT_EVRC),
    ("AUDIO_FORMAT_EVRCB", AudioFormat.AUDIO_FORMAT_EVRCB),
    ("AUDIO_FORMAT_EVRCWB", AudioFormat.AUDIO_FORMAT_EVRCWB),
    ("AUDIO_FORMAT_EVRCNW", AudioFormat.AUDIO_FORMAT_EVRCNW),
    ("AUDIO_FORMAT_AAC_ADIF", AudioFormat.AUDIO_FORMAT_AAC_ADIF),
    ("AUDIO_FORMAT_WMA", AudioFormat.AUDIO_FORMAT_WMA),
    ("AUDIO_FORMAT_WMA_PRO", AudioFormat.AUDIO_FORMAT_WMA_PRO),
    ("AUDIO_FORMAT_AMR_WB_PLUS", AudioFormat.AUDIO_FORMAT_AMR_WB_PLUS),
    ("AUDIO_FORMAT_MP2", AudioFormat.AUDIO_FORMAT_MP2),
    ("AUDIO_FORMAT_QCELP", AudioFormat.AUDIO_FORMAT_QCELP),
    ("AUDIO_FORMAT_DSD", AudioFormat.AUDIO_FORMAT_DSD),
    ("AUDIO_FORMAT_FLAC", AudioFormat.AUDIO_FORMAT_FLAC),
    ("AUDIO_FORMAT_ALAC", AudioFormat.AUDIO_FORMAT_ALAC),
    ("AUDIO_FORMAT_APE", AudioFormat.AUDIO_FORMAT_APE),
    ("AUDIO_FORMAT_AAC_ADTS", AudioFormat.AUDIO_FORMAT_AAC_ADTS),
    ("AUDIO_FORMAT_AAC_ADTS_MAIN", AudioFormat.AUDIO_FORMAT_AAC_ADTS_MAIN),
    ("AUDIO_FORMAT_AAC_ADTS_LC", AudioFormat.AUDIO_FORMAT_AAC_ADTS_LC),
    ("AUDIO_FORMAT_AAC_ADTS_SSR", AudioFormat.AUDIO_FORMAT_AAC_ADTS_SSR),
    ("AUDIO_FORMAT_AAC_ADTS_LTP", AudioFormat.AUDIO_FORMAT_AAC_ADTS_LTP),
    ("AUDIO_FORMAT_AAC_ADTS_HE_V1", AudioFormat.AUDIO_FORMAT_AAC_ADTS_HE_V1),
    ("AUDIO_FORMAT_AAC_ADTS_SCALABLE", AudioFormat.AUDIO_FORMAT_AAC_ADTS_SCALABLE),
    ("AUDIO_FORMAT_AAC_ADTS_ERLC", AudioFormat.AUDIO_FORMAT_AAC_ADTS_ERLC),
    ("AUDIO_FORMAT_AAC_ADTS_LD", AudioFormat.AUDIO_FORMAT_AAC_ADTS_LD),
    ("AUDIO_FORMAT_AAC_ADTS_HE_V2", AudioFormat.AUDIO_FORMAT_AAC_ADTS_HE_V2),
    ("AUDIO_FORMAT_AAC_ADTS_ELD", AudioFormat.AUDIO_FORMAT_AAC_ADTS_ELD),
    ("AUDIO_FORMAT_AAC_ADTS_XHE", AudioFormat.AUDIO_FORMAT_AAC_ADTS_XHE),
    ("AUDIO_FORMAT_SBC", AudioFormat.AUDIO_FORMAT_SBC),
    ("AUDIO_FORMAT_APTX", AudioFormat.AUDIO_FORMAT_APTX),
    ("AUDIO_FORMAT_APTX_HD", AudioFormat.AUDIO_FORMAT_APTX_HD),
    ("AUDIO_FORMAT_AC4", AudioFormat.AUDIO_FORMAT_AC4),
    ("AUDIO_FORMAT_LDAC", AudioFormat.AUDIO_FORMAT_LDAC),
    ("AUDIO_FORMAT_MAT", AudioFormat.AUDIO_FORMAT_MAT),
    ("AUDIO_FORMAT_MAT_1_0", AudioFormat.AUDIO_FORMAT_MAT_1_0),
    ("AUDIO_FORMAT_MAT_2_0", AudioFormat.AUDIO_FORMAT_MAT_2_0),
    ("AUDIO_FORMAT_MAT_2_1", AudioFormat.AUDIO_FORMAT_MAT_2_1),
    ("AUDIO_FORMAT_AAC_LATM", AudioFormat.AUDIO_FORMAT_AAC_LATM),
    ("AUDIO_FORMAT_AAC_LATM_LC", AudioFormat.AUDIO_FORMAT_AAC_LATM_LC),
    ("AUDIO_FORMAT_AAC_LATM_HE_V1", AudioFormat.AUDIO_FORMAT_AAC_LATM_HE_V1),
    ("AUDIO_FORMAT_AAC_LATM_HE_V2", AudioFormat.AUDIO_FORMAT_AAC_LATM_HE_V2),
    ("AUDIO_FORMAT_CELT", AudioFormat.AUDIO_FORMAT_CELT),
    ("AUDIO_FORMAT_APTX_ADAPTIVE", AudioFormat.AUDIO_FORMAT_APTX_ADAPTIVE),
    ("AUDIO_FORMAT_LHDC", AudioFormat.AUDIO_FORMAT_LHDC),
    ("AUDIO_FORMAT_LHDC_LL", AudioFormat.AUDIO_FORMAT_LHDC_LL),
    ("AUDIO_FORMAT_APTX_TWSP", AudioFormat.AUDIO_FORMAT_APTX_TWSP),
    ("AUDIO_FORMAT_LC3", AudioFormat.AUDIO_FORMAT_LC3),
    ("AUDIO_FORMAT_MPEGH_BL_L3", AudioFormat.AUDIO_FORMAT_MPEGH_BL_L3),
    ("AUDIO_FORMAT_MPEGH_BL_L4", AudioFormat.AUDIO_FORMAT_MPEGH_BL_L4),
    ("AUDIO_FORMAT_MPEGH_LC_L3", AudioFormat.AUDIO_FORMAT_MPEGH_LC_L3),
    ("AUDIO_FORMAT_MPEGH_LC_L4", AudioFormat.AUDIO_FORMAT_MPEGH_LC_L4),
    ("AUDIO_FORMAT_IEC60958", AudioFormat.AUDIO_FORMAT_IEC60958),
    ("AUDIO_FORMAT_DTS_UHD", AudioFormat.AUDIO_FORMAT_DTS_UHD),
    ("AUDIO_FORMAT_DRA", AudioFormat.AUDIO_FORMAT_DRA) ]

/-- Source function stringToAudioFormat: find the key in AudioFormatString, else the sentinel. -/
def stringToAudioFormat (value : String) : AudioFormat :=
  match map_find AudioFormatString value with
  | some second => second
  | none => .UNKNOWN

/-- Source function toString(AudioFormat); the argument static_cast_int is the cast of the enum to its
underlying integer, fixed by the enum declaration. -/
def AudioFormat.toString (static_cast_int : AudioFormat → Int) (o : AudioFormat) : String :=
  match o with
  | AudioFormat.AUDIO_FORMAT_DEFAULT => "AUDIO_FORMAT_DEFAULT"
  | AudioFormat.AUDIO_FORMAT_PCM_16_BIT => "AUDIO_FORMAT_PCM_16_BIT"
  | AudioFormat.AUDIO_FORMAT_PCM_8_BIT => "AUDIO_FORMAT_PCM_8_BIT"
  | AudioFormat.AUDIO_FORMAT_PCM_32_BIT => "AUDIO_FORMAT_PCM_32_BIT"
  | AudioFormat.AUDIO_FORMAT_PCM_8_24_BIT => "AUDIO_FORMAT_PCM_8_24_BIT"
  | AudioFormat.AUDIO_FORMAT_PCM_FLOAT => "AUDIO_FORMAT_PCM_FLOAT"
  | AudioFormat.AUDIO_FORMAT_PCM_24_BIT_PACKED => "AUDIO_FORMAT_PCM_24_BIT_PACKED"
  | AudioFormat.AUDIO_FORMAT_MP3 => "AUDIO_FORMAT_MP3"
  | AudioFormat.AUDIO_FORMAT_AMR_NB => "AUDIO_FORMAT_AMR_NB"
  | AudioFormat.AUDIO_FORMAT_AMR_WB => "AUDIO_FORMAT_AMR_WB"
  | AudioFormat.AUDIO_FORMAT_AAC => "AUDIO_FORMAT_AAC"
  | AudioFormat.AUDIO_FORMAT_AAC_MAIN => "AUDIO_FORMAT_AAC_MAIN"
  | AudioFormat.AUDIO_FORMAT_AAC_LC => "AUDIO_FORMAT_AAC_LC"
  | AudioFormat.AUDIO_FORMAT_AAC_SSR => "AUDIO_FORMAT_AAC_SSR"
  | AudioFormat.AUDIO_FORMAT_AAC_LTP => "AUDIO_FORMAT_AAC_LTP"
  | AudioFormat.AUDIO_FORMAT_AAC_HE_V1 => "AUDIO_FORMAT_AAC_HE_V1"
  | AudioFormat.AUDIO_FORMAT_AAC_SCALABLE => "AUDIO_FORMAT_AAC_SCALABLE"
  | AudioFormat.AUDIO_FORMAT_AAC_ERLC => "AUDIO_FORMAT_AAC_ERLC"
  | AudioFormat.AUDIO_FORMAT_AAC_LD => "AUDIO_FORMAT_AAC_LD"
  | AudioFormat.AUDIO_FORMAT_AAC_HE_V2 => "AUDIO_FORMAT_AAC_HE_V2"
  | AudioFormat.AUDIO_FORMAT_AAC_ELD => "AUDIO_FORMAT_AAC_ELD"
  | AudioFormat.AUDIO_FORMAT_AAC_XHE => "AUDIO_FORMAT_AAC_XHE"
  | AudioFormat.AUDIO_FORMAT_HE_AAC_V1 => "AUDIO_FORMAT_HE_AAC_V1"
  | AudioFormat.AUDIO_FORMAT_HE_AAC_V2 => "AUDIO_FORMAT_HE_AAC_V2"
  | AudioFormat.AUDIO_FORMAT_VORBIS => "AUDIO_FORMAT_VORBIS"
  | AudioFormat.AUDIO_FORMAT_OPUS => "AUDIO_FORMAT_OPUS"
  | AudioFormat.AUDIO_FORMAT_AC3 => "AUDIO_FORMAT_AC3"
  | AudioFormat.AUDIO_FORMAT_E_AC3 => "AUDIO_FORMAT_E_AC3"
  | AudioFormat.AUDIO_FORMAT_E_AC3_JOC => "AUDIO_FORMAT_E_AC3_JOC"
  | AudioFormat.AUDIO_FORMAT_DTS => "AUDIO_FORMAT_DTS"
  | AudioFormat.AUDIO_FORMAT_DTS_HD => "AUDIO_FORMAT_DTS_HD"
  | AudioFormat.AUDIO_FORMAT_IEC61937 => "AUDIO_FORMAT_IEC61937"
  | AudioFormat.AUDIO_FORMAT_DOLBY_TRUEHD => "AUDIO_FORMAT_DOLBY_TRUEHD"
  | AudioFormat.AUDIO_FORMAT_EVRC => "AUDIO_FORMAT_EVRC"
  | AudioFormat.AUDIO_FORMAT_EVRCB => "AUDIO_FORMAT_EVRCB"
  | AudioFormat.AUDIO_FORMAT_EVRCWB => "AUDIO_FORMAT_EVRCWB"
  | AudioFormat.AUDIO_FORMAT_EVRCNW => "AUDIO_FORMAT_EVRCNW"
  | AudioFormat.AUDIO_FORMAT_AAC_ADIF => "AUDIO_FORMAT_AAC_ADIF"
  | AudioFormat.AUDIO_FORMAT_WMA => "AUDIO_FORMAT_WMA"
  | AudioFormat.AUDIO_FORMAT_WMA_PRO => "AUDIO_FORMAT_WMA_PRO"
  | AudioFormat.AUDIO_FORMAT_AMR_WB_PLUS => "AUDIO_FORMAT_AMR_WB_PLUS"
  | AudioFormat.AUDIO_FORMAT_MP2 => "AUDIO_FORMAT_MP2"
  | AudioFormat.AUDIO_FORMAT_QCELP => "AUDIO_FORMAT_QCELP"
  | AudioFormat.AUDIO_FORMAT_DSD => "AUDIO_FORMAT_DSD"
  | AudioFormat.AUDIO_FORMAT_FLAC => "AUDIO_FORMAT_FLAC"
  | AudioFormat.AUDIO_FORMAT_ALAC => "AUDIO_FORMAT_ALAC"
  | AudioFormat.AUDIO_FORMAT_APE => "AUDIO_FORMAT_APE"
  | AudioFormat.AUDIO_FORMAT_AAC_ADTS => "AUDIO_FORMAT_AAC_ADTS"
  | AudioFormat.AUDIO_FORMAT_AAC_ADTS_MAIN => "AUDIO_FORMAT_AAC_ADTS_MAIN"
  | AudioFormat.AUDIO_FORMAT_AAC_ADTS_LC => "AUDIO_FORMAT_AAC_ADTS_LC"
  | AudioFormat.AUDIO_FORMAT_AAC_ADTS_SSR => "AUDIO_FORMAT_AAC_ADTS_SSR"
  | AudioFormat.AUDIO_FORMAT_AAC_ADTS_LTP => "AUDIO_FORMAT_AAC_ADTS_LTP"
  | AudioFormat.AUDIO_FORMAT_AAC_ADTS_HE_V1 => "AUDIO_FORMAT_AAC_ADTS_HE_V1"
  | AudioFormat.AUDIO_FORMAT_AAC_ADTS_SCALABLE => "AUDIO_FORMAT_AAC_ADTS_SCALABLE"
  | AudioFormat.AUDIO_FORMAT_AAC_ADTS_ERLC => "AUDIO_FORMAT_AAC_ADTS_ERLC"
  | AudioFormat.AUDIO_FORMAT_AAC_ADTS_LD => "AUDIO_FORMAT_AAC_ADTS_LD"
  | AudioFormat.AUDIO_FORMAT_AAC_ADTS_HE_V2 => "AUDIO_FORMAT_AAC_ADTS_HE_V2"
  | AudioFormat.AUDIO_FORMAT_AAC_ADTS_ELD => "AUDIO_FORMAT_AAC_ADTS_ELD"
  | AudioFormat.AUDIO_FORMAT_AAC_ADTS_XHE => "AUDIO_FORMAT_AAC_ADTS_XHE"
  | AudioFormat.AUDIO_FORMAT_SBC => "AUDIO_FORMAT_SBC"
  | AudioFormat.AUDIO_FORMAT_APTX => "AUDIO_FORMAT_APTX"
  | AudioFormat.AUDIO_FORMAT_APTX_HD => "AUDIO_FORMAT_APTX_HD"
  | AudioFormat.AUDIO_FORMAT_AC4 => "AUDIO_FORMAT_AC4"
  | AudioFormat.AUDIO_FORMAT_LDAC => "AUDIO_FORMAT_LDAC"
  | AudioFormat.AUDIO_FORMAT_MAT => "AUDIO_FORMAT_MAT"
  | AudioFormat.AUDIO_FORMAT_MAT_1_0 => "AUDIO_FORMAT_MAT_1_0"
  | AudioFormat.AUDIO_FORMAT_MAT_2_0 => "AUDIO_FORMAT_MAT_2_0"
  | AudioFormat.AUDIO_FORMAT_MAT_2_1 => "AUDIO_FORMAT_MAT_2_1"
  | AudioFormat.AUDIO_FORMAT_AAC_LATM => "AUDIO_FORMAT_AAC_LATM"
  | AudioFormat.AUDIO_FORMAT_AAC_LATM_LC => "AUDIO_FORMAT_AAC_LATM_LC"
  | AudioFormat.AUDIO_FORMAT_AAC_LATM_HE_V1 => "AUDIO_FORMAT_AAC_LATM_HE_V1"
  | AudioFormat.AUDIO_FORMAT_AAC_LATM_HE_V2 => "AUDIO_FORMAT_AAC_LATM_HE_V2"
  | AudioFormat.AUDIO_FORMAT_CELT => "AUDIO_FORMAT_CELT"
  | AudioFormat.AUDIO_FORMAT_APTX_ADAPTIVE => "AUDIO_FORMAT_APTX_ADAPTIVE"
  | AudioFormat.AUDIO_FORMAT_LHDC => "AUDIO_FORMAT_LHDC"
  | AudioFormat.AUDIO_FORMAT_LHDC_LL => "AUDIO_FORMAT_LHDC_LL"
  | AudioFormat.AUDIO_FORMAT_APTX_TWSP => "AUDIO_FORMAT_APTX_TWSP"
  | AudioFormat.AUDIO_FORMAT_LC3 => "AUDIO_FORMAT_LC3"
  | AudioFormat.AUDIO_FORMAT_MPEGH_BL_L3 => "AUDIO_FORMAT_MPEGH_BL_L3"
  | AudioFormat.AUDIO_FORMAT_MPEGH_BL_L4 => "AUDIO_FORMAT_MPEGH_BL_L4"
  | AudioFormat.AUDIO_FORMAT_MPEGH_LC_L3 => "AUDIO_FORMAT_MPEGH_LC_L3"
  | AudioFormat.AUDIO_FORMAT_MPEGH_LC_L4 => "AUDIO_FORMAT_MPEGH_LC_L4"
  | AudioFormat.AUDIO_FORMAT_IEC60958 => "AUDIO_FORMAT_IEC60958"
  | AudioFormat.AUDIO_FORMAT_DTS_UHD => "AUDIO_FORMAT_DTS_UHD"
  | AudioFormat.AUDIO_FORMAT_DRA => "AUDIO_FORMAT_DRA"
  | _ => to_string (static_cast_int o)

/-- Modelled from the spec: the enum class AudioUsage, whose declaration sits in the enums header that is
not part of the sources; a closed tag set made of the tags that AudioUsageString and the switch of
toString name, plus the UNKNOWN sentinel. -/
inductive AudioUsage where
  | UNKNOWN
  | AUDIO_USAGE_UNKNOWN
  | AUDIO_USAGE_MEDIA
  | AUDIO_USAGE_VOICE_COMMUNICATION
  | AUDIO_USAGE_VOICE_COMMUNICATION_SIGNALLING
  | AUDIO_USAGE_ALARM
  | AUDIO_USAGE_NOTIFICATION
  | AUDIO_USAGE_NOTIFICATION_TELEPHONY_RINGTONE
  | AUDIO_USAGE_ASSISTANCE_ACCESSIBILITY
  | AUDIO_USAGE_ASSISTANCE_NAVIGATION_GUIDANCE
  | AUDIO_USAGE_ASSISTANCE_SONIFICATION
  | AUDIO_USAGE_GAME
  | AUDIO_USAGE_VIRTUAL_SOURCE
  | AUDIO_USAGE_ASSISTANT
  | AUDIO_USAGE_CALL_ASSISTANT
  | AUDIO_USAGE_EMERGENCY
  | AUDIO_USAGE_SAFETY
  | AUDIO_USAGE_VEHICLE_STATUS
  | AUDIO_USAGE_ANNOUNCEMENT
deriving DecidableEq

/-- The lookup table AudioUsageString, in the order of its initialiser list. -/
def AudioUsageString : List (String × AudioUsage) :=
  [
    ("AUDIO_USAGE_UNKNOWN", AudioUsage.AUDIO_USAGE_UNKNOWN),
    ("AUDIO_USAGE_MEDIA", AudioUsage.AUDIO_USAGE_MEDIA),
    ("AUDIO_USAGE_VOICE_COMMUNICATION", AudioUsage.AUDIO_USAGE_VOICE_COMMUNICATION),
    ("AUDIO_USAGE_VOICE_COMMUNICATION_SIGNALLING", AudioUsage.AUDIO_USAGE_VOICE_COMMUNICATION_SIGNALLING),
    ("AUDIO_USAGE_ALARM", AudioUsage.AUDIO_USAGE_ALARM),
    ("AUDIO_USAGE_NOTIFICATION", AudioUsage.AUDIO_USAGE_NOTIFICATION),
    ("AUDIO_USAGE_NOTIFICATION_TELEPHONY_RINGTONE", AudioUsage.AUDIO_USAGE_NOTIFICATION_TELEPHONY_RINGTONE),
    ("AUDIO_USAGE_ASSISTANCE_ACCESSIBILITY", AudioUsage.AUDIO_USAGE_ASSISTANCE_ACCESSIBILITY),
    ("AUDIO_USAGE_ASSISTANCE_NAVIGATION_GUIDANCE", AudioUsage.AUDIO_USAGE_ASSISTANCE_NAVIGATION_GUIDANCE),
    ("AUDIO_USAGE_ASSISTANCE_SONIFICATION", AudioUsage.AUDIO_USAGE_ASSISTANCE_SONIFICATION),
    ("AUDIO_USAGE_GAME", AudioUsage.AUDIO_USAGE_GAME),
    ("AUDIO_USAGE_VIRTUAL_SOURCE", AudioUsage.AUDIO_USAGE_VIRTUAL_SOURCE),
    ("AUDIO_USAGE_ASSISTANT", AudioUsage.AUDIO_USAGE_ASSISTANT),
    ("AUDIO_USAGE_CALL_ASSISTANT", AudioUsage.AUDIO_USAGE_CALL_ASSISTANT),
    ("AUDIO_USAGE_EMERGENCY", AudioUsage.AUDIO_USAGE_EMERGENCY),
    ("AUDIO_USAGE_SAFETY", AudioUsage.AUDIO_USAGE_SAFETY),
    ("AUDIO_USAGE_VEHICLE_STATUS", AudioUsage.AUDIO_USAGE_VEHICLE_STATUS),
    ("AUDIO_USAGE_ANNOUNCEMENT", AudioUsage.AUDIO_USAGE_ANNOUNCEMENT) ]

/-- Source function stringToAudioUsage: find the key in AudioUsageString, else the sentinel. -/
def stringToAudioUsage (value : String) : AudioUsage :=
  match map_find AudioUsageString value with
  | some second => second
  | none => .UNKNOWN

/-- Source function toString(AudioUsage); the argument static_cast_int is the cast of the enum to its
underlying integer, fixed by the enum declaration. -/
def AudioUsage.toString (static_cast_int : AudioUsage → Int) (o : AudioUsage) : String :=
  match o with
  | AudioUsage.AUDIO_USAGE_UNKNOWN => "AUDIO_USAGE_UNKNOWN"
  | AudioUsage.AUDIO_USAGE_MEDIA => "AUDIO_USAGE_MEDIA"
  | AudioUsage.AUDIO_USAGE_VOICE_COMMUNICATION => "AUDIO_USAGE_VOICE_COMMUNICATION"
  | AudioUsage.AUDIO_USAGE_VOICE_COMMUNICATION_SIGNALLING => "AUDIO_USAGE_VOICE_COMMUNICATION_SIGNALLING"
  | AudioUsage.AUDIO_USAGE_ALARM => "AUDIO_USAGE_ALARM"
  | AudioUsage.AUDIO_USAGE_NOTIFICATION => "AUDIO_USAGE_NOTIFICATION"
  | AudioUsage.AUDIO_USAGE_NOTIFICATION_TELEPHONY_RINGTONE => "AUDIO_USAGE_NOTIFICATION_TELEPHONY_RINGTONE"
  | AudioUsage.AUDIO_USAGE_ASSISTANCE_ACCESSIBILITY => "AUDIO_USAGE_ASSISTANCE_ACCESSIBILITY"
  | AudioUsage.AUDIO_USAGE_ASSISTANCE_NAVIGATION_GUIDANCE => "AUDIO_USAGE_ASSISTANCE_NAVIGATION_GUIDANCE"
  | AudioUsage.AUDIO_USAGE_ASSISTANCE_SONIFICATION => "AUDIO_USAGE_ASSISTANCE_SONIFICATION"
  | AudioUsage.AUDIO_USAGE_GAME => "AUDIO_USAGE_GAME"
  | AudioUsage.AUDIO_USAGE_VIRTUAL_SOURCE => "AUDIO_USAGE_VIRTUAL_SOURCE"
  | AudioUsage.AUDIO_USAGE_ASSISTANT => "AUDIO_USAGE_ASSISTANT"
  | AudioUsage.AUDIO_USAGE_CALL_ASSISTANT => "AUDIO_USAGE_CALL_ASSISTANT"
  | AudioUsage.AUDIO_USAGE_EMERGENCY => "AUDIO_USAGE_EMERGENCY"
  | AudioUsage.AUDIO_USAGE_SAFETY => "AUDIO_USAGE_SAFETY"
  | AudioUsage.AUDIO_USAGE_VEHICLE_STATUS => "AUDIO_USAGE_VEHICLE_STATUS"
  | AudioUsage.AUDIO_USAGE_ANNOUNCEMENT => "AUDIO_USAGE_ANNOUNCEMENT"
  | _ => to_string (static_cast_int o)

/-- Modelled from the spec: the enum class AudioContentType, whose declaration sits in the enums header that is
not part of the sources; a closed tag set made of the tags that AudioContentTypeString and the switch of
toString name, plus the UNKNOWN sentinel. -/
inductive AudioContentType where
  | UNKNOWN
  | AUDIO_CONTENT_TYPE_UNKNOWN
  | AUDIO_CONTENT_TYPE_SPEECH
  | AUDIO_CONTENT_TYPE_MUSIC
  | AUDIO_CONTENT_TYPE_MOVIE
  | AUDIO_CONTENT_TYPE_SONIFICATION
deriving DecidableEq

/-- The lookup table AudioContentTypeString, in the order of its initialiser list. -/
def AudioContentTypeString : List (String × AudioContentType) :=
  [
    ("AUDIO_CONTENT_TYPE_UNKNOWN", AudioContentType.AUDIO_CONTENT_TYPE_UNKNOWN),
    ("AUDIO_CONTENT_TYPE_SPEECH", AudioContentType.AUDIO_CONTENT_TYPE_SPEECH),
    ("AUDIO_CONTENT_TYPE_MUSIC", AudioContentType.AUDIO_CONTENT_TYPE_MUSIC),
    ("AUDIO_CONTENT_TYPE_MOVIE", AudioContentType.AUDIO_CONTENT_TYPE_MOVIE),
    ("AUDIO_CONTENT_TYPE_SONIFICATION", AudioContentType.AUDIO_CONTENT_TYPE_SONIFICATION) ]

/-- Source function stringToAudioContentType: find the key in AudioContentTypeString, else the sentinel. -/
def stringToAudioContentType (value : String) : AudioContentType :=
  match map_find AudioContentTypeString value with
  | some second => second
  | none => .UNKNOWN

/-- Source function toString(AudioContentType); the argument static_cast_int is the cast of the enum to its
underlying integer, fixed by the enum declaration. -/
def AudioContentType.toString (static_cast_int : AudioContentType → Int) (o : AudioContentType) : String :=
  match o with
  | AudioContentType.AUDIO_CONTENT_TYPE_UNKNOWN => "AUDIO_CONTENT_TYPE_UNKNOWN"
  | AudioContentType.AUDIO_CONTENT_TYPE_SPEECH => "AUDIO_CONTENT_TYPE_SPEECH"
  | AudioContentType.AUDIO_CONTENT_TYPE_MUSIC => "AUDIO_CONTENT_TYPE_MUSIC"
  | AudioContentType.AUDIO_CONTENT_TYPE_MOVIE => "AUDIO_CONTENT_TYPE_MOVIE"
  | AudioContentType.AUDIO_CONTENT_TYPE_SONIFICATION => "AUDIO_CONTENT_TYPE_SONIFICATION"
  | _ => to_string (static_cast_int o)

/-- Modelled from the spec: the enum class AudioChannelMask, whose declaration sits in the enums header that is
not part of the sources; a closed tag set made of the tags that AudioChannelMaskString and the switch of
toString name, plus the UNKNOWN sentinel. -/
inductive AudioChannelMask where
  | UNKNOWN
  | AUDIO_CHANNEL_NONE
  | AUDIO_CHANNEL_OUT_MONO
  | AUDIO_CHANNEL_OUT_STEREO
  | AUDIO_CHANNEL_OUT_2POINT1
  | AUDIO_CHANNEL_OUT_TRI
  | AUDIO_CHANNEL_OUT_TRI_BACK
  | AUDIO_CHANNEL_OUT_3POINT1
  | AUDIO_CHANNEL_OUT_2POINT0POINT2
  | AUDIO_CHANNEL_OUT_2POINT1POINT2
  | AUDIO_CHANNEL_OUT_3POINT0POINT2
  | AUDIO_CHANNEL_OUT_3POINT1POINT2
  | AUDIO_CHANNEL_OUT_QUAD
  | AUDIO_CHANNEL_OUT_QUAD_BACK
  | AUDIO_CHANNEL_OUT_QUAD_SIDE
  | AUDIO_CHANNEL_OUT_SURROUND
  | AUDIO_CHANNEL_OUT_PENTA
  | AUDIO_CHANNEL_OUT_5POINT1
  | AUDIO_CHANNEL_OUT_5POINT1_BACK
  | AUDIO_CHANNEL_OUT_5POINT1_SIDE
  | AUDIO_CHANNEL_OUT_5POINT1POINT2
  | AUDIO_CHANNEL_OUT_5POINT1POINT4
  | AUDIO_CHANNEL_OUT_6POINT1
  | AUDIO_CHANNEL_OUT_7POINT1
  | AUDIO_CHANNEL_OUT_7POINT1POINT2
  | AUDIO_CHANNEL_OUT_7POINT1POINT4
  | AUDIO_CHANNEL_OUT_13POINT_360RA
  | AUDIO_CHANNEL_OUT_22POINT2
  | AUDIO_CHANNEL_OUT_MONO_HAPTIC_A
  | AUDIO_CHANNEL_OUT_STEREO_HAPTIC_A
  | AUDIO_CHANNEL_OUT_HAPTIC_AB
  | AUDIO_CHANNEL_OUT_MONO_HAPTIC_AB
  | AUDIO_CHANNEL_OUT_STEREO_HAPTIC_AB
  | AUDIO_CHANNEL_IN_MONO
  | AUDIO_CHANNEL_IN_STEREO
  | AUDIO_CHANNEL_IN_FRONT_BACK
  | AUDIO_CHANNEL_IN_6
  | AUDIO_CHANNEL_IN_2POINT0POINT2
  | AUDIO_CHANNEL_IN_2POINT1POINT2
  | AUDIO_CHANNEL_IN_3POINT0POINT2
  | AUDIO_CHANNEL_IN_3POINT1POINT2
  | AUDIO_CHANNEL_IN_5POINT1
  | AUDIO_CHANNEL_IN_VOICE_UPLINK_MONO
  | AUDIO_CHANNEL_IN_VOICE_DNLINK_MONO
  | AUDIO_CHANNEL_IN_VOICE_CALL_MONO
  | AUDIO_CHANNEL_INDEX_MASK_1
  | AUDIO_CHANNEL_INDEX_MASK_2
  | AUDIO_CHANNEL_INDEX_MASK_3
  | AUDIO_CHANNEL_INDEX_MASK_4
  | AUDIO_CHANNEL_INDEX_MASK_5
  | AUDIO_CHANNEL_INDEX_MASK_6
  | AUDIO_CHANNEL_INDEX_MASK_7
  | AUDIO_CHANNEL_INDEX_MASK_8
  | AUDIO_CHANNEL_INDEX_MASK_9
  | AUDIO_CHANNEL_INDEX_MASK_10
  | AUDIO_CHANNEL_INDEX_MASK_11
  | AUDIO_CHANNEL_INDEX_MASK_12
  | AUDIO_CHANNEL_INDEX_MASK_13
  | AUDIO_CHANNEL_INDEX_MASK_14
  | AUDIO_CHANNEL_INDEX_MASK_15
  | AUDIO_CHANNEL_INDEX_MASK_16
  | AUDIO_CHANNEL_INDEX_MASK_17
  | AUDIO_CHANNEL_INDEX_MASK_18
  | AUDIO_CHANNEL_INDEX_MASK_19
  | AUDIO_CHANNEL_INDEX_MASK_20
  | AUDIO_CHANNEL_INDEX_MASK_21
  | AUDIO_CHANNEL_INDEX_MASK_22
  | AUDIO_CHANNEL_INDEX_MASK_23
  | AUDIO_CHANNEL_INDEX_MASK_24
deriving DecidableEq

/-- The lookup table AudioChannelMaskString, in the order of its initialiser list. -/
def AudioChannelMaskString : List (String × AudioChannelMask) :=
  [
    ("AUDIO_CHANNEL_NONE", AudioChannelMask.AUDIO_CHANNEL_NONE),
    ("AUDIO_CHANNEL_OUT_MONO", AudioChannelMask.AUDIO_CHANNEL_OUT_MONO),
    ("AUDIO_CHANNEL_OUT_STEREO", AudioChannelMask.AUDIO_CHANNEL_OUT_STEREO),
    ("AUDIO_CHANNEL_OUT_2POINT1", AudioChannelMask.AUDIO_CHANNEL_OUT_2POINT1),
    ("AUDIO_CHANNEL_OUT_TRI", AudioChannelMask.AUDIO_CHANNEL_OUT_TRI),
    ("AUDIO_CHANNEL_OUT_TRI_BACK", AudioChannelMask.AUDIO_CHANNEL_OUT_TRI_BACK),
    ("AUDIO_CHANNEL_OUT_3POINT1", AudioChannelMask.AUDIO_CHANNEL_OUT_3POINT1),
    ("AUDIO_CHANNEL_OUT_2POINT0POINT2", AudioChannelMask.AUDIO_CHANNEL_OUT_2POINT0POINT2),
    ("AUDIO_CHANNEL_OUT_2POINT1POINT2", AudioChannelMask.AUDIO_CHANNEL_OUT_2POINT1POINT2),
    ("AUDIO_CHANNEL_OUT_3POINT0POINT2", AudioChannelMask.AUDIO_CHANNEL_OUT_3POINT0POINT2),
    ("AUDIO_CHANNEL_OUT_3POINT1POINT2", AudioChannelMask.AUDIO_CHANNEL_OUT_3POINT1POINT2),
    ("AUDIO_CHANNEL_OUT_QUAD", AudioChannelMask.AUDIO_CHANNEL_OUT_QUAD),
    ("AUDIO_CHANNEL_OUT_QUAD_BACK", AudioChannelMask.AUDIO_CHANNEL_OUT_QUAD_BACK),
    ("AUDIO_CHANNEL_OUT_QUAD_SIDE", AudioChannelMask.AUDIO_CHANNEL_OUT_QUAD_SIDE),
    ("AUDIO_CHANNEL_OUT_SURROUND", AudioChannelMask.AUDIO_CHANNEL_OUT_SURROUND),
    ("AUDIO_CHANNEL_OUT_PENTA", AudioChannelMask.AUDIO_CHANNEL_OUT_PENTA),
    ("AUDIO_CHANNEL_OUT_5POINT1", AudioChannelMask.AUDIO_CHANNEL_OUT_5POINT1),
    ("AUDIO_CHANNEL_OUT_5POINT1_BACK", AudioChannelMask.AUDIO_CHANNEL_OUT_5POINT1_BACK),
    ("AUDIO_CHANNEL_OUT_5POINT1_SIDE", AudioChannelMask.AUDIO_CHANNEL_OUT_5POINT1_SIDE),
    ("AUDIO_CHANNEL_OUT_5POINT1POINT2", AudioChannelMask.AUDIO_CHANNEL_OUT_5POINT1POINT2),
    ("AUDIO_CHANNEL_OUT_5POINT1POINT4", AudioChannelMask.AUDIO_CHANNEL_OUT_5POINT1POINT4),
    ("AUDIO_CHANNEL_OUT_6POINT1", AudioChannelMask.AUDIO_CHANNEL_OUT_6POINT1),
    ("AUDIO_CHANNEL_OUT_7POINT1", AudioChannelMask.AUDIO_CHANNEL_OUT_7POINT1),
    ("AUDIO_CHANNEL_OUT_7POINT1POINT2", AudioChannelMask.AUDIO_CHANNEL_OUT_7POINT1POINT2),
    ("AUDIO_CHANNEL_OUT_7POINT1POINT4", AudioChannelMask.AUDIO_CHANNEL_OUT_7POINT1POINT4),
    ("AUDIO_CHANNEL_OUT_13POINT_360RA", AudioChannelMask.AUDIO_CHANNEL_OUT_13POINT_360RA),
    ("AUDIO_CHANNEL_OUT_22POINT2", AudioChannelMask.AUDIO_CHANNEL_OUT_22POINT2),
    ("AUDIO_CHANNEL_OUT_MONO_HAPTIC_A", AudioChannelMask.AUDIO_CHANNEL_OUT_MONO_HAPTIC_A),
    ("AUDIO_CHANNEL_OUT_STEREO_HAPTIC_A", AudioChannelMask.AUDIO_CHANNEL_OUT_STEREO_HAPTIC_A),
    ("AUDIO_CHANNEL_OUT_HAPTIC_AB", AudioChannelMask.AUDIO_CHANNEL_OUT_HAPTIC_AB),
    ("AUDIO_CHANNEL_OUT_MONO_HAPTIC_AB", AudioChannelMask.AUDIO_CHANNEL_OUT_MONO_HAPTIC_AB),
    ("AUDIO_CHANNEL_OUT_STEREO_HAPTIC_AB", AudioChannelMask.AUDIO_CHANNEL_OUT_STEREO_HAPTIC_AB),
    ("AUDIO_CHANNEL_IN_MONO", AudioChannelMask.AUDIO_CHANNEL_IN_MONO),
    ("AUDIO_CHANNEL_IN_STEREO", AudioChannelMask.AUDIO_CHANNEL_IN_STEREO),
    ("AUDIO_CHANNEL_IN_FRONT_BACK", AudioChannelMask.AUDIO_CHANNEL_IN_FRONT_BACK),
    ("AUDIO_CHANNEL_IN_6", AudioChannelMask.AUDIO_CHANNEL_IN_6),
    ("AUDIO_CHANNEL_IN_2POINT0POINT2", AudioChannelMask.AUDIO_CHANNEL_IN_2POINT0POINT2),
    ("AUDIO_CHANNEL_IN_2POINT1POINT2", AudioChannelMask.AUDIO_CHANNEL_IN_2POINT1POINT2),
    ("AUDIO_CHANNEL_IN_3POINT0POINT2", AudioChannelMask.AUDIO_CHANNEL_IN_3POINT0POINT2),
    ("AUDIO_CHANNEL_IN_3POINT1POINT2", AudioChannelMask.AUDIO_CHANNEL_IN_3POINT1POINT2),
    ("AUDIO_CHANNEL_IN_5POINT1", AudioChannelMask.AUDIO_CHANNEL_IN_5POINT1),
    ("AUDIO_CHANNEL_IN_VOICE_UPLINK_MONO", AudioChannelMask.AUDIO_CHANNEL_IN_VOICE_UPLINK_MONO),
    ("AUDIO_CHANNEL_IN_VOICE_DNLINK_MONO", AudioChannelMask.AUDIO_CHANNEL_IN_VOICE_DNLINK_MONO),
    ("AUDIO_CHANNEL_IN_VOICE_CALL_MONO", AudioChannelMask.AUDIO_CHANNEL_IN_VOICE_CALL_MONO),
    ("AUDIO_CHANNEL_INDEX_MASK_1", AudioChannelMask.AUDIO_CHANNEL_INDEX_MASK_1),
    ("AUDIO_CHANNEL_INDEX_MASK_2", AudioChannelMask.AUDIO_CHANNEL_INDEX_MASK_2),
    ("AUDIO_CHANNEL_INDEX_MASK_3", AudioChannelMask.AUDIO_CHANNEL_INDEX_MASK_3),
    ("AUDIO_CHANNEL_INDEX_MASK_4", AudioChannelMask.AUDIO_CHANNEL_INDEX_MASK_4),
    ("AUDIO_CHANNEL_INDEX_MASK_5", AudioChannelMask.AUDIO_CHANNEL_INDEX_MASK_5),
    ("AUDIO_CHANNEL_INDEX_MASK_6", AudioChannelMask.AUDIO_CHANNEL_INDEX_MASK_6),
    ("AUDIO_CHANNEL_INDEX_MASK_7", AudioChannelMask.AUDIO_CHANNEL_INDEX_MASK_7),
    ("AUDIO_CHANNEL_INDEX_MASK_8", AudioChannelMask.AUDIO_CHANNEL_INDEX_MASK_8),
    ("AUDIO_CHANNEL_INDEX_MASK_9", AudioChannelMask.AUDIO_CHANNEL_INDEX_MASK_9),
    ("AUDIO_CHANNEL_INDEX_MASK_10", AudioChannelMask.AUDIO_CHANNEL_INDEX_MASK_10),
    ("AUDIO_CHANNEL_INDEX_MASK_11", AudioChannelMask.AUDIO_CHANNEL_INDEX_MASK_11),
    ("AUDIO_CHANNEL_INDEX_MASK_12", AudioChannelMask.AUDIO_CHANNEL_INDEX_MASK_12),
    ("AUDIO_CHANNEL_INDEX_MASK_13", AudioChannelMask.AUDIO_CHANNEL_INDEX_MASK_13),
    ("AUDIO_CHANNEL_INDEX_MASK_14", AudioChannelMask.AUDIO_CHANNEL_INDEX_MASK_14),
    ("AUDIO_CHANNEL_INDEX_MASK_15", AudioChannelMask.AUDIO_CHANNEL_INDEX_MASK_15),
    ("AUDIO_CHANNEL_INDEX_MASK_16", AudioChannelMask.AUDIO_CHANNEL_INDEX_MASK_16),
    ("AUDIO_CHANNEL_INDEX_MASK_17", AudioChannelMask.AUDIO_CHANNEL_INDEX_MASK_17),
    ("AUDIO_CHANNEL_INDEX_MASK_18", AudioChannelMask.AUDIO_CHANNEL_INDEX_MASK_18),
    ("AUDIO_CHANNEL_INDEX_MASK_19", AudioChannelMask.AUDIO_CHANNEL_INDEX_MASK_19),
    ("AUDIO_CHANNEL_INDEX_MASK_20", AudioChannelMask.AUDIO_CHANNEL_INDEX_MASK_20),
    ("AUDIO_CHANNEL_INDEX_MASK_21", AudioChannelMask.AUDIO_CHANNEL_INDEX_MASK_21),
    ("AUDIO_CHANNEL_INDEX_MASK_22", AudioChannelMask.AUDIO_CHANNEL_INDEX_MASK_22),
    ("AUDIO_CHANNEL_INDEX_MASK_23", AudioChannelMask.AUDIO_CHANNEL_INDEX_MASK_23),
    ("AUDIO_CHANNEL_INDEX_MASK_24", AudioChannelMask.AUDIO_CHANNEL_INDEX_MASK_24) ]

/-- Source function stringToAudioChannelMask: find the key in AudioChannelMaskString, else the sentinel. -/
def stringToAudioChannelMask (value : String) : AudioChannelMask :=
  match map_find AudioChannelMaskString value with
  | some second => second
  | none => .UNKNOWN

/-- Source function toString(AudioChannelMask); the argument static_cast_int is the cast of the enum to its
underlying integer, fixed by the enum declaration. -/
def AudioChannelMask.toString (static_cast_int : AudioChannelMask → Int) (o : AudioChannelMask) : String :=
  match o with
  | AudioChannelMask.AUDIO_CHANNEL_NONE => "AUDIO_CHANNEL_NONE"
  | AudioChannelMask.AUDIO_CHANNEL_OUT_MONO => "AUDIO_CHANNEL_OUT_MONO"
  | AudioChannelMask.AUDIO_CHANNEL_OUT_STEREO => "AUDIO_CHANNEL_OUT_STEREO"
  | AudioChannelMask.AUDIO_CHANNEL_OUT_2POINT1 => "AUDIO_CHANNEL_OUT_2POINT1"
  | AudioChannelMask.AUDIO_CHANNEL_OUT_TRI => "AUDIO_CHANNEL_OUT_TRI"
  | AudioChannelMask.AUDIO_CHANNEL_OUT_TRI_BACK => "AUDIO_CHANNEL_OUT_TRI_BACK"
  | AudioChannelMask.AUDIO_CHANNEL_OUT_3POINT1 => "AUDIO_CHANNEL_OUT_3POINT1"
  | AudioChannelMask.AUDIO_CHANNEL_OUT_2POINT0POINT2 => "AUDIO_CHANNEL_OUT_2POINT0POINT2"
  | AudioChannelMask.AUDIO_CHANNEL_OUT_2POINT1POINT2 => "AUDIO_CHANNEL_OUT_2POINT1POINT2"
  | AudioChannelMask.AUDIO_CHANNEL_OUT_3POINT0POINT2 => "AUDIO_CHANNEL_OUT_3POINT0POINT2"
  | AudioChannelMask.AUDIO_CHANNEL_OUT_3POINT1POINT2 => "AUDIO_CHANNEL_OUT_3POINT1POINT2"
  | AudioChannelMask.AUDIO_CHANNEL_OUT_QUAD => "AUDIO_CHANNEL_OUT_QUAD"
  | AudioChannelMask.AUDIO_CHANNEL_OUT_QUAD_BACK => "AUDIO_CHANNEL_OUT_QUAD_BACK"
  | AudioChannelMask.AUDIO_CHANNEL_OUT_QUAD_SIDE => "AUDIO_CHANNEL_OUT_QUAD_SIDE"
  | AudioChannelMask.AUDIO_CHANNEL_OUT_SURROUND => "AUDIO_CHANNEL_OUT_SURROUND"
  | AudioChannelMask.AUDIO_CHANNEL_OUT_PENTA => "AUDIO_CHANNEL_OUT_PENTA"
  | AudioChannelMask.AUDIO_CHANNEL_OUT_5POINT1 => "AUDIO_CHANNEL_OUT_5POINT1"
  | AudioChannelMask.AUDIO_CHANNEL_OUT_5POINT1_BACK => "AUDIO_CHANNEL_OUT_5POINT1_BACK"
  | AudioChannelMask.AUDIO_CHANNEL_OUT_5POINT1_SIDE => "AUDIO_CHANNEL_OUT_5POINT1_SIDE"
  | AudioChannelMask.AUDIO_CHANNEL_OUT_5POINT1POINT2 => "AUDIO_CHANNEL_OUT_5POINT1POINT2"
  | AudioChannelMask.AUDIO_CHANNEL_OUT_5POINT1POINT4 => "AUDIO_CHANNEL_OUT_5POINT1POINT4"
  | AudioChannelMask.AUDIO_CHANNEL_OUT_6POINT1 => "AUDIO_CHANNEL_OUT_6POINT1"
  | AudioChannelMask.AUDIO_CHANNEL_OUT_7POINT1 => "AUDIO_CHANNEL_OUT_7POINT1"
  | AudioChannelMask.AUDIO_CHANNEL_OUT_7POINT1POINT2 => "AUDIO_CHANNEL_OUT_7POINT1POINT2"
  | AudioChannelMask.AUDIO_CHANNEL_OUT_7POINT1POINT4 => "AUDIO_CHANNEL_OUT_7POINT1POINT4"
  | AudioChannelMask.AUDIO_CHANNEL_OUT_13POINT_360RA => "AUDIO_CHANNEL_OUT_13POINT_360RA"
  | AudioChannelMask.AUDIO_CHANNEL_OUT_22POINT2 => "AUDIO_CHANNEL_OUT_22POINT2"
  | AudioChannelMask.AUDIO_CHANNEL_OUT_MONO_HAPTIC_A => "AUDIO_CHANNEL_OUT_MONO_HAPTIC_A"
  | AudioChannelMask.AUDIO_CHANNEL_OUT_STEREO_HAPTIC_A => "AUDIO_CHANNEL_OUT_STEREO_HAPTIC_A"
  | AudioChannelMask.AUDIO_CHANNEL_OUT_HAPTIC_AB => "AUDIO_CHANNEL_OUT_HAPTIC_AB"
  | AudioChannelMask.AUDIO_CHANNEL_OUT_MONO_HAPTIC_AB => "AUDIO_CHANNEL_OUT_MONO_HAPTIC_AB"
  | AudioChannelMask.AUDIO_CHANNEL_OUT_STEREO_HAPTIC_AB => "AUDIO_CHANNEL_OUT_STEREO_HAPTIC_AB"
  | AudioChannelMask.AUDIO_CHANNEL_IN_MONO => "AUDIO_CHANNEL_IN_MONO"
  | AudioChannelMask.AUDIO_CHANNEL_IN_STEREO => "AUDIO_CHANNEL_IN_STEREO"
  | AudioChannelMask.AUDIO_CHANNEL_IN_FRONT_BACK => "AUDIO_CHANNEL_IN_FRONT_BACK"
  | AudioChannelMask.AUDIO_CHANNEL_IN_6 => "AUDIO_CHANNEL_IN_6"
  | AudioChannelMask.AUDIO_CHANNEL_IN_2POINT0POINT2 => "AUDIO_CHANNEL_IN_2POINT0POINT2"
  | AudioChannelMask.AUDIO_CHANNEL_IN_2POINT1POINT2 => "AUDIO_CHANNEL_IN_2POINT1POINT2"
  | AudioChannelMask.AUDIO_CHANNEL_IN_3POINT0POINT2 => "AUDIO_CHANNEL_IN_3POINT0POINT2"
  | AudioChannelMask.AUDIO_CHANNEL_IN_3POINT1POINT2 => "AUDIO_CHANNEL_IN_3POINT1POINT2"
  | AudioChannelMask.AUDIO_CHANNEL_IN_5POINT1 => "AUDIO_CHANNEL_IN_5POINT1"
  | AudioChannelMask.AUDIO_CHANNEL_IN_VOICE_UPLINK_MONO => "AUDIO_CHANNEL_IN_VOICE_UPLINK_MONO"
  | AudioChannelMask.AUDIO_CHANNEL_IN_VOICE_DNLINK_MONO => "AUDIO_CHANNEL_IN_VOICE_DNLINK_MONO"
  | AudioChannelMask.AUDIO_CHANNEL_IN_VOICE_CALL_MONO => "AUDIO_CHANNEL_IN_VOICE_CALL_MONO"
  | AudioChannelMask.AUDIO_CHANNEL_INDEX_MASK_1 => "AUDIO_CHANNEL_INDEX_MASK_1"
  | AudioChannelMask.AUDIO_CHANNEL_INDEX_MASK_2 => "AUDIO_CHANNEL_INDEX_MASK_2"
  | AudioChannelMask.AUDIO_CHANNEL_INDEX_MASK_3 => "AUDIO_CHANNEL_INDEX_MASK_3"
  | AudioChannelMask.AUDIO_CHANNEL_INDEX_MASK_4 => "AUDIO_CHANNEL_INDEX_MASK_4"
  | AudioChannelMask.AUDIO_CHANNEL_INDEX_MASK_5 => "AUDIO_CHANNEL_INDEX_MASK_5"
  | AudioChannelMask.AUDIO_CHANNEL_INDEX_MASK_6 => "AUDIO_CHANNEL_INDEX_MASK_6"
  | AudioChannelMask.AUDIO_CHANNEL_INDEX_MASK_7 => "AUDIO_CHANNEL_INDEX_MASK_7"
  | AudioChannelMask.AUDIO_CHANNEL_INDEX_MASK_8 => "AUDIO_CHANNEL_INDEX_MASK_8"
  | AudioChannelMask.AUDIO_CHANNEL_INDEX_MASK_9 => "AUDIO_CHANNEL_INDEX_MASK_9"
  | AudioChannelMask.AUDIO_CHANNEL_INDEX_MASK_10 => "AUDIO_CHANNEL_INDEX_MASK_10"
  | AudioChannelMask.AUDIO_CHANNEL_INDEX_MASK_11 => "AUDIO_CHANNEL_INDEX_MASK_11"
  | AudioChannelMask.AUDIO_CHANNEL_INDEX_MASK_12 => "AUDIO_CHANNEL_INDEX_MASK_12"
  | AudioChannelMask.AUDIO_CHANNEL_INDEX_MASK_13 => "AUDIO_CHANNEL_INDEX_MASK_13"
  | AudioChannelMask.AUDIO_CHANNEL_INDEX_MASK_14 => "AUDIO_CHANNEL_INDEX_MASK_14"
  | AudioChannelMask.AUDIO_CHANNEL_INDEX_MASK_15 => "AUDIO_CHANNEL_INDEX_MASK_15"
  | AudioChannelMask.AUDIO_CHANNEL_INDEX_MASK_16 => "AUDIO_CHANNEL_INDEX_MASK_16"
  | AudioChannelMask.AUDIO_CHANNEL_INDEX_MASK_17 => "AUDIO_CHANNEL_INDEX_MASK_17"
  | AudioChannelMask.AUDIO_CHANNEL_INDEX_MASK_18 => "AUDIO_CHANNEL_INDEX_MASK_18"
  | AudioChannelMask.AUDIO_CHANNEL_INDEX_MASK_19 => "AUDIO_CHANNEL_INDEX_MASK_19"
  | AudioChannelMask.AUDIO_CHANNEL_INDEX_MASK_20 => "AUDIO_CHANNEL_INDEX_MASK_20"
  | AudioChannelMask.AUDIO_CHANNEL_INDEX_MASK_21 => "AUDIO_CHANNEL_INDEX_MASK_21"
  | AudioChannelMask.AUDIO_CHANNEL_INDEX_MASK_22 => "AUDIO_CHANNEL_INDEX_MASK_22"
  | AudioChannelMask.AUDIO_CHANNEL_INDEX_MASK_23 => "AUDIO_CHANNEL_INDEX_MASK_23"
  | AudioChannelMask.AUDIO_CHANNEL_INDEX_MASK_24 => "AUDIO_CHANNEL_INDEX_MASK_24"
  | _ => to_string (static_cast_int o)

/-- Modelled from the spec: the enum class AudioEncapsulationType, whose declaration sits in the enums header that is
not part of the sources; a closed tag set made of the tags that AudioEncapsulationTypeString and the switch of
toString name, plus the UNKNOWN sentinel. -/
inductive AudioEncapsulationType where
  | UNKNOWN
  | AUDIO_ENCAPSULATION_TYPE_NONE
  | AUDIO_ENCAPSULATION_TYPE_IEC61937
deriving DecidableEq

/-- The lookup table AudioEncapsulationTypeString, in the order of its initialiser list. -/
def AudioEncapsulationTypeString : List (String × AudioEncapsulationType) :=
  [
    ("AUDIO_ENCAPSULATION_TYPE_NONE", AudioEncapsulationType.AUDIO_ENCAPSULATION_TYPE_NONE),
    ("AUDIO_ENCAPSULATION_TYPE_IEC61937", AudioEncapsulationType.AUDIO_ENCAPSULATION_TYPE_IEC61937) ]

/-- Source function stringToAudioEncapsulationType: find the key in AudioEncapsulationTypeString, else the sentinel. -/
def stringToAudioEncapsulationType (value : String) : AudioEncapsulationType :=
  match map_find AudioEncapsulationTypeString value with
  | some second => second
  | none => .UNKNOWN

/-- Source function toString(AudioEncapsulationType); the argument static_cast_int is the cast of the enum to its
underlying integer, fixed by the enum declaration. -/
def AudioEncapsulationType.toString (static_cast_int : AudioEncapsulationType → Int) (o : AudioEncapsulationType) : String :=
  match o with
  | AudioEncapsulationType.AUDIO_ENCAPSULATION_TYPE_NONE => "AUDIO_ENCAPSULATION_TYPE_NONE"
  | AudioEncapsulationType.AUDIO_ENCAPSULATION_TYPE_IEC61937 => "AUDIO_ENCAPSULATION_TYPE_IEC61937"
  | _ => to_string (static_cast_int o)

/-- Modelled from the spec: the enum class AudioGainMode, whose declaration sits in the enums header that is
not part of the sources; a closed tag set made of the tags that AudioGainModeString and the switch of
toString name, plus the UNKNOWN sentinel. -/
inductive AudioGainMode where
  | UNKNOWN
  | AUDIO_GAIN_MODE_JOINT
  | AUDIO_GAIN_MODE_CHANNELS
  | AUDIO_GAIN_MODE_RAMP
deriving DecidableEq

/-- The lookup table AudioGainModeString, in the order of its initialiser list. -/
def AudioGainModeString : List (String × AudioGainMode) :=
  [
    ("AUDIO_GAIN_MODE_JOINT", AudioGainMode.AUDIO_GAIN_MODE_JOINT),
    ("AUDIO_GAIN_MODE_CHANNELS", AudioGainMode.AUDIO_GAIN_MODE_CHANNELS),
    ("AUDIO_GAIN_MODE_RAMP", AudioGainMode.AUDIO_GAIN_MODE_RAMP) ]

/-- Source function stringToAudioGainMode: find the key in AudioGainModeString, else the sentinel. -/
def stringToAudioGainMode (value : String) : AudioGainMode :=
  match map_find AudioGainModeString value with
  | some second => second
  | none => .UNKNOWN

/-- Source function toString(AudioGainMode); the argument static_cast_int is the cast of the enum to its
underlying integer, fixed by the enum declaration. -/
def AudioGainMode.toString (static_cast_int : AudioGainMode → Int) (o : AudioGainMode) : String :=
  match o with
  | AudioGainMode.AUDIO_GAIN_MODE_JOINT => "AUDIO_GAIN_MODE_JOINT"
  | AudioGainMode.AUDIO_GAIN_MODE_CHANNELS => "AUDIO_GAIN_MODE_CHANNELS"
  | AudioGainMode.AUDIO_GAIN_MODE_RAMP => "AUDIO_GAIN_MODE_RAMP"
  | _ => to_string (static_cast_int o)

/-- Modelled from the spec: the enum class MixType, whose declaration sits in the enums header that is
not part of the sources; a closed tag set made of the tags that MixTypeString and the switch of
toString name, plus the UNKNOWN sentinel. -/
inductive MixType where
  | UNKNOWN
  | mix
  | mux
deriving DecidableEq

/-- The lookup table MixTypeString, in the order of its initialiser list. -/
def MixTypeString : List (String × MixType) :=
  [
    ("mix", MixType.mix),
    ("mux", MixType.mux) ]

/-- Source function stringToMixType: find the key in MixTypeString, else the sentinel. -/
def stringToMixType (value : String) : MixType :=
  match map_find MixTypeString value with
  | some second => second
  | none => .UNKNOWN

/-- Source function toString(MixType); the argument static_cast_int is the cast of the enum to its
underlying integer, fixed by the enum declaration. -/
def MixType.toString (static_cast_int : MixType → Int) (o : MixType) : String :=
  match o with
  | MixType.mix => "mix"
  | MixType.mux => "mux"
  | _ => to_string (static_cast_int o)

/-- Modelled from the spec: the enum class AudioStreamType, whose declaration sits in the enums header that is
not part of the sources; a closed tag set made of the tags that AudioStreamTypeString and the switch of
toString name, plus the UNKNOWN sentinel. -/
inductive AudioStreamType where
  | UNKNOWN
  | AUDIO_STREAM_VOICE_CALL
  | AUDIO_STREAM_SYSTEM
  | AUDIO_STREAM_RING
  | AUDIO_STREAM_MUSIC
  | AUDIO_STREAM_ALARM
  | AUDIO_STREAM_NOTIFICATION
  | AUDIO_STREAM_BLUETOOTH_SCO
  | AUDIO_STREAM_ENFORCED_AUDIBLE
  | AUDIO_STREAM_DTMF
  | AUDIO_STREAM_TTS
  | AUDIO_STREAM_ACCESSIBILITY
  | AUDIO_STREAM_ASSISTANT
  | AUDIO_STREAM_REROUTING
  | AUDIO_STREAM_PATCH
  | AUDIO_STREAM_CALL_ASSISTANT
deriving DecidableEq

/-- The lookup table AudioStreamTypeString, in the order of its initialiser list. -/
def AudioStreamTypeString : List (String × AudioStreamType) :=
  [
    ("AUDIO_STREAM_VOICE_CALL", AudioStreamType.AUDIO_STREAM_VOICE_CALL),
    ("AUDIO_STREAM_SYSTEM", AudioStreamType.AUDIO_STREAM_SYSTEM),
    ("AUDIO_STREAM_RING", AudioStreamType.AUDIO_STREAM_RING),
    ("AUDIO_STREAM_MUSIC", AudioStreamType.AUDIO_STREAM_MUSIC),
    ("AUDIO_STREAM_ALARM", AudioStreamType.AUDIO_STREAM_ALARM),
    ("AUDIO_STREAM_NOTIFICATION", AudioStreamType.AUDIO_STREAM_NOTIFICATION),
    ("AUDIO_STREAM_BLUETOOTH_SCO", AudioStreamType.AUDIO_STREAM_BLUETOOTH_SCO),
    ("AUDIO_STREAM_ENFORCED_AUDIBLE", AudioStreamType.AUDIO_STREAM_ENFORCED_AUDIBLE),
    ("AUDIO_STREAM_DTMF", AudioStreamType.AUDIO_STREAM_DTMF),
    ("AUDIO_STREAM_TTS", AudioStreamType.AUDIO_STREAM_TTS),
    ("AUDIO_STREAM_ACCESSIBILITY", AudioStreamType.AUDIO_STREAM_ACCESSIBILITY),
    ("AUDIO_STREAM_ASSISTANT", AudioStreamType.AUDIO_STREAM_ASSISTANT),
    ("AUDIO_STREAM_REROUTING", AudioStreamType.AUDIO_STREAM_REROUTING),
    ("AUDIO_STREAM_PATCH", AudioStreamType.AUDIO_STREAM_PATCH),
    ("AUDIO_STREAM_CALL_ASSISTANT", AudioStreamType.AUDIO_STREAM_CALL_ASSISTANT) ]

/-- Source function stringToAudioStreamType: find the key in AudioStreamTypeString, else the sentinel. -/
def stringToAudioStreamType (value : String) : AudioStreamType :=
  match map_find AudioStreamTypeString value with
  | some second => second
  | none => .UNKNOWN

/-- Source function toString(AudioStreamType); the argument static_cast_int is the cast of the enum to its
underlying integer, fixed by the enum declaration. -/
def AudioStreamType.toString (static_cast_int : AudioStreamType → Int) (o : AudioStreamType) : String :=
  match o with
  | AudioStreamType.AUDIO_STREAM_VOICE_CALL => "AUDIO_STREAM_VOICE_CALL"
  | AudioStreamType.AUDIO_STREAM_SYSTEM => "AUDIO_STREAM_SYSTEM"
  | AudioStreamType.AUDIO_STREAM_RING => "AUDIO_STREAM_RING"
  | AudioStreamType.AUDIO_STREAM_MUSIC => "AUDIO_STREAM_MUSIC"
  | AudioStreamType.AUDIO_STREAM_ALARM => "AUDIO_STREAM_ALARM"
  | AudioStreamType.AUDIO_STREAM_NOTIFICATION => "AUDIO_STREAM_NOTIFICATION"
  | AudioStreamType.AUDIO_STREAM_BLUETOOTH_SCO => "AUDIO_STREAM_BLUETOOTH_SCO"
  | AudioStreamType.AUDIO_STREAM_ENFORCED_AUDIBLE => "AUDIO_STREAM_ENFORCED_AUDIBLE"
  | AudioStreamType.AUDIO_STREAM_DTMF => "AUDIO_STREAM_DTMF"
  | AudioStreamType.AUDIO_STREAM_TTS => "AUDIO_STREAM_TTS"
  | AudioStreamType.AUDIO_STREAM_ACCESSIBILITY => "AUDIO_STREAM_ACCESSIBILITY"
  | AudioStreamType.AUDIO_STREAM_ASSISTANT => "AUDIO_STREAM_ASSISTANT"
  | AudioStreamType.AUDIO_STREAM_REROUTING => "AUDIO_STREAM_REROUTING"
  | AudioStreamType.AUDIO_STREAM_PATCH => "AUDIO_STREAM_PATCH"
  | AudioStreamType.AUDIO_STREAM_CALL_ASSISTANT => "AUDIO_STREAM_CALL_ASSISTANT"
  | _ => to_string (static_cast_int o)

/-- Modelled from the spec: the enum class AudioSource, whose declaration sits in the enums header that is
not part of the sources; a closed tag set made of the tags that AudioSourceString and the switch of
toString name, plus the UNKNOWN sentinel. -/
inductive AudioSource where
  | UNKNOWN
  | AUDIO_SOURCE_DEFAULT
  | AUDIO_SOURCE_MIC
  | AUDIO_SOURCE_VOICE_UPLINK
  | AUDIO_SOURCE_VOICE_DOWNLINK
  | AUDIO_SOURCE_VOICE_CALL
  | AUDIO_SOURCE_CAMCORDER
  | AUDIO_SOURCE_VOICE_RECOGNITION
  | AUDIO_SOURCE_VOICE_COMMUNICATION
  | AUDIO_SOURCE_REMOTE_SUBMIX
  | AUDIO_SOURCE_UNPROCESSED
  | AUDIO_SOURCE_VOICE_PERFORMANCE
  | AUDIO_SOURCE_ECHO_REFERENCE
  | AUDIO_SOURCE_FM_TUNER
  | AUDIO_SOURCE_HOTWORD
deriving DecidableEq

/-- The lookup table AudioSourceString, in the order of its initialiser list. -/
def AudioSourceString : List (String × AudioSource) :=
  [
    ("AUDIO_SOURCE_DEFAULT", AudioSource.AUDIO_SOURCE_DEFAULT),
    ("AUDIO_SOURCE_MIC", AudioSource.AUDIO_SOURCE_MIC),
    ("AUDIO_SOURCE_VOICE_UPLINK", AudioSource.AUDIO_SOURCE_VOICE_UPLINK),
    ("AUDIO_SOURCE_VOICE_DOWNLINK", AudioSource.AUDIO_SOURCE_VOICE_DOWNLINK),
    ("AUDIO_SOURCE_VOICE_CALL", AudioSource.AUDIO_SOURCE_VOICE_CALL),
    ("AUDIO_SOURCE_CAMCORDER", AudioSource.AUDIO_SOURCE_CAMCORDER),
    ("AUDIO_SOURCE_VOICE_RECOGNITION", AudioSource.AUDIO_SOURCE_VOICE_RECOGNITION),
    ("AUDIO_SOURCE_VOICE_COMMUNICATION", AudioSource.AUDIO_SOURCE_VOICE_COMMUNICATION),
    ("AUDIO_SOURCE_REMOTE_SUBMIX", AudioSource.AUDIO_SOURCE_REMOTE_SUBMIX),
    ("AUDIO_SOURCE_UNPROCESSED", AudioSource.AUDIO_SOURCE_UNPROCESSED),
    ("AUDIO_SOURCE_VOICE_PERFORMANCE", AudioSource.AUDIO_SOURCE_VOICE_PERFORMANCE),
    ("AUDIO_SOURCE_ECHO_REFERENCE", AudioSource.AUDIO_SOURCE_ECHO_REFERENCE),
    ("AUDIO_SOURCE_FM_TUNER", AudioSource.AUDIO_SOURCE_FM_TUNER),
    ("AUDIO_SOURCE_HOTWORD", AudioSource.AUDIO_SOURCE_HOTWORD) ]

/-- Source function stringToAudioSource: find the key in AudioSourceString, else the sentinel. -/
def stringToAudioSource (value : String) : AudioSource :=
  match map_find AudioSourceString value with
  | some second => second
  | none => .UNKNOWN

/-- Source function toString(AudioSource); the argument static_cast_int is the cast of the enum to its
underlying integer, fixed by the enum declaration. -/
def AudioSource.toString (static_cast_int : AudioSource → Int) (o : AudioSource) : String :=
  match o with
  | AudioSource.AUDIO_SOURCE_DEFAULT => "AUDIO_SOURCE_DEFAULT"
  | AudioSource.AUDIO_SOURCE_MIC => "AUDIO_SOURCE_MIC"
  | AudioSource.AUDIO_SOURCE_VOICE_UPLINK => "AUDIO_SOURCE_VOICE_UPLINK"
  | AudioSource.AUDIO_SOURCE_VOICE_DOWNLINK => "AUDIO_SOURCE_VOICE_DOWNLINK"
  | AudioSource.AUDIO_SOURCE_VOICE_CALL => "AUDIO_SOURCE_VOICE_CALL"
  | AudioSource.AUDIO_SOURCE_CAMCORDER => "AUDIO_SOURCE_CAMCORDER"
  | AudioSource.AUDIO_SOURCE_VOICE_RECOGNITION => "AUDIO_SOURCE_VOICE_RECOGNITION"
  | AudioSource.AUDIO_SOURCE_VOICE_COMMUNICATION => "AUDIO_SOURCE_VOICE_COMMUNICATION"
  | AudioSource.AUDIO_SOURCE_REMOTE_SUBMIX => "AUDIO_SOURCE_REMOTE_SUBMIX"
  | AudioSource.AUDIO_SOURCE_UNPROCESSED => "AUDIO_SOURCE_UNPROCESSED"
  | AudioSource.AUDIO_SOURCE_VOICE_PERFORMANCE => "AUDIO_SOURCE_VOICE_PERFORMANCE"
  | AudioSource.AUDIO_SOURCE_ECHO_REFERENCE => "AUDIO_SOURCE_ECHO_REFERENCE"
  | AudioSource.AUDIO_SOURCE_FM_TUNER => "AUDIO_SOURCE_FM_TUNER"
  | AudioSource.AUDIO_SOURCE_HOTWORD => "AUDIO_SOURCE_HOTWORD"
  | _ => to_string (static_cast_int o)

/-- Modelled from the spec: the enum class DeviceCategory, whose declaration sits in the enums header that is
not part of the sources; a closed tag set made of the tags that DeviceCategoryString and the switch of
toString name, plus the UNKNOWN sentinel. -/
inductive DeviceCategory where
  | UNKNOWN
  | DEVICE_CATEGORY_HEADSET
  | DEVICE_CATEGORY_SPEAKER
  | DEVICE_CATEGORY_EARPIECE
  | DEVICE_CATEGORY_EXT_MEDIA
  | DEVICE_CATEGORY_HEARING_AID
deriving DecidableEq

/-- The lookup table DeviceCategoryString, in the order of its initialiser list. -/
def DeviceCategoryString : List (String × DeviceCategory) :=
  [
    ("DEVICE_CATEGORY_HEADSET", DeviceCategory.DEVICE_CATEGORY_HEADSET),
    ("DEVICE_CATEGORY_SPEAKER", DeviceCategory.DEVICE_CATEGORY_SPEAKER),
    ("DEVICE_CATEGORY_EARPIECE", DeviceCategory.DEVICE_CATEGORY_EARPIECE),
    ("DEVICE_CATEGORY_EXT_MEDIA", DeviceCategory.DEVICE_CATEGORY_EXT_MEDIA),
    ("DEVICE_CATEGORY_HEARING_AID", DeviceCategory.DEVICE_CATEGORY_HEARING_AID) ]

/-- Source function stringToDeviceCategory: find the key in DeviceCategoryString, else the sentinel. -/
def stringToDeviceCategory (value : String) : DeviceCategory :=
  match map_find DeviceCategoryString value with
  | some second => second
  | none => .UNKNOWN

/-- Source function toString(DeviceCategory); the argument static_cast_int is the cast of the enum to its
underlying integer, fixed by the enum declaration. -/
def DeviceCategory.toString (static_cast_int : DeviceCategory → Int) (o : DeviceCategory) : String :=
  match o with
  | DeviceCategory.DEVICE_CATEGORY_HEADSET => "DEVICE_CATEGORY_HEADSET"
  | DeviceCategory.DEVICE_CATEGORY_SPEAKER => "DEVICE_CATEGORY_SPEAKER"
  | DeviceCategory.DEVICE_CATEGORY_EARPIECE => "DEVICE_CATEGORY_EARPIECE"
  | DeviceCategory.DEVICE_CATEGORY_EXT_MEDIA => "DEVICE_CATEGORY_EXT_MEDIA"
  | DeviceCategory.DEVICE_CATEGORY_HEARING_AID => "DEVICE_CATEGORY_HEARING_AID"
  | _ => to_string (static_cast_int o)

/-- Modelled from the spec: the enum class EngineSuffix, whose declaration sits in the enums header that is
not part of the sources; a closed tag set made of the tags that EngineSuffixString and the switch of
toString name, plus the UNKNOWN sentinel. -/
inductive EngineSuffix where
  | UNKNOWN
  | _default
  | configurable
deriving DecidableEq

/-- The lookup table EngineSuffixString, in the order of its initialiser list. -/
def EngineSuffixString : List (String × EngineSuffix) :=
  [
    ("default", EngineSuffix._default),
    ("configurable", EngineSuffix.configurable) ]

/-- Source function stringToEngineSuffix: find the key in EngineSuffixString, else the sentinel. -/
def stringToEngineSuffix (value : String) : EngineSuffix :=
  match map_find EngineSuffixString value with
  | some second => second
  | none => .UNKNOWN

/-- Source function toString(EngineSuffix); the argument static_cast_int is the cast of the enum to its
underlying integer, fixed by the enum declaration. -/
def EngineSuffix.toString (static_cast_int : EngineSuffix → Int) (o : EngineSuffix) : String :=
  match o with
  | EngineSuffix._default => "default"
  | EngineSuffix.configurable => "configurable"
  | _ => to_string (static_cast_int o)
/-! ## The audio policy records (`android_audio_policy_configuration_V7_0.cpp`) -/

/-- Record `Profile`, fields in the order of the class declaration and of the
constructor. -/
structure Profile where
  name_ : Option String
  format_ : Option String
  samplingRates_ : Option (List Int)
  channelMasks_ : Option (List AudioChannelMask)
  encapsulationType_ : Option AudioEncapsulationType
deriving DecidableEq

/-- Record `Gains::Gain`, fields in the order of the class declaration and of the
constructor. -/
structure Gains.Gain where
  name_ : String
  mode_ : List AudioGainMode
  channel_mask_ : Option AudioChannelMask
  minValueMB_ : Option Int
  maxValueMB_ : Option Int
  defaultValueMB_ : Option Int
  stepValueMB_ : Option Int
  minRampMs_ : Option Int
  maxRampMs_ : Option Int
  useForVolume_ : Option Bool
deriving DecidableEq

/-- Record `Gains`, fields in the order of the class declaration and of the
constructor. -/
structure Gains where
  gain_ : List Gains.Gain
deriving DecidableEq

/-- Record `MixPorts::MixPort`, fields in the order of the class declaration and of the
constructor. -/
structure MixPorts.MixPort where
  profile_ : List Profile
  gains_ : List Gains
  name_ : String
  role_ : Role
  flags_ : Option (List AudioInOutFlag)
  maxOpenCount_ : Option Nat
  maxActiveCount_ : Option Nat
  preferredUsage_ : Option (List AudioUsage)
deriving DecidableEq

/-- Record `MixPorts`, fields in the order of the class declaration and of the
constructor. -/
structure MixPorts where
  mixPort_ : List MixPorts.MixPort
deriving DecidableEq

/-- Record `DevicePorts::DevicePort`, fields in the order of the class declaration and of the
constructor. -/
structure DevicePorts.DevicePort where
  profile_ : List Profile
  gains_ : List Gains
  tagName_ : String
  type_ : String
  role_ : Role
  address_ : Option String
  _default_ : Option Bool
  encodedFormats_ : Option (List String)
deriving DecidableEq

/-- Record `DevicePorts`, fields in the order of the class declaration and of the
constructor. -/
structure DevicePorts where
  devicePort_ : List DevicePorts.DevicePort
deriving DecidableEq

/-- Record `Routes::Route`, fields in the order of the class declaration and of the
constructor. -/
structure Routes.Route where
  type_ : MixType
  sink_ : String
  sources_ : String
deriving DecidableEq

/-- Record `Routes`, fields in the order of the class declaration and of the
constructor. -/
structure Routes where
  route_ : List Routes.Route
deriving DecidableEq

/-- Record `AttachedDevices`, fields in the order of the class declaration and of the
constructor. -/
structure AttachedDevices where
  item_ : List String
deriving DecidableEq

/-- Record `Modules::Module`, fields in the order of the class declaration and of the
constructor. -/
structure Modules.Module where
  attachedDevices_ : List AttachedDevices
  defaultOutputDevice_ : Option String
  mixPorts_ : List MixPorts
  devicePorts_ : List DevicePorts
  routes_ : List Routes
  name_ : String
  halVersion_ : HalVersion
deriving DecidableEq

/-- Record `Modules`, fields in the order of the class declaration and of the
constructor. -/
structure Modules where
  _module_ : List Modules.Module
deriving DecidableEq

/-- Record `Volume`, fields in the order of the class declaration and of the
constructor. -/
structure Volume where
  point_ : List String
  stream_ : Option AudioStreamType
  deviceCategory_ : Option DeviceCategory
  ref_ : Option String
deriving DecidableEq

/-- Record `Reference`, fields in the order of the class declaration and of the
constructor. -/
structure Reference where
  point_ : List String
  name_ : String
deriving DecidableEq

/-- Record `Volumes`, fields in the order of the class declaration and of the
constructor. -/
structure Volumes where
  volume_ : List Volume
  reference_ : List Reference
deriving DecidableEq

/-- Record `SurroundFormats::Format`, fields in the order of the class declaration and of the
constructor. -/
structure SurroundFormats.Format where
  name_ : String
  subformats_ : Option (List String)
deriving DecidableEq

/-- Record `SurroundFormats`, fields in the order of the class declaration and of the
constructor. -/
structure SurroundFormats where
  format_ : List SurroundFormats.Format
deriving DecidableEq

/-- Record `SurroundSound`, fields in the order of the class declaration and of the
constructor. -/
structure SurroundSound where
  formats_ : List SurroundFormats
deriving DecidableEq

/-- Record `GlobalConfiguration`, fields in the order of the class declaration and of the
constructor. -/
structure GlobalConfiguration where
  speaker_drc_enabled_ : Bool
  call_screen_mode_supported_ : Option Bool
  engine_library_ : Option EngineSuffix
deriving DecidableEq

/-- Record `AudioPolicyConfiguration`, fields in the order of the class declaration and of the
constructor. -/
structure AudioPolicyConfiguration where
  globalConfiguration_ : List GlobalConfiguration
  modules_ : List Modules
  volumes_ : List Volumes
  surroundSound_ : List SurroundSound
  version_ : Option Version
deriving DecidableEq

/-- Source function Profile::hasName. -/
def Profile.hasName (self : Profile) : Bool :=
  self.name_.isSome

/-- Source function Profile::hasFormat. -/
def Profile.hasFormat (self : Profile) : Bool :=
  self.format_.isSome

/-- Source function Profile::hasSamplingRates. -/
def Profile.hasSamplingRates (self : Profile) : Bool :=
  self.samplingRates_.isSome

/-- Source function Profile::hasChannelMasks. -/
def Profile.hasChannelMasks (self : Profile) : Bool :=
  self.channelMasks_.isSome

/-- Source function Profile::hasEncapsulationType. -/
def Profile.hasEncapsulationType (self : Profile) : Bool :=
  self.encapsulationType_.isSome

/-- Source function Gains::Gain::hasName. -/
def Gains.Gain.hasName (_self : Gains.Gain) : Bool :=
  true

/-- Source function Gains::Gain::hasMode. -/
def Gains.Gain.hasMode (_self : Gains.Gain) : Bool :=
  true

/-- Source function Gains::Gain::hasChannel_mask. -/
def Gains.Gain.hasChannel_mask (self : Gains.Gain) : Bool :=
  self.channel_mask_.isSome

/-- Source function Gains::Gain::hasMinValueMB. -/
def Gains.Gain.hasMinValueMB (self : Gains.Gain) : Bool :=
  self.minValueMB_.isSome

/-- Source function Gains::Gain::hasMaxValueMB. -/
def Gains.Gain.hasMaxValueMB (self : Gains.Gain) : Bool :=
  self.maxValueMB_.isSome

/-- Source function Gains::Gain::hasDefaultValueMB. -/
def Gains.Gain.hasDefaultValueMB (self : Gains.Gain) : Bool :=
  self.defaultValueMB_.isSome

/-- Source function Gains::Gain::hasStepValueMB. -/
def Gains.Gain.hasStepValueMB (self : Gains.Gain) : Bool :=
  self.stepValueMB_.isSome

/-- Source function Gains::Gain::hasMinRampMs. -/
def Gains.Gain.hasMinRampMs (self : Gains.Gain) : Bool :=
  self.minRampMs_.isSome

/-- Source function Gains::Gain::hasMaxRampMs. -/
def Gains.Gain.hasMaxRampMs (self : Gains.Gain) : Bool :=
  self.maxRampMs_.isSome

/-- Source function Gains::Gain::hasUseForVolume. -/
def Gains.Gain.hasUseForVolume (self : Gains.Gain) : Bool :=
  self.useForVolume_.isSome

/-- Source function Gains::hasGain. -/
def Gains.hasGain (self : Gains) : Bool :=
  !(self.gain_.isEmpty)

/-- Source function MixPorts::MixPort::hasProfile. -/
def MixPorts.MixPort.hasProfile (self : MixPorts.MixPort) : Bool :=
  !(self.profile_.isEmpty)

/-- Source function MixPorts::MixPort::hasGains. -/
def MixPorts.MixPort.hasGains (self : MixPorts.MixPort) : Bool :=
  !(self.gains_.isEmpty)

/-- Source function MixPorts::MixPort::hasName. -/
def MixPorts.MixPort.hasName (_self : MixPorts.MixPort) : Bool :=
  true

/-- Source function MixPorts::MixPort::hasRole. -/
def MixPorts.MixPort.hasRole (_self : MixPorts.MixPort) : Bool :=
  true

/-- Source function MixPorts::MixPort::hasFlags. -/
def MixPorts.MixPort.hasFlags (self : MixPorts.MixPort) : Bool :=
  self.flags_.isSome

/-- Source function MixPorts::MixPort::hasMaxOpenCount. -/
def MixPorts.MixPort.hasMaxOpenCount (self : MixPorts.MixPort) : Bool :=
  self.maxOpenCount_.isSome

/-- Source function MixPorts::MixPort::hasMaxActiveCount. -/
def MixPorts.MixPort.hasMaxActiveCount (self : MixPorts.MixPort) : Bool :=
  self.maxActiveCount_.isSome

/-- Source function MixPorts::MixPort::hasPreferredUsage. -/
def MixPorts.MixPort.hasPreferredUsage (self : MixPorts.MixPort) : Bool :=
  self.preferredUsage_.isSome

/-- Source function MixPorts::hasMixPort. -/
def MixPorts.hasMixPort (self : MixPorts) : Bool :=
  !(self.mixPort_.isEmpty)

/-- Source function DevicePorts::DevicePort::hasProfile. -/
def DevicePorts.DevicePort.hasProfile (self : DevicePorts.DevicePort) : Bool :=
  !(self.profile_.isEmpty)

/-- Source function DevicePorts::DevicePort::hasGains. -/
def DevicePorts.DevicePort.hasGains (self : DevicePorts.DevicePort) : Bool :=
  !(self.gains_.isEmpty)

/-- Source function DevicePorts::DevicePort::hasTagName. -/
def DevicePorts.DevicePort.hasTagName (_self : DevicePorts.DevicePort) : Bool :=
  true

/-- Source function DevicePorts::DevicePort::hasType. -/
def DevicePorts.DevicePort.hasType (_self : DevicePorts.DevicePort) : Bool :=
  true

/-- Source function DevicePorts::DevicePort::hasRole. -/
def DevicePorts.DevicePort.hasRole (_self : DevicePorts.DevicePort) : Bool :=
  true

/-- Source function DevicePorts::DevicePort::hasAddress. -/
def DevicePorts.DevicePort.hasAddress (self : DevicePorts.DevicePort) : Bool :=
  self.address_.isSome

/-- Source function DevicePorts::DevicePort::has_default. -/
def DevicePorts.DevicePort.has_default (self : DevicePorts.DevicePort) : Bool :=
  self._default_.isSome

/-- Source function DevicePorts::DevicePort::hasEncodedFormats. -/
def DevicePorts.DevicePort.hasEncodedFormats (self : DevicePorts.DevicePort) : Bool :=
  self.encodedFormats_.isSome

/-- Source function DevicePorts::hasDevicePort. -/
def DevicePorts.hasDevicePort (self : DevicePorts) : Bool :=
  !(self.devicePort_.isEmpty)

/-- Source function Routes::Route::hasType. -/
def Routes.Route.hasType (_self : Routes.Route) : Bool :=
  true

/-- Source function Routes::Route::hasSink. -/
def Routes.Route.hasSink (_self : Routes.Route) : Bool :=
  true

/-- Source function Routes::Route::hasSources. -/
def Routes.Route.hasSources (_self : Routes.Route) : Bool :=
  true

/-- Source function Routes::hasRoute. -/
def Routes.hasRoute (self : Routes) : Bool :=
  !(self.route_.isEmpty)

/-- Source function AttachedDevices::hasItem. -/
def AttachedDevices.hasItem (self : AttachedDevices) : Bool :=
  !(self.item_.isEmpty)

/-- Source function Modules::Module::hasAttachedDevices. -/
def Modules.Module.hasAttachedDevices (self : Modules.Module) : Bool :=
  !(self.attachedDevices_.isEmpty)

/-- Source function Modules::Module::hasDefaultOutputDevice. -/
def Modules.Module.hasDefaultOutputDevice (self : Modules.Module) : Bool :=
  self.defaultOutputDevice_.isSome

/-- Source function Modules::Module::hasMixPorts. -/
def Modules.Module.hasMixPorts (self : Modules.Module) : Bool :=
  !(self.mixPorts_.isEmpty)

/-- Source function Modules::Module::hasDevicePorts. -/
def Modules.Module.hasDevicePorts (self : Modules.Module) : Bool :=
  !(self.devicePorts_.isEmpty)

/-- Source function Modules::Module::hasRoutes. -/
def Modules.Module.hasRoutes (self : Modules.Module) : Bool :=
  !(self.routes_.isEmpty)

/-- Source function Modules::Module::hasName. -/
def Modules.Module.hasName (_self : Modules.Module) : Bool :=
  true

/-- Source function Modules::Module::hasHalVersion. -/
def Modules.Module.hasHalVersion (_self : Modules.Module) : Bool :=
  true

/-- Source function Modules::has_module. -/
def Modules.has_module (self : Modules) : Bool :=
  !(self._module_.isEmpty)

/-- Source function Volume::hasPoint. -/
def Volume.hasPoint (self : Volume) : Bool :=
  !(self.point_.isEmpty)

/-- Source function Volume::hasStream. -/
def Volume.hasStream (self : Volume) : Bool :=
  self.stream_.isSome

/-- Source function Volume::hasDeviceCategory. -/
def Volume.hasDeviceCategory (self : Volume) : Bool :=
  self.deviceCategory_.isSome

/-- Source function Volume::hasRef. -/
def Volume.hasRef (self : Volume) : Bool :=
  self.ref_.isSome

/-- Source function Reference::hasPoint. -/
def Reference.hasPoint (self : Reference) : Bool :=
  !(self.point_.isEmpty)

/-- Source function Reference::hasName. -/
def Reference.hasName (_self : Reference) : Bool :=
  true

/-- Source function Volumes::hasVolume. -/
def Volumes.hasVolume (self : Volumes) : Bool :=
  !(self.volume_.isEmpty)

/-- Source function Volumes::hasReference. -/
def Volumes.hasReference (self : Volumes) : Bool :=
  !(self.reference_.isEmpty)

/-- Source function SurroundFormats::Format::hasName. -/
def SurroundFormats.Format.hasName (_self : SurroundFormats.Format) : Bool :=
  true

/-- Source function SurroundFormats::Format::hasSubformats. -/
def SurroundFormats.Format.hasSubformats (self : SurroundFormats.Format) : Bool :=
  self.subformats_.isSome

/-- Source function SurroundFormats::hasFormat. -/
def SurroundFormats.hasFormat (self : SurroundFormats) : Bool :=
  !(self.format_.isEmpty)

/-- Source function SurroundSound::hasFormats. -/
def SurroundSound.hasFormats (self : SurroundSound) : Bool :=
  !(self.formats_.isEmpty)

/-- Source function GlobalConfiguration::hasSpeaker_drc_enabled. -/
def GlobalConfiguration.hasSpeaker_drc_enabled (_self : GlobalConfiguration) : Bool :=
  true

/-- Source function GlobalConfiguration::hasCall_screen_mode_supported. -/
def GlobalConfiguration.hasCall_screen_mode_supported (self : GlobalConfiguration) : Bool :=
  self.call_screen_mode_supported_.isSome

/-- Source function GlobalConfiguration::hasEngine_library. -/
def GlobalConfiguration.hasEngine_library (self : GlobalConfiguration) : Bool :=
  self.engine_library_.isSome

/-- Source function AudioPolicyConfiguration::hasGlobalConfiguration. -/
def AudioPolicyConfiguration.hasGlobalConfiguration (self : AudioPolicyConfiguration) : Bool :=
  !(self.globalConfiguration_.isEmpty)

/-- Source function AudioPolicyConfiguration::hasModules. -/
def AudioPolicyConfiguration.hasModules (self : AudioPolicyConfiguration) : Bool :=
  !(self.modules_.isEmpty)

/-- Source function AudioPolicyConfiguration::hasVolumes. -/
def AudioPolicyConfiguration.hasVolumes (self : AudioPolicyConfiguration) : Bool :=
  !(self.volumes_.isEmpty)

/-- Source function AudioPolicyConfiguration::hasSurroundSound. -/
def AudioPolicyConfiguration.hasSurroundSound (self : AudioPolicyConfiguration) : Bool :=
  !(self.surroundSound_.isEmpty)

/-- Source function AudioPolicyConfiguration::hasVersion. -/
def AudioPolicyConfiguration.hasVersion (self : AudioPolicyConfiguration) : Bool :=
  self.version_.isSome

/-- Source function Profile::getName; nothing stands for the failed
assertion. -/
def Profile.getName (self : Profile) : Option String :=
  if self.hasName then self.name_ else none

/-- Source function Profile::getFormat; nothing stands for the failed
assertion. -/
def Profile.getFormat (self : Profile) : Option String :=
  if self.hasFormat then self.format_ else none

/-- Source function Profile::getSamplingRates; nothing stands for the failed
assertion. -/
def Profile.getSamplingRates (self : Profile) : Option (List Int) :=
  if self.hasSamplingRates then self.samplingRates_ else none

/-- Source function Profile::getChannelMasks; nothing stands for the failed
assertion. -/
def Profile.getChannelMasks (self : Profile) : Option (List AudioChannelMask) :=
  if self.hasChannelMasks then self.channelMasks_ else none

/-- Source function Profile::getEncapsulationType; nothing stands for the failed
assertion. -/
def Profile.getEncapsulationType (self : Profile) : Option AudioEncapsulationType :=
  if self.hasEncapsulationType then self.encapsulationType_ else none

/-- Source function Gains::Gain::getName. -/
def Gains.Gain.getName (self : Gains.Gain) : String :=
  self.name_

/-- Source function Gains::Gain::getMode. -/
def Gains.Gain.getMode (self : Gains.Gain) : List AudioGainMode :=
  self.mode_

/-- Source function Gains::Gain::getChannel_mask; nothing stands for the failed
assertion. -/
def Gains.Gain.getChannel_mask (self : Gains.Gain) : Option AudioChannelMask :=
  if self.hasChannel_mask then self.channel_mask_ else none

/-- Source function Gains::Gain::getMinValueMB; nothing stands for the failed
assertion. -/
def Gains.Gain.getMinValueMB (self : Gains.Gain) : Option Int :=
  if self.hasMinValueMB then self.minValueMB_ else none

/-- Source function Gains::Gain::getMaxValueMB; nothing stands for the failed
assertion. -/
def Gains.Gain.getMaxValueMB (self : Gains.Gain) : Option Int :=
  if self.hasMaxValueMB then self.maxValueMB_ else none

/-- Source function Gains::Gain::getDefaultValueMB; nothing stands for the failed
assertion. -/
def Gains.Gain.getDefaultValueMB (self : Gains.Gain) : Option Int :=
  if self.hasDefaultValueMB then self.defaultValueMB_ else none

/-- Source function Gains::Gain::getStepValueMB; nothing stands for the failed
assertion. -/
def Gains.Gain.getStepValueMB (self : Gains.Gain) : Option Int :=
  if self.hasStepValueMB then self.stepValueMB_ else none

/-- Source function Gains::Gain::getMinRampMs; nothing stands for the failed
assertion. -/
def Gains.Gain.getMinRampMs (self : Gains.Gain) : Option Int :=
  if self.hasMinRampMs then self.minRampMs_ else none

/-- Source function Gains::Gain::getMaxRampMs; nothing stands for the failed
assertion. -/
def Gains.Gain.getMaxRampMs (self : Gains.Gain) : Option Int :=
  if self.hasMaxRampMs then self.maxRampMs_ else none

/-- Source function Gains::Gain::getUseForVolume; nothing stands for the failed
assertion. -/
def Gains.Gain.getUseForVolume (self : Gains.Gain) : Option Bool :=
  if self.hasUseForVolume then self.useForVolume_ else none

/-- Source function Gains::getGain. -/
def Gains.getGain (self : Gains) : List Gains.Gain :=
  self.gain_

/-- Source function Gains::getFirstGain; nothing stands for the null pointer. -/
def Gains.getFirstGain (self : Gains) : Option Gains.Gain :=
  if self.gain_.isEmpty then none else self.gain_[0]?

/-- Source function MixPorts::MixPort::getProfile. -/
def MixPorts.MixPort.getProfile (self : MixPorts.MixPort) : List Profile :=
  self.profile_

/-- Source function MixPorts::MixPort::getFirstProfile; nothing stands for the null pointer. -/
def MixPorts.MixPort.getFirstProfile (self : MixPorts.MixPort) : Option Profile :=
  if self.profile_.isEmpty then none else self.profile_[0]?

/-- Source function MixPorts::MixPort::getGains. -/
def MixPorts.MixPort.getGains (self : MixPorts.MixPort) : List Gains :=
  self.gains_

/-- Source function MixPorts::MixPort::getFirstGains; nothing stands for the null pointer. -/
def MixPorts.MixPort.getFirstGains (self : MixPorts.MixPort) : Option Gains :=
  if self.gains_.isEmpty then none else self.gains_[0]?

/-- Source function MixPorts::MixPort::getName. -/
def MixPorts.MixPort.getName (self : MixPorts.MixPort) : String :=
  self.name_

/-- Source function MixPorts::MixPort::getRole. -/
def MixPorts.MixPort.getRole (self : MixPorts.MixPort) : Role :=
  self.role_

/-- Source function MixPorts::MixPort::getFlags; nothing stands for the failed
assertion. -/
def MixPorts.MixPort.getFlags (self : MixPorts.MixPort) : Option (List AudioInOutFlag) :=
  if self.hasFlags then self.flags_ else none

/-- Source function MixPorts::MixPort::getMaxOpenCount; nothing stands for the failed
assertion. -/
def MixPorts.MixPort.getMaxOpenCount (self : MixPorts.MixPort) : Option Nat :=
  if self.hasMaxOpenCount then self.maxOpenCount_ else none

/-- Source function MixPorts::MixPort::getMaxActiveCount; nothing stands for the failed
assertion. -/
def MixPorts.MixPort.getMaxActiveCount (self : MixPorts.MixPort) : Option Nat :=
  if self.hasMaxActiveCount then self.maxActiveCount_ else none

/-- Source function MixPorts::MixPort::getPreferredUsage; nothing stands for the failed
assertion. -/
def MixPorts.MixPort.getPreferredUsage (self : MixPorts.MixPort) : Option (List AudioUsage) :=
  if self.hasPreferredUsage then self.preferredUsage_ else none

/-- Source function MixPorts::getMixPort. -/
def MixPorts.getMixPort (self : MixPorts) : List MixPorts.MixPort :=
  self.mixPort_

/-- Source function MixPorts::getFirstMixPort; nothing stands for the null pointer. -/
def MixPorts.getFirstMixPort (self : MixPorts) : Option MixPorts.MixPort :=
  if self.mixPort_.isEmpty then none else self.mixPort_[0]?

/-- Source function DevicePorts::DevicePort::getProfile. -/
def DevicePorts.DevicePort.getProfile (self : DevicePorts.DevicePort) : List Profile :=
  self.profile_

/-- Source function DevicePorts::DevicePort::getFirstProfile; nothing stands for the null pointer. -/
def DevicePorts.DevicePort.getFirstProfile (self : DevicePorts.DevicePort) : Option Profile :=
  if self.profile_.isEmpty then none else self.profile_[0]?

/-- Source function DevicePorts::DevicePort::getGains. -/
def DevicePorts.DevicePort.getGains (self : DevicePorts.DevicePort) : List Gains :=
  self.gains_

/-- Source function DevicePorts::DevicePort::getFirstGains; nothing stands for the null pointer. -/
def DevicePorts.DevicePort.getFirstGains (self : DevicePorts.DevicePort) : Option Gains :=
  if self.gains_.isEmpty then none else self.gains_[0]?

/-- Source function DevicePorts::DevicePort::getTagName. -/
def DevicePorts.DevicePort.getTagName (self : DevicePorts.DevicePort) : String :=
  self.tagName_

/-- Source function DevicePorts::DevicePort::getType. -/
def DevicePorts.DevicePort.getType (self : DevicePorts.DevicePort) : String :=
  self.type_

/-- Source function DevicePorts::DevicePort::getRole. -/
def DevicePorts.DevicePort.getRole (self : DevicePorts.DevicePort) : Role :=
  self.role_

/-- Source function DevicePorts::DevicePort::getAddress; nothing stands for the failed
assertion. -/
def DevicePorts.DevicePort.getAddress (self : DevicePorts.DevicePort) : Option String :=
  if self.hasAddress then self.address_ else none

/-- Source function DevicePorts::DevicePort::get_default; nothing stands for the failed
assertion. -/
def DevicePorts.DevicePort.get_default (self : DevicePorts.DevicePort) : Option Bool :=
  if self.has_default then self._default_ else none

/-- Source function DevicePorts::DevicePort::getEncodedFormats; nothing stands for the failed
assertion. -/
def DevicePorts.DevicePort.getEncodedFormats (self : DevicePorts.DevicePort) : Option (List String) :=
  if self.hasEncodedFormats then self.encodedFormats_ else none

/-- Source function DevicePorts::getDevicePort. -/
def DevicePorts.getDevicePort (self : DevicePorts) : List DevicePorts.DevicePort :=
  self.devicePort_

/-- Source function DevicePorts::getFirstDevicePort; nothing stands for the null pointer. -/
def DevicePorts.getFirstDevicePort (self : DevicePorts) : Option DevicePorts.DevicePort :=
  if self.devicePort_.isEmpty then none else self.devicePort_[0]?

/-- Source function Routes::Route::getType. -/
def Routes.Route.getType (self : Routes.Route) : MixType :=
  self.type_

/-- Source function Routes::Route::getSink. -/
def Routes.Route.getSink (self : Routes.Route) : String :=
  self.sink_

/-- Source function Routes::Route::getSources. -/
def Routes.Route.getSources (self : Routes.Route) : String :=
  self.sources_

/-- Source function Routes::getRoute. -/
def Routes.getRoute (self : Routes) : List Routes.Route :=
  self.route_

/-- Source function Routes::getFirstRoute; nothing stands for the null pointer. -/
def Routes.getFirstRoute (self : Routes) : Option Routes.Route :=
  if self.route_.isEmpty then none else self.route_[0]?

/-- Source function AttachedDevices::getItem. -/
def AttachedDevices.getItem (self : AttachedDevices) : List String :=
  self.item_

/-- Source function AttachedDevices::getFirstItem; nothing stands for the null pointer. -/
def AttachedDevices.getFirstItem (self : AttachedDevices) : Option String :=
  if self.item_.isEmpty then none else self.item_[0]?

/-- Source function Modules::Module::getAttachedDevices. -/
def Modules.Module.getAttachedDevices (self : Modules.Module) : List AttachedDevices :=
  self.attachedDevices_

/-- Source function Modules::Module::getFirstAttachedDevices; nothing stands for the null pointer. -/
def Modules.Module.getFirstAttachedDevices (self : Modules.Module) : Option AttachedDevices :=
  if self.attachedDevices_.isEmpty then none else self.attachedDevices_[0]?

/-- Source function Modules::Module::getDefaultOutputDevice; nothing stands for the failed
assertion. -/
def Modules.Module.getDefaultOutputDevice (self : Modules.Module) : Option String :=
  if self.hasDefaultOutputDevice then self.defaultOutputDevice_ else none

/-- Source function Modules::Module::getMixPorts. -/
def Modules.Module.getMixPorts (self : Modules.Module) : List MixPorts :=
  self.mixPorts_

/-- Source function Modules::Module::getFirstMixPorts; nothing stands for the null pointer. -/
def Modules.Module.getFirstMixPorts (self : Modules.Module) : Option MixPorts :=
  if self.mixPorts_.isEmpty then none else self.mixPorts_[0]?

/-- Source function Modules::Module::getDevicePorts. -/
def Modules.Module.getDevicePorts (self : Modules.Module) : List DevicePorts :=
  self.devicePorts_

/-- Source function Modules::Module::getFirstDevicePorts; nothing stands for the null pointer. -/
def Modules.Module.getFirstDevicePorts (self : Modules.Module) : Option DevicePorts :=
  if self.devicePorts_.isEmpty then none else self.devicePorts_[0]?

/-- Source function Modules::Module::getRoutes. -/
def Modules.Module.getRoutes (self : Modules.Module) : List Routes :=
  self.routes_

/-- Source function Modules::Module::getFirstRoutes; nothing stands for the null pointer. -/
def Modules.Module.getFirstRoutes (self : Modules.Module) : Option Routes :=
  if self.routes_.isEmpty then none else self.routes_[0]?

/-- Source function Modules::Module::getName. -/
def Modules.Module.getName (self : Modules.Module) : String :=
  self.name_

/-- Source function Modules::Module::getHalVersion. -/
def Modules.Module.getHalVersion (self : Modules.Module) : HalVersion :=
  self.halVersion_

/-- Source function Modules::get_module. -/
def Modules.get_module (self : Modules) : List Modules.Module :=
  self._module_

/-- Source function Modules::getFirst_module; nothing stands for the null pointer. -/
def Modules.getFirst_module (self : Modules) : Option Modules.Module :=
  if self._module_.isEmpty then none else self._module_[0]?

/-- Source function Volume::getPoint. -/
def Volume.getPoint (self : Volume) : List String :=
  self.point_

/-- Source function Volume::getFirstPoint; nothing stands for the null pointer. -/
def Volume.getFirstPoint (self : Volume) : Option String :=
  if self.point_.isEmpty then none else self.point_[0]?

/-- Source function Volume::getStream; nothing stands for the failed
assertion. -/
def Volume.getStream (self : Volume) : Option AudioStreamType :=
  if self.hasStream then self.stream_ else none

/-- Source function Volume::getDeviceCategory; nothing stands for the failed
assertion. -/
def Volume.getDeviceCategory (self : Volume) : Option DeviceCategory :=
  if self.hasDeviceCategory then self.deviceCategory_ else none

/-- Source function Volume::getRef; nothing stands for the failed
assertion. -/
def Volume.getRef (self : Volume) : Option String :=
  if self.hasRef then self.ref_ else none

/-- Source function Reference::getPoint. -/
def Reference.getPoint (self : Reference) : List String :=
  self.point_

/-- Source function Reference::getFirstPoint; nothing stands for the null pointer. -/
def Reference.getFirstPoint (self : Reference) : Option String :=
  if self.point_.isEmpty then none else self.point_[0]?

/-- Source function Reference::getName. -/
def Reference.getName (self : Reference) : String :=
  self.name_

/-- Source function Volumes::getVolume. -/
def Volumes.getVolume (self : Volumes) : List Volume :=
  self.volume_

/-- Source function Volumes::getFirstVolume; nothing stands for the null pointer. -/
def Volumes.getFirstVolume (self : Volumes) : Option Volume :=
  if self.volume_.isEmpty then none else self.volume_[0]?

/-- Source function Volumes::getReference. -/
def Volumes.getReference (self : Volumes) : List Reference :=
  self.reference_

/-- Source function Volumes::getFirstReference; nothing stands for the null pointer. -/
def Volumes.getFirstReference (self : Volumes) : Option Reference :=
  if self.reference_.isEmpty then none else self.reference_[0]?

/-- Source function SurroundFormats::Format::getName. -/
def SurroundFormats.Format.getName (self : SurroundFormats.Format) : String :=
  self.name_

/-- Source function SurroundFormats::Format::getSubformats; nothing stands for the failed
assertion. -/
def SurroundFormats.Format.getSubformats (self : SurroundFormats.Format) : Option (List String) :=
  if self.hasSubformats then self.subformats_ else none

/-- Source function SurroundFormats::getFormat. -/
def SurroundFormats.getFormat (self : SurroundFormats) : List SurroundFormats.Format :=
  self.format_

/-- Source function SurroundFormats::getFirstFormat; nothing stands for the null pointer. -/
def SurroundFormats.getFirstFormat (self : SurroundFormats) : Option SurroundFormats.Format :=
  if self.format_.isEmpty then none else self.format_[0]?

/-- Source function SurroundSound::getFormats. -/
def SurroundSound.getFormats (self : SurroundSound) : List SurroundFormats :=
  self.formats_

/-- Source function SurroundSound::getFirstFormats; nothing stands for the null pointer. -/
def SurroundSound.getFirstFormats (self : SurroundSound) : Option SurroundFormats :=
  if self.formats_.isEmpty then none else self.formats_[0]?

/-- Source function GlobalConfiguration::getSpeaker_drc_enabled. -/
def GlobalConfiguration.getSpeaker_drc_enabled (self : GlobalConfiguration) : Bool :=
  self.speaker_drc_enabled_

/-- Source function GlobalConfiguration::getCall_screen_mode_supported; nothing stands for the failed
assertion. -/
def GlobalConfiguration.getCall_screen_mode_supported (self : GlobalConfiguration) : Option Bool :=
  if self.hasCall_screen_mode_supported then self.call_screen_mode_supported_ else none

/-- Source function GlobalConfiguration::getEngine_library; nothing stands for the failed
assertion. -/
def GlobalConfiguration.getEngine_library (self : GlobalConfiguration) : Option EngineSuffix :=
  if self.hasEngine_library then self.engine_library_ else none

/-- Source function AudioPolicyConfiguration::getGlobalConfiguration. -/
def AudioPolicyConfiguration.getGlobalConfiguration (self : AudioPolicyConfiguration) : List GlobalConfiguration :=
  self.globalConfiguration_

/-- Source function AudioPolicyConfiguration::getFirstGlobalConfiguration; nothing stands for the null pointer. -/
def AudioPolicyConfiguration.getFirstGlobalConfiguration (self : AudioPolicyConfiguration) : Option GlobalConfiguration :=
  if self.globalConfiguration_.isEmpty then none else self.globalConfiguration_[0]?

/-- Source function AudioPolicyConfiguration::getModules. -/
def AudioPolicyConfiguration.getModules (self : AudioPolicyConfiguration) : List Modules :=
  self.modules_

/-- Source function AudioPolicyConfiguration::getFirstModules; nothing stands for the null pointer. -/
def AudioPolicyConfiguration.getFirstModules (self : AudioPolicyConfiguration) : Option Modules :=
  if self.modules_.isEmpty then none else self.modules_[0]?

/-- Source function AudioPolicyConfiguration::getVolumes. -/
def AudioPolicyConfiguration.getVolumes (self : AudioPolicyConfiguration) : List Volumes :=
  self.volumes_

/-- Source function AudioPolicyConfiguration::getFirstVolumes; nothing stands for the null pointer. -/
def AudioPolicyConfiguration.getFirstVolumes (self : AudioPolicyConfiguration) : Option Volumes :=
  if self.volumes_.isEmpty then none else self.volumes_[0]?

/-- Source function AudioPolicyConfiguration::getSurroundSound. -/
def AudioPolicyConfiguration.getSurroundSound (self : AudioPolicyConfiguration) : List SurroundSound :=
  self.surroundSound_

/-- Source function AudioPolicyConfiguration::getFirstSurroundSound; nothing stands for the null pointer. -/
def AudioPolicyConfiguration.getFirstSurroundSound (self : AudioPolicyConfiguration) : Option SurroundSound :=
  if self.surroundSound_.isEmpty then none else self.surroundSound_[0]?

/-- Source function AudioPolicyConfiguration::getVersion; nothing stands for the failed
assertion. -/
def AudioPolicyConfiguration.getVersion (self : AudioPolicyConfiguration) : Option Version :=
  if self.hasVersion then self.version_ else none

/-! ## The audio policy readers -/

/-- Source function GlobalConfiguration::read. -/
def GlobalConfiguration.read (root : XmlNode) : Except CppException GlobalConfiguration := do
  let _raw := getXmlAttribute root "speaker_drc_enabled"
  let speaker_drc_enabled : Bool := if _raw ≠ "" then decide (_raw = "true") else false
  let _raw := getXmlAttribute root "call_screen_mode_supported"
  let call_screen_mode_supported : Option Bool :=
    if _raw ≠ "" then some (decide (_raw = "true")) else none
  let _raw := getXmlAttribute root "engine_library"
  let engine_library : Option EngineSuffix :=
    if _raw ≠ "" then some (stringToEngineSuffix _raw) else none
  pure (GlobalConfiguration.mk speaker_drc_enabled call_screen_mode_supported engine_library)

/-- Source function Profile::read. -/
def Profile.read (root : XmlNode) : Except CppException Profile := do
  let _raw := getXmlAttribute root "name"
  let name : Option String := if _raw ≠ "" then some _raw else none
  let _raw := getXmlAttribute root "format"
  let format : Option String := if _raw ≠ "" then some _raw else none
  let _raw := getXmlAttribute root "samplingRates"
  let samplingRates : Option (List Int) ←
    (if _raw ≠ "" then some <$> (istringstream_tokens _raw).mapM stoll else pure none)
  let _raw := getXmlAttribute root "channelMasks"
  let channelMasks : Option (List AudioChannelMask) :=
    if _raw ≠ "" then some ((istringstream_tokens _raw).map stringToAudioChannelMask) else none
  let _raw := getXmlAttribute root "encapsulationType"
  let encapsulationType : Option AudioEncapsulationType :=
    if _raw ≠ "" then some (stringToAudioEncapsulationType _raw) else none
  pure (Profile.mk name format samplingRates channelMasks encapsulationType)

/-- Source function Gains::Gain::read. -/
def Gains.Gain.read (root : XmlNode) : Except CppException Gains.Gain := do
  let _raw := getXmlAttribute root "name"
  let name : String := if _raw ≠ "" then _raw else ""
  let _raw := getXmlAttribute root "mode"
  let mode : List AudioGainMode :=
    if _raw ≠ "" then (istringstream_tokens _raw).map stringToAudioGainMode else []
  let _raw := getXmlAttribute root "channel_mask"
  let channel_mask : Option AudioChannelMask :=
    if _raw ≠ "" then some (stringToAudioChannelMask _raw) else none
  let _raw := getXmlAttribute root "minValueMB"
  let minValueMB : Option Int ← (if _raw ≠ "" then some <$> stoi _raw else pure none)
  let _raw := getXmlAttribute root "maxValueMB"
  let maxValueMB : Option Int ← (if _raw ≠ "" then some <$> stoi _raw else pure none)
  let _raw := getXmlAttribute root "defaultValueMB"
  let defaultValueMB : Option Int ← (if _raw ≠ "" then some <$> stoi _raw else pure none)
  let _raw := getXmlAttribute root "stepValueMB"
  let stepValueMB : Option Int ← (if _raw ≠ "" then some <$> stoi _raw else pure none)
  let _raw := getXmlAttribute root "minRampMs"
  let minRampMs : Option Int ← (if _raw ≠ "" then some <$> stoi _raw else pure none)
  let _raw := getXmlAttribute root "maxRampMs"
  let maxRampMs : Option Int ← (if _raw ≠ "" then some <$> stoi _raw else pure none)
  let _raw := getXmlAttribute root "useForVolume"
  let useForVolume : Option Bool := if _raw ≠ "" then some (decide (_raw = "true")) else none
  pure (Gains.Gain.mk name mode channel_mask minValueMB maxValueMB defaultValueMB stepValueMB
    minRampMs maxRampMs useForVolume)

/-- Source function Gains::read. -/
def Gains.read (root : XmlNode) : Except CppException Gains := do
  let gain ← root.xmlChildrenNode.foldlM
    (fun (gain : List Gains.Gain) (_child : XmlNode) =>
      if _child.name = "gain" then do
        let _value ← Gains.Gain.read _child
        pure (gain ++ [_value])
      else pure gain)
    []
  pure (Gains.mk gain)

/-- Source function MixPorts::MixPort::read. -/
def MixPorts.MixPort.read (root : XmlNode) : Except CppException MixPorts.MixPort := do
  let _raw := getXmlAttribute root "name"
  let name : String := if _raw ≠ "" then _raw else ""
  let _raw := getXmlAttribute root "role"
  let role : Role := if _raw ≠ "" then stringToRole _raw else Role.UNKNOWN
  let _raw := getXmlAttribute root "flags"
  let flags : Option (List AudioInOutFlag) :=
    if _raw ≠ "" then some ((istringstream_tokens _raw).map stringToAudioInOutFlag) else none
  let _raw := getXmlAttribute root "maxOpenCount"
  let maxOpenCount : Option Nat ←
    (if _raw ≠ "" then (fun v => some (static_cast_unsigned_int v)) <$> stoul _raw else pure none)
  let _raw := getXmlAttribute root "maxActiveCount"
  let maxActiveCount : Option Nat ←
    (if _raw ≠ "" then (fun v => some (static_cast_unsigned_int v)) <$> stoul _raw else pure none)
  let _raw := getXmlAttribute root "preferredUsage"
  let preferredUsage : Option (List AudioUsage) :=
    if _raw ≠ "" then some ((istringstream_tokens _raw).map stringToAudioUsage) else none
  let (profile, gains) ← root.xmlChildrenNode.foldlM
    (fun (st : List Profile × List Gains) (_child : XmlNode) =>
      if _child.name = "profile" then do
        let _value ← Profile.read _child
        pure (st.1 ++ [_value], st.2)
      else if _child.name = "gains" then do
        let _value ← Gains.read _child
        pure (st.1, st.2 ++ [_value])
      else pure st)
    ([], [])
  pure (MixPorts.MixPort.mk profile gains name role flags maxOpenCount maxActiveCount
    preferredUsage)

/-- Source function MixPorts::read. -/
def MixPorts.read (root : XmlNode) : Except CppException MixPorts := do
  let mixPort ← root.xmlChildrenNode.foldlM
    (fun (mixPort : List MixPorts.MixPort) (_child : XmlNode) =>
      if _child.name = "mixPort" then do
        let _value ← MixPorts.MixPort.read _child
        pure (mixPort ++ [_value])
      else pure mixPort)
    []
  pure (MixPorts.mk mixPort)

/-- Source function DevicePorts::DevicePort::read. -/
def DevicePorts.DevicePort.read (root : XmlNode) :
    Except CppException DevicePorts.DevicePort := do
  let _raw := getXmlAttribute root "tagName"
  let tagName : String := if _raw ≠ "" then _raw else ""
  let _raw := getXmlAttribute root "type"
  let type : String := if _raw ≠ "" then _raw else ""
  let _raw := getXmlAttribute root "role"
  let role : Role := if _raw ≠ "" then stringToRole _raw else Role.UNKNOWN
  let _raw := getXmlAttribute root "address"
  let address : Option String := if _raw ≠ "" then some _raw else none
  let _raw := getXmlAttribute root "default"
  let _default : Option Bool := if _raw ≠ "" then some (decide (_raw = "true")) else none
  let _raw := getXmlAttribute root "encodedFormats"
  let encodedFormats : Option (List String) :=
    if _raw ≠ "" then some (istringstream_tokens _raw) else none
  let (profile, gains) ← root.xmlChildrenNode.foldlM
    (fun (st : List Profile × List Gains) (_child : XmlNode) =>
      if _child.name = "profile" then do
        let _value ← Profile.read _child
        pure (st.1 ++ [_value], st.2)
      else if _child.name = "gains" then do
        let _value ← Gains.read _child
        pure (st.1, st.2 ++ [_value])
      else pure st)
    ([], [])
  pure (DevicePorts.DevicePort.mk profile gains tagName type role address _default
    encodedFormats)

/-- Source function DevicePorts::read. -/
def DevicePorts.read (root : XmlNode) : Except CppException DevicePorts := do
  let devicePort ← root.xmlChildrenNode.foldlM
    (fun (devicePort : List DevicePorts.DevicePort) (_child : XmlNode) =>
      if _child.name = "devicePort" then do
        let _value ← DevicePorts.DevicePort.read _child
        pure (devicePort ++ [_value])
      else pure devicePort)
    []
  pure (DevicePorts.mk devicePort)

/-- Source function Routes::Route::read. -/
def Routes.Route.read (root : XmlNode) : Except CppException Routes.Route := do
  let _raw := getXmlAttribute root "type"
  let type : MixType := if _raw ≠ "" then stringToMixType _raw else MixType.UNKNOWN
  let _raw := getXmlAttribute root "sink"
  let sink : String := if _raw ≠ "" then _raw else ""
  let _raw := getXmlAttribute root "sources"
  let sources : String := if _raw ≠ "" then _raw else ""
  pure (Routes.Route.mk type sink sources)

/-- Source function Routes::read. -/
def Routes.read (root : XmlNode) : Except CppException Routes := do
  let route ← root.xmlChildrenNode.foldlM
    (fun (route : List Routes.Route) (_child : XmlNode) =>
      if _child.name = "route" then do
        let _value ← Routes.Route.read _child
        pure (route ++ [_value])
      else pure route)
    []
  pure (Routes.mk route)

/-- Source function AttachedDevices::read. -/
def AttachedDevices.read (root : XmlNode) : Except CppException AttachedDevices := do
  let item ← root.xmlChildrenNode.foldlM
    (fun (item : List String) (_child : XmlNode) =>
      if _child.name = "item" then
        pure (item ++ [childText _child])
      else pure item)
    []
  pure (AttachedDevices.mk item)

/-- The local variables the loop of Modules::Module::read updates. -/
structure Modules.Module.Locals where
  attachedDevices : List AttachedDevices
  defaultOutputDevice : Option String
  mixPorts : List MixPorts
  devicePorts : List DevicePorts
  routes : List Routes

/-- Source function Modules::Module::read. -/
def Modules.Module.read (root : XmlNode) : Except CppException Modules.Module := do
  let _raw := getXmlAttribute root "name"
  let name : String := if _raw ≠ "" then _raw else ""
  let _raw := getXmlAttribute root "halVersion"
  let halVersion : HalVersion := if _raw ≠ "" then stringToHalVersion _raw else HalVersion.UNKNOWN
  let st ← root.xmlChildrenNode.foldlM
    (fun (st : Modules.Module.Locals) (_child : XmlNode) =>
      if _child.name = "attachedDevices" then do
        let _value ← AttachedDevices.read _child
        pure { st with attachedDevices := st.attachedDevices ++ [_value] }
      else if _child.name = "defaultOutputDevice" then
        pure { st with defaultOutputDevice := some (childText _child) }
      else if _child.name = "mixPorts" then do
        let _value ← MixPorts.read _child
        pure { st with mixPorts := st.mixPorts ++ [_value] }
      else if _child.name = "devicePorts" then do
        let _value ← DevicePorts.read _child
        pure { st with devicePorts := st.devicePorts ++ [_value] }
      else if _child.name = "routes" then do
        let _value ← Routes.read _child
        pure { st with routes := st.routes ++ [_value] }
      else pure st)
    (Modules.Module.Locals.mk [] none [] [] [])
  pure (Modules.Module.mk st.attachedDevices st.defaultOutputDevice st.mixPorts st.devicePorts
    st.routes name halVersion)

/-- Source function Modules::read. -/
def Modules.read (root : XmlNode) : Except CppException Modules := do
  let _module ← root.xmlChildrenNode.foldlM
    (fun (_module : List Modules.Module) (_child : XmlNode) =>
      if _child.name = "module" then do
        let _value ← Modules.Module.read _child
        pure (_module ++ [_value])
      else pure _module)
    []
  pure (Modules.mk _module)

/-- Source function Volume::read. -/
def Volume.read (root : XmlNode) : Except CppException Volume := do
  let _raw := getXmlAttribute root "stream"
  let stream : Option AudioStreamType :=
    if _raw ≠ "" then some (stringToAudioStreamType _raw) else none
  let _raw := getXmlAttribute root "deviceCategory"
  let deviceCategory : Option DeviceCategory :=
    if _raw ≠ "" then some (stringToDeviceCategory _raw) else none
  let _raw := getXmlAttribute root "ref"
  let ref : Option String := if _raw ≠ "" then some _raw else none
  let point ← root.xmlChildrenNode.foldlM
    (fun (point : List String) (_child : XmlNode) =>
      if _child.name = "point" then
        pure (point ++ [childText _child])
      else pure point)
    []
  pure (Volume.mk point stream deviceCategory ref)

/-- Source function Reference::read. -/
def Reference.read (root : XmlNode) : Except CppException Reference := do
  let _raw := getXmlAttribute root "name"
  let name : String := if _raw ≠ "" then _raw else ""
  let point ← root.xmlChildrenNode.foldlM
    (fun (point : List String) (_child : XmlNode) =>
      if _child.name = "point" then
        pure (point ++ [childText _child])
      else pure point)
    []
  pure (Reference.mk point name)

/-- Source function Volumes::read. -/
def Volumes.read (root : XmlNode) : Except CppException Volumes := do
  let (volume, reference) ← root.xmlChildrenNode.foldlM
    (fun (st : List Volume × List Reference) (_child : XmlNode) =>
      if _child.name = "volume" then do
        let _value ← Volume.read _child
        pure (st.1 ++ [_value], st.2)
      else if _child.name = "reference" then do
        let _value ← Reference.read _child
        pure (st.1, st.2 ++ [_value])
      else pure st)
    ([], [])
  pure (Volumes.mk volume reference)

/-- Source function SurroundFormats::Format::read. -/
def SurroundFormats.Format.read (root : XmlNode) :
    Except CppException SurroundFormats.Format := do
  let _raw := getXmlAttribute root "name"
  let name : String := if _raw ≠ "" then _raw else ""
  let _raw := getXmlAttribute root "subformats"
  let subformats : Option (List String) :=
    if _raw ≠ "" then some (istringstream_tokens _raw) else none
  pure (SurroundFormats.Format.mk name subformats)

/-- Source function SurroundFormats::read. -/
def SurroundFormats.read (root : XmlNode) : Except CppException SurroundFormats := do
  let format ← root.xmlChildrenNode.foldlM
    (fun (format : List SurroundFormats.Format) (_child : XmlNode) =>
      if _child.name = "format" then do
        let _value ← SurroundFormats.Format.read _child
        pure (format ++ [_value])
      else pure format)
    []
  pure (SurroundFormats.mk format)

/-- Source function SurroundSound::read. -/
def SurroundSound.read (root : XmlNode) : Except CppException SurroundSound := do
  let formats ← root.xmlChildrenNode.foldlM
    (fun (formats : List SurroundFormats) (_child : XmlNode) =>
      if _child.name = "formats" then do
        let _value ← SurroundFormats.read _child
        pure (formats ++ [_value])
      else pure formats)
    []
  pure (SurroundSound.mk formats)

/-- The local variables the loop of AudioPolicyConfiguration::read updates. -/
structure AudioPolicyConfiguration.Locals where
  globalConfiguration : List GlobalConfiguration
  modules : List Modules
  volumes : List Volumes
  surroundSound : List SurroundSound

/-- Source function AudioPolicyConfiguration::read. -/
def AudioPolicyConfiguration.read (root : XmlNode) :
    Except CppException AudioPolicyConfiguration := do
  let _raw := getXmlAttribute root "version"
  let version : Option Version := if _raw ≠ "" then some (stringToVersion _raw) else none
  let st ← root.xmlChildrenNode.foldlM
    (fun (st : AudioPolicyConfiguration.Locals) (_child : XmlNode) =>
      if _child.name = "globalConfiguration" then do
        let _value ← GlobalConfiguration.read _child
        pure { st with globalConfiguration := st.globalConfiguration ++ [_value] }
      else if _child.name = "modules" then do
        let _value ← Modules.read _child
        pure { st with modules := st.modules ++ [_value] }
      else if _child.name = "volumes" then do
        let _value ← Volumes.read _child
        pure { st with volumes := st.volumes ++ [_value] }
      else if _child.name = "surroundSound" then do
        let _value ← SurroundSound.read _child
        pure { st with surroundSound := st.surroundSound ++ [_value] }
      else pure st)
    (AudioPolicyConfiguration.Locals.mk [] [] [] [])
  pure (AudioPolicyConfiguration.mk st.globalConfiguration st.modules st.volumes
    st.surroundSound version)

/-- Source function read (the driver reading a file). -/
def read (lib : XmlBackend) (configFile : String) :
    Except CppException (Option AudioPolicyConfiguration) :=
  match lib.xmlParseFile configFile with
  | none => pure none
  | some doc =>
    match doc.xmlDocGetRootElement with
    | none => pure none
    | some _child =>
      if (lib.xmlXIncludeProcess _child).1 < 0 then pure none
      else if (lib.xmlXIncludeProcess _child).2.name = "audioPolicyConfiguration" then do
        let _value ← AudioPolicyConfiguration.read (lib.xmlXIncludeProcess _child).2
        pure (some _value)
      else pure none

/-- Source function parse (the driver parsing a text). -/
def parse (lib : XmlBackend) (xml : String) :
    Except CppException (Option AudioPolicyConfiguration) :=
  match lib.xmlParseDoc xml with
  | none => pure none
  | some doc =>
    match doc.xmlDocGetRootElement with
    | none => pure none
    | some _child =>
      if (lib.xmlXIncludeProcess _child).1 < 0 then pure none
      else if (lib.xmlXIncludeProcess _child).2.name = "audioPolicyConfiguration" then do
        let _value ← AudioPolicyConfiguration.read (lib.xmlXIncludeProcess _child).2
        pure (some _value)
      else pure none

end V7_0

/-! ## The apex bindings (`com_android_apex.cpp`) -/

namespace apex

/-- Record `ApexInfo`, fields in the order of the class declaration and of the constructor. -/
structure ApexInfo where
  moduleName_ : String
  modulePath_ : String
  preinstalledModulePath_ : Option String
  versionCode_ : Int
  versionName_ : String
  isFactory_ : Bool
  isActive_ : Bool
  lastUpdateMillis_ : Option Int
  provideSharedApexLibs_ : Bool
deriving DecidableEq

/-- Record `ApexInfoList`. -/
structure ApexInfoList where
  apexInfo_ : List ApexInfo
deriving DecidableEq

/-- Source function ApexInfoList::getApexInfo. -/
def ApexInfoList.getApexInfo (self : ApexInfoList) : List ApexInfo :=
  self.apexInfo_

/-- Source function ApexInfoList::hasApexInfo. -/
def ApexInfoList.hasApexInfo (self : ApexInfoList) : Bool :=
  !(self.apexInfo_.isEmpty)

/-- Source function ApexInfoList::getFirstApexInfo; nothing stands for the null pointer. -/
def ApexInfoList.getFirstApexInfo (self : ApexInfoList) : Option ApexInfo :=
  if self.apexInfo_.isEmpty then none else self.apexInfo_[0]?

/-- Source function ApexInfo::getModuleName. -/
def ApexInfo.getModuleName (self : ApexInfo) : String :=
  self.moduleName_

/-- Source function ApexInfo::hasModuleName. -/
def ApexInfo.hasModuleName (_self : ApexInfo) : Bool :=
  true

/-- Source function ApexInfo::getModulePath. -/
def ApexInfo.getModulePath (self : ApexInfo) : String :=
  self.modulePath_

/-- Source function ApexInfo::hasModulePath. -/
def ApexInfo.hasModulePath (_self : ApexInfo) : Bool :=
  true

/-- Source function ApexInfo::hasPreinstalledModulePath. -/
def ApexInfo.hasPreinstalledModulePath (self : ApexInfo) : Bool :=
  self.preinstalledModulePath_.isSome

/-- Source function ApexInfo::getPreinstalledModulePath; nothing stands for the failed
assertion. -/
def ApexInfo.getPreinstalledModulePath (self : ApexInfo) : Option String :=
  if self.hasPreinstalledModulePath then self.preinstalledModulePath_ else none

/-- Source function ApexInfo::getVersionCode. -/
def ApexInfo.getVersionCode (self : ApexInfo) : Int :=
  self.versionCode_

/-- Source function ApexInfo::hasVersionCode. -/
def ApexInfo.hasVersionCode (_self : ApexInfo) : Bool :=
  true

/-- Source function ApexInfo::getVersionName. -/
def ApexInfo.getVersionName (self : ApexInfo) : String :=
  self.versionName_

/-- Source function ApexInfo::hasVersionName. -/
def ApexInfo.hasVersionName (_self : ApexInfo) : Bool :=
  true

/-- Source function ApexInfo::getIsFactory. -/
def ApexInfo.getIsFactory (self : ApexInfo) : Bool :=
  self.isFactory_

/-- Source function ApexInfo::hasIsFactory. -/
def ApexInfo.hasIsFactory (_self : ApexInfo) : Bool :=
  true

/-- Source function ApexInfo::getIsActive. -/
def ApexInfo.getIsActive (self : ApexInfo) : Bool :=
  self.isActive_

/-- Source function ApexInfo::hasIsActive. -/
def ApexInfo.hasIsActive (_self : ApexInfo) : Bool :=
  true

/-- Source function ApexInfo::hasLastUpdateMillis. -/
def ApexInfo.hasLastUpdateMillis (self : ApexInfo) : Bool :=
  self.lastUpdateMillis_.isSome

/-- Source function ApexInfo::getLastUpdateMillis; nothing stands for the failed assertion. -/
def ApexInfo.getLastUpdateMillis (self : ApexInfo) : Option Int :=
  if self.hasLastUpdateMillis then self.lastUpdateMillis_ else none

/-- Source function ApexInfo::getProvideSharedApexLibs. -/
def ApexInfo.getProvideSharedApexLibs (self : ApexInfo) : Bool :=
  self.provideSharedApexLibs_

/-- Source function ApexInfo::hasProvideSharedApexLibs. -/
def ApexInfo.hasProvideSharedApexLibs (_self : ApexInfo) : Bool :=
  true

/-- Source function ApexInfo::read. -/
def ApexInfo.read (root : XmlNode) : Except CppException ApexInfo := do
  let _raw := getXmlAttribute root "moduleName"
  let moduleName : String := if _raw ≠ "" then _raw else ""
  let _raw := getXmlAttribute root "modulePath"
  let modulePath : String := if _raw ≠ "" then _raw else ""
  let _raw := getXmlAttribute root "preinstalledModulePath"
  let preinstalledModulePath : Option String := if _raw ≠ "" then some _raw else none
  let _raw := getXmlAttribute root "versionCode"
  let versionCode : Int ← (if _raw ≠ "" then stoll _raw else pure 0)
  let _raw := getXmlAttribute root "versionName"
  let versionName : String := if _raw ≠ "" then _raw else ""
  let _raw := getXmlAttribute root "isFactory"
  let isFactory : Bool := if _raw ≠ "" then decide (_raw = "true") else false
  let _raw := getXmlAttribute root "isActive"
  let isActive : Bool := if _raw ≠ "" then decide (_raw = "true") else false
  let _raw := getXmlAttribute root "lastUpdateMillis"
  let lastUpdateMillis : Option Int ← (if _raw ≠ "" then some <$> stoll _raw else pure none)
  let _raw := getXmlAttribute root "provideSharedApexLibs"
  let provideSharedApexLibs : Bool := if _raw ≠ "" then decide (_raw = "true") else false
  pure (ApexInfo.mk moduleName modulePath preinstalledModulePath versionCode versionName
    isFactory isActive lastUpdateMillis provideSharedApexLibs)

/-- Source function ApexInfoList::read: the loop over the children of the element, appending to
the local vector `apexInfo`. -/
def ApexInfoList.read (root : XmlNode) : Except CppException ApexInfoList := do
  let apexInfo ← root.xmlChildrenNode.foldlM
    (fun (apexInfo : List ApexInfo) (_child : XmlNode) =>
      if _child.name = "apex-info" then do
        let _value ← ApexInfo.read _child
        pure (apexInfo ++ [_value])
      else pure apexInfo)
    []
  pure (ApexInfoList.mk apexInfo)

/-- Source function readApexInfoList. -/
def readApexInfoList (lib : XmlBackend) (configFile : String) :
    Except CppException (Option ApexInfoList) :=
  match lib.xmlParseFile configFile with
  | none => pure none
  | some doc =>
    match doc.xmlDocGetRootElement with
    | none => pure none
    | some _child =>
      if (lib.xmlXIncludeProcess _child).1 < 0 then pure none
      else if (lib.xmlXIncludeProcess _child).2.name = "apex-info-list" then do
        let _value ← ApexInfoList.read (lib.xmlXIncludeProcess _child).2
        pure (some _value)
      else pure none

/-- Source function parseApexInfoList. -/
def parseApexInfoList (lib : XmlBackend) (xml : String) :
    Except CppException (Option ApexInfoList) :=
  match lib.xmlParseDoc xml with
  | none => pure none
  | some doc =>
    match doc.xmlDocGetRootElement with
    | none => pure none
    | some _child =>
      if (lib.xmlXIncludeProcess _child).1 < 0 then pure none
      else if (lib.xmlXIncludeProcess _child).2.name = "apex-info-list" then do
        let _value ← ApexInfoList.read (lib.xmlXIncludeProcess _child).2
        pure (some _value)
      else pure none

/-- The state the writer works on: the text sent to the stream `_out` so far and the file-level
counter `indentIndex`. -/
structure Writer where
  _out : String
  indentIndex : Int
deriving DecidableEq

/-- Source function printIndent. -/
def printIndent (indentIndex : Int) : String :=
  String.join (List.replicate indentIndex.toNat "    ")

/-- Text of a boolean attribute in the writer. -/
def boolText (b : Bool) : String :=
  if b then "true" else "false"

/-- Text `operator<<` sends for an `int64_t`. -/
def int64Text (i : Int) : String :=
  String.mk (decimalInt i)

/-- Source function ApexInfo::write. -/
def ApexInfo.write (self : ApexInfo) (w : Writer) (_name : String) : Writer :=
  let _out := w._out ++ printIndent w.indentIndex ++ "<" ++ _name
  let _out := if self.hasModuleName then
    _out ++ " moduleName=\"" ++ self.getModuleName ++ "\"" else _out
  let _out := if self.hasModulePath then
    _out ++ " modulePath=\"" ++ self.getModulePath ++ "\"" else _out
  let _out := if self.hasPreinstalledModulePath then
    (match self.getPreinstalledModulePath with
      | some v => _out ++ " preinstalledModulePath=\"" ++ v ++ "\""
      | none => _out)
    else _out
  let _out := if self.hasVersionCode then
    _out ++ " versionCode=\"" ++ int64Text self.getVersionCode ++ "\"" else _out
  let _out := if self.hasVersionName then
    _out ++ " versionName=\"" ++ self.getVersionName ++ "\"" else _out
  let _out := if self.hasIsFactory then
    _out ++ " isFactory=\"" ++ boolText self.getIsFactory ++ "\"" else _out
  let _out := if self.hasIsActive then
    _out ++ " isActive=\"" ++ boolText self.getIsActive ++ "\"" else _out
  let _out := if self.hasLastUpdateMillis then
    (match self.getLastUpdateMillis with
      | some v => _out ++ " lastUpdateMillis=\"" ++ int64Text v ++ "\""
      | none => _out)
    else _out
  let _out := if self.hasProvideSharedApexLibs then
    _out ++ " provideSharedApexLibs=\"" ++ boolText self.getProvideSharedApexLibs ++ "\""
    else _out
  let _out := _out ++ ">" ++ "\n"
  let indentIndex := w.indentIndex + 1
  let indentIndex := indentIndex - 1
  let _out := _out ++ printIndent indentIndex ++ "</" ++ _name ++ ">" ++ "\n"
  Writer.mk _out indentIndex

/-- Source function ApexInfoList::write. -/
def ApexInfoList.write (self : ApexInfoList) (w : Writer) (_name : String) : Writer :=
  let _out := w._out ++ printIndent w.indentIndex ++ "<" ++ _name
  let _out := _out ++ ">" ++ "\n"
  let w1 := self.getApexInfo.foldl (fun (st : Writer) (_value : ApexInfo) =>
    _value.write st "apex-info") (Writer.mk _out (w.indentIndex + 1))
  let indentIndex := w1.indentIndex - 1
  Writer.mk (w1._out ++ printIndent indentIndex ++ "</" ++ _name ++ ">" ++ "\n") indentIndex

/-- Source function write (the free function): the declaration line, then the root element. -/
def write (w : Writer) (apexInfoList : ApexInfoList) : Writer :=
  apexInfoList.write
    (Writer.mk (w._out ++ "<?xml version=\"1.0\" encoding=\"utf-8\"?>\n") w.indentIndex)
    "apex-info-list"

end apex

/-! ## The conversions to text on arbitrary enum values -/

/-- A C++ `switch` whose arms return: `arms` holds the case labels, each by its integer, with
the value its arm returns, in the order of the source.  The result is the value of the arm whose
label equals `o`, and nothing when no label does, in which case the `default` arm is taken. -/
def switchArm {α : Type} (arms : List (Int × α)) (o : Int) : Option α :=
  match arms with
  | [] => none
  | (label, value) :: rest => if o = label then some value else switchArm rest o

namespace V7_0

/-- Source function toString(Version) on an arbitrary value of the enum type.  A value of a C++
enum class is its underlying integer, and `static_cast<Version>(v)` makes values that are no
enumerator; `o` is the integer of the argument.  The arms are those of the switch, in its
order, each case label by its integer; the default arm gives
`std::to_string(static_cast<int>(o))`. -/
def Version.toStringOfValue (static_cast_int : Version → Int) (o : Int) : String :=
  match switchArm [
    (static_cast_int Version._7_0, "7.0") ] o with
  | some text => text
  | none => to_string o

/-- Source function toString(HalVersion) on an arbitrary value of the enum type.  A value of a C++
enum class is its underlying integer, and `static_cast<HalVersion>(v)` makes values that are no
enumerator; `o` is the integer of the argument.  The arms are those of the switch, in its
order, each case label by its integer; the default arm gives
`std::to_string(static_cast<int>(o))`. -/
def HalVersion.toStringOfValue (static_cast_int : HalVersion → Int) (o : Int) : String :=
  match switchArm [
    (static_cast_int HalVersion._2_0, "2.0"),
    (static_cast_int HalVersion._3_0, "3.0") ] o with
  | some text => text
  | none => to_string o

/-- Source function toString(AudioInOutFlag) on an arbitrary value of the enum type.  A value of a C++
enum class is its underlying integer, and `static_cast<AudioInOutFlag>(v)` makes values that are no
enumerator; `o` is the integer of the argument.  The arms are those of the switch, in its
order, each case label by its integer; the default arm gives
`std::to_string(static_cast<int>(o))`. -/
def AudioInOutFlag.toStringOfValue (static_cast_int : AudioInOutFlag → Int) (o : Int) : String :=
  match switchArm [
    (static_cast_int AudioInOutFlag.AUDIO_OUTPUT_FLAG_DIRECT, "AUDIO_OUTPUT_FLAG_DIRECT"),
    (static_cast_int AudioInOutFlag.AUDIO_OUTPUT_FLAG_PRIMARY, "AUDIO_OUTPUT_FLAG_PRIMARY"),
    (static_cast_int AudioInOutFlag.AUDIO_OUTPUT_FLAG_FAST, "AUDIO_OUTPUT_FLAG_FAST"),
    (static_cast_int AudioInOutFlag.AUDIO_OUTPUT_FLAG_DEEP_BUFFER, "AUDIO_OUTPUT_FLAG_DEEP_BUFFER"),
    (static_cast_int AudioInOutFlag.AUDIO_OUTPUT_FLAG_COMPRESS_OFFLOAD, "AUDIO_OUTPUT_FLAG_COMPRESS_OFFLOAD"),
    (static_cast_int AudioInOutFlag.AUDIO_OUTPUT_FLAG_NON_BLOCKING, "AUDIO_OUTPUT_FLAG_NON_BLOCKING"),
    (static_cast_int AudioInOutFlag.AUDIO_OUTPUT_FLAG_HW_AV_SYNC, "AUDIO_OUTPUT_FLAG_HW_AV_SYNC"),
    (static_cast_int AudioInOutFlag.AUDIO_OUTPUT_FLAG_TTS, "AUDIO_OUTPUT_FLAG_TTS"),
    (static_cast_int AudioInOutFlag.AUDIO_OUTPUT_FLAG_RAW, "AUDIO_OUTPUT_FLAG_RAW"),
    (static_cast_int AudioInOutFlag.AUDIO_OUTPUT_FLAG_SYNC, "AUDIO_OUTPUT_FLAG_SYNC"),
    (static_cast_int AudioInOutFlag.AUDIO_OUTPUT_FLAG_IEC958_NONAUDIO, "AUDIO_OUTPUT_FLAG_IEC958_NONAUDIO"),
    (static_cast_int AudioInOutFlag.AUDIO_OUTPUT_FLAG_DIRECT_PCM, "AUDIO_OUTPUT_FLAG_DIRECT_PCM"),
    (static_cast_int AudioInOutFlag.AUDIO_OUTPUT_FLAG_MMAP_NOIRQ, "AUDIO_OUTPUT_FLAG_MMAP_NOIRQ"),
    (static_cast_int AudioInOutFlag.AUDIO_OUTPUT_FLAG_VOIP_RX, "AUDIO_OUTPUT_FLAG_VOIP_RX"),
    (static_cast_int AudioInOutFlag.AUDIO_OUTPUT_FLAG_INCALL_MUSIC, "AUDIO_OUTPUT_FLAG_INCALL_MUSIC"),
    (static_cast_int AudioInOutFlag.AUDIO_OUTPUT_FLAG_GAPLESS_OFFLOAD, "AUDIO_OUTPUT_FLAG_GAPLESS_OFFLOAD"),
    (static_cast_int AudioInOutFlag.AUDIO_INPUT_FLAG_FAST, "AUDIO_INPUT_FLAG_FAST"),
    (static_cast_int AudioInOutFlag.AUDIO_INPUT_FLAG_HW_HOTWORD, "AUDIO_INPUT_FLAG_HW_HOTWORD"),
    (static_cast_int AudioInOutFlag.AUDIO_INPUT_FLAG_RAW, "AUDIO_INPUT_FLAG_RAW"),
    (static_cast_int AudioInOutFlag.AUDIO_INPUT_FLAG_SYNC, "AUDIO_INPUT_FLAG_SYNC"),
    (static_cast_int AudioInOutFlag.AUDIO_INPUT_FLAG_MMAP_NOIRQ, "AUDIO_INPUT_FLAG_MMAP_NOIRQ"),
    (static_cast_int AudioInOutFlag.AUDIO_INPUT_FLAG_VOIP_TX, "AUDIO_INPUT_FLAG_VOIP_TX"),
    (static_cast_int AudioInOutFlag.AUDIO_INPUT_FLAG_HW_AV_SYNC, "AUDIO_INPUT_FLAG_HW_AV_SYNC"),
    (static_cast_int AudioInOutFlag.AUDIO_INPUT_FLAG_DIRECT, "AUDIO_INPUT_FLAG_DIRECT") ] o with
  | some text => text
  | none => to_string o

/-- Source function toString(Role) on an arbitrary value of the enum type.  A value of a C++
enum class is its underlying integer, and `static_cast<Role>(v)` makes values that are no
enumerator; `o` is the integer of the argument.  The arms are those of the switch, in its
order, each case label by its integer; the default arm gives
`std::to_string(static_cast<int>(o))`. -/
def Role.toStringOfValue (static_cast_int : Role → Int) (o : Int) : String :=
  match switchArm [
    (static_cast_int Role.sink, "sink"),
    (static_cast_int Role.source, "source") ] o with
  | some text => text
  | none => to_string o

/-- Source function toString(AudioDevice) on an arbitrary value of the enum type.  A value of a C++
enum class is its underlying integer, and `static_cast<AudioDevice>(v)` makes values that are no
enumerator; `o` is the integer of the argument.  The arms are those of the switch, in its
order, each case label by its integer; the default arm gives
`std::to_string(static_cast<int>(o))`. -/
def AudioDevice.toStringOfValue (static_cast_int : AudioDevice → Int) (o : Int) : String :=
  match switchArm [
    (static_cast_int AudioDevice.AUDIO_DEVICE_NONE, "AUDIO_DEVICE_NONE"),
    (static_cast_int AudioDevice.AUDIO_DEVICE_OUT_EARPIECE, "AUDIO_DEVICE_OUT_EARPIECE"),
    (static_cast_int AudioDevice.AUDIO_DEVICE_OUT_SPEAKER, "AUDIO_DEVICE_OUT_SPEAKER"),
    (static_cast_int AudioDevice.AUDIO_DEVICE_OUT_WIRED_HEADSET, "AUDIO_DEVICE_OUT_WIRED_HEADSET"),
    (static_cast_int AudioDevice.AUDIO_DEVICE_OUT_WIRED_HEADPHONE, "AUDIO_DEVICE_OUT_WIRED_HEADPHONE"),
    (static_cast_int AudioDevice.AUDIO_DEVICE_OUT_BLUETOOTH_SCO, "AUDIO_DEVICE_OUT_BLUETOOTH_SCO"),
    (static_cast_int AudioDevice.AUDIO_DEVICE_OUT_BLUETOOTH_SCO_HEADSET, "AUDIO_DEVICE_OUT_BLUETOOTH_SCO_HEADSET"),
    (static_cast_int AudioDevice.AUDIO_DEVICE_OUT_BLUETOOTH_SCO_CARKIT, "AUDIO_DEVICE_OUT_BLUETOOTH_SCO_CARKIT"),
    (static_cast_int AudioDevice.AUDIO_DEVICE_OUT_BLUETOOTH_A2DP, "AUDIO_DEVICE_OUT_BLUETOOTH_A2DP"),
    (static_cast_int AudioDevice.AUDIO_DEVICE_OUT_BLUETOOTH_A2DP_HEADPHONES, "AUDIO_DEVICE_OUT_BLUETOOTH_A2DP_HEADPHONES"),
    (static_cast_int AudioDevice.AUDIO_DEVICE_OUT_BLUETOOTH_A2DP_SPEAKER, "AUDIO_DEVICE_OUT_BLUETOOTH_A2DP_SPEAKER"),
    (static_cast_int AudioDevice.AUDIO_DEVICE_OUT_HDMI, "AUDIO_DEVICE_OUT_HDMI"),
    (static_cast_int AudioDevice.AUDIO_DEVICE_OUT_HDMI_EARC, "AUDIO_DEVICE_OUT_HDMI_EARC"),
    (static_cast_int AudioDevice.AUDIO_DEVICE_OUT_AUX_DIGITAL, "AUDIO_DEVICE_OUT_AUX_DIGITAL"),
    (static_cast_int AudioDevice.AUDIO_DEVICE_OUT_ANLG_DOCK_HEADSET, "AUDIO_DEVICE_OUT_ANLG_DOCK_HEADSET"),
    (static_cast_int AudioDevice.AUDIO_DEVICE_OUT_DGTL_DOCK_HEADSET, "AUDIO_DEVICE_OUT_DGTL_DOCK_HEADSET"),
    (static_cast_int AudioDevice.AUDIO_DEVICE_OUT_USB_ACCESSORY, "AUDIO_DEVICE_OUT_USB_ACCESSORY"),
    (static_cast_int AudioDevice.AUDIO_DEVICE_OUT_USB_DEVICE, "AUDIO_DEVICE_OUT_USB_DEVICE"),
    (static_cast_int AudioDevice.AUDIO_DEVICE_OUT_REMOTE_SUBMIX, "AUDIO_DEVICE_OUT_REMOTE_SUBMIX"),
    (static_cast_int AudioDevice.AUDIO_DEVICE_OUT_TELEPHONY_TX, "AUDIO_DEVICE_OUT_TELEPHONY_TX"),
    (static_cast_int AudioDevice.AUDIO_DEVICE_OUT_LINE, "AUDIO_DEVICE_OUT_LINE"),
    (static_cast_int AudioDevice.AUDIO_DEVICE_OUT_HDMI_ARC, "AUDIO_DEVICE_OUT_HDMI_ARC"),
    (static_cast_int AudioDevice.AUDIO_DEVICE_OUT_SPDIF, "AUDIO_DEVICE_OUT_SPDIF"),
    (static_cast_int AudioDevice.AUDIO_DEVICE_OUT_FM, "AUDIO_DEVICE_OUT_FM"),
    (static_cast_int AudioDevice.AUDIO_DEVICE_OUT_AUX_LINE, "AUDIO_DEVICE_OUT_AUX_LINE"),
    (static_cast_int AudioDevice.AUDIO_DEVICE_OUT_SPEAKER_SAFE, "AUDIO_DEVICE_OUT_SPEAKER_SAFE"),
    (static_cast_int AudioDevice.AUDIO_DEVICE_OUT_IP, "AUDIO_DEVICE_OUT_IP"),
    (static_cast_int AudioDevice.AUDIO_DEVICE_OUT_BUS, "AUDIO_DEVICE_OUT_BUS"),
    (static_cast_int AudioDevice.AUDIO_DEVICE_OUT_PROXY, "AUDIO_DEVICE_OUT_PROXY"),
    (static_cast_int AudioDevice.AUDIO_DEVICE_OUT_USB_HEADSET, "AUDIO_DEVICE_OUT_USB_HEADSET"),
    (static_cast_int AudioDevice.AUDIO_DEVICE_OUT_HEARING_AID, "AUDIO_DEVICE_OUT_HEARING_AID"),
    (static_cast_int AudioDevice.AUDIO_DEVICE_OUT_ECHO_CANCELLER, "AUDIO_DEVICE_OUT_ECHO_CANCELLER"),
    (static_cast_int AudioDevice.AUDIO_DEVICE_OUT_BLE_HEADSET, "AUDIO_DEVICE_OUT_BLE_HEADSET"),
    (static_cast_int AudioDevice.AUDIO_DEVICE_OUT_BLE_SPEAKER, "AUDIO_DEVICE_OUT_BLE_SPEAKER"),
    (static_cast_int AudioDevice.AUDIO_DEVICE_OUT_DEFAULT, "AUDIO_DEVICE_OUT_DEFAULT"),
    (static_cast_int AudioDevice.AUDIO_DEVICE_OUT_STUB, "AUDIO_DEVICE_OUT_STUB"),
    (static_cast_int AudioDevice.AUDIO_DEVICE_IN_COMMUNICATION, "AUDIO_DEVICE_IN_COMMUNICATION"),
    (static_cast_int AudioDevice.AUDIO_DEVICE_IN_AMBIENT, "AUDIO_DEVICE_IN_AMBIENT"),
    (static_cast_int AudioDevice.AUDIO_DEVICE_IN_BUILTIN_MIC, "AUDIO_DEVICE_IN_BUILTIN_MIC"),
    (static_cast_int AudioDevice.AUDIO_DEVICE_IN_BLUETOOTH_SCO_HEADSET, "AUDIO_DEVICE_IN_BLUETOOTH_SCO_HEADSET"),
    (static_cast_int AudioDevice.AUDIO_DEVICE_IN_WIRED_HEADSET, "AUDIO_DEVICE_IN_WIRED_HEADSET"),
    (static_cast_int AudioDevice.AUDIO_DEVICE_IN_HDMI, "AUDIO_DEVICE_IN_HDMI"),
    (static_cast_int AudioDevice.AUDIO_DEVICE_IN_AUX_DIGITAL, "AUDIO_DEVICE_IN_AUX_DIGITAL"),
    (static_cast_int AudioDevice.AUDIO_DEVICE_IN_VOICE_CALL, "AUDIO_DEVICE_IN_VOICE_CALL"),
    (static_cast_int AudioDevice.AUDIO_DEVICE_IN_TELEPHONY_RX, "AUDIO_DEVICE_IN_TELEPHONY_RX"),
    (static_cast_int AudioDevice.AUDIO_DEVICE_IN_BACK_MIC, "AUDIO_DEVICE_IN_BACK_MIC"),
    (static_cast_int AudioDevice.AUDIO_DEVICE_IN_REMOTE_SUBMIX, "AUDIO_DEVICE_IN_REMOTE_SUBMIX"),
    (static_cast_int AudioDevice.AUDIO_DEVICE_IN_ANLG_DOCK_HEADSET, "AUDIO_DEVICE_IN_ANLG_DOCK_HEADSET"),
    (static_cast_int AudioDevice.AUDIO_DEVICE_IN_DGTL_DOCK_HEADSET, "AUDIO_DEVICE_IN_DGTL_DOCK_HEADSET"),
    (static_cast_int AudioDevice.AUDIO_DEVICE_IN_USB_ACCESSORY, "AUDIO_DEVICE_IN_USB_ACCESSORY"),
    (static_cast_int AudioDevice.AUDIO_DEVICE_IN_USB_DEVICE, "AUDIO_DEVICE_IN_USB_DEVICE"),
    (static_cast_int AudioDevice.AUDIO_DEVICE_IN_FM_TUNER, "AUDIO_DEVICE_IN_FM_TUNER"),
    (static_cast_int AudioDevice.AUDIO_DEVICE_IN_TV_TUNER, "AUDIO_DEVICE_IN_TV_TUNER"),
    (static_cast_int AudioDevice.AUDIO_DEVICE_IN_LINE, "AUDIO_DEVICE_IN_LINE"),
    (static_cast_int AudioDevice.AUDIO_DEVICE_IN_SPDIF, "AUDIO_DEVICE_IN_SPDIF"),
    (static_cast_int AudioDevice.AUDIO_DEVICE_IN_BLUETOOTH_A2DP, "AUDIO_DEVICE_IN_BLUETOOTH_A2DP"),
    (static_cast_int AudioDevice.AUDIO_DEVICE_IN_LOOPBACK, "AUDIO_DEVICE_IN_LOOPBACK"),
    (static_cast_int AudioDevice.AUDIO_DEVICE_IN_IP, "AUDIO_DEVICE_IN_IP"),
    (static_cast_int AudioDevice.AUDIO_DEVICE_IN_BUS, "AUDIO_DEVICE_IN_BUS"),
    (static_cast_int AudioDevice.AUDIO_DEVICE_IN_PROXY, "AUDIO_DEVICE_IN_PROXY"),
    (static_cast_int AudioDevice.AUDIO_DEVICE_IN_USB_HEADSET, "AUDIO_DEVICE_IN_USB_HEADSET"),
    (static_cast_int AudioDevice.AUDIO_DEVICE_IN_BLUETOOTH_BLE, "AUDIO_DEVICE_IN_BLUETOOTH_BLE"),
    (static_cast_int AudioDevice.AUDIO_DEVICE_IN_HDMI_ARC, "AUDIO_DEVICE_IN_HDMI_ARC"),
    (static_cast_int AudioDevice.AUDIO_DEVICE_IN_HDMI_EARC, "AUDIO_DEVICE_IN_HDMI_EARC"),
    (static_cast_int AudioDevice.AUDIO_DEVICE_IN_ECHO_REFERENCE, "AUDIO_DEVICE_IN_ECHO_REFERENCE"),
    (static_cast_int AudioDevice.AUDIO_DEVICE_IN_BLE_HEADSET, "AUDIO_DEVICE_IN_BLE_HEADSET"),
    (static_cast_int AudioDevice.AUDIO_DEVICE_IN_DEFAULT, "AUDIO_DEVICE_IN_DEFAULT"),
    (static_cast_int AudioDevice.AUDIO_DEVICE_IN_STUB, "AUDIO_DEVICE_IN_STUB") ] o with
  | some text => text
  | none => to_string o

/-- Source function toString(AudioFormat) on an arbitrary value of the enum type.  A value of a C++
enum class is its underlying integer, and `static_cast<AudioFormat>(v)` makes values that are no
enumerator; `o` is the integer of the argument.  The arms are those of the switch, in its
order, each case label by its integer; the default arm gives
`std::to_string(static_cast<int>(o))`. -/
def AudioFormat.toStringOfValue (static_cast_int : AudioFormat → Int) (o : Int) : String :=
  match switchArm [
    (static_cast_int AudioFormat.AUDIO_FORMAT_DEFAULT, "AUDIO_FORMAT_DEFAULT"),
    (static_cast_int AudioFormat.AUDIO_FORMAT_PCM_16_BIT, "AUDIO_FORMAT_PCM_16_BIT"),
    (static_cast_int AudioFormat.AUDIO_FORMAT_PCM_8_BIT, "AUDIO_FORMAT_PCM_8_BIT"),
    (static_cast_int AudioFormat.AUDIO_FORMAT_PCM_32_BIT, "AUDIO_FORMAT_PCM_32_BIT"),
    (static_cast_int AudioFormat.AUDIO_FORMAT_PCM_8_24_BIT, "AUDIO_FORMAT_PCM_8_24_BIT"),
    (static_cast_int AudioFormat.AUDIO_FORMAT_PCM_FLOAT, "AUDIO_FORMAT_PCM_FLOAT"),
    (static_cast_int AudioFormat.AUDIO_FORMAT_PCM_24_BIT_PACKED, "AUDIO_FORMAT_PCM_24_BIT_PACKED"),
    (static_cast_int AudioFormat.AUDIO_FORMAT_MP3, "AUDIO_FORMAT_MP3"),
    (static_cast_int AudioFormat.AUDIO_FORMAT_AMR_NB, "AUDIO_FORMAT_AMR_NB"),
    (static_cast_int AudioFormat.AUDIO_FORMAT_AMR_WB, "AUDIO_FORMAT_AMR_WB"),
    (static_cast_int AudioFormat.AUDIO_FORMAT_AAC, "AUDIO_FORMAT_AAC"),
    (static_cast_int AudioFormat.AUDIO_FORMAT_AAC_MAIN, "AUDIO_FORMAT_AAC_MAIN"),
    (static_cast_int AudioFormat.AUDIO_FORMAT_AAC_LC, "AUDIO_FORMAT_AAC_LC"),
    (static_cast_int AudioFormat.AUDIO_FORMAT_AAC_SSR, "AUDIO_FORMAT_AAC_SSR"),
    (static_cast_int AudioFormat.AUDIO_FORMAT_AAC_LTP, "AUDIO_FORMAT_AAC_LTP"),
    (static_cast_int AudioFormat.AUDIO_FORMAT_AAC_HE_V1, "AUDIO_FORMAT_AAC_HE_V1"),
    (static_cast_int AudioFormat.AUDIO_FORMAT_AAC_SCALABLE, "AUDIO_FORMAT_AAC_SCALABLE"),
    (static_cast_int AudioFormat.AUDIO_FORMAT_AAC_ERLC, "AUDIO_FORMAT_AAC_ERLC"),
    (static_cast_int AudioFormat.AUDIO_FORMAT_AAC_LD, "AUDIO_FORMAT_AAC_LD"),
    (static_cast_int AudioFormat.AUDIO_FORMAT_AAC_HE_V2, "AUDIO_FORMAT_AAC_HE_V2"),
    (static_cast_int AudioFormat.AUDIO_FORMAT_AAC_ELD, "AUDIO_FORMAT_AAC_ELD"),
    (static_cast_int AudioFormat.AUDIO_FORMAT_AAC_XHE, "AUDIO_FORMAT_AAC_XHE"),
    (static_cast_int AudioFormat.AUDIO_FORMAT_HE_AAC_V1, "AUDIO_FORMAT_HE_AAC_V1"),
    (static_cast_int AudioFormat.AUDIO_FORMAT_HE_AAC_V2, "AUDIO_FORMAT_HE_AAC_V2"),
    (static_cast_int AudioFormat.AUDIO_FORMAT_VORBIS, "AUDIO_FORMAT_VORBIS"),
    (static_cast_int AudioFormat.AUDIO_FORMAT_OPUS, "AUDIO_FORMAT_OPUS"),
    (static_cast_int AudioFormat.AUDIO_FORMAT_AC3, "AUDIO_FORMAT_AC3"),
    (static_cast_int AudioFormat.AUDIO_FORMAT_E_AC3, "AUDIO_FORMAT_E_AC3"),
    (static_cast_int AudioFormat.AUDIO_FORMAT_E_AC3_JOC, "AUDIO_FORMAT_E_AC3_JOC"),
    (static_cast_int AudioFormat.AUDIO_FORMAT_DTS, "AUDIO_FORMAT_DTS"),
    (static_cast_int AudioFormat.AUDIO_FORMAT_DTS_HD, "AUDIO_FORMAT_DTS_HD"),
    (static_cast_int AudioFormat.AUDIO_FORMAT_IEC61937, "AUDIO_FORMAT_IEC61937"),
    (static_cast_int AudioFormat.AUDIO_FORMAT_DOLBY_TRUEHD, "AUDIO_FORMAT_DOLBY_TRUEHD"),
    (static_cast_int AudioFormat.AUDIO_FORMAT_EVRC, "AUDIO_FORMAT_EVRC"),
    (static_cast_int AudioFormat.AUDIO_FORMAT_EVRCB, "AUDIO_FORMAT_EVRCB"),
    (static_cast_int AudioFormat.AUDIO_FORMAT_EVRCWB, "AUDIO_FORMAT_EVRCWB"),
    (static_cast_int AudioFormat.AUDIO_FORMAT_EVRCNW, "AUDIO_FORMAT_EVRCNW"),
    (static_cast_int AudioFormat.AUDIO_FORMAT_AAC_ADIF, "AUDIO_FORMAT_AAC_ADIF"),
    (static_cast_int AudioFormat.AUDIO_FORMAT_WMA, "AUDIO_FORMAT_WMA"),
    (static_cast_int AudioFormat.AUDIO_FORMAT_WMA_PRO, "AUDIO_FORMAT_WMA_PRO"),
    (static_cast_int AudioFormat.AUDIO_FORMAT_AMR_WB_PLUS, "AUDIO_FORMAT_AMR_WB_PLUS"),
    (static_cast_int AudioFormat.AUDIO_FORMAT_MP2, "AUDIO_FORMAT_MP2"),
    (static_cast_int AudioFormat.AUDIO_FORMAT_QCELP, "AUDIO_FORMAT_QCELP"),
    (static_cast_int AudioFormat.AUDIO_FORMAT_DSD, "AUDIO_FORMAT_DSD"),
    (static_cast_int AudioFormat.AUDIO_FORMAT_FLAC, "AUDIO_FORMAT_FLAC"),
    (static_cast_int AudioFormat.AUDIO_FORMAT_ALAC, "AUDIO_FORMAT_ALAC"),
    (static_cast_int AudioFormat.AUDIO_FORMAT_APE, "AUDIO_FORMAT_APE"),
    (static_cast_int AudioFormat.AUDIO_FORMAT_AAC_ADTS, "AUDIO_FORMAT_AAC_ADTS"),
    (static_cast_int AudioFormat.AUDIO_FORMAT_AAC_ADTS_MAIN, "AUDIO_FORMAT_AAC_ADTS_MAIN"),
    (static_cast_int AudioFormat.AUDIO_FORMAT_AAC_ADTS_LC, "AUDIO_FORMAT_AAC_ADTS_LC"),
    (static_cast_int AudioFormat.AUDIO_FORMAT_AAC_ADTS_SSR, "AUDIO_FORMAT_AAC_ADTS_SSR"),
    (static_cast_int AudioFormat.AUDIO_FORMAT_AAC_ADTS_LTP, "AUDIO_FORMAT_AAC_ADTS_LTP"),
    (static_cast_int AudioFormat.AUDIO_FORMAT_AAC_ADTS_HE_V1, "AUDIO_FORMAT_AAC_ADTS_HE_V1"),
    (static_cast_int AudioFormat.AUDIO_FORMAT_AAC_ADTS_SCALABLE, "AUDIO_FORMAT_AAC_ADTS_SCALABLE"),
    (static_cast_int AudioFormat.AUDIO_FORMAT_AAC_ADTS_ERLC, "AUDIO_FORMAT_AAC_ADTS_ERLC"),
    (static_cast_int AudioFormat.AUDIO_FORMAT_AAC_ADTS_LD, "AUDIO_FORMAT_AAC_ADTS_LD"),
    (static_cast_int AudioFormat.AUDIO_FORMAT_AAC_ADTS_HE_V2, "AUDIO_FORMAT_AAC_ADTS_HE_V2"),
    (static_cast_int AudioFormat.AUDIO_FORMAT_AAC_ADTS_ELD, "AUDIO_FORMAT_AAC_ADTS_ELD"),
    (static_cast_int AudioFormat.AUDIO_FORMAT_AAC_ADTS_XHE, "AUDIO_FORMAT_AAC_ADTS_XHE"),
    (static_cast_int AudioFormat.AUDIO_FORMAT_SBC, "AUDIO_FORMAT_SBC"),
    (static_cast_int AudioFormat.AUDIO_FORMAT_APTX, "AUDIO_FORMAT_APTX"),
    (static_cast_int AudioFormat.AUDIO_FORMAT_APTX_HD, "AUDIO_FORMAT_APTX_HD"),
    (static_cast_int AudioFormat.AUDIO_FORMAT_AC4, "AUDIO_FORMAT_AC4"),
    (static_cast_int AudioFormat.AUDIO_FORMAT_LDAC, "AUDIO_FORMAT_LDAC"),
    (static_cast_int AudioFormat.AUDIO_FORMAT_MAT, "AUDIO_FORMAT_MAT"),
    (static_cast_int AudioFormat.AUDIO_FORMAT_MAT_1_0, "AUDIO_FORMAT_MAT_1_0"),
    (static_cast_int AudioFormat.AUDIO_FORMAT_MAT_2_0, "AUDIO_FORMAT_MAT_2_0"),
    (static_cast_int AudioFormat.AUDIO_FORMAT_MAT_2_1, "AUDIO_FORMAT_MAT_2_1"),
    (static_cast_int AudioFormat.AUDIO_FORMAT_AAC_LATM, "AUDIO_FORMAT_AAC_LATM"),
    (static_cast_int AudioFormat.AUDIO_FORMAT_AAC_LATM_LC, "AUDIO_FORMAT_AAC_LATM_LC"),
    (static_cast_int AudioFormat.AUDIO_FORMAT_AAC_LATM_HE_V1, "AUDIO_FORMAT_AAC_LATM_HE_V1"),
    (static_cast_int AudioFormat.AUDIO_FORMAT_AAC_LATM_HE_V2, "AUDIO_FORMAT_AAC_LATM_HE_V2"),
    (static_cast_int AudioFormat.AUDIO_FORMAT_CELT, "AUDIO_FORMAT_CELT"),
    (static_cast_int AudioFormat.AUDIO_FORMAT_APTX_ADAPTIVE, "AUDIO_FORMAT_APTX_ADAPTIVE"),
    (static_cast_int AudioFormat.AUDIO_FORMAT_LHDC, "AUDIO_FORMAT_LHDC"),
    (static_cast_int AudioFormat.AUDIO_FORMAT_LHDC_LL, "AUDIO_FORMAT_LHDC_LL"),
    (static_cast_int AudioFormat.AUDIO_FORMAT_APTX_TWSP, "AUDIO_FORMAT_APTX_TWSP"),
    (static_cast_int AudioFormat.AUDIO_FORMAT_LC3, "AUDIO_FORMAT_LC3"),
    (static_cast_int AudioFormat.AUDIO_FORMAT_MPEGH_BL_L3, "AUDIO_FORMAT_MPEGH_BL_L3"),
    (static_cast_int AudioFormat.AUDIO_FORMAT_MPEGH_BL_L4, "AUDIO_FORMAT_MPEGH_BL_L4"),
    (static_cast_int AudioFormat.AUDIO_FORMAT_MPEGH_LC_L3, "AUDIO_FORMAT_MPEGH_LC_L3"),
    (static_cast_int AudioFormat.AUDIO_FORMAT_MPEGH_LC_L4, "AUDIO_FORMAT_MPEGH_LC_L4"),
    (static_cast_int AudioFormat.AUDIO_FORMAT_IEC60958, "AUDIO_FORMAT_IEC60958"),
    (static_cast_int AudioFormat.AUDIO_FORMAT_DTS_UHD, "AUDIO_FORMAT_DTS_UHD"),
    (static_cast_int AudioFormat.AUDIO_FORMAT_DRA, "AUDIO_FORMAT_DRA") ] o with
  | some text => text
  | none => to_string o

/-- Source function toString(AudioUsage) on an arbitrary value of the enum type.  A value of a C++
enum class is its underlying integer, and `static_cast<AudioUsage>(v)` makes values that are no
enumerator; `o` is the integer of the argument.  The arms are those of the switch, in its
order, each case label by its integer; the default arm gives
`std::to_string(static_cast<int>(o))`. -/
def AudioUsage.toStringOfValue (static_cast_int : AudioUsage → Int) (o : Int) : String :=
  match switchArm [
    (static_cast_int AudioUsage.AUDIO_USAGE_UNKNOWN, "AUDIO_USAGE_UNKNOWN"),
    (static_cast_int AudioUsage.AUDIO_USAGE_MEDIA, "AUDIO_USAGE_MEDIA"),
    (static_cast_int AudioUsage.AUDIO_USAGE_VOICE_COMMUNICATION, "AUDIO_USAGE_VOICE_COMMUNICATION"),
    (static_cast_int AudioUsage.AUDIO_USAGE_VOICE_COMMUNICATION_SIGNALLING, "AUDIO_USAGE_VOICE_COMMUNICATION_SIGNALLING"),
    (static_cast_int AudioUsage.AUDIO_USAGE_ALARM, "AUDIO_USAGE_ALARM"),
    (static_cast_int AudioUsage.AUDIO_USAGE_NOTIFICATION, "AUDIO_USAGE_NOTIFICATION"),
    (static_cast_int AudioUsage.AUDIO_USAGE_NOTIFICATION_TELEPHONY_RINGTONE, "AUDIO_USAGE_NOTIFICATION_TELEPHONY_RINGTONE"),
    (static_cast_int AudioUsage.AUDIO_USAGE_ASSISTANCE_ACCESSIBILITY, "AUDIO_USAGE_ASSISTANCE_ACCESSIBILITY"),
    (static_cast_int AudioUsage.AUDIO_USAGE_ASSISTANCE_NAVIGATION_GUIDANCE, "AUDIO_USAGE_ASSISTANCE_NAVIGATION_GUIDANCE"),
    (static_cast_int AudioUsage.AUDIO_USAGE_ASSISTANCE_SONIFICATION, "AUDIO_USAGE_ASSISTANCE_SONIFICATION"),
    (static_cast_int AudioUsage.AUDIO_USAGE_GAME, "AUDIO_USAGE_GAME"),
    (static_cast_int AudioUsage.AUDIO_USAGE_VIRTUAL_SOURCE, "AUDIO_USAGE_VIRTUAL_SOURCE"),
    (static_cast_int AudioUsage.AUDIO_USAGE_ASSISTANT, "AUDIO_USAGE_ASSISTANT"),
    (static_cast_int AudioUsage.AUDIO_USAGE_CALL_ASSISTANT, "AUDIO_USAGE_CALL_ASSISTANT"),
    (static_cast_int AudioUsage.AUDIO_USAGE_EMERGENCY, "AUDIO_USAGE_EMERGENCY"),
    (static_cast_int AudioUsage.AUDIO_USAGE_SAFETY, "AUDIO_USAGE_SAFETY"),
    (static_cast_int AudioUsage.AUDIO_USAGE_VEHICLE_STATUS, "AUDIO_USAGE_VEHICLE_STATUS"),
    (static_cast_int AudioUsage.AUDIO_USAGE_ANNOUNCEMENT, "AUDIO_USAGE_ANNOUNCEMENT") ] o with
  | some text => text
  | none => to_string o

/-- Source function toString(AudioContentType) on an arbitrary value of the enum type.  A value of a C++
enum class is its underlying integer, and `static_cast<AudioContentType>(v)` makes values that are no
enumerator; `o` is the integer of the argument.  The arms are those of the switch, in its
order, each case label by its integer; the default arm gives
`std::to_string(static_cast<int>(o))`. -/
def AudioContentType.toStringOfValue (static_cast_int : AudioContentType → Int) (o : Int) : String :=
  match switchArm [
    (static_cast_int AudioContentType.AUDIO_CONTENT_TYPE_UNKNOWN, "AUDIO_CONTENT_TYPE_UNKNOWN"),
    (static_cast_int AudioContentType.AUDIO_CONTENT_TYPE_SPEECH, "AUDIO_CONTENT_TYPE_SPEECH"),
    (static_cast_int AudioContentType.AUDIO_CONTENT_TYPE_MUSIC, "AUDIO_CONTENT_TYPE_MUSIC"),
    (static_cast_int AudioContentType.AUDIO_CONTENT_TYPE_MOVIE, "AUDIO_CONTENT_TYPE_MOVIE"),
    (static_cast_int AudioContentType.AUDIO_CONTENT_TYPE_SONIFICATION, "AUDIO_CONTENT_TYPE_SONIFICATION") ] o with
  | some text => text
  | none => to_string o

/-- Source function toString(AudioChannelMask) on an arbitrary value of the enum type.  A value of a C++
enum class is its underlying integer, and `static_cast<AudioChannelMask>(v)` makes values that are no
enumerator; `o` is the integer of the argument.  The arms are those of the switch, in its
order, each case label by its integer; the default arm gives
`std::to_string(static_cast<int>(o))`. -/
def AudioChannelMask.toStringOfValue (static_cast_int : AudioChannelMask → Int) (o : Int) : String :=
  match switchArm [
    (static_cast_int AudioChannelMask.AUDIO_CHANNEL_NONE, "AUDIO_CHANNEL_NONE"),
    (static_cast_int AudioChannelMask.AUDIO_CHANNEL_OUT_MONO, "AUDIO_CHANNEL_OUT_MONO"),
    (static_cast_int AudioChannelMask.AUDIO_CHANNEL_OUT_STEREO, "AUDIO_CHANNEL_OUT_STEREO"),
    (static_cast_int AudioChannelMask.AUDIO_CHANNEL_OUT_2POINT1, "AUDIO_CHANNEL_OUT_2POINT1"),
    (static_cast_int AudioChannelMask.AUDIO_CHANNEL_OUT_TRI, "AUDIO_CHANNEL_OUT_TRI"),
    (static_cast_int AudioChannelMask.AUDIO_CHANNEL_OUT_TRI_BACK, "AUDIO_CHANNEL_OUT_TRI_BACK"),
    (static_cast_int AudioChannelMask.AUDIO_CHANNEL_OUT_3POINT1, "AUDIO_CHANNEL_OUT_3POINT1"),
    (static_cast_int AudioChannelMask.AUDIO_CHANNEL_OUT_2POINT0POINT2, "AUDIO_CHANNEL_OUT_2POINT0POINT2"),
    (static_cast_int AudioChannelMask.AUDIO_CHANNEL_OUT_2POINT1POINT2, "AUDIO_CHANNEL_OUT_2POINT1POINT2"),
    (static_cast_int AudioChannelMask.AUDIO_CHANNEL_OUT_3POINT0POINT2, "AUDIO_CHANNEL_OUT_3POINT0POINT2"),
    (static_cast_int AudioChannelMask.AUDIO_CHANNEL_OUT_3POINT1POINT2, "AUDIO_CHANNEL_OUT_3POINT1POINT2"),
    (static_cast_int AudioChannelMask.AUDIO_CHANNEL_OUT_QUAD, "AUDIO_CHANNEL_OUT_QUAD"),
    (static_cast_int AudioChannelMask.AUDIO_CHANNEL_OUT_QUAD_BACK, "AUDIO_CHANNEL_OUT_QUAD_BACK"),
    (static_cast_int AudioChannelMask.AUDIO_CHANNEL_OUT_QUAD_SIDE, "AUDIO_CHANNEL_OUT_QUAD_SIDE"),
    (static_cast_int AudioChannelMask.AUDIO_CHANNEL_OUT_SURROUND, "AUDIO_CHANNEL_OUT_SURROUND"),
    (static_cast_int AudioChannelMask.AUDIO_CHANNEL_OUT_PENTA, "AUDIO_CHANNEL_OUT_PENTA"),
    (static_cast_int AudioChannelMask.AUDIO_CHANNEL_OUT_5POINT1, "AUDIO_CHANNEL_OUT_5POINT1"),
    (static_cast_int AudioChannelMask.AUDIO_CHANNEL_OUT_5POINT1_BACK, "AUDIO_CHANNEL_OUT_5POINT1_BACK"),
    (static_cast_int AudioChannelMask.AUDIO_CHANNEL_OUT_5POINT1_SIDE, "AUDIO_CHANNEL_OUT_5POINT1_SIDE"),
    (static_cast_int AudioChannelMask.AUDIO_CHANNEL_OUT_5POINT1POINT2, "AUDIO_CHANNEL_OUT_5POINT1POINT2"),
    (static_cast_int AudioChannelMask.AUDIO_CHANNEL_OUT_5POINT1POINT4, "AUDIO_CHANNEL_OUT_5POINT1POINT4"),
    (static_cast_int AudioChannelMask.AUDIO_CHANNEL_OUT_6POINT1, "AUDIO_CHANNEL_OUT_6POINT1"),
    (static_cast_int AudioChannelMask.AUDIO_CHANNEL_OUT_7POINT1, "AUDIO_CHANNEL_OUT_7POINT1"),
    (static_cast_int AudioChannelMask.AUDIO_CHANNEL_OUT_7POINT1POINT2, "AUDIO_CHANNEL_OUT_7POINT1POINT2"),
    (static_cast_int AudioChannelMask.AUDIO_CHANNEL_OUT_7POINT1POINT4, "AUDIO_CHANNEL_OUT_7POINT1POINT4"),
    (static_cast_int AudioChannelMask.AUDIO_CHANNEL_OUT_13POINT_360RA, "AUDIO_CHANNEL_OUT_13POINT_360RA"),
    (static_cast_int AudioChannelMask.AUDIO_CHANNEL_OUT_22POINT2, "AUDIO_CHANNEL_OUT_22POINT2"),
    (static_cast_int AudioChannelMask.AUDIO_CHANNEL_OUT_MONO_HAPTIC_A, "AUDIO_CHANNEL_OUT_MONO_HAPTIC_A"),
    (static_cast_int AudioChannelMask.AUDIO_CHANNEL_OUT_STEREO_HAPTIC_A, "AUDIO_CHANNEL_OUT_STEREO_HAPTIC_A"),
    (static_cast_int AudioChannelMask.AUDIO_CHANNEL_OUT_HAPTIC_AB, "AUDIO_CHANNEL_OUT_HAPTIC_AB"),
    (static_cast_int AudioChannelMask.AUDIO_CHANNEL_OUT_MONO_HAPTIC_AB, "AUDIO_CHANNEL_OUT_MONO_HAPTIC_AB"),
    (static_cast_int AudioChannelMask.AUDIO_CHANNEL_OUT_STEREO_HAPTIC_AB, "AUDIO_CHANNEL_OUT_STEREO_HAPTIC_AB"),
    (static_cast_int AudioChannelMask.AUDIO_CHANNEL_IN_MONO, "AUDIO_CHANNEL_IN_MONO"),
    (static_cast_int AudioChannelMask.AUDIO_CHANNEL_IN_STEREO, "AUDIO_CHANNEL_IN_STEREO"),
    (static_cast_int AudioChannelMask.AUDIO_CHANNEL_IN_FRONT_BACK, "AUDIO_CHANNEL_IN_FRONT_BACK"),
    (static_cast_int AudioChannelMask.AUDIO_CHANNEL_IN_6, "AUDIO_CHANNEL_IN_6"),
    (static_cast_int AudioChannelMask.AUDIO_CHANNEL_IN_2POINT0POINT2, "AUDIO_CHANNEL_IN_2POINT0POINT2"),
    (static_cast_int AudioChannelMask.AUDIO_CHANNEL_IN_2POINT1POINT2, "AUDIO_CHANNEL_IN_2POINT1POINT2"),
    (static_cast_int AudioChannelMask.AUDIO_CHANNEL_IN_3POINT0POINT2, "AUDIO_CHANNEL_IN_3POINT0POINT2"),
    (static_cast_int AudioChannelMask.AUDIO_CHANNEL_IN_3POINT1POINT2, "AUDIO_CHANNEL_IN_3POINT1POINT2"),
    (static_cast_int AudioChannelMask.AUDIO_CHANNEL_IN_5POINT1, "AUDIO_CHANNEL_IN_5POINT1"),
    (static_cast_int AudioChannelMask.AUDIO_CHANNEL_IN_VOICE_UPLINK_MONO, "AUDIO_CHANNEL_IN_VOICE_UPLINK_MONO"),
    (static_cast_int AudioChannelMask.AUDIO_CHANNEL_IN_VOICE_DNLINK_MONO, "AUDIO_CHANNEL_IN_VOICE_DNLINK_MONO"),
    (static_cast_int AudioChannelMask.AUDIO_CHANNEL_IN_VOICE_CALL_MONO, "AUDIO_CHANNEL_IN_VOICE_CALL_MONO"),
    (static_cast_int AudioChannelMask.AUDIO_CHANNEL_INDEX_MASK_1, "AUDIO_CHANNEL_INDEX_MASK_1"),
    (static_cast_int AudioChannelMask.AUDIO_CHANNEL_INDEX_MASK_2, "AUDIO_CHANNEL_INDEX_MASK_2"),
    (static_cast_int AudioChannelMask.AUDIO_CHANNEL_INDEX_MASK_3, "AUDIO_CHANNEL_INDEX_MASK_3"),
    (static_cast_int AudioChannelMask.AUDIO_CHANNEL_INDEX_MASK_4, "AUDIO_CHANNEL_INDEX_MASK_4"),
    (static_cast_int AudioChannelMask.AUDIO_CHANNEL_INDEX_MASK_5, "AUDIO_CHANNEL_INDEX_MASK_5"),
    (static_cast_int AudioChannelMask.AUDIO_CHANNEL_INDEX_MASK_6, "AUDIO_CHANNEL_INDEX_MASK_6"),
    (static_cast_int AudioChannelMask.AUDIO_CHANNEL_INDEX_MASK_7, "AUDIO_CHANNEL_INDEX_MASK_7"),
    (static_cast_int AudioChannelMask.AUDIO_CHANNEL_INDEX_MASK_8, "AUDIO_CHANNEL_INDEX_MASK_8"),
    (static_cast_int AudioChannelMask.AUDIO_CHANNEL_INDEX_MASK_9, "AUDIO_CHANNEL_INDEX_MASK_9"),
    (static_cast_int AudioChannelMask.AUDIO_CHANNEL_INDEX_MASK_10, "AUDIO_CHANNEL_INDEX_MASK_10"),
    (static_cast_int AudioChannelMask.AUDIO_CHANNEL_INDEX_MASK_11, "AUDIO_CHANNEL_INDEX_MASK_11"),
    (static_cast_int AudioChannelMask.AUDIO_CHANNEL_INDEX_MASK_12, "AUDIO_CHANNEL_INDEX_MASK_12"),
    (static_cast_int AudioChannelMask.AUDIO_CHANNEL_INDEX_MASK_13, "AUDIO_CHANNEL_INDEX_MASK_13"),
    (static_cast_int AudioChannelMask.AUDIO_CHANNEL_INDEX_MASK_14, "AUDIO_CHANNEL_INDEX_MASK_14"),
    (static_cast_int AudioChannelMask.AUDIO_CHANNEL_INDEX_MASK_15, "AUDIO_CHANNEL_INDEX_MASK_15"),
    (static_cast_int AudioChannelMask.AUDIO_CHANNEL_INDEX_MASK_16, "AUDIO_CHANNEL_INDEX_MASK_16"),
    (static_cast_int AudioChannelMask.AUDIO_CHANNEL_INDEX_MASK_17, "AUDIO_CHANNEL_INDEX_MASK_17"),
    (static_cast_int AudioChannelMask.AUDIO_CHANNEL_INDEX_MASK_18, "AUDIO_CHANNEL_INDEX_MASK_18"),
    (static_cast_int AudioChannelMask.AUDIO_CHANNEL_INDEX_MASK_19, "AUDIO_CHANNEL_INDEX_MASK_19"),
    (static_cast_int AudioChannelMask.AUDIO_CHANNEL_INDEX_MASK_20, "AUDIO_CHANNEL_INDEX_MASK_20"),
    (static_cast_int AudioChannelMask.AUDIO_CHANNEL_INDEX_MASK_21, "AUDIO_CHANNEL_INDEX_MASK_21"),
    (static_cast_int AudioChannelMask.AUDIO_CHANNEL_INDEX_MASK_22, "AUDIO_CHANNEL_INDEX_MASK_22"),
    (static_cast_int AudioChannelMask.AUDIO_CHANNEL_INDEX_MASK_23, "AUDIO_CHANNEL_INDEX_MASK_23"),
    (static_cast_int AudioChannelMask.AUDIO_CHANNEL_INDEX_MASK_24, "AUDIO_CHANNEL_INDEX_MASK_24") ] o with
  | some text => text
  | none => to_string o

/-- Source function toString(AudioEncapsulationType) on an arbitrary value of the enum type.  A value of a C++
enum class is its underlying integer, and `static_cast<AudioEncapsulationType>(v)` makes values that are no
enumerator; `o` is the integer of the argument.  The arms are those of the switch, in its
order, each case label by its integer; the default arm gives
`std::to_string(static_cast<int>(o))`. -/
def AudioEncapsulationType.toStringOfValue (static_cast_int : AudioEncapsulationType → Int) (o : Int) : String :=
  match switchArm [
    (static_cast_int AudioEncapsulationType.AUDIO_ENCAPSULATION_TYPE_NONE, "AUDIO_ENCAPSULATION_TYPE_NONE"),
    (static_cast_int AudioEncapsulationType.AUDIO_ENCAPSULATION_TYPE_IEC61937, "AUDIO_ENCAPSULATION_TYPE_IEC61937") ] o with
  | some text => text
  | none => to_string o

/-- Source function toString(AudioGainMode) on an arbitrary value of the enum type.  A value of a C++
enum class is its underlying integer, and `static_cast<AudioGainMode>(v)` makes values that are no
enumerator; `o` is the integer of the argument.  The arms are those of the switch, in its
order, each case label by its integer; the default arm gives
`std::to_string(static_cast<int>(o))`. -/
def AudioGainMode.toStringOfValue (static_cast_int : AudioGainMode → Int) (o : Int) : String :=
  match switchArm [
    (static_cast_int AudioGainMode.AUDIO_GAIN_MODE_JOINT, "AUDIO_GAIN_MODE_JOINT"),
    (static_cast_int AudioGainMode.AUDIO_GAIN_MODE_CHANNELS, "AUDIO_GAIN_MODE_CHANNELS"),
    (static_cast_int AudioGainMode.AUDIO_GAIN_MODE_RAMP, "AUDIO_GAIN_MODE_RAMP") ] o with
  | some text => text
  | none => to_string o

/-- Source function toString(MixType) on an arbitrary value of the enum type.  A value of a C++
enum class is its underlying integer, and `static_cast<MixType>(v)` makes values that are no
enumerator; `o` is the integer of the argument.  The arms are those of the switch, in its
order, each case label by its integer; the default arm gives
`std::to_string(static_cast<int>(o))`. -/
def MixType.toStringOfValue (static_cast_int : MixType → Int) (o : Int) : String :=
  match switchArm [
    (static_cast_int MixType.mix, "mix"),
    (static_cast_int MixType.mux, "mux") ] o with
  | some text => text
  | none => to_string o

/-- Source function toString(AudioStreamType) on an arbitrary value of the enum type.  A value of a C++
enum class is its underlying integer, and `static_cast<AudioStreamType>(v)` makes values that are no
enumerator; `o` is the integer of the argument.  The arms are those of the switch, in its
order, each case label by its integer; the default arm gives
`std::to_string(static_cast<int>(o))`. -/
def AudioStreamType.toStringOfValue (static_cast_int : AudioStreamType → Int) (o : Int) : String :=
  match switchArm [
    (static_cast_int AudioStreamType.AUDIO_STREAM_VOICE_CALL, "AUDIO_STREAM_VOICE_CALL"),
    (static_cast_int AudioStreamType.AUDIO_STREAM_SYSTEM, "AUDIO_STREAM_SYSTEM"),
    (static_cast_int AudioStreamType.AUDIO_STREAM_RING, "AUDIO_STREAM_RING"),
    (static_cast_int AudioStreamType.AUDIO_STREAM_MUSIC, "AUDIO_STREAM_MUSIC"),
    (static_cast_int AudioStreamType.AUDIO_STREAM_ALARM, "AUDIO_STREAM_ALARM"),
    (static_cast_int AudioStreamType.AUDIO_STREAM_NOTIFICATION, "AUDIO_STREAM_NOTIFICATION"),
    (static_cast_int AudioStreamType.AUDIO_STREAM_BLUETOOTH_SCO, "AUDIO_STREAM_BLUETOOTH_SCO"),
    (static_cast_int AudioStreamType.AUDIO_STREAM_ENFORCED_AUDIBLE, "AUDIO_STREAM_ENFORCED_AUDIBLE"),
    (static_cast_int AudioStreamType.AUDIO_STREAM_DTMF, "AUDIO_STREAM_DTMF"),
    (static_cast_int AudioStreamType.AUDIO_STREAM_TTS, "AUDIO_STREAM_TTS"),
    (static_cast_int AudioStreamType.AUDIO_STREAM_ACCESSIBILITY, "AUDIO_STREAM_ACCESSIBILITY"),
    (static_cast_int AudioStreamType.AUDIO_STREAM_ASSISTANT, "AUDIO_STREAM_ASSISTANT"),
    (static_cast_int AudioStreamType.AUDIO_STREAM_REROUTING, "AUDIO_STREAM_REROUTING"),
    (static_cast_int AudioStreamType.AUDIO_STREAM_PATCH, "AUDIO_STREAM_PATCH"),
    (static_cast_int AudioStreamType.AUDIO_STREAM_CALL_ASSISTANT, "AUDIO_STREAM_CALL_ASSISTANT") ] o with
  | some text => text
  | none => to_string o

/-- Source function toString(AudioSource) on an arbitrary value of the enum type.  A value of a C++
enum class is its underlying integer, and `static_cast<AudioSource>(v)` makes values that are no
enumerator; `o` is the integer of the argument.  The arms are those of the switch, in its
order, each case label by its integer; the default arm gives
`std::to_string(static_cast<int>(o))`. -/
def AudioSource.toStringOfValue (static_cast_int : AudioSource → Int) (o : Int) : String :=
  match switchArm [
    (static_cast_int AudioSource.AUDIO_SOURCE_DEFAULT, "AUDIO_SOURCE_DEFAULT"),
    (static_cast_int AudioSource.AUDIO_SOURCE_MIC, "AUDIO_SOURCE_MIC"),
    (static_cast_int AudioSource.AUDIO_SOURCE_VOICE_UPLINK, "AUDIO_SOURCE_VOICE_UPLINK"),
    (static_cast_int AudioSource.AUDIO_SOURCE_VOICE_DOWNLINK, "AUDIO_SOURCE_VOICE_DOWNLINK"),
    (static_cast_int AudioSource.AUDIO_SOURCE_VOICE_CALL, "AUDIO_SOURCE_VOICE_CALL"),
    (static_cast_int AudioSource.AUDIO_SOURCE_CAMCORDER, "AUDIO_SOURCE_CAMCORDER"),
    (static_cast_int AudioSource.AUDIO_SOURCE_VOICE_RECOGNITION, "AUDIO_SOURCE_VOICE_RECOGNITION"),
    (static_cast_int AudioSource.AUDIO_SOURCE_VOICE_COMMUNICATION, "AUDIO_SOURCE_VOICE_COMMUNICATION"),
    (static_cast_int AudioSource.AUDIO_SOURCE_REMOTE_SUBMIX, "AUDIO_SOURCE_REMOTE_SUBMIX"),
    (static_cast_int AudioSource.AUDIO_SOURCE_UNPROCESSED, "AUDIO_SOURCE_UNPROCESSED"),
    (static_cast_int AudioSource.AUDIO_SOURCE_VOICE_PERFORMANCE, "AUDIO_SOURCE_VOICE_PERFORMANCE"),
    (static_cast_int AudioSource.AUDIO_SOURCE_ECHO_REFERENCE, "AUDIO_SOURCE_ECHO_REFERENCE"),
    (static_cast_int AudioSource.AUDIO_SOURCE_FM_TUNER, "AUDIO_SOURCE_FM_TUNER"),
    (static_cast_int AudioSource.AUDIO_SOURCE_HOTWORD, "AUDIO_SOURCE_HOTWORD") ] o with
  | some text => text
  | none => to_string o

/-- Source function toString(DeviceCategory) on an arbitrary value of the enum type.  A value of a C++
enum class is its underlying integer, and `static_cast<DeviceCategory>(v)` makes values that are no
enumerator; `o` is the integer of the argument.  The arms are those of the switch, in its
order, each case label by its integer; the default arm gives
`std::to_string(static_cast<int>(o))`. -/
def DeviceCategory.toStringOfValue (static_cast_int : DeviceCategory → Int) (o : Int) : String :=
  match switchArm [
    (static_cast_int DeviceCategory.DEVICE_CATEGORY_HEADSET, "DEVICE_CATEGORY_HEADSET"),
    (static_cast_int DeviceCategory.DEVICE_CATEGORY_SPEAKER, "DEVICE_CATEGORY_SPEAKER"),
    (static_cast_int DeviceCategory.DEVICE_CATEGORY_EARPIECE, "DEVICE_CATEGORY_EARPIECE"),
    (static_cast_int DeviceCategory.DEVICE_CATEGORY_EXT_MEDIA, "DEVICE_CATEGORY_EXT_MEDIA"),
    (static_cast_int DeviceCategory.DEVICE_CATEGORY_HEARING_AID, "DEVICE_CATEGORY_HEARING_AID") ] o with
  | some text => text
  | none => to_string o

/-- Source function toString(EngineSuffix) on an arbitrary value of the enum type.  A value of a C++
enum class is its underlying integer, and `static_cast<EngineSuffix>(v)` makes values that are no
enumerator; `o` is the integer of the argument.  The arms are those of the switch, in its
order, each case label by its integer; the default arm gives
`std::to_string(static_cast<int>(o))`. -/
def EngineSuffix.toStringOfValue (static_cast_int : EngineSuffix → Int) (o : Int) : String :=
  match switchArm [
    (static_cast_int EngineSuffix._default, "default"),
    (static_cast_int EngineSuffix.configurable, "configurable") ] o with
  | some text => text
  | none => to_string o

end V7_0

/-! ## A model of the XML backend on text

The XML library is an external collaborator of the bindings.  To state what writing a record
tree and parsing the text again yields, the backend is modelled on the fragment of XML 1.0 the
writer produces and more: an optional XML declaration, elements with attributes in single or
double quotes, names of ASCII letters, digits, hyphen, full stop and underscore, character
data, comments, the predefined entities and character references.
Documents with a document type declaration, a processing instruction, a CDATA section, a
namespace prefix or a namespace declaration are outside the model, which rejects them, as it
rejects an XML declaration for another version than 1.0 or another encoding than UTF-8: what the
model accepts it reads as an XML 1.0 processor does, and it says nothing about the rest.  No
document of the fragment holds an element of the XInclude namespace. -/

namespace XmlText

/-- Production `S` of XML 1.0: space, tab, line feed, carriage return. -/
def isXmlSpace (c : Char) : Bool :=
  c = ' ' || c = '\t' || c = '\n' || c = '\r'

/-- Production `Char` of XML 1.0. -/
def isXmlChar (c : Char) : Bool :=
  c = '\t' || c = '\n' || c = '\r' || (0x20 ≤ c.toNat && c.toNat ≤ 0xD7FF) ||
  (0xE000 ≤ c.toNat && c.toNat ≤ 0xFFFD) || 0x10000 ≤ c.toNat

/-- First character of a name in the fragment: an ASCII letter or the underscore, without the
colon of namespace prefixes. -/
def isNameStartChar (c : Char) : Bool :=
  (65 ≤ c.toNat && c.toNat ≤ 90) || (97 ≤ c.toNat && c.toNat ≤ 122) || c = '_'

/-- Further characters of a name in the fragment: also the digits, the hyphen and the full
stop. -/
def isNameChar (c : Char) : Bool :=
  isNameStartChar c || (48 ≤ c.toNat && c.toNat ≤ 57) || c = '-' || c = '.'

/-- Production `Name`: the longest run of name characters, which must start with a name start
character; the result is the name and the rest of the input. -/
def parseName (s : List Char) : Option (String × List Char) :=
  match s with
  | [] => none
  | c :: _ =>
    if isNameStartChar c then some (String.mk (s.takeWhile isNameChar), s.dropWhile isNameChar)
    else none

/-- Value of a hexadecimal digit. -/
def hexDigit (c : Char) : Option Nat :=
  if 48 ≤ c.toNat && c.toNat ≤ 57 then some (c.toNat - 48)
  else if 97 ≤ c.toNat && c.toNat ≤ 102 then some (c.toNat - 87)
  else if 65 ≤ c.toNat && c.toNat ≤ 70 then some (c.toNat - 55)
  else none

/-- Value of a run of digits in the given base, nothing when a character is no digit of it. -/
def digitsIn (base : Nat) (acc : Nat) : List Char → Option Nat
  | [] => some acc
  | c :: cs =>
    match hexDigit c with
    | none => none
    | some d => if d < base then digitsIn base (base * acc + d) cs else none

/-- The character a reference stands for, from the text between `&` and `;`: one of the five
predefined entities or a character reference to a legal character. -/
def decodeReference (body : List Char) : Option Char :=
  match body with
  | ['l', 't'] => some '<'
  | ['g', 't'] => some '>'
  | ['a', 'm', 'p'] => some '&'
  | ['q', 'u', 'o', 't'] => some '"'
  | ['a', 'p', 'o', 's'] => some '\''
  | '#' :: 'x' :: d :: ds =>
    match digitsIn 16 0 (d :: ds) with
    | some n => if isXmlChar (Char.ofNat n) && n ≠ 0 then some (Char.ofNat n) else none
    | none => none
  | '#' :: d :: ds =>
    match digitsIn 10 0 (d :: ds) with
    | some n => if isXmlChar (Char.ofNat n) && n ≠ 0 then some (Char.ofNat n) else none
    | none => none
  | _ => none

/-- Production `AttValue` after its opening quote `q`, with attribute-value normalisation: the
value runs to the closing quote; `<` is not allowed; a reference (collected in `ref` between `&`
and `;`) is replaced by its character; a literal tab, line feed or carriage return becomes a
space (a carriage return before a line feed is dropped).  The result is the value and the input
after the closing quote. -/
def parseAttValue (q : Char) : Option (List Char) → List Char → Option (List Char × List Char)
  | _, [] => none
  | some ref, c :: cs =>
    if c = ';' then
      match decodeReference ref.reverse with
      | none => none
      | some ch =>
        match parseAttValue q none cs with
        | none => none
        | some (value, rest) => some (ch :: value, rest)
    else parseAttValue q (some (c :: ref)) cs
  | none, c :: cs =>
    if c = q then some ([], cs)
    else if c = '<' then none
    else if c = '&' then parseAttValue q (some []) cs
    else if !isXmlChar c then none
    else if c = '\r' && cs.head? = some '\n' then parseAttValue q none cs
    else
      match parseAttValue q none cs with
      | none => none
      | some (value, rest) => some ((if isXmlSpace c then ' ' else c) :: value, rest)

/-- Production `(S Attribute)* S?` of a start tag: the attributes in document order as name and
value pairs and the input from the `>` or `/` that ends the tag.  White space must precede an
attribute and no attribute name may appear twice.  An attribute named `xmlns` declares a
namespace and is outside the fragment. -/
def parseAttributes : Nat → List Char → Option (List (String × String) × List Char)
  | 0, _ => none
  | fuel + 1, s =>
    match s.dropWhile isXmlSpace with
    | [] => none
    | c :: s1 =>
      if c = '>' || c = '/' then some ([], c :: s1)
      else if (c :: s1).length = s.length then none
      else
        match parseName (c :: s1) with
        | none => none
        | some (name, s2) =>
          if name = "xmlns" then none
          else
          match s2.dropWhile isXmlSpace with
          | [] => none
          | e :: s3 =>
            if e = '=' then
              match s3.dropWhile isXmlSpace with
              | [] => none
              | q :: s4 =>
                if q = '"' || q = '\'' then
                  match parseAttValue q none s4 with
                  | none => none
                  | some (value, s5) =>
                    match parseAttributes fuel s5 with
                    | none => none
                    | some (rest, s6) =>
                      if rest.any (fun p => p.1 = name) then none
                      else some ((name, String.mk value) :: rest, s6)
                else none
            else none

/-- Production `CharData` with references: the text up to the next `<`, with the references
replaced and the line ends normalised; the literal sequence `]]>` is not allowed.  The result is
the text and the input from that `<` (or the empty input). -/
def parseCharData : Option (List Char) → List Char → Option (List Char × List Char)
  | some _, [] => none
  | none, [] => some ([], [])
  | some ref, c :: cs =>
    if c = ';' then
      match decodeReference ref.reverse with
      | none => none
      | some ch =>
        match parseCharData none cs with
        | none => none
        | some (text, rest) => some (ch :: text, rest)
    else parseCharData (some (c :: ref)) cs
  | none, c :: cs =>
    if c = '<' then some ([], c :: cs)
    else if c = '&' then parseCharData (some []) cs
    else if !isXmlChar c then none
    else if c = ']' && cs.take 2 = [']', '>'] then none
    else if c = '\r' && cs.head? = some '\n' then parseCharData none cs
    else
      match parseCharData none cs with
      | none => none
      | some (text, rest) => some ((if c = '\r' then '\n' else c) :: text, rest)

/-- Production `Comment` after its opening `<!--`: the text up to `-->` (a `--` that is not
followed by `>` is an error) and the input after it. -/
def parseComment : List Char → Option (List Char × List Char)
  | [] => none
  | c :: cs =>
    match c, cs with
    | '-', '-' :: '>' :: rest => some ([], rest)
    | '-', '-' :: _ => none
    | _, _ =>
      if !isXmlChar c then none
      else
        match parseComment cs with
        | none => none
        | some (text, rest) => some (c :: text, rest)

/-- Strips the literal `p` from the front of the input. -/
def stripPrefix : List Char → List Char → Option (List Char)
  | [], s => some s
  | _ :: _, [] => none
  | p :: ps, c :: cs => if c = p then stripPrefix ps cs else none

/-- A quoted literal: an opening single or double quote, the characters up to the next quote of
the same kind, and that quote.  The result is what stands between the quotes and the input after
the closing quote. -/
def parseQuoted : List Char → Option (List Char × List Char)
  | [] => none
  | q :: s =>
    if q = '"' || q = '\'' then
      match s.dropWhile (fun c => c != q) with
      | [] => none
      | _ :: rest => some (s.takeWhile (fun c => c != q), rest)
    else none

/-- A pseudo-attribute of the XML declaration: the given name, `Eq` and a quoted literal; the
result is the literal and the input after it. -/
def parsePseudoAttribute (name : List Char) (s : List Char) : Option (List Char × List Char) :=
  match stripPrefix name s with
  | none => none
  | some s1 =>
    match s1.dropWhile isXmlSpace with
    | '=' :: s2 => parseQuoted (s2.dropWhile isXmlSpace)
    | _ => none

/-- Whether the input starts with white space, which must precede every pseudo-attribute. -/
def startsWithSpace : List Char → Bool
  | [] => false
  | c :: _ => isXmlSpace c

/-- The end of the XML declaration, `S? '?>'`; the result is the input after it. -/
def declarationEnd (s : List Char) : Option (List Char) :=
  match s.dropWhile isXmlSpace with
  | '?' :: '>' :: rest => some rest
  | _ => none

/-- Production `SDDecl?` and the end of the XML declaration. -/
def parseStandalone (s : List Char) : Option (List Char) :=
  match s.dropWhile isXmlSpace with
  | 's' :: s1 =>
    if startsWithSpace s then
      match parsePseudoAttribute "standalone".data ('s' :: s1) with
      | none => none
      | some (value, s2) =>
        if value = "yes".data ∨ value = "no".data then declarationEnd s2 else none
    else none
  | _ => declarationEnd s

/-- Production `EncodingDecl?` and what follows it in the XML declaration.  The model works on
decoded text, so the only encoding it accepts is UTF-8, in any letter case. -/
def parseEncoding (s : List Char) : Option (List Char) :=
  match s.dropWhile isXmlSpace with
  | 'e' :: s1 =>
    if startsWithSpace s then
      match parsePseudoAttribute "encoding".data ('e' :: s1) with
      | none => none
      | some (value, s2) =>
        if value.map Char.toLower = "utf-8".data then parseStandalone s2 else none
    else none
  | _ => parseStandalone s

/-- Production `XMLDecl` after its opening `<?xml`: the version, which must be 1.0, then the
optional encoding and standalone declarations and `?>`; the result is the input after the
declaration. -/
def parseDeclaration (s : List Char) : Option (List Char) :=
  if startsWithSpace s then
    match parsePseudoAttribute "version".data (s.dropWhile isXmlSpace) with
    | none => none
    | some (value, s1) => if value = "1.0".data then parseEncoding s1 else none
  else none

mutual

/-- Production `element` after its opening `<`: the element node and the input after its end
tag (or after `/>`).  The name of the end tag must match. -/
def parseElement : Nat → List Char → Option (XmlNode × List Char)
  | 0, _ => none
  | fuel + 1, s =>
    match parseName s with
    | none => none
    | some (name, s1) =>
      match parseAttributes (s1.length + 1) s1 with
      | none => none
      | some (properties, s2) =>
        match s2 with
        | '/' :: '>' :: rest => some (XmlNode.element name properties [], rest)
        | '>' :: s3 =>
          match parseContent fuel s3 with
          | none => none
          | some (children, s4) =>
            match stripPrefix ['<', '/'] s4 with
            | none => none
            | some s5 =>
              match parseName s5 with
              | none => none
              | some (endName, s6) =>
                if endName = name then
                  match s6.dropWhile isXmlSpace with
                  | '>' :: rest => some (XmlNode.element name properties children, rest)
                  | _ => none
                else none
        | _ => none

/-- Production `content`: the child nodes in document order and the input from the `</` that
ends the content. -/
def parseContent : Nat → List Char → Option (List XmlNode × List Char)
  | 0, _ => none
  | fuel + 1, s =>
    match s with
    | [] => none
    | '<' :: '/' :: rest => some ([], '<' :: '/' :: rest)
    | '<' :: '!' :: '-' :: '-' :: s1 =>
      match parseComment s1 with
      | none => none
      | some (text, s2) =>
        match parseContent fuel s2 with
        | none => none
        | some (nodes, s3) =>
          some (XmlNode.mk .XML_COMMENT_NODE "comment" [] [] (String.mk text) :: nodes, s3)
    | '<' :: s1 =>
      match parseElement fuel s1 with
      | none => none
      | some (node, s2) =>
        match parseContent fuel s2 with
        | none => none
        | some (nodes, s3) => some (node :: nodes, s3)
    | c :: cs =>
      match parseCharData none (c :: cs) with
      | none => none
      | some (text, s1) =>
        match parseContent fuel s1 with
        | none => none
        | some (nodes, s2) => some (XmlNode.text (String.mk text) :: nodes, s2)

end

/-- Production `Misc*`: white space and comments; the result is the input after them. -/
def skipMisc : Nat → List Char → Option (List Char)
  | 0, _ => none
  | fuel + 1, s =>
    match s.dropWhile isXmlSpace with
    | '<' :: '!' :: '-' :: '-' :: s1 =>
      match parseComment s1 with
      | none => none
      | some (_, s2) => skipMisc fuel s2
    | s1 => some s1

/-- Modelled from the spec: the parser of the XML backend on the modelled fragment, production
`document`: an optional XML declaration, `Misc*`, the root element, `Misc*` and the end of the
input; nothing when the text is not well-formed. -/
def parseDocument (text : List Char) : Option XmlDoc :=
  let afterDeclaration : Option (List Char) :=
    match text with
    | '<' :: '?' :: 'x' :: 'm' :: 'l' :: rest => parseDeclaration rest
    | _ => some text
  match afterDeclaration with
  | none => none
  | some s =>
    match skipMisc (s.length + 1) s with
    | some ('<' :: s1) =>
      match parseElement (s1.length + 1) s1 with
      | none => none
      | some (root, s2) =>
        match skipMisc (s2.length + 1) s2 with
        | some [] => some (XmlDoc.mk (some root))
        | _ => none
    | _ => none

end XmlText

/-- Modelled from the spec: the XML backend restricted to the modelled fragment.  `xmlParseDoc`
parses the text, `xmlParseFile` parses the content of the file the file system `files` holds
under the path (nothing when there is no such file), and `xmlXIncludeProcess` finds no inclusion
to substitute: the fragment has neither namespace prefixes nor namespace declarations, so no
element of a tree the model parses is in the XInclude namespace; it reports zero substitutions
and leaves the tree as it is.  The model stands for the backend on the texts it accepts only;
properties of the documents a backend accepts are stated over an arbitrary `XmlBackend`. -/
def xmlModel (files : String → Option String) : XmlBackend :=
  { xmlParseFile := fun configFile =>
      match files configFile with
      | none => none
      | some text => XmlText.parseDocument text.data
    xmlParseDoc := fun xml => XmlText.parseDocument xml.data
    xmlXIncludeProcess := fun root => (0, root) }


/-! # Vocabulary of the properties -/

/-! ## Enumeration bindings -/

/-- What is checked of one enumeration binding: `stringTo` is the table lookup with the sentinel
as fallback, `toStr` gives each table entry its key, no table entry holds the sentinel, and the
lookup of the text of every tag other than the sentinel finds that tag. -/
def EnumBinding {E : Type} (table : List (String × E)) (unknown : E) (stringTo : String → E)
    (toStr : E → String) : Prop :=
  (∀ s, stringTo s = (map_find table s).getD unknown) ∧
  (∀ p ∈ table, toStr p.2 = p.1) ∧
  (∀ p ∈ table, p.2 ≠ unknown) ∧
  (∀ t, t ≠ unknown → map_find table (toStr t) = some t)

/-- Modelled from the spec: the underlying integer of every enum value, what the sources write
`static_cast<int>(o)`; it is fixed by the enum declarations of the enums header, which is not
part of the sources. -/
structure EnumCasts where
  Version : V7_0.Version → Int
  HalVersion : V7_0.HalVersion → Int
  AudioInOutFlag : V7_0.AudioInOutFlag → Int
  Role : V7_0.Role → Int
  AudioDevice : V7_0.AudioDevice → Int
  AudioFormat : V7_0.AudioFormat → Int
  AudioUsage : V7_0.AudioUsage → Int
  AudioContentType : V7_0.AudioContentType → Int
  AudioChannelMask : V7_0.AudioChannelMask → Int
  AudioEncapsulationType : V7_0.AudioEncapsulationType → Int
  AudioGainMode : V7_0.AudioGainMode → Int
  MixType : V7_0.MixType → Int
  AudioStreamType : V7_0.AudioStreamType → Int
  AudioSource : V7_0.AudioSource → Int
  DeviceCategory : V7_0.DeviceCategory → Int
  EngineSuffix : V7_0.EngineSuffix → Int

/-- Enum round trip: `stringTo` is defined on every string and brings the text of every tag other
than the sentinel back to that tag. -/
def EnumRoundTrip {E : Type} (unknown : E) (stringTo : String → E) (toStr : E → String) : Prop :=
  (∀ s : String, ∃ t : E, stringTo s = t) ∧ ∀ t : E, t ≠ unknown → stringTo (toStr t) = t

/-- Contract of `stringTo` against its table of canonical strings: a string that is the canonical
string of a tag gives that tag, the sentinel comes out exactly for the strings that are no key of
the table, and no tag of the table is the sentinel. -/
def StringToSpec {E : Type} (table : List (String × E)) (unknown : E) (stringTo : String → E) :
    Prop :=
  (∀ (s : String) (t : E), (s, t) ∈ table → stringTo s = t) ∧
  (∀ s : String, stringTo s = unknown ↔ ∀ p ∈ table, p.1 ≠ s) ∧
  (∀ p ∈ table, p.2 ≠ unknown)

/-- Contract of `toString` against the table of canonical strings: a declared tag gives its
canonical string, a value that is no declared tag gives the decimal text of its underlying
integer. -/
def ToStringSpec {E : Type} (table : List (String × E)) (cast : E → Int) (toStr : E → String) :
    Prop :=
  (∀ p ∈ table, toStr p.2 = p.1) ∧
  (∀ e : E, (∀ p ∈ table, p.2 ≠ e) → toStr e = to_string (cast e))

/-- Contract of `toString` on arbitrary values of the enum type, each given by its underlying
integer: a value that is no declared tag gives the decimal text of its integer, whatever that
integer is; and when the tags have different integers, the integer of a declared tag gives the
canonical string of the tag, and on the integers of the tags and of the sentinel the conversion
agrees with `toStr`, the conversion on the tag set. -/
def ToStringValueSpec {E : Type} (table : List (String × E)) (cast : E → Int)
    (toStr : E → String) (toStrValue : Int → String) : Prop :=
  (∀ o : Int, (∀ p ∈ table, cast p.2 ≠ o) → toStrValue o = to_string o) ∧
  (Function.Injective cast →
    (∀ p ∈ table, toStrValue (cast p.2) = p.1) ∧ ∀ e : E, toStrValue (cast e) = toStr e)

/-- The children of an element that carry the given name, in document order. -/
def childrenNamed (root : XmlNode) (name : String) : List XmlNode :=
  root.xmlChildrenNode.filter (fun _child => decide (_child.name = name))

/-- The element carries the attribute with a non-empty textual value. -/
def carriesNonEmpty (root : XmlNode) (attributeName : String) : Prop :=
  ∃ v, xmlGetProp root attributeName = some v ∧ v ≠ ""

/-- The kinds of element the readers distinguish: one per record reader, `simple` for a
simple-typed child element (`item`, `point`, `defaultOutputDevice`) of which only the text is
read, and `ignored` for an element no reader looks into. -/
inductive ElementKind where
  | apexInfoList
  | apexInfo
  | audioPolicyConfiguration
  | globalConfiguration
  | modules
  | module
  | attachedDevices
  | mixPorts
  | mixPort
  | profile
  | gains
  | gain
  | devicePorts
  | devicePort
  | routes
  | route
  | volumes
  | volume
  | reference
  | surroundSound
  | surroundFormats
  | format
  | simple
  | ignored
deriving DecidableEq

/-- The child-element names the reader of each kind compares against, in the order of its
`if` chain, each with the kind of the child. -/
def ElementKind.declared : ElementKind → List (String × ElementKind)
  | .apexInfoList => [("apex-info", .apexInfo)]
  | .audioPolicyConfiguration =>
    [("globalConfiguration", .globalConfiguration), ("modules", .modules),
     ("volumes", .volumes), ("surroundSound", .surroundSound)]
  | .modules => [("module", .module)]
  | .module =>
    [("attachedDevices", .attachedDevices), ("defaultOutputDevice", .simple),
     ("mixPorts", .mixPorts), ("devicePorts", .devicePorts), ("routes", .routes)]
  | .attachedDevices => [("item", .simple)]
  | .mixPorts => [("mixPort", .mixPort)]
  | .mixPort => [("profile", .profile), ("gains", .gains)]
  | .gains => [("gain", .gain)]
  | .devicePorts => [("devicePort", .devicePort)]
  | .devicePort => [("profile", .profile), ("gains", .gains)]
  | .routes => [("route", .route)]
  | .volumes => [("volume", .volume), ("reference", .reference)]
  | .volume => [("point", .simple)]
  | .reference => [("point", .simple)]
  | .surroundSound => [("formats", .surroundFormats)]
  | .surroundFormats => [("format", .format)]
  | _ => []

/-- The kind of a child with the given name under an element of kind `k`. -/
def ElementKind.childKind (k : ElementKind) (name : String) : ElementKind :=
  (map_find k.declared name).getD .ignored

/-- The tree `n'` is the tree `n` with one more element, inserted among the children of `n`
(`atNode`) or, at any depth, among the children of a descendant (`inChild`); the name of the inserted
element is none of the child-element names declared for the element that receives it. -/
inductive InsertUnknown : ElementKind → XmlNode → XmlNode → Prop where
  | atNode (k : ElementKind) (type : XmlElementType) (name : String)
      (properties : List (String × String)) (before after : List XmlNode) (content : String)
      (e : XmlNode) (helem : e.type = .XML_ELEMENT_NODE)
      (hname : ∀ p ∈ k.declared, e.name ≠ p.1) :
      InsertUnknown k (.mk type name properties (before ++ after) content)
        (.mk type name properties (before ++ e :: after) content)
  | inChild (k : ElementKind) (type : XmlElementType) (name : String)
      (properties : List (String × String)) (before after : List XmlNode) (content : String)
      (c c' : XmlNode) (hc : InsertUnknown (k.childKind c.name) c c') :
      InsertUnknown k (.mk type name properties (before ++ c :: after) content)
        (.mk type name properties (before ++ c' :: after) content)

/-- The contract of a document driver whose backend loaded `load` (nothing when the backend
rejected the input), with the XInclude step `xinc`, the schema root name `rootName`, the root
reader `rootRead` and the outcome `result`: the result is present exactly when a root element
exists, the XInclude step succeeds, the root carries the schema root name and the root reader
returns, and it is then the record the root reader returns; a load failure, a missing root
element, an XInclude failure and a root-name mismatch all give the absent result; an exception
of the root reader leaves the driver as that exception. -/
def DriverContract {Root : Type} (load : Option XmlDoc) (xinc : XmlNode → Int × XmlNode)
    (rootName : String) (rootRead : XmlNode → Except CppException Root)
    (result : Except CppException (Option Root)) : Prop :=
  (∀ r, result = .ok (some r) ↔
    ∃ doc root, load = some doc ∧ doc.xmlDocGetRootElement = some root ∧ ¬ (xinc root).1 < 0 ∧
      (xinc root).2.name = rootName ∧ rootRead (xinc root).2 = .ok r) ∧
  (load = none → result = .ok none) ∧
  (∀ doc, load = some doc → doc.xmlDocGetRootElement = none → result = .ok none) ∧
  (∀ doc, load = some doc → ∀ root, doc.xmlDocGetRootElement = some root →
    (xinc root).1 < 0 → result = .ok none) ∧
  (∀ doc, load = some doc → ∀ root, doc.xmlDocGetRootElement = some root →
    ¬ (xinc root).1 < 0 → (xinc root).2.name ≠ rootName → result = .ok none) ∧
  (∀ doc, load = some doc → ∀ root, doc.xmlDocGetRootElement = some root →
    ¬ (xinc root).1 < 0 → (xinc root).2.name = rootName →
    ∀ e, rootRead (xinc root).2 = .error e → result = .error e)

/-- A backend that accepts every input as the document with the given root element and finds
no inclusion to substitute. -/
def constantBackend (root : XmlNode) : XmlBackend :=
  { xmlParseFile := fun _ => some (XmlDoc.mk (some root))
    xmlParseDoc := fun _ => some (XmlDoc.mk (some root))
    xmlXIncludeProcess := fun n => (0, n) }

/-- The conversion `conv` accepts the text of the attribute, or the attribute is absent or
empty (and then not converted). -/
def attrAccepted {α : Type} (conv : String → Except CppException α) (root : XmlNode)
    (attributeName : String) : Prop :=
  getXmlAttribute root attributeName = "" ∨
    ∃ v, conv (getXmlAttribute root attributeName) = .ok v

/-- Every numeric attribute `ApexInfo::read` converts is accepted by `std::stoll`. -/
def apexInfoNumericOk (n : XmlNode) : Prop :=
  attrAccepted stoll n "versionCode" ∧ attrAccepted stoll n "lastUpdateMillis"

/-- Numeric attributes below an `apex-info-list` element. -/
def apexInfoListNumericOk (n : XmlNode) : Prop :=
  ∀ c ∈ childrenNamed n "apex-info", apexInfoNumericOk c

/-- Every token of `samplingRates` is accepted by `std::stoll`. -/
def profileNumericOk (n : XmlNode) : Prop :=
  getXmlAttribute n "samplingRates" = "" ∨
    ∀ tok ∈ istringstream_tokens (getXmlAttribute n "samplingRates"), ∃ v, stoll tok = .ok v

/-- Every numeric attribute `Gains::Gain::read` converts is accepted by `std::stoi`. -/
def gainNumericOk (n : XmlNode) : Prop :=
  attrAccepted stoi n "minValueMB" ∧ attrAccepted stoi n "maxValueMB" ∧
  attrAccepted stoi n "defaultValueMB" ∧ attrAccepted stoi n "stepValueMB" ∧
  attrAccepted stoi n "minRampMs" ∧ attrAccepted stoi n "maxRampMs"

/-- Numeric attributes below a `gains` element. -/
def gainsNumericOk (n : XmlNode) : Prop :=
  ∀ c ∈ childrenNamed n "gain", gainNumericOk c

/-- Numeric attributes of and below a `mixPort` element. -/
def mixPortNumericOk (n : XmlNode) : Prop :=
  attrAccepted stoul n "maxOpenCount" ∧ attrAccepted stoul n "maxActiveCount" ∧
  (∀ c ∈ childrenNamed n "profile", profileNumericOk c) ∧
  (∀ c ∈ childrenNamed n "gains", gainsNumericOk c)

/-- Numeric attributes below a `mixPorts` element. -/
def mixPortsNumericOk (n : XmlNode) : Prop :=
  ∀ c ∈ childrenNamed n "mixPort", mixPortNumericOk c

/-- Numeric attributes below a `devicePort` element. -/
def devicePortNumericOk (n : XmlNode) : Prop :=
  (∀ c ∈ childrenNamed n "profile", profileNumericOk c) ∧
  (∀ c ∈ childrenNamed n "gains", gainsNumericOk c)

/-- Numeric attributes below a `devicePorts` element. -/
def devicePortsNumericOk (n : XmlNode) : Prop :=
  ∀ c ∈ childrenNamed n "devicePort", devicePortNumericOk c

/-- Numeric attributes below a `module` element. -/
def moduleNumericOk (n : XmlNode) : Prop :=
  (∀ c ∈ childrenNamed n "mixPorts", mixPortsNumericOk c) ∧
  (∀ c ∈ childrenNamed n "devicePorts", devicePortsNumericOk c)

/-- Numeric attributes below a `modules` element. -/
def modulesNumericOk (n : XmlNode) : Prop :=
  ∀ c ∈ childrenNamed n "module", moduleNumericOk c

/-- Numeric attributes below an `audioPolicyConfiguration` element: every numeric attribute text
any reader converts is accepted by its conversion. -/
def audioPolicyNumericOk (n : XmlNode) : Prop :=
  ∀ c ∈ childrenNamed n "modules", modulesNumericOk c

/-- The properties every record returned by `ApexInfo::read` has: an optional string that is
present is not empty, and the 64-bit fields are in the range of `int64_t`. -/
def apex.ApexInfo.readInvariant (a : apex.ApexInfo) : Prop :=
  a.preinstalledModulePath_ ≠ some "" ∧
  LLONG_MIN ≤ a.versionCode_ ∧ a.versionCode_ ≤ LLONG_MAX ∧
  ∀ v, a.lastUpdateMillis_ = some v → LLONG_MIN ≤ v ∧ v ≤ LLONG_MAX

/-- The attributes `ApexInfo::write` emits for a record, as name and value pairs in the order of
emission. -/
def apex.ApexInfo.writtenAttributes (a : apex.ApexInfo) : List (String × String) :=
  [("moduleName", a.moduleName_), ("modulePath", a.modulePath_)] ++
  (match a.preinstalledModulePath_ with
    | some v => [("preinstalledModulePath", v)]
    | none => []) ++
  [("versionCode", apex.int64Text a.versionCode_), ("versionName", a.versionName_),
   ("isFactory", apex.boolText a.isFactory_), ("isActive", apex.boolText a.isActive_)] ++
  (match a.lastUpdateMillis_ with
    | some v => [("lastUpdateMillis", apex.int64Text v)]
    | none => []) ++
  [("provideSharedApexLibs", apex.boolText a.provideSharedApexLibs_)]

/-- The text of a list of attributes in a start tag: a space, the name, `="`, the value and `"`
for each. -/
def attrsChars : List (String × String) → List Char
  | [] => []
  | p :: ps => ' ' :: (p.1.data ++ '=' :: '"' :: (p.2.data ++ '"' :: attrsChars ps))

/-- The text of an element without element children, as the writers lay it out: the indent,
the start tag with its attributes, a line end, the indent, the end tag and a line end. -/
def elementChars (indent : List Char) (name : String) (attrs : List (String × String)) :
    List Char :=
  indent ++ '<' :: (name.data ++ (attrsChars attrs ++ '>' :: '\n' ::
    (indent ++ '<' :: '/' :: (name.data ++ ['>', '\n']))))

/-- Presence of a required field: the has-predicate is true of every record. -/
def RequiredPresence {R : Type} (has : R → Bool) : Prop :=
  ∀ r, has r = true

/-- Presence of an optional field: the has-predicate is true exactly when the optional holds a
value. -/
def OptionalPresence {R α : Type} (has : R → Bool) (field : R → Option α) : Prop :=
  ∀ r, has r = true ↔ ∃ v, field r = some v

/-- Presence of a repeated field: the has-predicate is true exactly when the sequence the getter
returns is not empty. -/
def RepeatedPresence {R α : Type} (has : R → Bool) (get : R → List α) : Prop :=
  ∀ r, has r = true ↔ get r ≠ []

/-- Getter of an optional field behind its assertion, nothing standing for the failed assertion:
when the has-predicate is true the getter returns the value the optional holds, and the
assertion fails exactly when the has-predicate is false. -/
def AssertingGetter {R α : Type} (has : R → Bool) (get : R → Option α) (field : R → Option α) :
    Prop :=
  ∀ r, (has r = true → ∃ v, field r = some v ∧ get r = some v) ∧
    (get r = none ↔ has r = false)

/-- Getter of a required or repeated field: it returns the field as it is; there is no assertion
on its path. -/
def PlainGetter {R α : Type} (get : R → α) (field : R → α) : Prop :=
  ∀ r, get r = field r

/-- First-element accessor of a repeated field, nothing standing for the null pointer: it
returns null exactly when the sequence is empty, and otherwise the element at index 0, which
then is within the bounds of the sequence. -/
def FirstElement {R α : Type} (getFirst : R → Option α) (get : R → List α) : Prop :=
  ∀ r, (getFirst r = none ↔ get r = []) ∧
    ∀ h : 0 < (get r).length, getFirst r = some ((get r).get ⟨0, h⟩)

/-! ## List-typed attributes -/

/-- The reading of the text of a list-typed attribute in the words of the specification: the
text is cut at every whitespace character (the characters of `isspace`), the empty pieces, which
lie between two adjacent whitespace characters and at the ends, are dropped, and what remains
are the tokens between the runs of whitespace, in the order in which they appear. -/
def splitOnWhitespace (s : String) : List String :=
  ((s.data.splitOnP isspace).filter (fun piece => !piece.isEmpty)).map String.mk

/-! ## Required attributes that are absent -/

/-- The element with one more attribute, placed after the first `k` attributes it has. -/
def XmlNode.withAttribute (n : XmlNode) (k : Nat) (attributeName value : String) : XmlNode :=
  XmlNode.mk n.type n.name
    (n.properties.take k ++ (attributeName, value) :: n.properties.drop k)
    n.xmlChildrenNode n.content

/-! ## Layout of the written text -/

/-- Signed decimal text of an integer: the digits without leading zeros, after a minus sign for
a negative value. -/
def signedDecimal (i : Int) : String :=
  toString i

/-- The attributes of an `apex-info` element in the order of their declaration, each with its
has-predicate and the text of its value: strings as they are, booleans as the literals `true`
and `false`, 64-bit integers in signed decimal.  The text of an optional that holds no value is
of no use and left empty. -/
def apexInfoAttributeRows (a : apex.ApexInfo) : List (String × Bool × String) :=
  [("moduleName", a.hasModuleName, a.getModuleName),
   ("modulePath", a.hasModulePath, a.getModulePath),
   ("preinstalledModulePath", a.hasPreinstalledModulePath,
     a.getPreinstalledModulePath.getD ""),
   ("versionCode", a.hasVersionCode, signedDecimal a.getVersionCode),
   ("versionName", a.hasVersionName, a.getVersionName),
   ("isFactory", a.hasIsFactory, if a.getIsFactory then "true" else "false"),
   ("isActive", a.hasIsActive, if a.getIsActive then "true" else "false"),
   ("lastUpdateMillis", a.hasLastUpdateMillis,
     (a.getLastUpdateMillis.map signedDecimal).getD ""),
   ("provideSharedApexLibs", a.hasProvideSharedApexLibs,
     if a.getProvideSharedApexLibs then "true" else "false")]

/-- The text of the attributes in a start tag: for each row whose has-predicate is true, in the
order of the rows, a space, the name, `="`, the value and `"`. -/
def attributesText (rows : List (String × Bool × String)) : String :=
  String.join ((rows.filter (fun row => row.2.1)).map
    (fun row => " " ++ row.1 ++ "=\"" ++ row.2.2 ++ "\""))

/-- The canonical layout of a written `apex-info-list`, given the attribute text of each child:
the declaration line, the line of the root start tag, for each child the line of its start tag
and the line of its end tag, both after four spaces, and the line of the root end tag. -/
def canonicalLayout (children : List String) : String :=
  "<?xml version=\"1.0\" encoding=\"utf-8\"?>\n" ++ "<apex-info-list>\n" ++
    String.join (children.map
      (fun attrs => "    <apex-info" ++ attrs ++ ">\n" ++ "    </apex-info>\n")) ++
    "</apex-info-list>\n"

/-! ## Successive writes -/

/-- The values the file-level counter `indentIndex` can hold when `write` is called: the value
it is initialised with, and the value a previous call of `write`, on any list and any stream,
left behind. -/
inductive LeftBehind : Int → Prop where
  | initial : LeftBehind 0
  | afterWrite (i : Int) (out : String) (l : apex.ApexInfoList) :
      LeftBehind i → LeftBehind (apex.write (apex.Writer.mk out i) l).indentIndex

/-! ## Order of the attributes -/

/-- The element with its attribute list replaced; name, children and content stay. -/
def XmlNode.withProperties (n : XmlNode) (properties : List (String × String)) : XmlNode :=
  XmlNode.mk n.type n.name properties n.xmlChildrenNode n.content

/-! ## Empty attribute values -/

/-- The element lacks the attribute, or carries it with the empty value. -/
def absentOrEmpty (root : XmlNode) (attributeName : String) : Prop :=
  xmlGetProp root attributeName = none ∨ xmlGetProp root attributeName = some ""

/-! ## Constructors -/

/-- What backs a field of a record in the document: an attribute of the element, which the
reader takes with `getXmlAttribute`, or the children of one name, which the reader gathers in
its loop over the children. -/
inductive FieldSource where
  | attribute
  | childElement
deriving DecidableEq

/-- The parameters of the constructor of each record class, in the order of the constructor
declaration, which is also the order of the member declarations of the class and of the
arguments `read` passes, each with what backs the field in the reader of the class. -/
def ElementKind.constructorParameters : ElementKind → List (String × FieldSource)
  | .apexInfoList => [("apexInfo", .childElement)]
  | .apexInfo =>
    [("moduleName", .attribute), ("modulePath", .attribute),
     ("preinstalledModulePath", .attribute), ("versionCode", .attribute),
     ("versionName", .attribute), ("isFactory", .attribute), ("isActive", .attribute),
     ("lastUpdateMillis", .attribute), ("provideSharedApexLibs", .attribute)]
  | .audioPolicyConfiguration =>
    [("globalConfiguration", .childElement), ("modules", .childElement),
     ("volumes", .childElement), ("surroundSound", .childElement), ("version", .attribute)]
  | .globalConfiguration =>
    [("speaker_drc_enabled", .attribute), ("call_screen_mode_supported", .attribute),
     ("engine_library", .attribute)]
  | .modules => [("_module", .childElement)]
  | .module =>
    [("attachedDevices", .childElement), ("defaultOutputDevice", .childElement),
     ("mixPorts", .childElement), ("devicePorts", .childElement), ("routes", .childElement),
     ("name", .attribute), ("halVersion", .attribute)]
  | .attachedDevices => [("item", .childElement)]
  | .mixPorts => [("mixPort", .childElement)]
  | .mixPort =>
    [("profile", .childElement), ("gains", .childElement), ("name", .attribute),
     ("role", .attribute), ("flags", .attribute), ("maxOpenCount", .attribute),
     ("maxActiveCount", .attribute), ("preferredUsage", .attribute)]
  | .profile =>
    [("name", .attribute), ("format", .attribute), ("samplingRates", .attribute),
     ("channelMasks", .attribute), ("encapsulationType", .attribute)]
  | .gains => [("gain", .childElement)]
  | .gain =>
    [("name", .attribute), ("mode", .attribute), ("channel_mask", .attribute),
     ("minValueMB", .attribute), ("maxValueMB", .attribute), ("defaultValueMB", .attribute),
     ("stepValueMB", .attribute), ("minRampMs", .attribute), ("maxRampMs", .attribute),
     ("useForVolume", .attribute)]
  | .devicePorts => [("devicePort", .childElement)]
  | .devicePort =>
    [("profile", .childElement), ("gains", .childElement), ("tagName", .attribute),
     ("type", .attribute), ("role", .attribute), ("address", .attribute), ("_default", .attribute),
     ("encodedFormats", .attribute)]
  | .routes => [("route", .childElement)]
  | .route => [("type", .attribute), ("sink", .attribute), ("sources", .attribute)]
  | .volumes => [("volume", .childElement), ("reference", .childElement)]
  | .volume =>
    [("point", .childElement), ("stream", .attribute), ("deviceCategory", .attribute),
     ("ref", .attribute)]
  | .reference => [("point", .childElement), ("name", .attribute)]
  | .surroundSound => [("formats", .childElement)]
  | .surroundFormats => [("format", .childElement)]
  | .format => [("name", .attribute), ("subformats", .attribute)]
  | .simple => []
  | .ignored => []

/-- The order in the words of the specification: the attribute fields come first and the
child-element fields follow; no attribute field comes after a child-element field. -/
def attributesFirst (parameters : List (String × FieldSource)) : Bool :=
  (parameters.dropWhile (fun p => p.2 = .attribute)).all (fun p => p.2 = .childElement)

/-- The order of the constructors in the sources: the child-element fields come first and the
attribute fields follow; no child-element field comes after an attribute field. -/
def childElementsFirst (parameters : List (String × FieldSource)) : Bool :=
  (parameters.dropWhile (fun p => p.2 = .childElement)).all (fun p => p.2 = .attribute)

/-! ## Simple-typed child elements -/

/-- The child elements of a node that carry the given name, in document order: the children of
kind `XML_ELEMENT_NODE` with that name. -/
def childElementsNamed (root : XmlNode) (name : String) : List XmlNode :=
  root.xmlChildrenNode.filter
    (fun _child => decide (_child.type = .XML_ELEMENT_NODE ∧ _child.name = name))

/-- The node has no text of its own: none of its children is a text, CDATA or entity reference
node. -/
def hasNoText (_child : XmlNode) : Prop :=
  ∀ t ∈ _child.xmlChildrenNode, t.type ≠ .XML_TEXT_NODE ∧ t.type ≠ .XML_CDATA_SECTION_NODE ∧
    t.type ≠ .XML_ENTITY_REF_NODE

/-! ## Uniqueness of the canonical strings -/

/-- The canonical strings of an enumeration are unique and the two conversions are inverse to
each other on the table: two different tags other than the sentinel have different texts, and
for every key of the lookup table, the text of the tag the key converts to is the key. -/
def CanonicalStrings {E : Type} (table : List (String × E)) (unknown : E)
    (stringTo : String → E) (toStr : E → String) : Prop :=
  (∀ t₁ t₂ : E, t₁ ≠ unknown → t₂ ≠ unknown → t₁ ≠ t₂ → toStr t₁ ≠ toStr t₂) ∧
  (∀ p ∈ table, toStr (stringTo p.1) = p.1)

/-! ## Verbatim attribute values -/

/-- The element a text stands for in the modelled XML fragment: the text is one well-formed
element, followed by white space only; nothing when it is not. -/
def elementOfText (text : String) : Option XmlNode :=
  match text.data with
  | '<' :: s =>
    match XmlText.parseElement (s.length + 1) s with
    | some (node, rest) => if rest.all XmlText.isXmlSpace then some node else none
    | none => none
  | _ => none

/-! ## The indent of nested writes -/

/-- A run of `k` spaces. -/
def spaces (k : Nat) : String :=
  String.mk (List.replicate k ' ')

/-- The text of an element `name` written at an indent of `outer` spaces around `apex-info`
children written at an indent of `inner` spaces, given the attribute text of each child: every
start tag and every end tag on a line of its own, after its indent. -/
def nestedLayout (name : String) (outer inner : Nat) (children : List String) : String :=
  spaces outer ++ "<" ++ name ++ ">\n" ++
    String.join (children.map (fun attrs =>
      spaces inner ++ "<apex-info" ++ attrs ++ ">\n" ++ spaces inner ++ "</apex-info>\n")) ++
    spaces outer ++ "</" ++ name ++ ">\n"

/-! ## Numeric attribute texts -/

/-- A text that starts with a number: leading whitespace, an optional sign (`negative` tells
whether it is a minus), then the digits `ds`, one or more, and then trailing characters that do
not start with a digit, so that `ds` is the longest run of digits at that place. -/
def NumericText (s : String) (negative : Bool) (ds : List Char) : Prop :=
  ∃ ws sign rest : List Char, s.data = ws ++ sign ++ ds ++ rest ∧
    (∀ c ∈ ws, isspace c = true) ∧
    (sign = [] ∧ negative = false ∨ sign = ['+'] ∧ negative = false ∨
      sign = ['-'] ∧ negative = true) ∧
    ds ≠ [] ∧ (∀ c ∈ ds, isdigit c = true) ∧
    (∀ c ∈ rest.head?, isdigit c = false)

/-- The value a conversion to `unsigned long` gives for a sign and a magnitude below `2 ^ 64`: the
magnitude itself, and for a minus sign its negation modulo `2 ^ 64`. -/
def unsignedLongValue (negative : Bool) (magnitude : Nat) : Nat :=
  if negative then (2 ^ 64 - magnitude) % 2 ^ 64 else magnitude

/-- The value of a sign and a run of digits. -/
def prefixValue (negative : Bool) (ds : List Char) : Int :=
  if negative then -(digitsValue 0 ds : Int) else (digitsValue 0 ds : Int)

/-- The text starts with a number whose value lies between `lo` and `hi`. -/
def PrefixWithin (lo hi : Int) (s : String) : Prop :=
  ∃ negative ds, NumericText s negative ds ∧
    lo ≤ prefixValue negative ds ∧ prefixValue negative ds ≤ hi

/-- The text of the attribute (empty when the element lacks it) is empty, or starts with a
number between `lo` and `hi`. -/
def numericAttributeOk (lo hi : Int) (n : XmlNode) (attributeName : String) : Prop :=
  getXmlAttribute n attributeName = "" ∨ PrefixWithin lo hi (getXmlAttribute n attributeName)

/-! ## Elements that differ in the interleaving of their children only -/

/-- The two nodes carry the same attributes: every attribute name gives the same answer on
both. -/
def sameAttributes (a b : XmlNode) : Prop :=
  ∀ attributeName : String, xmlGetProp a attributeName = xmlGetProp b attributeName

/-- For each of the given names, the two nodes have the same sequence of children with that
name. -/
def sameChildrenNamed (names : List String) (a b : XmlNode) : Prop :=
  ∀ name ∈ names, childrenNamed a name = childrenNamed b name

/-! ## The text of the sentinel -/

/-- The text holds a character that is neither a decimal digit nor the minus sign, so it is not
the decimal text of an integer. -/
def holdsNonNumeral (s : String) : Bool :=
  s.data.any (fun c => !(isdigit c || c == '-'))

/-- The text of the sentinel is apart from the canonical strings: it is no key of the lookup
table, it converts back to the sentinel, and `toStr` is injective on all the tags, the sentinel
included. -/
def SentinelApart {E : Type} (table : List (String × E)) (unknown : E)
    (stringTo : String → E) (toStr : E → String) : Prop :=
  (∀ p ∈ table, p.1 ≠ toStr unknown) ∧
  stringTo (toStr unknown) = unknown ∧
  (∀ t₁ t₂ : E, toStr t₁ = toStr t₂ → t₁ = t₂)

/-! ## Wiring of a reader to the getters -/

/-- An optional field is wired to the attribute `attributeName` of the element: it is present
exactly when the element carries that attribute with a non-empty text, its value is then a value
`parsed` from the text of that attribute, and the getter has nothing to return otherwise. -/
def wiredTo {α : Type} (n : XmlNode) (attributeName : String) (has : Bool) (get : Option α)
    (parsed : String → α → Prop) : Prop :=
  (has = true ↔ carriesNonEmpty n attributeName) ∧
  (has = true → ∃ v, get = some v ∧ parsed (getXmlAttribute n attributeName) v) ∧
  (has = false → get = none)

/-! # Properties -/

/-! ## Facts about the enumeration tables -/

theorem map_find_mem {E : Type} (table : List (String × E)) (s : String) (e : E)
    (h : map_find table s = some e) : (s, e) ∈ table := by
  induction table with
  | nil => simp [map_find] at h
  | cons p rest ih =>
    obtain ⟨k, v⟩ := p
    by_cases hk : s = k
    · simp [map_find, hk] at h
      simp [hk, h]
    · simp [map_find, hk] at h
      exact List.mem_cons_of_mem _ (ih h)

theorem map_find_none {E : Type} (table : List (String × E)) (s : String) :
    map_find table s = none ↔ ∀ p ∈ table, p.1 ≠ s := by
  induction table with
  | nil => simp [map_find]
  | cons p rest ih =>
    obtain ⟨k, v⟩ := p
    by_cases hk : s = k
    · simp [map_find, hk]
    · simp [map_find, hk, ih]
      intro _
      exact fun h => hk h.symm

theorem EnumBinding.roundTrip {E : Type} {table : List (String × E)} {unknown : E}
    {stringTo : String → E} {toStr : E → String}
    (b : EnumBinding table unknown stringTo toStr) (t : E) (ht : t ≠ unknown) :
    stringTo (toStr t) = t := by
  rw [b.1, b.2.2.2 t ht]
  rfl

theorem EnumBinding.of_mem {E : Type} {table : List (String × E)} {unknown : E}
    {stringTo : String → E} {toStr : E → String}
    (b : EnumBinding table unknown stringTo toStr) (s : String) (t : E) (h : (s, t) ∈ table) :
    stringTo s = t := by
  have h1 := b.2.1 (s, t) h
  have h2 := b.2.2.1 (s, t) h
  simp only at h1 h2
  rw [← h1]
  exact b.roundTrip t h2

theorem EnumBinding.unknown_iff {E : Type} {table : List (String × E)} {unknown : E}
    {stringTo : String → E} {toStr : E → String}
    (b : EnumBinding table unknown stringTo toStr) (s : String) :
    stringTo s = unknown ↔ ∀ p ∈ table, p.1 ≠ s := by
  rw [b.1]
  constructor
  · intro h p hp hs
    have := b.of_mem p.1 p.2 hp
    rw [b.1, hs] at this
    rw [this] at h
    exact b.2.2.1 p hp h
  · intro h
    rw [(map_find_none table s).2 h]
    rfl

theorem EnumBinding.mem_of_ne {E : Type} {table : List (String × E)} {unknown : E}
    {stringTo : String → E} {toStr : E → String}
    (b : EnumBinding table unknown stringTo toStr) (s : String) (h : stringTo s ≠ unknown) :
    (s, stringTo s) ∈ table := by
  rw [b.1] at h ⊢
  cases hf : map_find table s with
  | none => simp [hf] at h
  | some e => simpa using map_find_mem table s e hf

namespace V7_0

theorem Version_binding (c : Version → Int) :
    EnumBinding VersionString Version.UNKNOWN stringToVersion (Version.toString c) := by
  have hc : ∀ t : Version, t ≠ .UNKNOWN → Version.toString c t = Version.toString (fun _ => 0) t := by
    intro t
    cases t <;> first | (intro h; exact absurd rfl h) | (intro _; rfl)
  have h2 : ∀ p ∈ VersionString, p.2 ≠ Version.UNKNOWN := by decide
  have h1 : ∀ p ∈ VersionString, Version.toString (fun _ => 0) p.2 = p.1 := by decide
  have h3 : ∀ t : Version, t ≠ .UNKNOWN →
      map_find VersionString (Version.toString (fun _ => 0) t) = some t := by
    intro t
    cases t <;> first | (intro h; exact absurd rfl h) | (intro _; decide!)
  refine ⟨fun s => ?_, fun p hp => ?_, h2, fun t ht => ?_⟩
  · simp only [stringToVersion]
    cases map_find VersionString s <;> rfl
  · rw [hc p.2 (h2 p hp)]
    exact h1 p hp
  · rw [hc t ht]
    exact h3 t ht

theorem HalVersion_binding (c : HalVersion → Int) :
    EnumBinding HalVersionString HalVersion.UNKNOWN stringToHalVersion (HalVersion.toString c) := by
  have hc : ∀ t : HalVersion, t ≠ .UNKNOWN → HalVersion.toString c t = HalVersion.toString (fun _ => 0) t := by
    intro t
    cases t <;> first | (intro h; exact absurd rfl h) | (intro _; rfl)
  have h2 : ∀ p ∈ HalVersionString, p.2 ≠ HalVersion.UNKNOWN := by decide
  have h1 : ∀ p ∈ HalVersionString, HalVersion.toString (fun _ => 0) p.2 = p.1 := by decide
  have h3 : ∀ t : HalVersion, t ≠ .UNKNOWN →
      map_find HalVersionString (HalVersion.toString (fun _ => 0) t) = some t := by
    intro t
    cases t <;> first | (intro h; exact absurd rfl h) | (intro _; decide!)
  refine ⟨fun s => ?_, fun p hp => ?_, h2, fun t ht => ?_⟩
  · simp only [stringToHalVersion]
    cases map_find HalVersionString s <;> rfl
  · rw [hc p.2 (h2 p hp)]
    exact h1 p hp
  · rw [hc t ht]
    exact h3 t ht

set_option maxHeartbeats 4000000 in
set_option maxRecDepth 100000 in
theorem AudioInOutFlag_binding (c : AudioInOutFlag → Int) :
    EnumBinding AudioInOutFlagString AudioInOutFlag.UNKNOWN stringToAudioInOutFlag (AudioInOutFlag.toString c) := by
  have hc : ∀ t : AudioInOutFlag, t ≠ .UNKNOWN → AudioInOutFlag.toString c t = AudioInOutFlag.toString (fun _ => 0) t := by
    intro t
    cases t <;> first | (intro h; exact absurd rfl h) | (intro _; rfl)
  have h2 : ∀ p ∈ AudioInOutFlagString, p.2 ≠ AudioInOutFlag.UNKNOWN := by decide
  have h1 : ∀ p ∈ AudioInOutFlagString, AudioInOutFlag.toString (fun _ => 0) p.2 = p.1 := by decide
  have h3 : ∀ t : AudioInOutFlag, t ≠ .UNKNOWN →
      map_find AudioInOutFlagString (AudioInOutFlag.toString (fun _ => 0) t) = some t := by
    intro t
    cases t <;> first | (intro h; exact absurd rfl h) | (intro _; decide!)
  refine ⟨fun s => ?_, fun p hp => ?_, h2, fun t ht => ?_⟩
  · simp only [stringToAudioInOutFlag]
    cases map_find AudioInOutFlagString s <;> rfl
  · rw [hc p.2 (h2 p hp)]
    exact h1 p hp
  · rw [hc t ht]
    exact h3 t ht

theorem Role_binding (c : Role → Int) :
    EnumBinding RoleString Role.UNKNOWN stringToRole (Role.toString c) := by
  have hc : ∀ t : Role, t ≠ .UNKNOWN → Role.toString c t = Role.toString (fun _ => 0) t := by
    intro t
    cases t <;> first | (intro h; exact absurd rfl h) | (intro _; rfl)
  have h2 : ∀ p ∈ RoleString, p.2 ≠ Role.UNKNOWN := by decide
  have h1 : ∀ p ∈ RoleString, Role.toString (fun _ => 0) p.2 = p.1 := by decide
  have h3 : ∀ t : Role, t ≠ .UNKNOWN →
      map_find RoleString (Role.toString (fun _ => 0) t) = some t := by
    intro t
    cases t <;> first | (intro h; exact absurd rfl h) | (intro _; decide!)
  refine ⟨fun s => ?_, fun p hp => ?_, h2, fun t ht => ?_⟩
  · simp only [stringToRole]
    cases map_find RoleString s <;> rfl
  · rw [hc p.2 (h2 p hp)]
    exact h1 p hp
  · rw [hc t ht]
    exact h3 t ht

set_option maxHeartbeats 4000000 in
set_option maxRecDepth 100000 in
theorem AudioDevice_binding (c : AudioDevice → Int) :
    EnumBinding AudioDeviceString AudioDevice.UNKNOWN stringToAudioDevice (AudioDevice.toString c) := by
  have hc : ∀ t : AudioDevice, t ≠ .UNKNOWN → AudioDevice.toString c t = AudioDevice.toString (fun _ => 0) t := by
    intro t
    cases t <;> first | (intro h; exact absurd rfl h) | (intro _; rfl)
  have h2 : ∀ p ∈ AudioDeviceString, p.2 ≠ AudioDevice.UNKNOWN := by decide
  have h1 : ∀ p ∈ AudioDeviceString, AudioDevice.toString (fun _ => 0) p.2 = p.1 := by decide
  have h3 : ∀ t : AudioDevice, t ≠ .UNKNOWN →
      map_find AudioDeviceString (AudioDevice.toString (fun _ => 0) t) = some t := by
    intro t
    cases t <;> first | (intro h; exact absurd rfl h) | (intro _; decide!)
  refine ⟨fun s => ?_, fun p hp => ?_, h2, fun t ht => ?_⟩
  · simp only [stringToAudioDevice]
    cases map_find AudioDeviceString s <;> rfl
  · rw [hc p.2 (h2 p hp)]
    exact h1 p hp
  · rw [hc t ht]
    exact h3 t ht

set_option maxHeartbeats 4000000 in
set_option maxRecDepth 100000 in
theorem AudioFormat_binding (c : AudioFormat → Int) :
    EnumBinding AudioFormatString AudioFormat.UNKNOWN stringToAudioFormat (AudioFormat.toString c) := by
  have hc : ∀ t : AudioFormat, t ≠ .UNKNOWN → AudioFormat.toString c t = AudioFormat.toString (fun _ => 0) t := by
    intro t
    cases t <;> first | (intro h; exact absurd rfl h) | (intro _; rfl)
  have h2 : ∀ p ∈ AudioFormatString, p.2 ≠ AudioFormat.UNKNOWN := by decide
  have h1 : ∀ p ∈ AudioFormatString, AudioFormat.toString (fun _ => 0) p.2 = p.1 := by decide
  have h3 : ∀ t : AudioFormat, t ≠ .UNKNOWN →
      map_find AudioFormatString (AudioFormat.toString (fun _ => 0) t) = some t := by
    intro t
    cases t <;> first | (intro h; exact absurd rfl h) | (intro _; decide!)
  refine ⟨fun s => ?_, fun p hp => ?_, h2, fun t ht => ?_⟩
  · simp only [stringToAudioFormat]
    cases map_find AudioFormatString s <;> rfl
  · rw [hc p.2 (h2 p hp)]
    exact h1 p hp
  · rw [hc t ht]
    exact h3 t ht

set_option maxHeartbeats 4000000 in
set_option maxRecDepth 100000 in
theorem AudioUsage_binding (c : AudioUsage → Int) :
    EnumBinding AudioUsageString AudioUsage.UNKNOWN stringToAudioUsage (AudioUsage.toString c) := by
  have hc : ∀ t : AudioUsage, t ≠ .UNKNOWN → AudioUsage.toString c t = AudioUsage.toString (fun _ => 0) t := by
    intro t
    cases t <;> first | (intro h; exact absurd rfl h) | (intro _; rfl)
  have h2 : ∀ p ∈ AudioUsageString, p.2 ≠ AudioUsage.UNKNOWN := by decide
  have h1 : ∀ p ∈ AudioUsageString, AudioUsage.toString (fun _ => 0) p.2 = p.1 := by decide
  have h3 : ∀ t : AudioUsage, t ≠ .UNKNOWN →
      map_find AudioUsageString (AudioUsage.toString (fun _ => 0) t) = some t := by
    intro t
    cases t <;> first | (intro h; exact absurd rfl h) | (intro _; decide!)
  refine ⟨fun s => ?_, fun p hp => ?_, h2, fun t ht => ?_⟩
  · simp only [stringToAudioUsage]
    cases map_find AudioUsageString s <;> rfl
  · rw [hc p.2 (h2 p hp)]
    exact h1 p hp
  · rw [hc t ht]
    exact h3 t ht

theorem AudioContentType_binding (c : AudioContentType → Int) :
    EnumBinding AudioContentTypeString AudioContentType.UNKNOWN stringToAudioContentType (AudioContentType.toString c) := by
  have hc : ∀ t : AudioContentType, t ≠ .UNKNOWN → AudioContentType.toString c t = AudioContentType.toString (fun _ => 0) t := by
    intro t
    cases t <;> first | (intro h; exact absurd rfl h) | (intro _; rfl)
  have h2 : ∀ p ∈ AudioContentTypeString, p.2 ≠ AudioContentType.UNKNOWN := by decide
  have h1 : ∀ p ∈ AudioContentTypeString, AudioContentType.toString (fun _ => 0) p.2 = p.1 := by decide
  have h3 : ∀ t : AudioContentType, t ≠ .UNKNOWN →
      map_find AudioContentTypeString (AudioContentType.toString (fun _ => 0) t) = some t := by
    intro t
    cases t <;> first | (intro h; exact absurd rfl h) | (intro _; decide!)
  refine ⟨fun s => ?_, fun p hp => ?_, h2, fun t ht => ?_⟩
  · simp only [stringToAudioContentType]
    cases map_find AudioContentTypeString s <;> rfl
  · rw [hc p.2 (h2 p hp)]
    exact h1 p hp
  · rw [hc t ht]
    exact h3 t ht

set_option maxHeartbeats 4000000 in
set_option maxRecDepth 100000 in
theorem AudioChannelMask_binding (c : AudioChannelMask → Int) :
    EnumBinding AudioChannelMaskString AudioChannelMask.UNKNOWN stringToAudioChannelMask (AudioChannelMask.toString c) := by
  have hc : ∀ t : AudioChannelMask, t ≠ .UNKNOWN → AudioChannelMask.toString c t = AudioChannelMask.toString (fun _ => 0) t := by
    intro t
    cases t <;> first | (intro h; exact absurd rfl h) | (intro _; rfl)
  have h2 : ∀ p ∈ AudioChannelMaskString, p.2 ≠ AudioChannelMask.UNKNOWN := by decide
  have h1 : ∀ p ∈ AudioChannelMaskString, AudioChannelMask.toString (fun _ => 0) p.2 = p.1 := by decide
  have h3 : ∀ t : AudioChannelMask, t ≠ .UNKNOWN →
      map_find AudioChannelMaskString (AudioChannelMask.toString (fun _ => 0) t) = some t := by
    intro t
    cases t <;> first | (intro h; exact absurd rfl h) | (intro _; decide!)
  refine ⟨fun s => ?_, fun p hp => ?_, h2, fun t ht => ?_⟩
  · simp only [stringToAudioChannelMask]
    cases map_find AudioChannelMaskString s <;> rfl
  · rw [hc p.2 (h2 p hp)]
    exact h1 p hp
  · rw [hc t ht]
    exact h3 t ht

theorem AudioEncapsulationType_binding (c : AudioEncapsulationType → Int) :
    EnumBinding AudioEncapsulationTypeString AudioEncapsulationType.UNKNOWN stringToAudioEncapsulationType (AudioEncapsulationType.toString c) := by
  have hc : ∀ t : AudioEncapsulationType, t ≠ .UNKNOWN → AudioEncapsulationType.toString c t = AudioEncapsulationType.toString (fun _ => 0) t := by
    intro t
    cases t <;> first | (intro h; exact absurd rfl h) | (intro _; rfl)
  have h2 : ∀ p ∈ AudioEncapsulationTypeString, p.2 ≠ AudioEncapsulationType.UNKNOWN := by decide
  have h1 : ∀ p ∈ AudioEncapsulationTypeString, AudioEncapsulationType.toString (fun _ => 0) p.2 = p.1 := by decide
  have h3 : ∀ t : AudioEncapsulationType, t ≠ .UNKNOWN →
      map_find AudioEncapsulationTypeString (AudioEncapsulationType.toString (fun _ => 0) t) = some t := by
    intro t
    cases t <;> first | (intro h; exact absurd rfl h) | (intro _; decide!)
  refine ⟨fun s => ?_, fun p hp => ?_, h2, fun t ht => ?_⟩
  · simp only [stringToAudioEncapsulationType]
    cases map_find AudioEncapsulationTypeString s <;> rfl
  · rw [hc p.2 (h2 p hp)]
    exact h1 p hp
  · rw [hc t ht]
    exact h3 t ht

theorem AudioGainMode_binding (c : AudioGainMode → Int) :
    EnumBinding AudioGainModeString AudioGainMode.UNKNOWN stringToAudioGainMode (AudioGainMode.toString c) := by
  have hc : ∀ t : AudioGainMode, t ≠ .UNKNOWN → AudioGainMode.toString c t = AudioGainMode.toString (fun _ => 0) t := by
    intro t
    cases t <;> first | (intro h; exact absurd rfl h) | (intro _; rfl)
  have h2 : ∀ p ∈ AudioGainModeString, p.2 ≠ AudioGainMode.UNKNOWN := by decide
  have h1 : ∀ p ∈ AudioGainModeString, AudioGainMode.toString (fun _ => 0) p.2 = p.1 := by decide
  have h3 : ∀ t : AudioGainMode, t ≠ .UNKNOWN →
      map_find AudioGainModeString (AudioGainMode.toString (fun _ => 0) t) = some t := by
    intro t
    cases t <;> first | (intro h; exact absurd rfl h) | (intro _; decide!)
  refine ⟨fun s => ?_, fun p hp => ?_, h2, fun t ht => ?_⟩
  · simp only [stringToAudioGainMode]
    cases map_find AudioGainModeString s <;> rfl
  · rw [hc p.2 (h2 p hp)]
    exact h1 p hp
  · rw [hc t ht]
    exact h3 t ht

theorem MixType_binding (c : MixType → Int) :
    EnumBinding MixTypeString MixType.UNKNOWN stringToMixType (MixType.toString c) := by
  have hc : ∀ t : MixType, t ≠ .UNKNOWN → MixType.toString c t = MixType.toString (fun _ => 0) t := by
    intro t
    cases t <;> first | (intro h; exact absurd rfl h) | (intro _; rfl)
  have h2 : ∀ p ∈ MixTypeString, p.2 ≠ MixType.UNKNOWN := by decide
  have h1 : ∀ p ∈ MixTypeString, MixType.toString (fun _ => 0) p.2 = p.1 := by decide
  have h3 : ∀ t : MixType, t ≠ .UNKNOWN →
      map_find MixTypeString (MixType.toString (fun _ => 0) t) = some t := by
    intro t
    cases t <;> first | (intro h; exact absurd rfl h) | (intro _; decide!)
  refine ⟨fun s => ?_, fun p hp => ?_, h2, fun t ht => ?_⟩
  · simp only [stringToMixType]
    cases map_find MixTypeString s <;> rfl
  · rw [hc p.2 (h2 p hp)]
    exact h1 p hp
  · rw [hc t ht]
    exact h3 t ht

set_option maxHeartbeats 4000000 in
set_option maxRecDepth 100000 in
theorem AudioStreamType_binding (c : AudioStreamType → Int) :
    EnumBinding AudioStreamTypeString AudioStreamType.UNKNOWN stringToAudioStreamType (AudioStreamType.toString c) := by
  have hc : ∀ t : AudioStreamType, t ≠ .UNKNOWN → AudioStreamType.toString c t = AudioStreamType.toString (fun _ => 0) t := by
    intro t
    cases t <;> first | (intro h; exact absurd rfl h) | (intro _; rfl)
  have h2 : ∀ p ∈ AudioStreamTypeString, p.2 ≠ AudioStreamType.UNKNOWN := by decide
  have h1 : ∀ p ∈ AudioStreamTypeString, AudioStreamType.toString (fun _ => 0) p.2 = p.1 := by decide
  have h3 : ∀ t : AudioStreamType, t ≠ .UNKNOWN →
      map_find AudioStreamTypeString (AudioStreamType.toString (fun _ => 0) t) = some t := by
    intro t
    cases t <;> first | (intro h; exact absurd rfl h) | (intro _; decide!)
  refine ⟨fun s => ?_, fun p hp => ?_, h2, fun t ht => ?_⟩
  · simp only [stringToAudioStreamType]
    cases map_find AudioStreamTypeString s <;> rfl
  · rw [hc p.2 (h2 p hp)]
    exact h1 p hp
  · rw [hc t ht]
    exact h3 t ht

set_option maxHeartbeats 4000000 in
set_option maxRecDepth 100000 in
theorem AudioSource_binding (c : AudioSource → Int) :
    EnumBinding AudioSourceString AudioSource.UNKNOWN stringToAudioSource (AudioSource.toString c) := by
  have hc : ∀ t : AudioSource, t ≠ .UNKNOWN → AudioSource.toString c t = AudioSource.toString (fun _ => 0) t := by
    intro t
    cases t <;> first | (intro h; exact absurd rfl h) | (intro _; rfl)
  have h2 : ∀ p ∈ AudioSourceString, p.2 ≠ AudioSource.UNKNOWN := by decide
  have h1 : ∀ p ∈ AudioSourceString, AudioSource.toString (fun _ => 0) p.2 = p.1 := by decide
  have h3 : ∀ t : AudioSource, t ≠ .UNKNOWN →
      map_find AudioSourceString (AudioSource.toString (fun _ => 0) t) = some t := by
    intro t
    cases t <;> first | (intro h; exact absurd rfl h) | (intro _; decide!)
  refine ⟨fun s => ?_, fun p hp => ?_, h2, fun t ht => ?_⟩
  · simp only [stringToAudioSource]
    cases map_find AudioSourceString s <;> rfl
  · rw [hc p.2 (h2 p hp)]
    exact h1 p hp
  · rw [hc t ht]
    exact h3 t ht

theorem DeviceCategory_binding (c : DeviceCategory → Int) :
    EnumBinding DeviceCategoryString DeviceCategory.UNKNOWN stringToDeviceCategory (DeviceCategory.toString c) := by
  have hc : ∀ t : DeviceCategory, t ≠ .UNKNOWN → DeviceCategory.toString c t = DeviceCategory.toString (fun _ => 0) t := by
    intro t
    cases t <;> first | (intro h; exact absurd rfl h) | (intro _; rfl)
  have h2 : ∀ p ∈ DeviceCategoryString, p.2 ≠ DeviceCategory.UNKNOWN := by decide
  have h1 : ∀ p ∈ DeviceCategoryString, DeviceCategory.toString (fun _ => 0) p.2 = p.1 := by decide
  have h3 : ∀ t : DeviceCategory, t ≠ .UNKNOWN →
      map_find DeviceCategoryString (DeviceCategory.toString (fun _ => 0) t) = some t := by
    intro t
    cases t <;> first | (intro h; exact absurd rfl h) | (intro _; decide!)
  refine ⟨fun s => ?_, fun p hp => ?_, h2, fun t ht => ?_⟩
  · simp only [stringToDeviceCategory]
    cases map_find DeviceCategoryString s <;> rfl
  · rw [hc p.2 (h2 p hp)]
    exact h1 p hp
  · rw [hc t ht]
    exact h3 t ht

theorem EngineSuffix_binding (c : EngineSuffix → Int) :
    EnumBinding EngineSuffixString EngineSuffix.UNKNOWN stringToEngineSuffix (EngineSuffix.toString c) := by
  have hc : ∀ t : EngineSuffix, t ≠ .UNKNOWN → EngineSuffix.toString c t = EngineSuffix.toString (fun _ => 0) t := by
    intro t
    cases t <;> first | (intro h; exact absurd rfl h) | (intro _; rfl)
  have h2 : ∀ p ∈ EngineSuffixString, p.2 ≠ EngineSuffix.UNKNOWN := by decide
  have h1 : ∀ p ∈ EngineSuffixString, EngineSuffix.toString (fun _ => 0) p.2 = p.1 := by decide
  have h3 : ∀ t : EngineSuffix, t ≠ .UNKNOWN →
      map_find EngineSuffixString (EngineSuffix.toString (fun _ => 0) t) = some t := by
    intro t
    cases t <;> first | (intro h; exact absurd rfl h) | (intro _; decide!)
  refine ⟨fun s => ?_, fun p hp => ?_, h2, fun t ht => ?_⟩
  · simp only [stringToEngineSuffix]
    cases map_find EngineSuffixString s <;> rfl
  · rw [hc p.2 (h2 p hp)]
    exact h1 p hp
  · rw [hc t ht]
    exact h3 t ht
end V7_0

/-! ## Enumeration binding -/

theorem EnumBinding.enumRoundTrip {E : Type} {table : List (String × E)} {unknown : E}
    {stringTo : String → E} {toStr : E → String}
    (b : EnumBinding table unknown stringTo toStr) : EnumRoundTrip unknown stringTo toStr :=
  ⟨fun s => ⟨stringTo s, rfl⟩, fun t ht => b.roundTrip t ht⟩

theorem EnumBinding.stringToSpec {E : Type} {table : List (String × E)} {unknown : E}
    {stringTo : String → E} {toStr : E → String}
    (b : EnumBinding table unknown stringTo toStr) : StringToSpec table unknown stringTo :=
  ⟨fun s t h => b.of_mem s t h, fun s => b.unknown_iff s, b.2.2.1⟩

theorem EnumBinding.toStringSpec {E : Type} {table : List (String × E)} {unknown : E}
    {stringTo : String → E} {toStr : E → String} (cast : E → Int)
    (b : EnumBinding table unknown stringTo toStr)
    (hu : toStr unknown = to_string (cast unknown)) : ToStringSpec table cast toStr := by
  refine ⟨b.2.1, fun e he => ?_⟩
  by_cases h : e = unknown
  · rw [h]
    exact hu
  · exact absurd rfl (he (toStr e, e) (map_find_mem table (toStr e) e (b.2.2.2 e h)))

/-- C2: enum round trip.  For each of the sixteen enumerations, `stringToE` is defined on every
string, and for every declared tag `t` (every value other than the sentinel `UNKNOWN`)
`stringToE (toString t) = t`, whatever integers the enum declarations give the tags. -/
theorem enum_round_trip (cast : EnumCasts) :
    EnumRoundTrip V7_0.Version.UNKNOWN V7_0.stringToVersion (V7_0.Version.toString cast.Version) ∧
    EnumRoundTrip V7_0.HalVersion.UNKNOWN V7_0.stringToHalVersion (V7_0.HalVersion.toString cast.HalVersion) ∧
    EnumRoundTrip V7_0.AudioInOutFlag.UNKNOWN V7_0.stringToAudioInOutFlag (V7_0.AudioInOutFlag.toString cast.AudioInOutFlag) ∧
    EnumRoundTrip V7_0.Role.UNKNOWN V7_0.stringToRole (V7_0.Role.toString cast.Role) ∧
    EnumRoundTrip V7_0.AudioDevice.UNKNOWN V7_0.stringToAudioDevice (V7_0.AudioDevice.toString cast.AudioDevice) ∧
    EnumRoundTrip V7_0.AudioFormat.UNKNOWN V7_0.stringToAudioFormat (V7_0.AudioFormat.toString cast.AudioFormat) ∧
    EnumRoundTrip V7_0.AudioUsage.UNKNOWN V7_0.stringToAudioUsage (V7_0.AudioUsage.toString cast.AudioUsage) ∧
    EnumRoundTrip V7_0.AudioContentType.UNKNOWN V7_0.stringToAudioContentType (V7_0.AudioContentType.toString cast.AudioContentType) ∧
    EnumRoundTrip V7_0.AudioChannelMask.UNKNOWN V7_0.stringToAudioChannelMask (V7_0.AudioChannelMask.toString cast.AudioChannelMask) ∧
    EnumRoundTrip V7_0.AudioEncapsulationType.UNKNOWN V7_0.stringToAudioEncapsulationType (V7_0.AudioEncapsulationType.toString cast.AudioEncapsulationType) ∧
    EnumRoundTrip V7_0.AudioGainMode.UNKNOWN V7_0.stringToAudioGainMode (V7_0.AudioGainMode.toString cast.AudioGainMode) ∧
    EnumRoundTrip V7_0.MixType.UNKNOWN V7_0.stringToMixType (V7_0.MixType.toString cast.MixType) ∧
    EnumRoundTrip V7_0.AudioStreamType.UNKNOWN V7_0.stringToAudioStreamType (V7_0.AudioStreamType.toString cast.AudioStreamType) ∧
    EnumRoundTrip V7_0.AudioSource.UNKNOWN V7_0.stringToAudioSource (V7_0.AudioSource.toString cast.AudioSource) ∧
    EnumRoundTrip V7_0.DeviceCategory.UNKNOWN V7_0.stringToDeviceCategory (V7_0.DeviceCategory.toString cast.DeviceCategory) ∧
    EnumRoundTrip V7_0.EngineSuffix.UNKNOWN V7_0.stringToEngineSuffix (V7_0.EngineSuffix.toString cast.EngineSuffix) :=
  ⟨(V7_0.Version_binding cast.Version).enumRoundTrip,
   (V7_0.HalVersion_binding cast.HalVersion).enumRoundTrip,
   (V7_0.AudioInOutFlag_binding cast.AudioInOutFlag).enumRoundTrip,
   (V7_0.Role_binding cast.Role).enumRoundTrip,
   (V7_0.AudioDevice_binding cast.AudioDevice).enumRoundTrip,
   (V7_0.AudioFormat_binding cast.AudioFormat).enumRoundTrip,
   (V7_0.AudioUsage_binding cast.AudioUsage).enumRoundTrip,
   (V7_0.AudioContentType_binding cast.AudioContentType).enumRoundTrip,
   (V7_0.AudioChannelMask_binding cast.AudioChannelMask).enumRoundTrip,
   (V7_0.AudioEncapsulationType_binding cast.AudioEncapsulationType).enumRoundTrip,
   (V7_0.AudioGainMode_binding cast.AudioGainMode).enumRoundTrip,
   (V7_0.MixType_binding cast.MixType).enumRoundTrip,
   (V7_0.AudioStreamType_binding cast.AudioStreamType).enumRoundTrip,
   (V7_0.AudioSource_binding cast.AudioSource).enumRoundTrip,
   (V7_0.DeviceCategory_binding cast.DeviceCategory).enumRoundTrip,
   (V7_0.EngineSuffix_binding cast.EngineSuffix).enumRoundTrip⟩

/-- Witness of C2 at the tag `AUDIO_FORMAT_AAC_LC` of `AudioFormat`. -/
theorem enum_round_trip_witness :
    V7_0.AudioFormat.AUDIO_FORMAT_AAC_LC ≠ V7_0.AudioFormat.UNKNOWN ∧
    V7_0.stringToAudioFormat
      (V7_0.AudioFormat.toString (fun _ => -1) V7_0.AudioFormat.AUDIO_FORMAT_AAC_LC) =
      V7_0.AudioFormat.AUDIO_FORMAT_AAC_LC :=
  ⟨by decide,
   (enum_round_trip ⟨fun _ => -1, fun _ => -1, fun _ => -1, fun _ => -1, fun _ => -1,
      fun _ => -1, fun _ => -1, fun _ => -1, fun _ => -1, fun _ => -1, fun _ => -1, fun _ => -1,
      fun _ => -1, fun _ => -1, fun _ => -1, fun _ => -1⟩).2.2.2.2.2.1.2
     V7_0.AudioFormat.AUDIO_FORMAT_AAC_LC (by decide)⟩

/-- C3: for every enumeration and every string `s`, `stringToE s` is the tag whose canonical
string (its key in the lookup table) equals `s`, and it is `UNKNOWN` exactly when `s` is no key
of the table; the comparison is exact, so `"Sink"` and `" sink"` give `Role::UNKNOWN`; no declared
tag is the sentinel, `AUDIO_USAGE_UNKNOWN` and `AUDIO_CONTENT_TYPE_UNKNOWN` included. -/
theorem string_to_enum_spec :
    StringToSpec V7_0.VersionString V7_0.Version.UNKNOWN V7_0.stringToVersion ∧
    StringToSpec V7_0.HalVersionString V7_0.HalVersion.UNKNOWN V7_0.stringToHalVersion ∧
    StringToSpec V7_0.AudioInOutFlagString V7_0.AudioInOutFlag.UNKNOWN V7_0.stringToAudioInOutFlag ∧
    StringToSpec V7_0.RoleString V7_0.Role.UNKNOWN V7_0.stringToRole ∧
    StringToSpec V7_0.AudioDeviceString V7_0.AudioDevice.UNKNOWN V7_0.stringToAudioDevice ∧
    StringToSpec V7_0.AudioFormatString V7_0.AudioFormat.UNKNOWN V7_0.stringToAudioFormat ∧
    StringToSpec V7_0.AudioUsageString V7_0.AudioUsage.UNKNOWN V7_0.stringToAudioUsage ∧
    StringToSpec V7_0.AudioContentTypeString V7_0.AudioContentType.UNKNOWN V7_0.stringToAudioContentType ∧
    StringToSpec V7_0.AudioChannelMaskString V7_0.AudioChannelMask.UNKNOWN V7_0.stringToAudioChannelMask ∧
    StringToSpec V7_0.AudioEncapsulationTypeString V7_0.AudioEncapsulationType.UNKNOWN V7_0.stringToAudioEncapsulationType ∧
    StringToSpec V7_0.AudioGainModeString V7_0.AudioGainMode.UNKNOWN V7_0.stringToAudioGainMode ∧
    StringToSpec V7_0.MixTypeString V7_0.MixType.UNKNOWN V7_0.stringToMixType ∧
    StringToSpec V7_0.AudioStreamTypeString V7_0.AudioStreamType.UNKNOWN V7_0.stringToAudioStreamType ∧
    StringToSpec V7_0.AudioSourceString V7_0.AudioSource.UNKNOWN V7_0.stringToAudioSource ∧
    StringToSpec V7_0.DeviceCategoryString V7_0.DeviceCategory.UNKNOWN V7_0.stringToDeviceCategory ∧
    StringToSpec V7_0.EngineSuffixString V7_0.EngineSuffix.UNKNOWN V7_0.stringToEngineSuffix ∧
    V7_0.stringToRole "sink" = V7_0.Role.sink ∧
    V7_0.stringToRole "Sink" = V7_0.Role.UNKNOWN ∧
    V7_0.stringToRole " sink" = V7_0.Role.UNKNOWN ∧
    V7_0.stringToAudioUsage "AUDIO_USAGE_UNKNOWN" = V7_0.AudioUsage.AUDIO_USAGE_UNKNOWN ∧
    V7_0.AudioUsage.AUDIO_USAGE_UNKNOWN ≠ V7_0.AudioUsage.UNKNOWN ∧
    V7_0.stringToAudioContentType "AUDIO_CONTENT_TYPE_UNKNOWN" =
      V7_0.AudioContentType.AUDIO_CONTENT_TYPE_UNKNOWN ∧
    V7_0.AudioContentType.AUDIO_CONTENT_TYPE_UNKNOWN ≠ V7_0.AudioContentType.UNKNOWN :=
  ⟨(V7_0.Version_binding (fun _ => 0)).stringToSpec,
   (V7_0.HalVersion_binding (fun _ => 0)).stringToSpec,
   (V7_0.AudioInOutFlag_binding (fun _ => 0)).stringToSpec,
   (V7_0.Role_binding (fun _ => 0)).stringToSpec,
   (V7_0.AudioDevice_binding (fun _ => 0)).stringToSpec,
   (V7_0.AudioFormat_binding (fun _ => 0)).stringToSpec,
   (V7_0.AudioUsage_binding (fun _ => 0)).stringToSpec,
   (V7_0.AudioContentType_binding (fun _ => 0)).stringToSpec,
   (V7_0.AudioChannelMask_binding (fun _ => 0)).stringToSpec,
   (V7_0.AudioEncapsulationType_binding (fun _ => 0)).stringToSpec,
   (V7_0.AudioGainMode_binding (fun _ => 0)).stringToSpec,
   (V7_0.MixType_binding (fun _ => 0)).stringToSpec,
   (V7_0.AudioStreamType_binding (fun _ => 0)).stringToSpec,
   (V7_0.AudioSource_binding (fun _ => 0)).stringToSpec,
   (V7_0.DeviceCategory_binding (fun _ => 0)).stringToSpec,
   (V7_0.EngineSuffix_binding (fun _ => 0)).stringToSpec,
   by decide, by decide, by decide, by decide, by decide, by decide, by decide⟩

/-- Witness of C3 at the key `"source"` of `RoleString`. -/
theorem string_to_enum_spec_witness :
    ("source", V7_0.Role.source) ∈ V7_0.RoleString ∧
    V7_0.stringToRole "source" = V7_0.Role.source :=
  ⟨by decide, string_to_enum_spec.2.2.2.1.1 "source" V7_0.Role.source (by decide)⟩

/-! ## The conversion to text on arbitrary values -/

theorem switchArm_none {α : Type} (arms : List (Int × α)) (o : Int)
    (h : ∀ a ∈ arms, a.1 ≠ o) : switchArm arms o = none := by
  induction arms with
  | nil => rfl
  | cons a arms ih =>
    obtain ⟨label, value⟩ := a
    have h1 : o ≠ label := fun e => h (label, value) (List.mem_cons_self _ _) e.symm
    rw [switchArm, if_neg h1]
    exact ih (fun b hb => h b (List.mem_cons_of_mem _ hb))

theorem switchArm_hit {α : Type} (arms : List (Int × α))
    (hd : (arms.map (fun a => a.1)).Nodup) (a : Int × α) (ha : a ∈ arms) :
    switchArm arms a.1 = some a.2 := by
  induction arms with
  | nil => cases ha
  | cons b arms ih =>
    obtain ⟨label, value⟩ := b
    rw [List.map_cons, List.nodup_cons] at hd
    rcases List.mem_cons.1 ha with h | h
    · subst h
      rw [switchArm, if_pos rfl]
    · have hne : a.1 ≠ label := fun e => hd.1 (e ▸ List.mem_map.2 ⟨a, h, rfl⟩)
      rw [switchArm, if_neg hne]
      exact ih hd.2 h

theorem EnumBinding.toStringValueSpec {E : Type} {table : List (String × E)} {unknown : E}
    {stringTo : String → E} {toStr : E → String} (cast : E → Int) (toStrValue : Int → String)
    (b : EnumBinding table unknown stringTo toStr)
    (hu : toStr unknown = to_string (cast unknown))
    (hdef : ∀ o : Int, toStrValue o =
      match switchArm (table.map (fun p => (cast p.2, p.1))) o with
      | some text => text
      | none => to_string o)
    (hnodup : (table.map (fun p => p.2)).Nodup) :
    ToStringValueSpec table cast toStr toStrValue := by
  have hmiss : ∀ o : Int, (∀ p ∈ table, cast p.2 ≠ o) → toStrValue o = to_string o := by
    intro o h
    rw [hdef, switchArm_none]
    intro a ha
    obtain ⟨p, hp, rfl⟩ := List.mem_map.1 ha
    exact h p hp
  refine ⟨hmiss, fun hinj => ?_⟩
  have hlabels : ((table.map (fun p => (cast p.2, p.1))).map (fun a => a.1)).Nodup := by
    have h := List.Nodup.map hinj hnodup
    simpa [List.map_map, Function.comp_def] using h
  have hhit : ∀ p ∈ table, toStrValue (cast p.2) = p.1 := by
    intro p hp
    rw [hdef, switchArm_hit _ hlabels (cast p.2, p.1) (List.mem_map.2 ⟨p, hp, rfl⟩)]
  refine ⟨hhit, fun e => ?_⟩
  by_cases he : e = unknown
  · subst he
    rw [hu]
    apply hmiss
    intro p hp heq
    exact b.2.2.1 p hp (hinj heq)
  · have hmem := map_find_mem table (toStr e) e (b.2.2.2 e he)
    exact hhit (toStr e, e) hmem

set_option maxRecDepth 100000 in
theorem Version_tags_nodup : (V7_0.VersionString.map (fun p => p.2)).Nodup := by
  decide

set_option maxRecDepth 100000 in
theorem HalVersion_tags_nodup : (V7_0.HalVersionString.map (fun p => p.2)).Nodup := by
  decide

set_option maxRecDepth 100000 in
theorem AudioInOutFlag_tags_nodup : (V7_0.AudioInOutFlagString.map (fun p => p.2)).Nodup := by
  decide

set_option maxRecDepth 100000 in
theorem Role_tags_nodup : (V7_0.RoleString.map (fun p => p.2)).Nodup := by
  decide

set_option maxRecDepth 100000 in
theorem AudioDevice_tags_nodup : (V7_0.AudioDeviceString.map (fun p => p.2)).Nodup := by
  decide

set_option maxRecDepth 100000 in
theorem AudioFormat_tags_nodup : (V7_0.AudioFormatString.map (fun p => p.2)).Nodup := by
  decide

set_option maxRecDepth 100000 in
theorem AudioUsage_tags_nodup : (V7_0.AudioUsageString.map (fun p => p.2)).Nodup := by
  decide

set_option maxRecDepth 100000 in
theorem AudioContentType_tags_nodup : (V7_0.AudioContentTypeString.map (fun p => p.2)).Nodup := by
  decide

set_option maxRecDepth 100000 in
theorem AudioChannelMask_tags_nodup : (V7_0.AudioChannelMaskString.map (fun p => p.2)).Nodup := by
  decide

set_option maxRecDepth 100000 in
theorem AudioEncapsulationType_tags_nodup : (V7_0.AudioEncapsulationTypeString.map (fun p => p.2)).Nodup := by
  decide

set_option maxRecDepth 100000 in
theorem AudioGainMode_tags_nodup : (V7_0.AudioGainModeString.map (fun p => p.2)).Nodup := by
  decide

set_option maxRecDepth 100000 in
theorem MixType_tags_nodup : (V7_0.MixTypeString.map (fun p => p.2)).Nodup := by
  decide

set_option maxRecDepth 100000 in
theorem AudioStreamType_tags_nodup : (V7_0.AudioStreamTypeString.map (fun p => p.2)).Nodup := by
  decide

set_option maxRecDepth 100000 in
theorem AudioSource_tags_nodup : (V7_0.AudioSourceString.map (fun p => p.2)).Nodup := by
  decide

set_option maxRecDepth 100000 in
theorem DeviceCategory_tags_nodup : (V7_0.DeviceCategoryString.map (fun p => p.2)).Nodup := by
  decide

set_option maxRecDepth 100000 in
theorem EngineSuffix_tags_nodup : (V7_0.EngineSuffixString.map (fun p => p.2)).Nodup := by
  decide

/-- C4: for every enumeration, `toString` returns the declared canonical string when its
argument is a declared tag, and the decimal text of the underlying integer of its argument when
that is `UNKNOWN` or any other value that is no declared tag.  On the tag set (`ToStringSpec`):
a tag of the lookup table gives its key and the sentinel the decimal text of its integer.  On
arbitrary values of the enum type, each given by its integer (`ToStringValueSpec`): every
integer that is the integer of no declared tag gives its own decimal text; and when the
enumerators have different integers, as case labels must, the integer of a declared tag gives
the canonical string of the tag and the two readings of `toString` agree on every tag. -/
theorem to_string_spec (cast : EnumCasts) :
    (ToStringSpec V7_0.VersionString cast.Version (V7_0.Version.toString cast.Version) ∧
      ToStringValueSpec V7_0.VersionString cast.Version (V7_0.Version.toString cast.Version)
        (V7_0.Version.toStringOfValue cast.Version)) ∧
    (ToStringSpec V7_0.HalVersionString cast.HalVersion (V7_0.HalVersion.toString cast.HalVersion) ∧
      ToStringValueSpec V7_0.HalVersionString cast.HalVersion (V7_0.HalVersion.toString cast.HalVersion)
        (V7_0.HalVersion.toStringOfValue cast.HalVersion)) ∧
    (ToStringSpec V7_0.AudioInOutFlagString cast.AudioInOutFlag (V7_0.AudioInOutFlag.toString cast.AudioInOutFlag) ∧
      ToStringValueSpec V7_0.AudioInOutFlagString cast.AudioInOutFlag (V7_0.AudioInOutFlag.toString cast.AudioInOutFlag)
        (V7_0.AudioInOutFlag.toStringOfValue cast.AudioInOutFlag)) ∧
    (ToStringSpec V7_0.RoleString cast.Role (V7_0.Role.toString cast.Role) ∧
      ToStringValueSpec V7_0.RoleString cast.Role (V7_0.Role.toString cast.Role)
        (V7_0.Role.toStringOfValue cast.Role)) ∧
    (ToStringSpec V7_0.AudioDeviceString cast.AudioDevice (V7_0.AudioDevice.toString cast.AudioDevice) ∧
      ToStringValueSpec V7_0.AudioDeviceString cast.AudioDevice (V7_0.AudioDevice.toString cast.AudioDevice)
        (V7_0.AudioDevice.toStringOfValue cast.AudioDevice)) ∧
    (ToStringSpec V7_0.AudioFormatString cast.AudioFormat (V7_0.AudioFormat.toString cast.AudioFormat) ∧
      ToStringValueSpec V7_0.AudioFormatString cast.AudioFormat (V7_0.AudioFormat.toString cast.AudioFormat)
        (V7_0.AudioFormat.toStringOfValue cast.AudioFormat)) ∧
    (ToStringSpec V7_0.AudioUsageString cast.AudioUsage (V7_0.AudioUsage.toString cast.AudioUsage) ∧
      ToStringValueSpec V7_0.AudioUsageString cast.AudioUsage (V7_0.AudioUsage.toString cast.AudioUsage)
        (V7_0.AudioUsage.toStringOfValue cast.AudioUsage)) ∧
    (ToStringSpec V7_0.AudioContentTypeString cast.AudioContentType (V7_0.AudioContentType.toString cast.AudioContentType) ∧
      ToStringValueSpec V7_0.AudioContentTypeString cast.AudioContentType (V7_0.AudioContentType.toString cast.AudioContentType)
        (V7_0.AudioContentType.toStringOfValue cast.AudioContentType)) ∧
    (ToStringSpec V7_0.AudioChannelMaskString cast.AudioChannelMask (V7_0.AudioChannelMask.toString cast.AudioChannelMask) ∧
      ToStringValueSpec V7_0.AudioChannelMaskString cast.AudioChannelMask (V7_0.AudioChannelMask.toString cast.AudioChannelMask)
        (V7_0.AudioChannelMask.toStringOfValue cast.AudioChannelMask)) ∧
    (ToStringSpec V7_0.AudioEncapsulationTypeString cast.AudioEncapsulationType (V7_0.AudioEncapsulationType.toString cast.AudioEncapsulationType) ∧
      ToStringValueSpec V7_0.AudioEncapsulationTypeString cast.AudioEncapsulationType (V7_0.AudioEncapsulationType.toString cast.AudioEncapsulationType)
        (V7_0.AudioEncapsulationType.toStringOfValue cast.AudioEncapsulationType)) ∧
    (ToStringSpec V7_0.AudioGainModeString cast.AudioGainMode (V7_0.AudioGainMode.toString cast.AudioGainMode) ∧
      ToStringValueSpec V7_0.AudioGainModeString cast.AudioGainMode (V7_0.AudioGainMode.toString cast.AudioGainMode)
        (V7_0.AudioGainMode.toStringOfValue cast.AudioGainMode)) ∧
    (ToStringSpec V7_0.MixTypeString cast.MixType (V7_0.MixType.toString cast.MixType) ∧
      ToStringValueSpec V7_0.MixTypeString cast.MixType (V7_0.MixType.toString cast.MixType)
        (V7_0.MixType.toStringOfValue cast.MixType)) ∧
    (ToStringSpec V7_0.AudioStreamTypeString cast.AudioStreamType (V7_0.AudioStreamType.toString cast.AudioStreamType) ∧
      ToStringValueSpec V7_0.AudioStreamTypeString cast.AudioStreamType (V7_0.AudioStreamType.toString cast.AudioStreamType)
        (V7_0.AudioStreamType.toStringOfValue cast.AudioStreamType)) ∧
    (ToStringSpec V7_0.AudioSourceString cast.AudioSource (V7_0.AudioSource.toString cast.AudioSource) ∧
      ToStringValueSpec V7_0.AudioSourceString cast.AudioSource (V7_0.AudioSource.toString cast.AudioSource)
        (V7_0.AudioSource.toStringOfValue cast.AudioSource)) ∧
    (ToStringSpec V7_0.DeviceCategoryString cast.DeviceCategory (V7_0.DeviceCategory.toString cast.DeviceCategory) ∧
      ToStringValueSpec V7_0.DeviceCategoryString cast.DeviceCategory (V7_0.DeviceCategory.toString cast.DeviceCategory)
        (V7_0.DeviceCategory.toStringOfValue cast.DeviceCategory)) ∧
    (ToStringSpec V7_0.EngineSuffixString cast.EngineSuffix (V7_0.EngineSuffix.toString cast.EngineSuffix) ∧
      ToStringValueSpec V7_0.EngineSuffixString cast.EngineSuffix (V7_0.EngineSuffix.toString cast.EngineSuffix)
        (V7_0.EngineSuffix.toStringOfValue cast.EngineSuffix)) :=
  ⟨⟨(V7_0.Version_binding cast.Version).toStringSpec cast.Version rfl,
     (V7_0.Version_binding cast.Version).toStringValueSpec cast.Version _ rfl (fun _ => rfl)
       Version_tags_nodup⟩,
   ⟨(V7_0.HalVersion_binding cast.HalVersion).toStringSpec cast.HalVersion rfl,
     (V7_0.HalVersion_binding cast.HalVersion).toStringValueSpec cast.HalVersion _ rfl (fun _ => rfl)
       HalVersion_tags_nodup⟩,
   ⟨(V7_0.AudioInOutFlag_binding cast.AudioInOutFlag).toStringSpec cast.AudioInOutFlag rfl,
     (V7_0.AudioInOutFlag_binding cast.AudioInOutFlag).toStringValueSpec cast.AudioInOutFlag _ rfl (fun _ => rfl)
       AudioInOutFlag_tags_nodup⟩,
   ⟨(V7_0.Role_binding cast.Role).toStringSpec cast.Role rfl,
     (V7_0.Role_binding cast.Role).toStringValueSpec cast.Role _ rfl (fun _ => rfl)
       Role_tags_nodup⟩,
   ⟨(V7_0.AudioDevice_binding cast.AudioDevice).toStringSpec cast.AudioDevice rfl,
     (V7_0.AudioDevice_binding cast.AudioDevice).toStringValueSpec cast.AudioDevice _ rfl (fun _ => rfl)
       AudioDevice_tags_nodup⟩,
   ⟨(V7_0.AudioFormat_binding cast.AudioFormat).toStringSpec cast.AudioFormat rfl,
     (V7_0.AudioFormat_binding cast.AudioFormat).toStringValueSpec cast.AudioFormat _ rfl (fun _ => rfl)
       AudioFormat_tags_nodup⟩,
   ⟨(V7_0.AudioUsage_binding cast.AudioUsage).toStringSpec cast.AudioUsage rfl,
     (V7_0.AudioUsage_binding cast.AudioUsage).toStringValueSpec cast.AudioUsage _ rfl (fun _ => rfl)
       AudioUsage_tags_nodup⟩,
   ⟨(V7_0.AudioContentType_binding cast.AudioContentType).toStringSpec cast.AudioContentType rfl,
     (V7_0.AudioContentType_binding cast.AudioContentType).toStringValueSpec cast.AudioContentType _ rfl (fun _ => rfl)
       AudioContentType_tags_nodup⟩,
   ⟨(V7_0.AudioChannelMask_binding cast.AudioChannelMask).toStringSpec cast.AudioChannelMask rfl,
     (V7_0.AudioChannelMask_binding cast.AudioChannelMask).toStringValueSpec cast.AudioChannelMask _ rfl (fun _ => rfl)
       AudioChannelMask_tags_nodup⟩,
   ⟨(V7_0.AudioEncapsulationType_binding cast.AudioEncapsulationType).toStringSpec cast.AudioEncapsulationType rfl,
     (V7_0.AudioEncapsulationType_binding cast.AudioEncapsulationType).toStringValueSpec cast.AudioEncapsulationType _ rfl (fun _ => rfl)
       AudioEncapsulationType_tags_nodup⟩,
   ⟨(V7_0.AudioGainMode_binding cast.AudioGainMode).toStringSpec cast.AudioGainMode rfl,
     (V7_0.AudioGainMode_binding cast.AudioGainMode).toStringValueSpec cast.AudioGainMode _ rfl (fun _ => rfl)
       AudioGainMode_tags_nodup⟩,
   ⟨(V7_0.MixType_binding cast.MixType).toStringSpec cast.MixType rfl,
     (V7_0.MixType_binding cast.MixType).toStringValueSpec cast.MixType _ rfl (fun _ => rfl)
       MixType_tags_nodup⟩,
   ⟨(V7_0.AudioStreamType_binding cast.AudioStreamType).toStringSpec cast.AudioStreamType rfl,
     (V7_0.AudioStreamType_binding cast.AudioStreamType).toStringValueSpec cast.AudioStreamType _ rfl (fun _ => rfl)
       AudioStreamType_tags_nodup⟩,
   ⟨(V7_0.AudioSource_binding cast.AudioSource).toStringSpec cast.AudioSource rfl,
     (V7_0.AudioSource_binding cast.AudioSource).toStringValueSpec cast.AudioSource _ rfl (fun _ => rfl)
       AudioSource_tags_nodup⟩,
   ⟨(V7_0.DeviceCategory_binding cast.DeviceCategory).toStringSpec cast.DeviceCategory rfl,
     (V7_0.DeviceCategory_binding cast.DeviceCategory).toStringValueSpec cast.DeviceCategory _ rfl (fun _ => rfl)
       DeviceCategory_tags_nodup⟩,
   ⟨(V7_0.EngineSuffix_binding cast.EngineSuffix).toStringSpec cast.EngineSuffix rfl,
     (V7_0.EngineSuffix_binding cast.EngineSuffix).toStringValueSpec cast.EngineSuffix _ rfl (fun _ => rfl)
       EngineSuffix_tags_nodup⟩⟩

theorem role_integers_injective :
    Function.Injective (fun t : V7_0.Role =>
      match t with
      | V7_0.Role.UNKNOWN => (-1 : Int)
      | V7_0.Role.sink => 0
      | V7_0.Role.source => 1) := by
  intro a b h
  cases a <;> cases b <;> first | rfl | (exfalso; revert h; decide)

/-- Evaluation of C4 on `Role`, with the sentinel at minus one and the tags from zero: the value
7, which is no declared tag, gives the text `7`, the sentinel gives `-1`, and the integer of
`source` gives `source`. -/
theorem to_string_spec_witness :
    V7_0.Role.toStringOfValue (fun t : V7_0.Role =>
      match t with
      | V7_0.Role.UNKNOWN => (-1 : Int)
      | V7_0.Role.sink => 0
      | V7_0.Role.source => 1) 7 = to_string 7 ∧
    to_string 7 = "7" ∧
    V7_0.Role.toString (fun t : V7_0.Role =>
      match t with
      | V7_0.Role.UNKNOWN => (-1 : Int)
      | V7_0.Role.sink => 0
      | V7_0.Role.source => 1) V7_0.Role.UNKNOWN = "-1" ∧
    V7_0.Role.toStringOfValue (fun t : V7_0.Role =>
      match t with
      | V7_0.Role.UNKNOWN => (-1 : Int)
      | V7_0.Role.sink => 0
      | V7_0.Role.source => 1) 1 = "source" :=
  ⟨(to_string_spec ⟨fun _ => 0, fun _ => 0, fun _ => 0,
      (fun t : V7_0.Role =>
        match t with
        | V7_0.Role.UNKNOWN => (-1 : Int)
        | V7_0.Role.sink => 0
        | V7_0.Role.source => 1),
      fun _ => 0, fun _ => 0, fun _ => 0, fun _ => 0, fun _ => 0, fun _ => 0, fun _ => 0,
      fun _ => 0, fun _ => 0, fun _ => 0, fun _ => 0, fun _ => 0⟩).2.2.2.1.2.1 7 (by decide),
    by decide, by decide,
    ((to_string_spec ⟨fun _ => 0, fun _ => 0, fun _ => 0,
      (fun t : V7_0.Role =>
        match t with
        | V7_0.Role.UNKNOWN => (-1 : Int)
        | V7_0.Role.sink => 0
        | V7_0.Role.source => 1),
      fun _ => 0, fun _ => 0, fun _ => 0, fun _ => 0, fun _ => 0, fun _ => 0, fun _ => 0,
      fun _ => 0, fun _ => 0, fun _ => 0, fun _ => 0, fun _ => 0⟩).2.2.2.1.2.2
        role_integers_injective).1 ("source", V7_0.Role.source) (by decide)⟩

/-! ## Generic facts about the reader loops -/

theorem Except_bind_ok {ε α β : Type} (x : Except ε α) (f : α → Except ε β) (b : β) :
    (x >>= f) = .ok b ↔ ∃ a, x = .ok a ∧ f a = .ok b := by
  cases x with
  | error e => simp [bind, Except.bind]
  | ok a => simp [bind, Except.bind]

theorem Except_map_ok {ε α β : Type} (x : Except ε α) (f : α → β) (b : β) :
    (f <$> x) = .ok b ↔ ∃ a, x = .ok a ∧ f a = b := by
  cases x with
  | error e => simp [Functor.map, Except.map]
  | ok a => simp [Functor.map, Except.map]

theorem Except_pure_ok {ε α : Type} (a b : α) :
    (pure a : Except ε α) = .ok b ↔ a = b := by
  simp [pure, Except.pure]

theorem foldlM_invariant {σ ε α : Type} (body : σ → α → Except ε σ) (P : List α → σ → Prop)
    (hstep : ∀ pre c s s', P pre s → body s c = .ok s' → P (pre ++ [c]) s') :
    ∀ (cs pre : List α) (s s' : σ), P pre s → cs.foldlM body s = .ok s' → P (pre ++ cs) s' := by
  intro cs
  induction cs with
  | nil =>
    intro pre s s' hP h
    simp only [List.foldlM, Except_pure_ok] at h
    subst h
    simpa using hP
  | cons c cs ih =>
    intro pre s s' hP h
    rw [List.foldlM_cons, Except_bind_ok] at h
    obtain ⟨s1, h1, h2⟩ := h
    have := ih (pre ++ [c]) s1 s' (hstep pre c s s1 hP h1) h2
    simpa using this

/-- A loop that appends the reading of the children named `nm` to the component `proj` of its
state ends, when it returns, with the readings of exactly those children, in document order. -/
theorem collect_of_fold {σ α : Type} (body : σ → XmlNode → Except CppException σ)
    (proj : σ → List α) (nm : String) (rd : XmlNode → Except CppException α)
    (hbody : ∀ s c s', body s c = .ok s' →
      (c.name = nm → ∃ v, rd c = .ok v ∧ proj s' = proj s ++ [v]) ∧
      (c.name ≠ nm → proj s' = proj s))
    (root : XmlNode) (init s' : σ) (hinit : proj init = [])
    (h : root.xmlChildrenNode.foldlM body init = .ok s') :
    (childrenNamed root nm).mapM rd = .ok (proj s') := by
  have key := foldlM_invariant body
    (fun pre s => (pre.filter (fun c => decide (c.name = nm))).mapM rd = .ok (proj s))
    (by
      intro pre c s s1 hP hb
      obtain ⟨hyes, hno⟩ := hbody s c s1 hb
      have hsingle : ([c].filter (fun c => decide (c.name = nm))).mapM rd =
          .ok (if c.name = nm then [] ++ (match rd c with | .ok v => [v] | .error _ => [])
            else []) ∨ (c.name = nm ∧ ∃ e, rd c = .error e) := by
        by_cases hc : c.name = nm
        · obtain ⟨v, hv, _⟩ := hyes hc
          left
          simp only [List.filter, hc, decide_True, List.mapM_cons, List.mapM_nil, hv, if_true]
          rfl
        · left
          simp only [List.filter, hc, decide_False, List.mapM_nil, if_false]
          rfl
      rcases hsingle with hs | ⟨hc, e, he⟩
      · rw [List.filter_append, List.mapM_append, hP, hs]
        by_cases hc : c.name = nm
        · obtain ⟨v, hv, hp⟩ := hyes hc
          simp only [hc, if_true, hv, hp]
          rfl
        · simp only [hc, if_false, hno hc, bind, Except.bind, pure, Except.pure,
            List.append_nil]
      · obtain ⟨v, hv, _⟩ := hyes hc
        rw [hv] at he
        cases he)
    root.xmlChildrenNode [] init s' (by simp only [List.filter_nil, List.mapM_nil, hinit]; rfl) h
  simpa [childrenNamed] using key


/-! ## Order preservation of the repeated child elements -/

theorem mapM_ok_eq_map {α β : Type} (f : α → β) (l : List α) :
    l.mapM (fun c => (Except.ok (f c) : Except CppException β)) = .ok (l.map f) := by
  induction l with
  | nil => rfl
  | cons a l ih =>
    rw [List.mapM_cons, ih]
    rfl

theorem collect_ApexInfoList_apex_info (n : XmlNode) (r : apex.ApexInfoList) (h : apex.ApexInfoList.read n = .ok r) :
    (childrenNamed n "apex-info").mapM apex.ApexInfo.read = .ok r.getApexInfo := by
  simp only [apex.ApexInfoList.read, Except_bind_ok, Except_pure_ok] at h
  obtain ⟨s, hs, rfl⟩ := h
  have key := collect_of_fold _ (fun s => s) "apex-info" apex.ApexInfo.read ?_ n _ s rfl hs
  · exact key
  · intro s c s' hb
    refine ⟨fun hc => ?_, fun hc => ?_⟩
    · rw [hc] at hb
      simp only [String.reduceEq, ↓reduceIte, Except_bind_ok, Except_pure_ok] at hb
      obtain ⟨v, hv, rfl⟩ := hb; exact ⟨v, hv, rfl⟩
    · split_ifs at hb <;> simp only [Except_bind_ok, Except_pure_ok] at hb <;>
        first
        | (exfalso; exact hc (by assumption))
        | (subst hb; rfl)
        | (obtain ⟨v, _, rfl⟩ := hb; rfl)

theorem collect_AudioPolicyConfiguration_globalConfiguration (n : XmlNode) (r : V7_0.AudioPolicyConfiguration) (h : V7_0.AudioPolicyConfiguration.read n = .ok r) :
    (childrenNamed n "globalConfiguration").mapM V7_0.GlobalConfiguration.read = .ok r.getGlobalConfiguration := by
  simp only [V7_0.AudioPolicyConfiguration.read, Except_bind_ok, Except_pure_ok] at h
  obtain ⟨s, hs, rfl⟩ := h
  have key := collect_of_fold _ (fun s => s.globalConfiguration) "globalConfiguration" V7_0.GlobalConfiguration.read ?_ n _ s rfl hs
  · exact key
  · intro s c s' hb
    refine ⟨fun hc => ?_, fun hc => ?_⟩
    · rw [hc] at hb
      simp only [String.reduceEq, ↓reduceIte, Except_bind_ok, Except_pure_ok] at hb
      obtain ⟨v, hv, rfl⟩ := hb; exact ⟨v, hv, rfl⟩
    · split_ifs at hb <;> simp only [Except_bind_ok, Except_pure_ok] at hb <;>
        first
        | (exfalso; exact hc (by assumption))
        | (subst hb; rfl)
        | (obtain ⟨v, _, rfl⟩ := hb; rfl)

theorem collect_AudioPolicyConfiguration_modules (n : XmlNode) (r : V7_0.AudioPolicyConfiguration) (h : V7_0.AudioPolicyConfiguration.read n = .ok r) :
    (childrenNamed n "modules").mapM V7_0.Modules.read = .ok r.getModules := by
  simp only [V7_0.AudioPolicyConfiguration.read, Except_bind_ok, Except_pure_ok] at h
  obtain ⟨s, hs, rfl⟩ := h
  have key := collect_of_fold _ (fun s => s.modules) "modules" V7_0.Modules.read ?_ n _ s rfl hs
  · exact key
  · intro s c s' hb
    refine ⟨fun hc => ?_, fun hc => ?_⟩
    · rw [hc] at hb
      simp only [String.reduceEq, ↓reduceIte, Except_bind_ok, Except_pure_ok] at hb
      obtain ⟨v, hv, rfl⟩ := hb; exact ⟨v, hv, rfl⟩
    · split_ifs at hb <;> simp only [Except_bind_ok, Except_pure_ok] at hb <;>
        first
        | (exfalso; exact hc (by assumption))
        | (subst hb; rfl)
        | (obtain ⟨v, _, rfl⟩ := hb; rfl)

theorem collect_AudioPolicyConfiguration_volumes (n : XmlNode) (r : V7_0.AudioPolicyConfiguration) (h : V7_0.AudioPolicyConfiguration.read n = .ok r) :
    (childrenNamed n "volumes").mapM V7_0.Volumes.read = .ok r.getVolumes := by
  simp only [V7_0.AudioPolicyConfiguration.read, Except_bind_ok, Except_pure_ok] at h
  obtain ⟨s, hs, rfl⟩ := h
  have key := collect_of_fold _ (fun s => s.volumes) "volumes" V7_0.Volumes.read ?_ n _ s rfl hs
  · exact key
  · intro s c s' hb
    refine ⟨fun hc => ?_, fun hc => ?_⟩
    · rw [hc] at hb
      simp only [String.reduceEq, ↓reduceIte, Except_bind_ok, Except_pure_ok] at hb
      obtain ⟨v, hv, rfl⟩ := hb; exact ⟨v, hv, rfl⟩
    · split_ifs at hb <;> simp only [Except_bind_ok, Except_pure_ok] at hb <;>
        first
        | (exfalso; exact hc (by assumption))
        | (subst hb; rfl)
        | (obtain ⟨v, _, rfl⟩ := hb; rfl)

theorem collect_AudioPolicyConfiguration_surroundSound (n : XmlNode) (r : V7_0.AudioPolicyConfiguration) (h : V7_0.AudioPolicyConfiguration.read n = .ok r) :
    (childrenNamed n "surroundSound").mapM V7_0.SurroundSound.read = .ok r.getSurroundSound := by
  simp only [V7_0.AudioPolicyConfiguration.read, Except_bind_ok, Except_pure_ok] at h
  obtain ⟨s, hs, rfl⟩ := h
  have key := collect_of_fold _ (fun s => s.surroundSound) "surroundSound" V7_0.SurroundSound.read ?_ n _ s rfl hs
  · exact key
  · intro s c s' hb
    refine ⟨fun hc => ?_, fun hc => ?_⟩
    · rw [hc] at hb
      simp only [String.reduceEq, ↓reduceIte, Except_bind_ok, Except_pure_ok] at hb
      obtain ⟨v, hv, rfl⟩ := hb; exact ⟨v, hv, rfl⟩
    · split_ifs at hb <;> simp only [Except_bind_ok, Except_pure_ok] at hb <;>
        first
        | (exfalso; exact hc (by assumption))
        | (subst hb; rfl)
        | (obtain ⟨v, _, rfl⟩ := hb; rfl)

theorem collect_Modules_module (n : XmlNode) (r : V7_0.Modules) (h : V7_0.Modules.read n = .ok r) :
    (childrenNamed n "module").mapM V7_0.Modules.Module.read = .ok r.get_module := by
  simp only [V7_0.Modules.read, Except_bind_ok, Except_pure_ok] at h
  obtain ⟨s, hs, rfl⟩ := h
  have key := collect_of_fold _ (fun s => s) "module" V7_0.Modules.Module.read ?_ n _ s rfl hs
  · exact key
  · intro s c s' hb
    refine ⟨fun hc => ?_, fun hc => ?_⟩
    · rw [hc] at hb
      simp only [String.reduceEq, ↓reduceIte, Except_bind_ok, Except_pure_ok] at hb
      obtain ⟨v, hv, rfl⟩ := hb; exact ⟨v, hv, rfl⟩
    · split_ifs at hb <;> simp only [Except_bind_ok, Except_pure_ok] at hb <;>
        first
        | (exfalso; exact hc (by assumption))
        | (subst hb; rfl)
        | (obtain ⟨v, _, rfl⟩ := hb; rfl)

theorem collect_Modules_Module_attachedDevices (n : XmlNode) (r : V7_0.Modules.Module) (h : V7_0.Modules.Module.read n = .ok r) :
    (childrenNamed n "attachedDevices").mapM V7_0.AttachedDevices.read = .ok r.getAttachedDevices := by
  simp only [V7_0.Modules.Module.read, Except_bind_ok, Except_pure_ok] at h
  obtain ⟨s, hs, rfl⟩ := h
  have key := collect_of_fold _ (fun s => s.attachedDevices) "attachedDevices" V7_0.AttachedDevices.read ?_ n _ s rfl hs
  · exact key
  · intro s c s' hb
    refine ⟨fun hc => ?_, fun hc => ?_⟩
    · rw [hc] at hb
      simp only [String.reduceEq, ↓reduceIte, Except_bind_ok, Except_pure_ok] at hb
      obtain ⟨v, hv, rfl⟩ := hb; exact ⟨v, hv, rfl⟩
    · split_ifs at hb <;> simp only [Except_bind_ok, Except_pure_ok] at hb <;>
        first
        | (exfalso; exact hc (by assumption))
        | (subst hb; rfl)
        | (obtain ⟨v, _, rfl⟩ := hb; rfl)

theorem collect_Modules_Module_mixPorts (n : XmlNode) (r : V7_0.Modules.Module) (h : V7_0.Modules.Module.read n = .ok r) :
    (childrenNamed n "mixPorts").mapM V7_0.MixPorts.read = .ok r.getMixPorts := by
  simp only [V7_0.Modules.Module.read, Except_bind_ok, Except_pure_ok] at h
  obtain ⟨s, hs, rfl⟩ := h
  have key := collect_of_fold _ (fun s => s.mixPorts) "mixPorts" V7_0.MixPorts.read ?_ n _ s rfl hs
  · exact key
  · intro s c s' hb
    refine ⟨fun hc => ?_, fun hc => ?_⟩
    · rw [hc] at hb
      simp only [String.reduceEq, ↓reduceIte, Except_bind_ok, Except_pure_ok] at hb
      obtain ⟨v, hv, rfl⟩ := hb; exact ⟨v, hv, rfl⟩
    · split_ifs at hb <;> simp only [Except_bind_ok, Except_pure_ok] at hb <;>
        first
        | (exfalso; exact hc (by assumption))
        | (subst hb; rfl)
        | (obtain ⟨v, _, rfl⟩ := hb; rfl)

theorem collect_Modules_Module_devicePorts (n : XmlNode) (r : V7_0.Modules.Module) (h : V7_0.Modules.Module.read n = .ok r) :
    (childrenNamed n "devicePorts").mapM V7_0.DevicePorts.read = .ok r.getDevicePorts := by
  simp only [V7_0.Modules.Module.read, Except_bind_ok, Except_pure_ok] at h
  obtain ⟨s, hs, rfl⟩ := h
  have key := collect_of_fold _ (fun s => s.devicePorts) "devicePorts" V7_0.DevicePorts.read ?_ n _ s rfl hs
  · exact key
  · intro s c s' hb
    refine ⟨fun hc => ?_, fun hc => ?_⟩
    · rw [hc] at hb
      simp only [String.reduceEq, ↓reduceIte, Except_bind_ok, Except_pure_ok] at hb
      obtain ⟨v, hv, rfl⟩ := hb; exact ⟨v, hv, rfl⟩
    · split_ifs at hb <;> simp only [Except_bind_ok, Except_pure_ok] at hb <;>
        first
        | (exfalso; exact hc (by assumption))
        | (subst hb; rfl)
        | (obtain ⟨v, _, rfl⟩ := hb; rfl)

theorem collect_Modules_Module_routes (n : XmlNode) (r : V7_0.Modules.Module) (h : V7_0.Modules.Module.read n = .ok r) :
    (childrenNamed n "routes").mapM V7_0.Routes.read = .ok r.getRoutes := by
  simp only [V7_0.Modules.Module.read, Except_bind_ok, Except_pure_ok] at h
  obtain ⟨s, hs, rfl⟩ := h
  have key := collect_of_fold _ (fun s => s.routes) "routes" V7_0.Routes.read ?_ n _ s rfl hs
  · exact key
  · intro s c s' hb
    refine ⟨fun hc => ?_, fun hc => ?_⟩
    · rw [hc] at hb
      simp only [String.reduceEq, ↓reduceIte, Except_bind_ok, Except_pure_ok] at hb
      obtain ⟨v, hv, rfl⟩ := hb; exact ⟨v, hv, rfl⟩
    · split_ifs at hb <;> simp only [Except_bind_ok, Except_pure_ok] at hb <;>
        first
        | (exfalso; exact hc (by assumption))
        | (subst hb; rfl)
        | (obtain ⟨v, _, rfl⟩ := hb; rfl)

theorem collect_AttachedDevices_item (n : XmlNode) (r : V7_0.AttachedDevices) (h : V7_0.AttachedDevices.read n = .ok r) :
    (childrenNamed n "item").map childText = r.getItem := by
  simp only [V7_0.AttachedDevices.read, Except_bind_ok, Except_pure_ok] at h
  obtain ⟨s, hs, rfl⟩ := h
  have key := collect_of_fold _ (fun s => s) "item" (fun c => Except.ok (childText c)) ?_ n _ s rfl hs
  · rw [mapM_ok_eq_map] at key; exact (Except.ok.inj key)
  · intro s c s' hb
    refine ⟨fun hc => ?_, fun hc => ?_⟩
    · rw [hc] at hb
      simp only [String.reduceEq, ↓reduceIte, Except_bind_ok, Except_pure_ok] at hb
      subst hb; exact ⟨_, rfl, rfl⟩
    · split_ifs at hb <;> simp only [Except_bind_ok, Except_pure_ok] at hb <;>
        first
        | (exfalso; exact hc (by assumption))
        | (subst hb; rfl)
        | (obtain ⟨v, _, rfl⟩ := hb; rfl)

theorem collect_MixPorts_mixPort (n : XmlNode) (r : V7_0.MixPorts) (h : V7_0.MixPorts.read n = .ok r) :
    (childrenNamed n "mixPort").mapM V7_0.MixPorts.MixPort.read = .ok r.getMixPort := by
  simp only [V7_0.MixPorts.read, Except_bind_ok, Except_pure_ok] at h
  obtain ⟨s, hs, rfl⟩ := h
  have key := collect_of_fold _ (fun s => s) "mixPort" V7_0.MixPorts.MixPort.read ?_ n _ s rfl hs
  · exact key
  · intro s c s' hb
    refine ⟨fun hc => ?_, fun hc => ?_⟩
    · rw [hc] at hb
      simp only [String.reduceEq, ↓reduceIte, Except_bind_ok, Except_pure_ok] at hb
      obtain ⟨v, hv, rfl⟩ := hb; exact ⟨v, hv, rfl⟩
    · split_ifs at hb <;> simp only [Except_bind_ok, Except_pure_ok] at hb <;>
        first
        | (exfalso; exact hc (by assumption))
        | (subst hb; rfl)
        | (obtain ⟨v, _, rfl⟩ := hb; rfl)

theorem collect_MixPorts_MixPort_profile (n : XmlNode) (r : V7_0.MixPorts.MixPort) (h : V7_0.MixPorts.MixPort.read n = .ok r) :
    (childrenNamed n "profile").mapM V7_0.Profile.read = .ok r.getProfile := by
  simp only [V7_0.MixPorts.MixPort.read, Except_bind_ok, Except_pure_ok] at h
  obtain ⟨_, _, _, _, ⟨s1, s2⟩, hs, h⟩ := h
  simp only [Except_pure_ok] at h
  subst h
  have key := collect_of_fold _ (fun s => s.1) "profile" V7_0.Profile.read ?_ n _ (s1, s2) rfl hs
  · exact key
  · intro s c s' hb
    refine ⟨fun hc => ?_, fun hc => ?_⟩
    · rw [hc] at hb
      simp only [String.reduceEq, ↓reduceIte, Except_bind_ok, Except_pure_ok] at hb
      obtain ⟨v, hv, rfl⟩ := hb; exact ⟨v, hv, rfl⟩
    · split_ifs at hb <;> simp only [Except_bind_ok, Except_pure_ok] at hb <;>
        first
        | (exfalso; exact hc (by assumption))
        | (subst hb; rfl)
        | (obtain ⟨v, _, rfl⟩ := hb; rfl)

theorem collect_MixPorts_MixPort_gains (n : XmlNode) (r : V7_0.MixPorts.MixPort) (h : V7_0.MixPorts.MixPort.read n = .ok r) :
    (childrenNamed n "gains").mapM V7_0.Gains.read = .ok r.getGains := by
  simp only [V7_0.MixPorts.MixPort.read, Except_bind_ok, Except_pure_ok] at h
  obtain ⟨_, _, _, _, ⟨s1, s2⟩, hs, h⟩ := h
  simp only [Except_pure_ok] at h
  subst h
  have key := collect_of_fold _ (fun s => s.2) "gains" V7_0.Gains.read ?_ n _ (s1, s2) rfl hs
  · exact key
  · intro s c s' hb
    refine ⟨fun hc => ?_, fun hc => ?_⟩
    · rw [hc] at hb
      simp only [String.reduceEq, ↓reduceIte, Except_bind_ok, Except_pure_ok] at hb
      obtain ⟨v, hv, rfl⟩ := hb; exact ⟨v, hv, rfl⟩
    · split_ifs at hb <;> simp only [Except_bind_ok, Except_pure_ok] at hb <;>
        first
        | (exfalso; exact hc (by assumption))
        | (subst hb; rfl)
        | (obtain ⟨v, _, rfl⟩ := hb; rfl)

theorem collect_Gains_gain (n : XmlNode) (r : V7_0.Gains) (h : V7_0.Gains.read n = .ok r) :
    (childrenNamed n "gain").mapM V7_0.Gains.Gain.read = .ok r.getGain := by
  simp only [V7_0.Gains.read, Except_bind_ok, Except_pure_ok] at h
  obtain ⟨s, hs, rfl⟩ := h
  have key := collect_of_fold _ (fun s => s) "gain" V7_0.Gains.Gain.read ?_ n _ s rfl hs
  · exact key
  · intro s c s' hb
    refine ⟨fun hc => ?_, fun hc => ?_⟩
    · rw [hc] at hb
      simp only [String.reduceEq, ↓reduceIte, Except_bind_ok, Except_pure_ok] at hb
      obtain ⟨v, hv, rfl⟩ := hb; exact ⟨v, hv, rfl⟩
    · split_ifs at hb <;> simp only [Except_bind_ok, Except_pure_ok] at hb <;>
        first
        | (exfalso; exact hc (by assumption))
        | (subst hb; rfl)
        | (obtain ⟨v, _, rfl⟩ := hb; rfl)

theorem collect_DevicePorts_devicePort (n : XmlNode) (r : V7_0.DevicePorts) (h : V7_0.DevicePorts.read n = .ok r) :
    (childrenNamed n "devicePort").mapM V7_0.DevicePorts.DevicePort.read = .ok r.getDevicePort := by
  simp only [V7_0.DevicePorts.read, Except_bind_ok, Except_pure_ok] at h
  obtain ⟨s, hs, rfl⟩ := h
  have key := collect_of_fold _ (fun s => s) "devicePort" V7_0.DevicePorts.DevicePort.read ?_ n _ s rfl hs
  · exact key
  · intro s c s' hb
    refine ⟨fun hc => ?_, fun hc => ?_⟩
    · rw [hc] at hb
      simp only [String.reduceEq, ↓reduceIte, Except_bind_ok, Except_pure_ok] at hb
      obtain ⟨v, hv, rfl⟩ := hb; exact ⟨v, hv, rfl⟩
    · split_ifs at hb <;> simp only [Except_bind_ok, Except_pure_ok] at hb <;>
        first
        | (exfalso; exact hc (by assumption))
        | (subst hb; rfl)
        | (obtain ⟨v, _, rfl⟩ := hb; rfl)

theorem collect_DevicePorts_DevicePort_profile (n : XmlNode) (r : V7_0.DevicePorts.DevicePort) (h : V7_0.DevicePorts.DevicePort.read n = .ok r) :
    (childrenNamed n "profile").mapM V7_0.Profile.read = .ok r.getProfile := by
  simp only [V7_0.DevicePorts.DevicePort.read, Except_bind_ok, Except_pure_ok] at h
  obtain ⟨⟨s1, s2⟩, hs, h⟩ := h
  simp only [Except_pure_ok] at h
  subst h
  have key := collect_of_fold _ (fun s => s.1) "profile" V7_0.Profile.read ?_ n _ (s1, s2) rfl hs
  · exact key
  · intro s c s' hb
    refine ⟨fun hc => ?_, fun hc => ?_⟩
    · rw [hc] at hb
      simp only [String.reduceEq, ↓reduceIte, Except_bind_ok, Except_pure_ok] at hb
      obtain ⟨v, hv, rfl⟩ := hb; exact ⟨v, hv, rfl⟩
    · split_ifs at hb <;> simp only [Except_bind_ok, Except_pure_ok] at hb <;>
        first
        | (exfalso; exact hc (by assumption))
        | (subst hb; rfl)
        | (obtain ⟨v, _, rfl⟩ := hb; rfl)

theorem collect_DevicePorts_DevicePort_gains (n : XmlNode) (r : V7_0.DevicePorts.DevicePort) (h : V7_0.DevicePorts.DevicePort.read n = .ok r) :
    (childrenNamed n "gains").mapM V7_0.Gains.read = .ok r.getGains := by
  simp only [V7_0.DevicePorts.DevicePort.read, Except_bind_ok, Except_pure_ok] at h
  obtain ⟨⟨s1, s2⟩, hs, h⟩ := h
  simp only [Except_pure_ok] at h
  subst h
  have key := collect_of_fold _ (fun s => s.2) "gains" V7_0.Gains.read ?_ n _ (s1, s2) rfl hs
  · exact key
  · intro s c s' hb
    refine ⟨fun hc => ?_, fun hc => ?_⟩
    · rw [hc] at hb
      simp only [String.reduceEq, ↓reduceIte, Except_bind_ok, Except_pure_ok] at hb
      obtain ⟨v, hv, rfl⟩ := hb; exact ⟨v, hv, rfl⟩
    · split_ifs at hb <;> simp only [Except_bind_ok, Except_pure_ok] at hb <;>
        first
        | (exfalso; exact hc (by assumption))
        | (subst hb; rfl)
        | (obtain ⟨v, _, rfl⟩ := hb; rfl)

theorem collect_Routes_route (n : XmlNode) (r : V7_0.Routes) (h : V7_0.Routes.read n = .ok r) :
    (childrenNamed n "route").mapM V7_0.Routes.Route.read = .ok r.getRoute := by
  simp only [V7_0.Routes.read, Except_bind_ok, Except_pure_ok] at h
  obtain ⟨s, hs, rfl⟩ := h
  have key := collect_of_fold _ (fun s => s) "route" V7_0.Routes.Route.read ?_ n _ s rfl hs
  · exact key
  · intro s c s' hb
    refine ⟨fun hc => ?_, fun hc => ?_⟩
    · rw [hc] at hb
      simp only [String.reduceEq, ↓reduceIte, Except_bind_ok, Except_pure_ok] at hb
      obtain ⟨v, hv, rfl⟩ := hb; exact ⟨v, hv, rfl⟩
    · split_ifs at hb <;> simp only [Except_bind_ok, Except_pure_ok] at hb <;>
        first
        | (exfalso; exact hc (by assumption))
        | (subst hb; rfl)
        | (obtain ⟨v, _, rfl⟩ := hb; rfl)

theorem collect_Volumes_volume (n : XmlNode) (r : V7_0.Volumes) (h : V7_0.Volumes.read n = .ok r) :
    (childrenNamed n "volume").mapM V7_0.Volume.read = .ok r.getVolume := by
  simp only [V7_0.Volumes.read, Except_bind_ok, Except_pure_ok] at h
  obtain ⟨⟨s1, s2⟩, hs, h⟩ := h
  simp only [Except_pure_ok] at h
  subst h
  have key := collect_of_fold _ (fun s => s.1) "volume" V7_0.Volume.read ?_ n _ (s1, s2) rfl hs
  · exact key
  · intro s c s' hb
    refine ⟨fun hc => ?_, fun hc => ?_⟩
    · rw [hc] at hb
      simp only [String.reduceEq, ↓reduceIte, Except_bind_ok, Except_pure_ok] at hb
      obtain ⟨v, hv, rfl⟩ := hb; exact ⟨v, hv, rfl⟩
    · split_ifs at hb <;> simp only [Except_bind_ok, Except_pure_ok] at hb <;>
        first
        | (exfalso; exact hc (by assumption))
        | (subst hb; rfl)
        | (obtain ⟨v, _, rfl⟩ := hb; rfl)

theorem collect_Volumes_reference (n : XmlNode) (r : V7_0.Volumes) (h : V7_0.Volumes.read n = .ok r) :
    (childrenNamed n "reference").mapM V7_0.Reference.read = .ok r.getReference := by
  simp only [V7_0.Volumes.read, Except_bind_ok, Except_pure_ok] at h
  obtain ⟨⟨s1, s2⟩, hs, h⟩ := h
  simp only [Except_pure_ok] at h
  subst h
  have key := collect_of_fold _ (fun s => s.2) "reference" V7_0.Reference.read ?_ n _ (s1, s2) rfl hs
  · exact key
  · intro s c s' hb
    refine ⟨fun hc => ?_, fun hc => ?_⟩
    · rw [hc] at hb
      simp only [String.reduceEq, ↓reduceIte, Except_bind_ok, Except_pure_ok] at hb
      obtain ⟨v, hv, rfl⟩ := hb; exact ⟨v, hv, rfl⟩
    · split_ifs at hb <;> simp only [Except_bind_ok, Except_pure_ok] at hb <;>
        first
        | (exfalso; exact hc (by assumption))
        | (subst hb; rfl)
        | (obtain ⟨v, _, rfl⟩ := hb; rfl)

theorem collect_Volume_point (n : XmlNode) (r : V7_0.Volume) (h : V7_0.Volume.read n = .ok r) :
    (childrenNamed n "point").map childText = r.getPoint := by
  simp only [V7_0.Volume.read, Except_bind_ok, Except_pure_ok] at h
  obtain ⟨s, hs, rfl⟩ := h
  have key := collect_of_fold _ (fun s => s) "point" (fun c => Except.ok (childText c)) ?_ n _ s rfl hs
  · rw [mapM_ok_eq_map] at key; exact (Except.ok.inj key)
  · intro s c s' hb
    refine ⟨fun hc => ?_, fun hc => ?_⟩
    · rw [hc] at hb
      simp only [String.reduceEq, ↓reduceIte, Except_bind_ok, Except_pure_ok] at hb
      subst hb; exact ⟨_, rfl, rfl⟩
    · split_ifs at hb <;> simp only [Except_bind_ok, Except_pure_ok] at hb <;>
        first
        | (exfalso; exact hc (by assumption))
        | (subst hb; rfl)
        | (obtain ⟨v, _, rfl⟩ := hb; rfl)

theorem collect_Reference_point (n : XmlNode) (r : V7_0.Reference) (h : V7_0.Reference.read n = .ok r) :
    (childrenNamed n "point").map childText = r.getPoint := by
  simp only [V7_0.Reference.read, Except_bind_ok, Except_pure_ok] at h
  obtain ⟨s, hs, rfl⟩ := h
  have key := collect_of_fold _ (fun s => s) "point" (fun c => Except.ok (childText c)) ?_ n _ s rfl hs
  · rw [mapM_ok_eq_map] at key; exact (Except.ok.inj key)
  · intro s c s' hb
    refine ⟨fun hc => ?_, fun hc => ?_⟩
    · rw [hc] at hb
      simp only [String.reduceEq, ↓reduceIte, Except_bind_ok, Except_pure_ok] at hb
      subst hb; exact ⟨_, rfl, rfl⟩
    · split_ifs at hb <;> simp only [Except_bind_ok, Except_pure_ok] at hb <;>
        first
        | (exfalso; exact hc (by assumption))
        | (subst hb; rfl)
        | (obtain ⟨v, _, rfl⟩ := hb; rfl)

theorem collect_SurroundSound_formats (n : XmlNode) (r : V7_0.SurroundSound) (h : V7_0.SurroundSound.read n = .ok r) :
    (childrenNamed n "formats").mapM V7_0.SurroundFormats.read = .ok r.getFormats := by
  simp only [V7_0.SurroundSound.read, Except_bind_ok, Except_pure_ok] at h
  obtain ⟨s, hs, rfl⟩ := h
  have key := collect_of_fold _ (fun s => s) "formats" V7_0.SurroundFormats.read ?_ n _ s rfl hs
  · exact key
  · intro s c s' hb
    refine ⟨fun hc => ?_, fun hc => ?_⟩
    · rw [hc] at hb
      simp only [String.reduceEq, ↓reduceIte, Except_bind_ok, Except_pure_ok] at hb
      obtain ⟨v, hv, rfl⟩ := hb; exact ⟨v, hv, rfl⟩
    · split_ifs at hb <;> simp only [Except_bind_ok, Except_pure_ok] at hb <;>
        first
        | (exfalso; exact hc (by assumption))
        | (subst hb; rfl)
        | (obtain ⟨v, _, rfl⟩ := hb; rfl)

theorem collect_SurroundFormats_format (n : XmlNode) (r : V7_0.SurroundFormats) (h : V7_0.SurroundFormats.read n = .ok r) :
    (childrenNamed n "format").mapM V7_0.SurroundFormats.Format.read = .ok r.getFormat := by
  simp only [V7_0.SurroundFormats.read, Except_bind_ok, Except_pure_ok] at h
  obtain ⟨s, hs, rfl⟩ := h
  have key := collect_of_fold _ (fun s => s) "format" V7_0.SurroundFormats.Format.read ?_ n _ s rfl hs
  · exact key
  · intro s c s' hb
    refine ⟨fun hc => ?_, fun hc => ?_⟩
    · rw [hc] at hb
      simp only [String.reduceEq, ↓reduceIte, Except_bind_ok, Except_pure_ok] at hb
      obtain ⟨v, hv, rfl⟩ := hb; exact ⟨v, hv, rfl⟩
    · split_ifs at hb <;> simp only [Except_bind_ok, Except_pure_ok] at hb <;>
        first
        | (exfalso; exact hc (by assumption))
        | (subst hb; rfl)
        | (obtain ⟨v, _, rfl⟩ := hb; rfl)

/-- C7: order preservation.  For every record with a repeated child-element field F, when
`read` returns a record from an element node, `getF()` is the sequence of the results of the
per-child reader (for the simple-typed children `item` and `point`, of the text extraction)
applied, in document order, to exactly those children of the node whose name is the element
name of F; so three `apex-info` children named a, b, c give the `moduleName` sequence a, b, c. -/
theorem order_preservation :
    (∀ (n : XmlNode) (r : apex.ApexInfoList), apex.ApexInfoList.read n = .ok r →
      (childrenNamed n "apex-info").mapM apex.ApexInfo.read = .ok r.getApexInfo) ∧
    (∀ (n : XmlNode) (r : V7_0.AudioPolicyConfiguration), V7_0.AudioPolicyConfiguration.read n = .ok r →
      (childrenNamed n "globalConfiguration").mapM V7_0.GlobalConfiguration.read = .ok r.getGlobalConfiguration) ∧
    (∀ (n : XmlNode) (r : V7_0.AudioPolicyConfiguration), V7_0.AudioPolicyConfiguration.read n = .ok r →
      (childrenNamed n "modules").mapM V7_0.Modules.read = .ok r.getModules) ∧
    (∀ (n : XmlNode) (r : V7_0.AudioPolicyConfiguration), V7_0.AudioPolicyConfiguration.read n = .ok r →
      (childrenNamed n "volumes").mapM V7_0.Volumes.read = .ok r.getVolumes) ∧
    (∀ (n : XmlNode) (r : V7_0.AudioPolicyConfiguration), V7_0.AudioPolicyConfiguration.read n = .ok r →
      (childrenNamed n "surroundSound").mapM V7_0.SurroundSound.read = .ok r.getSurroundSound) ∧
    (∀ (n : XmlNode) (r : V7_0.Modules), V7_0.Modules.read n = .ok r →
      (childrenNamed n "module").mapM V7_0.Modules.Module.read = .ok r.get_module) ∧
    (∀ (n : XmlNode) (r : V7_0.Modules.Module), V7_0.Modules.Module.read n = .ok r →
      (childrenNamed n "attachedDevices").mapM V7_0.AttachedDevices.read = .ok r.getAttachedDevices) ∧
    (∀ (n : XmlNode) (r : V7_0.Modules.Module), V7_0.Modules.Module.read n = .ok r →
      (childrenNamed n "mixPorts").mapM V7_0.MixPorts.read = .ok r.getMixPorts) ∧
    (∀ (n : XmlNode) (r : V7_0.Modules.Module), V7_0.Modules.Module.read n = .ok r →
      (childrenNamed n "devicePorts").mapM V7_0.DevicePorts.read = .ok r.getDevicePorts) ∧
    (∀ (n : XmlNode) (r : V7_0.Modules.Module), V7_0.Modules.Module.read n = .ok r →
      (childrenNamed n "routes").mapM V7_0.Routes.read = .ok r.getRoutes) ∧
    (∀ (n : XmlNode) (r : V7_0.AttachedDevices), V7_0.AttachedDevices.read n = .ok r →
      (childrenNamed n "item").map childText = r.getItem) ∧
    (∀ (n : XmlNode) (r : V7_0.MixPorts), V7_0.MixPorts.read n = .ok r →
      (childrenNamed n "mixPort").mapM V7_0.MixPorts.MixPort.read = .ok r.getMixPort) ∧
    (∀ (n : XmlNode) (r : V7_0.MixPorts.MixPort), V7_0.MixPorts.MixPort.read n = .ok r →
      (childrenNamed n "profile").mapM V7_0.Profile.read = .ok r.getProfile) ∧
    (∀ (n : XmlNode) (r : V7_0.MixPorts.MixPort), V7_0.MixPorts.MixPort.read n = .ok r →
      (childrenNamed n "gains").mapM V7_0.Gains.read = .ok r.getGains) ∧
    (∀ (n : XmlNode) (r : V7_0.Gains), V7_0.Gains.read n = .ok r →
      (childrenNamed n "gain").mapM V7_0.Gains.Gain.read = .ok r.getGain) ∧
    (∀ (n : XmlNode) (r : V7_0.DevicePorts), V7_0.DevicePorts.read n = .ok r →
      (childrenNamed n "devicePort").mapM V7_0.DevicePorts.DevicePort.read = .ok r.getDevicePort) ∧
    (∀ (n : XmlNode) (r : V7_0.DevicePorts.DevicePort), V7_0.DevicePorts.DevicePort.read n = .ok r →
      (childrenNamed n "profile").mapM V7_0.Profile.read = .ok r.getProfile) ∧
    (∀ (n : XmlNode) (r : V7_0.DevicePorts.DevicePort), V7_0.DevicePorts.DevicePort.read n = .ok r →
      (childrenNamed n "gains").mapM V7_0.Gains.read = .ok r.getGains) ∧
    (∀ (n : XmlNode) (r : V7_0.Routes), V7_0.Routes.read n = .ok r →
      (childrenNamed n "route").mapM V7_0.Routes.Route.read = .ok r.getRoute) ∧
    (∀ (n : XmlNode) (r : V7_0.Volumes), V7_0.Volumes.read n = .ok r →
      (childrenNamed n "volume").mapM V7_0.Volume.read = .ok r.getVolume) ∧
    (∀ (n : XmlNode) (r : V7_0.Volumes), V7_0.Volumes.read n = .ok r →
      (childrenNamed n "reference").mapM V7_0.Reference.read = .ok r.getReference) ∧
    (∀ (n : XmlNode) (r : V7_0.Volume), V7_0.Volume.read n = .ok r →
      (childrenNamed n "point").map childText = r.getPoint) ∧
    (∀ (n : XmlNode) (r : V7_0.Reference), V7_0.Reference.read n = .ok r →
      (childrenNamed n "point").map childText = r.getPoint) ∧
    (∀ (n : XmlNode) (r : V7_0.SurroundSound), V7_0.SurroundSound.read n = .ok r →
      (childrenNamed n "formats").mapM V7_0.SurroundFormats.read = .ok r.getFormats) ∧
    (∀ (n : XmlNode) (r : V7_0.SurroundFormats), V7_0.SurroundFormats.read n = .ok r →
      (childrenNamed n "format").mapM V7_0.SurroundFormats.Format.read = .ok r.getFormat) ∧
    (apex.ApexInfoList.read (XmlNode.element "apex-info-list" []
        [XmlNode.element "apex-info" [("moduleName", "a")] [],
         XmlNode.element "apex-info" [("moduleName", "b")] [],
         XmlNode.element "apex-info" [("moduleName", "c")] []])).map
      (fun r => r.getApexInfo.map apex.ApexInfo.getModuleName) = .ok ["a", "b", "c"] :=
  ⟨collect_ApexInfoList_apex_info,
   collect_AudioPolicyConfiguration_globalConfiguration,
   collect_AudioPolicyConfiguration_modules,
   collect_AudioPolicyConfiguration_volumes,
   collect_AudioPolicyConfiguration_surroundSound,
   collect_Modules_module,
   collect_Modules_Module_attachedDevices,
   collect_Modules_Module_mixPorts,
   collect_Modules_Module_devicePorts,
   collect_Modules_Module_routes,
   collect_AttachedDevices_item,
   collect_MixPorts_mixPort,
   collect_MixPorts_MixPort_profile,
   collect_MixPorts_MixPort_gains,
   collect_Gains_gain,
   collect_DevicePorts_devicePort,
   collect_DevicePorts_DevicePort_profile,
   collect_DevicePorts_DevicePort_gains,
   collect_Routes_route,
   collect_Volumes_volume,
   collect_Volumes_reference,
   collect_Volume_point,
   collect_Reference_point,
   collect_SurroundSound_formats,
   collect_SurroundFormats_format,
   by decide⟩

/-- Witness of C7: a `modules` element with a text node, two `module` children and a stray
element between them. -/
theorem order_preservation_witness :
    V7_0.Modules.read (XmlNode.element "modules" []
        [XmlNode.text "\n", XmlNode.element "module" [("name", "primary")] [],
         XmlNode.element "other" [] [], XmlNode.element "module" [("name", "usb")] []]) =
      .ok (V7_0.Modules.mk [V7_0.Modules.Module.mk [] none [] [] [] "primary" .UNKNOWN,
        V7_0.Modules.Module.mk [] none [] [] [] "usb" .UNKNOWN]) ∧
    (childrenNamed (XmlNode.element "modules" []
        [XmlNode.text "\n", XmlNode.element "module" [("name", "primary")] [],
         XmlNode.element "other" [] [], XmlNode.element "module" [("name", "usb")] []])
      "module").mapM V7_0.Modules.Module.read =
      .ok (V7_0.Modules.mk [V7_0.Modules.Module.mk [] none [] [] [] "primary" .UNKNOWN,
        V7_0.Modules.Module.mk [] none [] [] [] "usb" .UNKNOWN]).get_module :=
  ⟨by decide, order_preservation.2.2.2.2.2.1 _ _ (by decide)⟩

/-! ## Unknown tolerance -/

theorem InsertUnknown.same_name {k : ElementKind} {n n' : XmlNode} (h : InsertUnknown k n n') :
    n'.name = n.name := by
  cases h <;> rfl

theorem foldlM_insert_skip {σ : Type} (body : σ → XmlNode → Except CppException σ)
    (before after : List XmlNode) (e : XmlNode) (init : σ)
    (h : ∀ s, body s e = pure s) :
    (before ++ e :: after).foldlM body init = (before ++ after).foldlM body init := by
  rw [List.foldlM_append, List.foldlM_append]
  congr 1
  funext s
  rw [List.foldlM_cons, h s]
  rfl

theorem foldlM_replace {σ : Type} (body : σ → XmlNode → Except CppException σ)
    (before after : List XmlNode) (c c' : XmlNode) (init : σ)
    (h : ∀ s, body s c' = body s c) :
    (before ++ c' :: after).foldlM body init = (before ++ c :: after).foldlM body init := by
  rw [List.foldlM_append, List.foldlM_append]
  congr 1
  funext s
  rw [List.foldlM_cons, List.foldlM_cons, h s]

theorem getXmlAttribute_children (type : XmlElementType) (name : String)
    (properties : List (String × String)) (cs cs' : List XmlNode) (content a : String) :
    getXmlAttribute (.mk type name properties cs content) a =
      getXmlAttribute (.mk type name properties cs' content) a :=
  rfl

theorem InsertUnknown.same_type {k : ElementKind} {n n' : XmlNode}
    (h : InsertUnknown k n n') : n'.type = n.type := by
  cases h <;> rfl

theorem InsertUnknown.same_content {k : ElementKind} {n n' : XmlNode}
    (h : InsertUnknown k n n') : n'.content = n.content := by
  cases h <;> rfl

theorem xmlNodeListGetString_eq (l : List XmlNode) :
    xmlNodeListGetString l =
      if (l.filter (fun n => n.type = .XML_TEXT_NODE || n.type = .XML_CDATA_SECTION_NODE
          || n.type = .XML_ENTITY_REF_NODE)).isEmpty then none
      else some (String.join ((l.filter (fun n => n.type = .XML_TEXT_NODE
          || n.type = .XML_CDATA_SECTION_NODE || n.type = .XML_ENTITY_REF_NODE)).map
            XmlNode.content)) := by
  unfold xmlNodeListGetString
  cases l.filter (fun n => n.type = .XML_TEXT_NODE || n.type = .XML_CDATA_SECTION_NODE
      || n.type = .XML_ENTITY_REF_NODE) with
  | nil => rfl
  | cons a l => rfl

theorem insert_simple (n n' : XmlNode) (h : InsertUnknown .simple n n') :
    childText n' = childText n := by
  cases h with
  | atNode _ type name properties before after content e helem hname =>
    simp [childText, xmlNodeListGetString_eq, XmlNode.xmlChildrenNode, List.filter_append,
      List.filter_cons, helem]
  | inChild _ type name properties before after content c c' hc =>
    have ht := hc.same_type
    have hct := hc.same_content
    simp only [childText, xmlNodeListGetString_eq, XmlNode.xmlChildrenNode, List.filter_append,
      List.filter_cons, ht]
    split_ifs <;> simp_all

theorem insert_apexInfo (n n' : XmlNode) (h : InsertUnknown .apexInfo n n') :
    apex.ApexInfo.read n' = apex.ApexInfo.read n := by
  cases h <;> rfl

theorem insert_apexInfoList (n n' : XmlNode) (h : InsertUnknown .apexInfoList n n') :
    apex.ApexInfoList.read n' = apex.ApexInfoList.read n := by
  cases h with
  | atNode _ type name properties before after content e helem hname =>
    simp only [ElementKind.declared, List.mem_cons, List.mem_singleton, List.not_mem_nil, or_false, forall_eq_or_imp, forall_eq] at hname
    simp only [apex.ApexInfoList.read, XmlNode.xmlChildrenNode,
      getXmlAttribute_children type name properties (before ++ e :: after) (before ++ after)]
    rw [foldlM_insert_skip _ before after e _ (fun s => by simp only [hname, if_false])]
  | inChild _ type name properties before after content c c' hc =>
    have hn := hc.same_name
    simp only [apex.ApexInfoList.read, XmlNode.xmlChildrenNode,
      getXmlAttribute_children type name properties (before ++ c' :: after)
        (before ++ c :: after)]
    rw [foldlM_replace _ before after c c' _ (fun s => ?_)]
    rw [hn]
    by_cases h0 : c.name = "apex-info"
    · have hr := insert_apexInfo c c' (by simpa only [ElementKind.childKind, ElementKind.declared, map_find, h0, if_true, if_false, String.reduceEq, Option.getD] using hc)
      simp only [h0, if_true, if_false, String.reduceEq, hr]
    · simp only [h0, if_false]

theorem insert_globalConfiguration (n n' : XmlNode) (h : InsertUnknown .globalConfiguration n n') :
    V7_0.GlobalConfiguration.read n' = V7_0.GlobalConfiguration.read n := by
  cases h <;> rfl

theorem insert_profile (n n' : XmlNode) (h : InsertUnknown .profile n n') :
    V7_0.Profile.read n' = V7_0.Profile.read n := by
  cases h <;> rfl

theorem insert_gain (n n' : XmlNode) (h : InsertUnknown .gain n n') :
    V7_0.Gains.Gain.read n' = V7_0.Gains.Gain.read n := by
  cases h <;> rfl

theorem insert_gains (n n' : XmlNode) (h : InsertUnknown .gains n n') :
    V7_0.Gains.read n' = V7_0.Gains.read n := by
  cases h with
  | atNode _ type name properties before after content e helem hname =>
    simp only [ElementKind.declared, List.mem_cons, List.mem_singleton, List.not_mem_nil, or_false, forall_eq_or_imp, forall_eq] at hname
    simp only [V7_0.Gains.read, XmlNode.xmlChildrenNode,
      getXmlAttribute_children type name properties (before ++ e :: after) (before ++ after)]
    rw [foldlM_insert_skip _ before after e _ (fun s => by simp only [hname, if_false])]
  | inChild _ type name properties before after content c c' hc =>
    have hn := hc.same_name
    simp only [V7_0.Gains.read, XmlNode.xmlChildrenNode,
      getXmlAttribute_children type name properties (before ++ c' :: after)
        (before ++ c :: after)]
    rw [foldlM_replace _ before after c c' _ (fun s => ?_)]
    rw [hn]
    by_cases h0 : c.name = "gain"
    · have hr := insert_gain c c' (by simpa only [ElementKind.childKind, ElementKind.declared, map_find, h0, if_true, if_false, String.reduceEq, Option.getD] using hc)
      simp only [h0, if_true, if_false, String.reduceEq, hr]
    · simp only [h0, if_false]

theorem insert_mixPort (n n' : XmlNode) (h : InsertUnknown .mixPort n n') :
    V7_0.MixPorts.MixPort.read n' = V7_0.MixPorts.MixPort.read n := by
  cases h with
  | atNode _ type name properties before after content e helem hname =>
    simp only [ElementKind.declared, List.mem_cons, List.mem_singleton, List.not_mem_nil, or_false, forall_eq_or_imp, forall_eq] at hname
    simp only [V7_0.MixPorts.MixPort.read, XmlNode.xmlChildrenNode,
      getXmlAttribute_children type name properties (before ++ e :: after) (before ++ after)]
    rw [foldlM_insert_skip _ before after e _ (fun s => by simp only [hname, if_false])]
  | inChild _ type name properties before after content c c' hc =>
    have hn := hc.same_name
    simp only [V7_0.MixPorts.MixPort.read, XmlNode.xmlChildrenNode,
      getXmlAttribute_children type name properties (before ++ c' :: after)
        (before ++ c :: after)]
    rw [foldlM_replace _ before after c c' _ (fun s => ?_)]
    rw [hn]
    by_cases h0 : c.name = "profile"
    · have hr := insert_profile c c' (by simpa only [ElementKind.childKind, ElementKind.declared, map_find, h0, if_true, if_false, String.reduceEq, Option.getD] using hc)
      simp only [h0, if_true, if_false, String.reduceEq, hr]
    · by_cases h1 : c.name = "gains"
      · have hr := insert_gains c c' (by simpa only [ElementKind.childKind, ElementKind.declared, map_find, h1, if_true, if_false, String.reduceEq, Option.getD] using hc)
        simp only [h0, h1, if_true, if_false, String.reduceEq, hr]
      · simp only [h0, h1, if_false]

theorem insert_mixPorts (n n' : XmlNode) (h : InsertUnknown .mixPorts n n') :
    V7_0.MixPorts.read n' = V7_0.MixPorts.read n := by
  cases h with
  | atNode _ type name properties before after content e helem hname =>
    simp only [ElementKind.declared, List.mem_cons, List.mem_singleton, List.not_mem_nil, or_false, forall_eq_or_imp, forall_eq] at hname
    simp only [V7_0.MixPorts.read, XmlNode.xmlChildrenNode,
      getXmlAttribute_children type name properties (before ++ e :: after) (before ++ after)]
    rw [foldlM_insert_skip _ before after e _ (fun s => by simp only [hname, if_false])]
  | inChild _ type name properties before after content c c' hc =>
    have hn := hc.same_name
    simp only [V7_0.MixPorts.read, XmlNode.xmlChildrenNode,
      getXmlAttribute_children type name properties (before ++ c' :: after)
        (before ++ c :: after)]
    rw [foldlM_replace _ before after c c' _ (fun s => ?_)]
    rw [hn]
    by_cases h0 : c.name = "mixPort"
    · have hr := insert_mixPort c c' (by simpa only [ElementKind.childKind, ElementKind.declared, map_find, h0, if_true, if_false, String.reduceEq, Option.getD] using hc)
      simp only [h0, if_true, if_false, String.reduceEq, hr]
    · simp only [h0, if_false]

theorem insert_devicePort (n n' : XmlNode) (h : InsertUnknown .devicePort n n') :
    V7_0.DevicePorts.DevicePort.read n' = V7_0.DevicePorts.DevicePort.read n := by
  cases h with
  | atNode _ type name properties before after content e helem hname =>
    simp only [ElementKind.declared, List.mem_cons, List.mem_singleton, List.not_mem_nil, or_false, forall_eq_or_imp, forall_eq] at hname
    simp only [V7_0.DevicePorts.DevicePort.read, XmlNode.xmlChildrenNode,
      getXmlAttribute_children type name properties (before ++ e :: after) (before ++ after)]
    rw [foldlM_insert_skip _ before after e _ (fun s => by simp only [hname, if_false])]
  | inChild _ type name properties before after content c c' hc =>
    have hn := hc.same_name
    simp only [V7_0.DevicePorts.DevicePort.read, XmlNode.xmlChildrenNode,
      getXmlAttribute_children type name properties (before ++ c' :: after)
        (before ++ c :: after)]
    rw [foldlM_replace _ before after c c' _ (fun s => ?_)]
    rw [hn]
    by_cases h0 : c.name = "profile"
    · have hr := insert_profile c c' (by simpa only [ElementKind.childKind, ElementKind.declared, map_find, h0, if_true, if_false, String.reduceEq, Option.getD] using hc)
      simp only [h0, if_true, if_false, String.reduceEq, hr]
    · by_cases h1 : c.name = "gains"
      · have hr := insert_gains c c' (by simpa only [ElementKind.childKind, ElementKind.declared, map_find, h1, if_true, if_false, String.reduceEq, Option.getD] using hc)
        simp only [h0, h1, if_true, if_false, String.reduceEq, hr]
      · simp only [h0, h1, if_false]

theorem insert_devicePorts (n n' : XmlNode) (h : InsertUnknown .devicePorts n n') :
    V7_0.DevicePorts.read n' = V7_0.DevicePorts.read n := by
  cases h with
  | atNode _ type name properties before after content e helem hname =>
    simp only [ElementKind.declared, List.mem_cons, List.mem_singleton, List.not_mem_nil, or_false, forall_eq_or_imp, forall_eq] at hname
    simp only [V7_0.DevicePorts.read, XmlNode.xmlChildrenNode,
      getXmlAttribute_children type name properties (before ++ e :: after) (before ++ after)]
    rw [foldlM_insert_skip _ before after e _ (fun s => by simp only [hname, if_false])]
  | inChild _ type name properties before after content c c' hc =>
    have hn := hc.same_name
    simp only [V7_0.DevicePorts.read, XmlNode.xmlChildrenNode,
      getXmlAttribute_children type name properties (before ++ c' :: after)
        (before ++ c :: after)]
    rw [foldlM_replace _ before after c c' _ (fun s => ?_)]
    rw [hn]
    by_cases h0 : c.name = "devicePort"
    · have hr := insert_devicePort c c' (by simpa only [ElementKind.childKind, ElementKind.declared, map_find, h0, if_true, if_false, String.reduceEq, Option.getD] using hc)
      simp only [h0, if_true, if_false, String.reduceEq, hr]
    · simp only [h0, if_false]

theorem insert_route (n n' : XmlNode) (h : InsertUnknown .route n n') :
    V7_0.Routes.Route.read n' = V7_0.Routes.Route.read n := by
  cases h <;> rfl

theorem insert_routes (n n' : XmlNode) (h : InsertUnknown .routes n n') :
    V7_0.Routes.read n' = V7_0.Routes.read n := by
  cases h with
  | atNode _ type name properties before after content e helem hname =>
    simp only [ElementKind.declared, List.mem_cons, List.mem_singleton, List.not_mem_nil, or_false, forall_eq_or_imp, forall_eq] at hname
    simp only [V7_0.Routes.read, XmlNode.xmlChildrenNode,
      getXmlAttribute_children type name properties (before ++ e :: after) (before ++ after)]
    rw [foldlM_insert_skip _ before after e _ (fun s => by simp only [hname, if_false])]
  | inChild _ type name properties before after content c c' hc =>
    have hn := hc.same_name
    simp only [V7_0.Routes.read, XmlNode.xmlChildrenNode,
      getXmlAttribute_children type name properties (before ++ c' :: after)
        (before ++ c :: after)]
    rw [foldlM_replace _ before after c c' _ (fun s => ?_)]
    rw [hn]
    by_cases h0 : c.name = "route"
    · have hr := insert_route c c' (by simpa only [ElementKind.childKind, ElementKind.declared, map_find, h0, if_true, if_false, String.reduceEq, Option.getD] using hc)
      simp only [h0, if_true, if_false, String.reduceEq, hr]
    · simp only [h0, if_false]

theorem insert_attachedDevices (n n' : XmlNode) (h : InsertUnknown .attachedDevices n n') :
    V7_0.AttachedDevices.read n' = V7_0.AttachedDevices.read n := by
  cases h with
  | atNode _ type name properties before after content e helem hname =>
    simp only [ElementKind.declared, List.mem_cons, List.mem_singleton, List.not_mem_nil, or_false, forall_eq_or_imp, forall_eq] at hname
    simp only [V7_0.AttachedDevices.read, XmlNode.xmlChildrenNode,
      getXmlAttribute_children type name properties (before ++ e :: after) (before ++ after)]
    rw [foldlM_insert_skip _ before after e _ (fun s => by simp only [hname, if_false])]
  | inChild _ type name properties before after content c c' hc =>
    have hn := hc.same_name
    simp only [V7_0.AttachedDevices.read, XmlNode.xmlChildrenNode,
      getXmlAttribute_children type name properties (before ++ c' :: after)
        (before ++ c :: after)]
    rw [foldlM_replace _ before after c c' _ (fun s => ?_)]
    rw [hn]
    by_cases h0 : c.name = "item"
    · have hr := insert_simple c c' (by simpa only [ElementKind.childKind, ElementKind.declared, map_find, h0, if_true, if_false, String.reduceEq, Option.getD] using hc)
      simp only [h0, if_true, if_false, String.reduceEq, hr]
    · simp only [h0, if_false]

theorem insert_module (n n' : XmlNode) (h : InsertUnknown .module n n') :
    V7_0.Modules.Module.read n' = V7_0.Modules.Module.read n := by
  cases h with
  | atNode _ type name properties before after content e helem hname =>
    simp only [ElementKind.declared, List.mem_cons, List.mem_singleton, List.not_mem_nil, or_false, forall_eq_or_imp, forall_eq] at hname
    simp only [V7_0.Modules.Module.read, XmlNode.xmlChildrenNode,
      getXmlAttribute_children type name properties (before ++ e :: after) (before ++ after)]
    rw [foldlM_insert_skip _ before after e _ (fun s => by simp only [hname, if_false])]
  | inChild _ type name properties before after content c c' hc =>
    have hn := hc.same_name
    simp only [V7_0.Modules.Module.read, XmlNode.xmlChildrenNode,
      getXmlAttribute_children type name properties (before ++ c' :: after)
        (before ++ c :: after)]
    rw [foldlM_replace _ before after c c' _ (fun s => ?_)]
    rw [hn]
    by_cases h0 : c.name = "attachedDevices"
    · have hr := insert_attachedDevices c c' (by simpa only [ElementKind.childKind, ElementKind.declared, map_find, h0, if_true, if_false, String.reduceEq, Option.getD] using hc)
      simp only [h0, if_true, if_false, String.reduceEq, hr]
    · by_cases h1 : c.name = "defaultOutputDevice"
      · have hr := insert_simple c c' (by simpa only [ElementKind.childKind, ElementKind.declared, map_find, h1, if_true, if_false, String.reduceEq, Option.getD] using hc)
        simp only [h0, h1, if_true, if_false, String.reduceEq, hr]
      · by_cases h2 : c.name = "mixPorts"
        · have hr := insert_mixPorts c c' (by simpa only [ElementKind.childKind, ElementKind.declared, map_find, h2, if_true, if_false, String.reduceEq, Option.getD] using hc)
          simp only [h0, h1, h2, if_true, if_false, String.reduceEq, hr]
        · by_cases h3 : c.name = "devicePorts"
          · have hr := insert_devicePorts c c' (by simpa only [ElementKind.childKind, ElementKind.declared, map_find, h3, if_true, if_false, String.reduceEq, Option.getD] using hc)
            simp only [h0, h1, h2, h3, if_true, if_false, String.reduceEq, hr]
          · by_cases h4 : c.name = "routes"
            · have hr := insert_routes c c' (by simpa only [ElementKind.childKind, ElementKind.declared, map_find, h4, if_true, if_false, String.reduceEq, Option.getD] using hc)
              simp only [h0, h1, h2, h3, h4, if_true, if_false, String.reduceEq, hr]
            · simp only [h0, h1, h2, h3, h4, if_false]

theorem insert_modules (n n' : XmlNode) (h : InsertUnknown .modules n n') :
    V7_0.Modules.read n' = V7_0.Modules.read n := by
  cases h with
  | atNode _ type name properties before after content e helem hname =>
    simp only [ElementKind.declared, List.mem_cons, List.mem_singleton, List.not_mem_nil, or_false, forall_eq_or_imp, forall_eq] at hname
    simp only [V7_0.Modules.read, XmlNode.xmlChildrenNode,
      getXmlAttribute_children type name properties (before ++ e :: after) (before ++ after)]
    rw [foldlM_insert_skip _ before after e _ (fun s => by simp only [hname, if_false])]
  | inChild _ type name properties before after content c c' hc =>
    have hn := hc.same_name
    simp only [V7_0.Modules.read, XmlNode.xmlChildrenNode,
      getXmlAttribute_children type name properties (before ++ c' :: after)
        (before ++ c :: after)]
    rw [foldlM_replace _ before after c c' _ (fun s => ?_)]
    rw [hn]
    by_cases h0 : c.name = "module"
    · have hr := insert_module c c' (by simpa only [ElementKind.childKind, ElementKind.declared, map_find, h0, if_true, if_false, String.reduceEq, Option.getD] using hc)
      simp only [h0, if_true, if_false, String.reduceEq, hr]
    · simp only [h0, if_false]

theorem insert_volume (n n' : XmlNode) (h : InsertUnknown .volume n n') :
    V7_0.Volume.read n' = V7_0.Volume.read n := by
  cases h with
  | atNode _ type name properties before after content e helem hname =>
    simp only [ElementKind.declared, List.mem_cons, List.mem_singleton, List.not_mem_nil, or_false, forall_eq_or_imp, forall_eq] at hname
    simp only [V7_0.Volume.read, XmlNode.xmlChildrenNode,
      getXmlAttribute_children type name properties (before ++ e :: after) (before ++ after)]
    rw [foldlM_insert_skip _ before after e _ (fun s => by simp only [hname, if_false])]
  | inChild _ type name properties before after content c c' hc =>
    have hn := hc.same_name
    simp only [V7_0.Volume.read, XmlNode.xmlChildrenNode,
      getXmlAttribute_children type name properties (before ++ c' :: after)
        (before ++ c :: after)]
    rw [foldlM_replace _ before after c c' _ (fun s => ?_)]
    rw [hn]
    by_cases h0 : c.name = "point"
    · have hr := insert_simple c c' (by simpa only [ElementKind.childKind, ElementKind.declared, map_find, h0, if_true, if_false, String.reduceEq, Option.getD] using hc)
      simp only [h0, if_true, if_false, String.reduceEq, hr]
    · simp only [h0, if_false]

theorem insert_reference (n n' : XmlNode) (h : InsertUnknown .reference n n') :
    V7_0.Reference.read n' = V7_0.Reference.read n := by
  cases h with
  | atNode _ type name properties before after content e helem hname =>
    simp only [ElementKind.declared, List.mem_cons, List.mem_singleton, List.not_mem_nil, or_false, forall_eq_or_imp, forall_eq] at hname
    simp only [V7_0.Reference.read, XmlNode.xmlChildrenNode,
      getXmlAttribute_children type name properties (before ++ e :: after) (before ++ after)]
    rw [foldlM_insert_skip _ before after e _ (fun s => by simp only [hname, if_false])]
  | inChild _ type name properties before after content c c' hc =>
    have hn := hc.same_name
    simp only [V7_0.Reference.read, XmlNode.xmlChildrenNode,
      getXmlAttribute_children type name properties (before ++ c' :: after)
        (before ++ c :: after)]
    rw [foldlM_replace _ before after c c' _ (fun s => ?_)]
    rw [hn]
    by_cases h0 : c.name = "point"
    · have hr := insert_simple c c' (by simpa only [ElementKind.childKind, ElementKind.declared, map_find, h0, if_true, if_false, String.reduceEq, Option.getD] using hc)
      simp only [h0, if_true, if_false, String.reduceEq, hr]
    · simp only [h0, if_false]

theorem insert_volumes (n n' : XmlNode) (h : InsertUnknown .volumes n n') :
    V7_0.Volumes.read n' = V7_0.Volumes.read n := by
  cases h with
  | atNode _ type name properties before after content e helem hname =>
    simp only [ElementKind.declared, List.mem_cons, List.mem_singleton, List.not_mem_nil, or_false, forall_eq_or_imp, forall_eq] at hname
    simp only [V7_0.Volumes.read, XmlNode.xmlChildrenNode,
      getXmlAttribute_children type name properties (before ++ e :: after) (before ++ after)]
    rw [foldlM_insert_skip _ before after e _ (fun s => by simp only [hname, if_false])]
  | inChild _ type name properties before after content c c' hc =>
    have hn := hc.same_name
    simp only [V7_0.Volumes.read, XmlNode.xmlChildrenNode,
      getXmlAttribute_children type name properties (before ++ c' :: after)
        (before ++ c :: after)]
    rw [foldlM_replace _ before after c c' _ (fun s => ?_)]
    rw [hn]
    by_cases h0 : c.name = "volume"
    · have hr := insert_volume c c' (by simpa only [ElementKind.childKind, ElementKind.declared, map_find, h0, if_true, if_false, String.reduceEq, Option.getD] using hc)
      simp only [h0, if_true, if_false, String.reduceEq, hr]
    · by_cases h1 : c.name = "reference"
      · have hr := insert_reference c c' (by simpa only [ElementKind.childKind, ElementKind.declared, map_find, h1, if_true, if_false, String.reduceEq, Option.getD] using hc)
        simp only [h0, h1, if_true, if_false, String.reduceEq, hr]
      · simp only [h0, h1, if_false]

theorem insert_format (n n' : XmlNode) (h : InsertUnknown .format n n') :
    V7_0.SurroundFormats.Format.read n' = V7_0.SurroundFormats.Format.read n := by
  cases h <;> rfl

theorem insert_surroundFormats (n n' : XmlNode) (h : InsertUnknown .surroundFormats n n') :
    V7_0.SurroundFormats.read n' = V7_0.SurroundFormats.read n := by
  cases h with
  | atNode _ type name properties before after content e helem hname =>
    simp only [ElementKind.declared, List.mem_cons, List.mem_singleton, List.not_mem_nil, or_false, forall_eq_or_imp, forall_eq] at hname
    simp only [V7_0.SurroundFormats.read, XmlNode.xmlChildrenNode,
      getXmlAttribute_children type name properties (before ++ e :: after) (before ++ after)]
    rw [foldlM_insert_skip _ before after e _ (fun s => by simp only [hname, if_false])]
  | inChild _ type name properties before after content c c' hc =>
    have hn := hc.same_name
    simp only [V7_0.SurroundFormats.read, XmlNode.xmlChildrenNode,
      getXmlAttribute_children type name properties (before ++ c' :: after)
        (before ++ c :: after)]
    rw [foldlM_replace _ before after c c' _ (fun s => ?_)]
    rw [hn]
    by_cases h0 : c.name = "format"
    · have hr := insert_format c c' (by simpa only [ElementKind.childKind, ElementKind.declared, map_find, h0, if_true, if_false, String.reduceEq, Option.getD] using hc)
      simp only [h0, if_true, if_false, String.reduceEq, hr]
    · simp only [h0, if_false]

theorem insert_surroundSound (n n' : XmlNode) (h : InsertUnknown .surroundSound n n') :
    V7_0.SurroundSound.read n' = V7_0.SurroundSound.read n := by
  cases h with
  | atNode _ type name properties before after content e helem hname =>
    simp only [ElementKind.declared, List.mem_cons, List.mem_singleton, List.not_mem_nil, or_false, forall_eq_or_imp, forall_eq] at hname
    simp only [V7_0.SurroundSound.read, XmlNode.xmlChildrenNode,
      getXmlAttribute_children type name properties (before ++ e :: after) (before ++ after)]
    rw [foldlM_insert_skip _ before after e _ (fun s => by simp only [hname, if_false])]
  | inChild _ type name properties before after content c c' hc =>
    have hn := hc.same_name
    simp only [V7_0.SurroundSound.read, XmlNode.xmlChildrenNode,
      getXmlAttribute_children type name properties (before ++ c' :: after)
        (before ++ c :: after)]
    rw [foldlM_replace _ before after c c' _ (fun s => ?_)]
    rw [hn]
    by_cases h0 : c.name = "formats"
    · have hr := insert_surroundFormats c c' (by simpa only [ElementKind.childKind, ElementKind.declared, map_find, h0, if_true, if_false, String.reduceEq, Option.getD] using hc)
      simp only [h0, if_true, if_false, String.reduceEq, hr]
    · simp only [h0, if_false]

theorem insert_audioPolicyConfiguration (n n' : XmlNode) (h : InsertUnknown .audioPolicyConfiguration n n') :
    V7_0.AudioPolicyConfiguration.read n' = V7_0.AudioPolicyConfiguration.read n := by
  cases h with
  | atNode _ type name properties before after content e helem hname =>
    simp only [ElementKind.declared, List.mem_cons, List.mem_singleton, List.not_mem_nil, or_false, forall_eq_or_imp, forall_eq] at hname
    simp only [V7_0.AudioPolicyConfiguration.read, XmlNode.xmlChildrenNode,
      getXmlAttribute_children type name properties (before ++ e :: after) (before ++ after)]
    rw [foldlM_insert_skip _ before after e _ (fun s => by simp only [hname, if_false])]
  | inChild _ type name properties before after content c c' hc =>
    have hn := hc.same_name
    simp only [V7_0.AudioPolicyConfiguration.read, XmlNode.xmlChildrenNode,
      getXmlAttribute_children type name properties (before ++ c' :: after)
        (before ++ c :: after)]
    rw [foldlM_replace _ before after c c' _ (fun s => ?_)]
    rw [hn]
    by_cases h0 : c.name = "globalConfiguration"
    · have hr := insert_globalConfiguration c c' (by simpa only [ElementKind.childKind, ElementKind.declared, map_find, h0, if_true, if_false, String.reduceEq, Option.getD] using hc)
      simp only [h0, if_true, if_false, String.reduceEq, hr]
    · by_cases h1 : c.name = "modules"
      · have hr := insert_modules c c' (by simpa only [ElementKind.childKind, ElementKind.declared, map_find, h1, if_true, if_false, String.reduceEq, Option.getD] using hc)
        simp only [h0, h1, if_true, if_false, String.reduceEq, hr]
      · by_cases h2 : c.name = "volumes"
        · have hr := insert_volumes c c' (by simpa only [ElementKind.childKind, ElementKind.declared, map_find, h2, if_true, if_false, String.reduceEq, Option.getD] using hc)
          simp only [h0, h1, h2, if_true, if_false, String.reduceEq, hr]
        · by_cases h3 : c.name = "surroundSound"
          · have hr := insert_surroundSound c c' (by simpa only [ElementKind.childKind, ElementKind.declared, map_find, h3, if_true, if_false, String.reduceEq, Option.getD] using hc)
            simp only [h0, h1, h2, h3, if_true, if_false, String.reduceEq, hr]
          · simp only [h0, h1, h2, h3, if_false]

/-- C8: unknown tolerance.  For every record reader, inserting at any position among the
children of the element read, or of any of its descendants, an element whose name is none of the
child-element names declared for the element that receives it leaves the result of `read`
unchanged: the same record when `read` returns, the same exception otherwise.  The text taken
from a simple-typed child is unchanged as well. -/
theorem unknown_tolerance :
    (∀ n n' : XmlNode, InsertUnknown .apexInfo n n' → apex.ApexInfo.read n' = apex.ApexInfo.read n) ∧
    (∀ n n' : XmlNode, InsertUnknown .apexInfoList n n' → apex.ApexInfoList.read n' = apex.ApexInfoList.read n) ∧
    (∀ n n' : XmlNode, InsertUnknown .globalConfiguration n n' → V7_0.GlobalConfiguration.read n' = V7_0.GlobalConfiguration.read n) ∧
    (∀ n n' : XmlNode, InsertUnknown .profile n n' → V7_0.Profile.read n' = V7_0.Profile.read n) ∧
    (∀ n n' : XmlNode, InsertUnknown .gain n n' → V7_0.Gains.Gain.read n' = V7_0.Gains.Gain.read n) ∧
    (∀ n n' : XmlNode, InsertUnknown .gains n n' → V7_0.Gains.read n' = V7_0.Gains.read n) ∧
    (∀ n n' : XmlNode, InsertUnknown .mixPort n n' → V7_0.MixPorts.MixPort.read n' = V7_0.MixPorts.MixPort.read n) ∧
    (∀ n n' : XmlNode, InsertUnknown .mixPorts n n' → V7_0.MixPorts.read n' = V7_0.MixPorts.read n) ∧
    (∀ n n' : XmlNode, InsertUnknown .devicePort n n' → V7_0.DevicePorts.DevicePort.read n' = V7_0.DevicePorts.DevicePort.read n) ∧
    (∀ n n' : XmlNode, InsertUnknown .devicePorts n n' → V7_0.DevicePorts.read n' = V7_0.DevicePorts.read n) ∧
    (∀ n n' : XmlNode, InsertUnknown .route n n' → V7_0.Routes.Route.read n' = V7_0.Routes.Route.read n) ∧
    (∀ n n' : XmlNode, InsertUnknown .routes n n' → V7_0.Routes.read n' = V7_0.Routes.read n) ∧
    (∀ n n' : XmlNode, InsertUnknown .attachedDevices n n' → V7_0.AttachedDevices.read n' = V7_0.AttachedDevices.read n) ∧
    (∀ n n' : XmlNode, InsertUnknown .module n n' → V7_0.Modules.Module.read n' = V7_0.Modules.Module.read n) ∧
    (∀ n n' : XmlNode, InsertUnknown .modules n n' → V7_0.Modules.read n' = V7_0.Modules.read n) ∧
    (∀ n n' : XmlNode, InsertUnknown .volume n n' → V7_0.Volume.read n' = V7_0.Volume.read n) ∧
    (∀ n n' : XmlNode, InsertUnknown .reference n n' → V7_0.Reference.read n' = V7_0.Reference.read n) ∧
    (∀ n n' : XmlNode, InsertUnknown .volumes n n' → V7_0.Volumes.read n' = V7_0.Volumes.read n) ∧
    (∀ n n' : XmlNode, InsertUnknown .format n n' → V7_0.SurroundFormats.Format.read n' = V7_0.SurroundFormats.Format.read n) ∧
    (∀ n n' : XmlNode, InsertUnknown .surroundFormats n n' → V7_0.SurroundFormats.read n' = V7_0.SurroundFormats.read n) ∧
    (∀ n n' : XmlNode, InsertUnknown .surroundSound n n' → V7_0.SurroundSound.read n' = V7_0.SurroundSound.read n) ∧
    (∀ n n' : XmlNode, InsertUnknown .audioPolicyConfiguration n n' → V7_0.AudioPolicyConfiguration.read n' = V7_0.AudioPolicyConfiguration.read n) ∧
    (∀ n n' : XmlNode, InsertUnknown .simple n n' → childText n' = childText n) :=
  ⟨insert_apexInfo,
   insert_apexInfoList,
   insert_globalConfiguration,
   insert_profile,
   insert_gain,
   insert_gains,
   insert_mixPort,
   insert_mixPorts,
   insert_devicePort,
   insert_devicePorts,
   insert_route,
   insert_routes,
   insert_attachedDevices,
   insert_module,
   insert_modules,
   insert_volume,
   insert_reference,
   insert_volumes,
   insert_format,
   insert_surroundFormats,
   insert_surroundSound,
   insert_audioPolicyConfiguration,
   insert_simple⟩

/-- Witness of C8: an element `vendorExtension` inserted between the two children of an
`apex-info-list`. -/
theorem unknown_tolerance_witness :
    InsertUnknown .apexInfoList
      (XmlNode.mk .XML_ELEMENT_NODE "apex-info-list" []
        ([XmlNode.element "apex-info" [("moduleName", "a")] []] ++
          [XmlNode.element "apex-info" [("moduleName", "b")] []]) "")
      (XmlNode.mk .XML_ELEMENT_NODE "apex-info-list" []
        ([XmlNode.element "apex-info" [("moduleName", "a")] []] ++
          XmlNode.element "vendorExtension" [("moduleName", "x")] [] ::
          [XmlNode.element "apex-info" [("moduleName", "b")] []]) "") ∧
    apex.ApexInfoList.read
      (XmlNode.mk .XML_ELEMENT_NODE "apex-info-list" []
        ([XmlNode.element "apex-info" [("moduleName", "a")] []] ++
          XmlNode.element "vendorExtension" [("moduleName", "x")] [] ::
          [XmlNode.element "apex-info" [("moduleName", "b")] []]) "") =
    apex.ApexInfoList.read
      (XmlNode.mk .XML_ELEMENT_NODE "apex-info-list" []
        ([XmlNode.element "apex-info" [("moduleName", "a")] []] ++
          [XmlNode.element "apex-info" [("moduleName", "b")] []]) "") :=
  ⟨InsertUnknown.atNode _ _ _ _ _ _ _ _ rfl (by decide),
   unknown_tolerance.2.1 _ _ (InsertUnknown.atNode _ _ _ _ _ _ _ _ rfl (by decide))⟩

/-! ## Absence discipline -/

theorem getXmlAttribute_ne_empty (n : XmlNode) (a : String) :
    getXmlAttribute n a ≠ "" ↔ carriesNonEmpty n a := by
  unfold getXmlAttribute carriesNonEmpty
  cases xmlGetProp n a with
  | none => simp
  | some v => simp

theorem optPure_isSome {β : Type} (raw : String) (x : β) :
    (if raw ≠ "" then some x else none).isSome = true ↔ raw ≠ "" := by
  by_cases h : raw = "" <;> simp [h]

theorem optBind_isSome {α β : Type} (raw : String) (x : Except CppException α)
    (g : α → Option β) (v : Option β)
    (h : (if raw ≠ "" then g <$> x else pure none) = .ok v)
    (hg : ∀ a, (g a).isSome = true) :
    v.isSome = true ↔ raw ≠ "" := by
  by_cases hr : raw = ""
  · simp only [hr, ne_eq, not_true_eq_false, if_false, Except_pure_ok] at h
    subst h
    simp [hr]
  · simp only [hr, ne_eq, not_false_eq_true, if_true, Except_map_ok] at h
    obtain ⟨a, _, rfl⟩ := h
    simp [hr, hg a]

theorem absence_ApexInfo (n : XmlNode) (r : apex.ApexInfo) (h : apex.ApexInfo.read n = .ok r) :
    (r.hasPreinstalledModulePath = true ↔ carriesNonEmpty n "preinstalledModulePath") ∧
    (r.hasLastUpdateMillis = true ↔ carriesNonEmpty n "lastUpdateMillis") := by
  simp only [apex.ApexInfo.read, Except_bind_ok, Except_pure_ok] at h
  obtain ⟨_, _, lum, hlum, rfl⟩ := h
  exact ⟨(optPure_isSome _ _).trans (getXmlAttribute_ne_empty _ _),
    (optBind_isSome _ _ _ _ hlum (fun _ => rfl)).trans (getXmlAttribute_ne_empty _ _)⟩

theorem absence_GlobalConfiguration (n : XmlNode) (r : V7_0.GlobalConfiguration)
    (h : V7_0.GlobalConfiguration.read n = .ok r) :
    (r.hasCall_screen_mode_supported = true ↔ carriesNonEmpty n "call_screen_mode_supported") ∧
    (r.hasEngine_library = true ↔ carriesNonEmpty n "engine_library") := by
  simp only [V7_0.GlobalConfiguration.read, Except_pure_ok] at h
  subst h
  exact ⟨(optPure_isSome _ _).trans (getXmlAttribute_ne_empty _ _),
    (optPure_isSome _ _).trans (getXmlAttribute_ne_empty _ _)⟩

theorem absence_MixPort (n : XmlNode) (r : V7_0.MixPorts.MixPort)
    (h : V7_0.MixPorts.MixPort.read n = .ok r) :
    (r.hasFlags = true ↔ carriesNonEmpty n "flags") ∧
    (r.hasMaxOpenCount = true ↔ carriesNonEmpty n "maxOpenCount") ∧
    (r.hasMaxActiveCount = true ↔ carriesNonEmpty n "maxActiveCount") ∧
    (r.hasPreferredUsage = true ↔ carriesNonEmpty n "preferredUsage") := by
  simp only [V7_0.MixPorts.MixPort.read, Except_bind_ok, Except_pure_ok] at h
  obtain ⟨_, h1, _, h2, ⟨s1, s2⟩, _, h⟩ := h
  simp only [Except_pure_ok] at h
  subst h
  exact ⟨(optPure_isSome _ _).trans (getXmlAttribute_ne_empty _ _),
    (optBind_isSome _ _ _ _ h1 (fun _ => rfl)).trans (getXmlAttribute_ne_empty _ _),
    (optBind_isSome _ _ _ _ h2 (fun _ => rfl)).trans (getXmlAttribute_ne_empty _ _),
    (optPure_isSome _ _).trans (getXmlAttribute_ne_empty _ _)⟩

theorem absence_Profile (n : XmlNode) (r : V7_0.Profile) (h : V7_0.Profile.read n = .ok r) :
    (r.hasName = true ↔ carriesNonEmpty n "name") ∧
    (r.hasFormat = true ↔ carriesNonEmpty n "format") ∧
    (r.hasSamplingRates = true ↔ carriesNonEmpty n "samplingRates") ∧
    (r.hasChannelMasks = true ↔ carriesNonEmpty n "channelMasks") ∧
    (r.hasEncapsulationType = true ↔ carriesNonEmpty n "encapsulationType") := by
  simp only [V7_0.Profile.read, Except_bind_ok, Except_pure_ok] at h
  obtain ⟨_, h1, rfl⟩ := h
  exact ⟨(optPure_isSome _ _).trans (getXmlAttribute_ne_empty _ _),
    (optPure_isSome _ _).trans (getXmlAttribute_ne_empty _ _),
    (optBind_isSome _ _ _ _ h1 (fun _ => rfl)).trans (getXmlAttribute_ne_empty _ _),
    (optPure_isSome _ _).trans (getXmlAttribute_ne_empty _ _),
    (optPure_isSome _ _).trans (getXmlAttribute_ne_empty _ _)⟩

theorem absence_Gain (n : XmlNode) (r : V7_0.Gains.Gain) (h : V7_0.Gains.Gain.read n = .ok r) :
    (r.hasChannel_mask = true ↔ carriesNonEmpty n "channel_mask") ∧
    (r.hasMinValueMB = true ↔ carriesNonEmpty n "minValueMB") ∧
    (r.hasMaxValueMB = true ↔ carriesNonEmpty n "maxValueMB") ∧
    (r.hasDefaultValueMB = true ↔ carriesNonEmpty n "defaultValueMB") ∧
    (r.hasStepValueMB = true ↔ carriesNonEmpty n "stepValueMB") ∧
    (r.hasMinRampMs = true ↔ carriesNonEmpty n "minRampMs") ∧
    (r.hasMaxRampMs = true ↔ carriesNonEmpty n "maxRampMs") ∧
    (r.hasUseForVolume = true ↔ carriesNonEmpty n "useForVolume") := by
  simp only [V7_0.Gains.Gain.read, Except_bind_ok, Except_pure_ok] at h
  obtain ⟨_, h1, _, h2, _, h3, _, h4, _, h5, _, h6, rfl⟩ := h
  exact ⟨(optPure_isSome _ _).trans (getXmlAttribute_ne_empty _ _),
    (optBind_isSome _ _ _ _ h1 (fun _ => rfl)).trans (getXmlAttribute_ne_empty _ _),
    (optBind_isSome _ _ _ _ h2 (fun _ => rfl)).trans (getXmlAttribute_ne_empty _ _),
    (optBind_isSome _ _ _ _ h3 (fun _ => rfl)).trans (getXmlAttribute_ne_empty _ _),
    (optBind_isSome _ _ _ _ h4 (fun _ => rfl)).trans (getXmlAttribute_ne_empty _ _),
    (optBind_isSome _ _ _ _ h5 (fun _ => rfl)).trans (getXmlAttribute_ne_empty _ _),
    (optBind_isSome _ _ _ _ h6 (fun _ => rfl)).trans (getXmlAttribute_ne_empty _ _),
    (optPure_isSome _ _).trans (getXmlAttribute_ne_empty _ _)⟩

theorem absence_DevicePort (n : XmlNode) (r : V7_0.DevicePorts.DevicePort)
    (h : V7_0.DevicePorts.DevicePort.read n = .ok r) :
    (r.hasAddress = true ↔ carriesNonEmpty n "address") ∧
    (r.has_default = true ↔ carriesNonEmpty n "default") ∧
    (r.hasEncodedFormats = true ↔ carriesNonEmpty n "encodedFormats") := by
  simp only [V7_0.DevicePorts.DevicePort.read, Except_bind_ok, Except_pure_ok] at h
  obtain ⟨⟨s1, s2⟩, _, h⟩ := h
  simp only [Except_pure_ok] at h
  subst h
  exact ⟨(optPure_isSome _ _).trans (getXmlAttribute_ne_empty _ _),
    (optPure_isSome _ _).trans (getXmlAttribute_ne_empty _ _),
    (optPure_isSome _ _).trans (getXmlAttribute_ne_empty _ _)⟩

theorem absence_Volume (n : XmlNode) (r : V7_0.Volume) (h : V7_0.Volume.read n = .ok r) :
    (r.hasStream = true ↔ carriesNonEmpty n "stream") ∧
    (r.hasDeviceCategory = true ↔ carriesNonEmpty n "deviceCategory") ∧
    (r.hasRef = true ↔ carriesNonEmpty n "ref") := by
  simp only [V7_0.Volume.read, Except_bind_ok, Except_pure_ok] at h
  obtain ⟨_, _, rfl⟩ := h
  exact ⟨(optPure_isSome _ _).trans (getXmlAttribute_ne_empty _ _),
    (optPure_isSome _ _).trans (getXmlAttribute_ne_empty _ _),
    (optPure_isSome _ _).trans (getXmlAttribute_ne_empty _ _)⟩

theorem absence_Format (n : XmlNode) (r : V7_0.SurroundFormats.Format)
    (h : V7_0.SurroundFormats.Format.read n = .ok r) :
    (r.hasSubformats = true ↔ carriesNonEmpty n "subformats") := by
  simp only [V7_0.SurroundFormats.Format.read, Except_pure_ok] at h
  subst h
  exact (optPure_isSome _ _).trans (getXmlAttribute_ne_empty _ _)

theorem absence_AudioPolicyConfiguration (n : XmlNode) (r : V7_0.AudioPolicyConfiguration)
    (h : V7_0.AudioPolicyConfiguration.read n = .ok r) :
    (r.hasVersion = true ↔ carriesNonEmpty n "version") := by
  simp only [V7_0.AudioPolicyConfiguration.read, Except_bind_ok, Except_pure_ok] at h
  obtain ⟨_, _, rfl⟩ := h
  exact (optPure_isSome _ _).trans (getXmlAttribute_ne_empty _ _)

/-- C9: absence discipline for optional attributes.  For every optional attribute-backed field O
of every record, when `read` returns a record from an element, `hasO()` is true if and only if
the element carries the attribute of O with a non-empty textual value. -/
theorem optional_attribute_absence :
    (∀ (n : XmlNode) (r : apex.ApexInfo), apex.ApexInfo.read n = .ok r →
      (r.hasPreinstalledModulePath = true ↔ carriesNonEmpty n "preinstalledModulePath") ∧
      (r.hasLastUpdateMillis = true ↔ carriesNonEmpty n "lastUpdateMillis")) ∧
    (∀ (n : XmlNode) (r : V7_0.AudioPolicyConfiguration),
      V7_0.AudioPolicyConfiguration.read n = .ok r →
      (r.hasVersion = true ↔ carriesNonEmpty n "version")) ∧
    (∀ (n : XmlNode) (r : V7_0.GlobalConfiguration), V7_0.GlobalConfiguration.read n = .ok r →
      (r.hasCall_screen_mode_supported = true ↔
        carriesNonEmpty n "call_screen_mode_supported") ∧
      (r.hasEngine_library = true ↔ carriesNonEmpty n "engine_library")) ∧
    (∀ (n : XmlNode) (r : V7_0.MixPorts.MixPort), V7_0.MixPorts.MixPort.read n = .ok r →
      (r.hasFlags = true ↔ carriesNonEmpty n "flags") ∧
      (r.hasMaxOpenCount = true ↔ carriesNonEmpty n "maxOpenCount") ∧
      (r.hasMaxActiveCount = true ↔ carriesNonEmpty n "maxActiveCount") ∧
      (r.hasPreferredUsage = true ↔ carriesNonEmpty n "preferredUsage")) ∧
    (∀ (n : XmlNode) (r : V7_0.Profile), V7_0.Profile.read n = .ok r →
      (r.hasName = true ↔ carriesNonEmpty n "name") ∧
      (r.hasFormat = true ↔ carriesNonEmpty n "format") ∧
      (r.hasSamplingRates = true ↔ carriesNonEmpty n "samplingRates") ∧
      (r.hasChannelMasks = true ↔ carriesNonEmpty n "channelMasks") ∧
      (r.hasEncapsulationType = true ↔ carriesNonEmpty n "encapsulationType")) ∧
    (∀ (n : XmlNode) (r : V7_0.Gains.Gain), V7_0.Gains.Gain.read n = .ok r →
      (r.hasChannel_mask = true ↔ carriesNonEmpty n "channel_mask") ∧
      (r.hasMinValueMB = true ↔ carriesNonEmpty n "minValueMB") ∧
      (r.hasMaxValueMB = true ↔ carriesNonEmpty n "maxValueMB") ∧
      (r.hasDefaultValueMB = true ↔ carriesNonEmpty n "defaultValueMB") ∧
      (r.hasStepValueMB = true ↔ carriesNonEmpty n "stepValueMB") ∧
      (r.hasMinRampMs = true ↔ carriesNonEmpty n "minRampMs") ∧
      (r.hasMaxRampMs = true ↔ carriesNonEmpty n "maxRampMs") ∧
      (r.hasUseForVolume = true ↔ carriesNonEmpty n "useForVolume")) ∧
    (∀ (n : XmlNode) (r : V7_0.DevicePorts.DevicePort),
      V7_0.DevicePorts.DevicePort.read n = .ok r →
      (r.hasAddress = true ↔ carriesNonEmpty n "address") ∧
      (r.has_default = true ↔ carriesNonEmpty n "default") ∧
      (r.hasEncodedFormats = true ↔ carriesNonEmpty n "encodedFormats")) ∧
    (∀ (n : XmlNode) (r : V7_0.Volume), V7_0.Volume.read n = .ok r →
      (r.hasStream = true ↔ carriesNonEmpty n "stream") ∧
      (r.hasDeviceCategory = true ↔ carriesNonEmpty n "deviceCategory") ∧
      (r.hasRef = true ↔ carriesNonEmpty n "ref")) ∧
    (∀ (n : XmlNode) (r : V7_0.SurroundFormats.Format),
      V7_0.SurroundFormats.Format.read n = .ok r →
      (r.hasSubformats = true ↔ carriesNonEmpty n "subformats")) :=
  ⟨absence_ApexInfo, absence_AudioPolicyConfiguration, absence_GlobalConfiguration,
   absence_MixPort, absence_Profile, absence_Gain, absence_DevicePort, absence_Volume,
   absence_Format⟩

/-- Witness of C9: an `apex-info` element that carries `lastUpdateMillis` and an empty
`preinstalledModulePath`. -/
theorem optional_attribute_absence_witness :
    apex.ApexInfo.read (XmlNode.element "apex-info"
        [("moduleName", "m"), ("preinstalledModulePath", ""), ("lastUpdateMillis", "12")] []) =
      .ok (apex.ApexInfo.mk "m" "" none 0 "" false false (some 12) false) ∧
    ((apex.ApexInfo.mk "m" "" none 0 "" false false (some 12) false).hasLastUpdateMillis = true ↔
      carriesNonEmpty (XmlNode.element "apex-info"
        [("moduleName", "m"), ("preinstalledModulePath", ""), ("lastUpdateMillis", "12")] [])
        "lastUpdateMillis") :=
  ⟨by decide, (optional_attribute_absence.1 _ _ (by decide)).2⟩

/-! ## The optional child element of a module -/

/-- C10, as stated, fails: a module whose only child is an empty `defaultOutputDevice` element is
read with `hasDefaultOutputDevice()` true (the field holds the empty string), although no
`defaultOutputDevice` child has a non-empty text. -/
theorem default_output_device_empty_counterexample :
    V7_0.Modules.Module.read
      (XmlNode.element "module" [("name", "primary")]
        [XmlNode.element "defaultOutputDevice" [] []]) =
      .ok (V7_0.Modules.Module.mk [] (some "") [] [] [] "primary" .UNKNOWN) ∧
    (V7_0.Modules.Module.mk [] (some "") [] [] [] "primary" .UNKNOWN).hasDefaultOutputDevice
      = true ∧
    ¬ ∃ c ∈ childrenNamed (XmlNode.element "module" [("name", "primary")]
        [XmlNode.element "defaultOutputDevice" [] []]) "defaultOutputDevice",
      childText c ≠ "" := by
  decide

theorem exists_mem_snoc {α : Type} (pre : List α) (c : α) (P : α → Prop) :
    (∃ x ∈ pre ++ [c], P x) ↔ (∃ x ∈ pre, P x) ∨ P c := by
  constructor
  · rintro ⟨x, hx, hp⟩
    rcases List.mem_append.1 hx with h | h
    · exact Or.inl ⟨x, h, hp⟩
    · rw [List.mem_singleton] at h
      exact Or.inr (h ▸ hp)
  · rintro (⟨x, hx, hp⟩ | hp)
    · exact ⟨x, List.mem_append_left _ hx, hp⟩
    · exact ⟨c, List.mem_append_right _ (List.mem_singleton.2 rfl), hp⟩

/-- C10, amended: for every module element, when `Modules::Module::read` returns,
`hasDefaultOutputDevice()` is true if and only if a child named `defaultOutputDevice` appears
under the module, whatever its text (the reader compares the names of the children only). -/
theorem default_output_device_presence (n : XmlNode) (r : V7_0.Modules.Module)
    (h : V7_0.Modules.Module.read n = .ok r) :
    r.hasDefaultOutputDevice = true ↔ ∃ c ∈ n.xmlChildrenNode, c.name = "defaultOutputDevice" := by
  simp only [V7_0.Modules.Module.read, Except_bind_ok, Except_pure_ok] at h
  obtain ⟨s, hs, rfl⟩ := h
  have key := foldlM_invariant _
    (fun pre (st : V7_0.Modules.Module.Locals) =>
      st.defaultOutputDevice.isSome = true ↔ ∃ c ∈ pre, c.name = "defaultOutputDevice")
    (by
      intro pre c st st' hP hb
      show st'.defaultOutputDevice.isSome = true ↔ _
      rw [exists_mem_snoc]
      split_ifs at hb with h1 h2 h3 h4 h5 <;>
        simp only [Except_bind_ok, Except_pure_ok] at hb
      · obtain ⟨v, _, rfl⟩ := hb
        have : c.name ≠ "defaultOutputDevice" := by rw [h1]; decide
        simp only [hP, this, or_false]
      · subst hb
        simp only [h2, or_true, Option.isSome_some]
      · obtain ⟨v, _, rfl⟩ := hb
        simp only [hP, h2, or_false]
      · obtain ⟨v, _, rfl⟩ := hb
        simp only [hP, h2, or_false]
      · obtain ⟨v, _, rfl⟩ := hb
        simp only [hP, h2, or_false]
      · subst hb
        simp only [hP, h2, or_false])
    n.xmlChildrenNode [] _ s (by simp) hs
  simpa [V7_0.Modules.Module.hasDefaultOutputDevice] using key

/-- Witness of the amended C10: a module with a text node and an empty `defaultOutputDevice`. -/
theorem default_output_device_presence_witness :
    V7_0.Modules.Module.read
      (XmlNode.element "module" []
        [XmlNode.text " ", XmlNode.element "defaultOutputDevice" [] []]) =
      .ok (V7_0.Modules.Module.mk [] (some "") [] [] [] "" .UNKNOWN) ∧
    ((V7_0.Modules.Module.mk [] (some "") [] [] [] "" .UNKNOWN).hasDefaultOutputDevice = true ↔
      ∃ c ∈ (XmlNode.element "module" []
        [XmlNode.text " ", XmlNode.element "defaultOutputDevice" [] []]).xmlChildrenNode,
        c.name = "defaultOutputDevice") :=
  ⟨by decide, default_output_device_presence _ _ (by decide)⟩

/-! ## Document drivers -/

theorem driver_contract {Root : Type} (load : Option XmlDoc) (xinc : XmlNode → Int × XmlNode)
    (rootName : String) (rootRead : XmlNode → Except CppException Root) :
    DriverContract load xinc rootName rootRead
      (match load with
      | none => pure none
      | some doc =>
        match doc.xmlDocGetRootElement with
        | none => pure none
        | some _child =>
          if (xinc _child).1 < 0 then pure none
          else if (xinc _child).2.name = rootName then do
            let _value ← rootRead (xinc _child).2
            pure (some _value)
          else pure none) := by
  unfold DriverContract
  cases load with
  | none => simp [pure, Except.pure]
  | some doc =>
    cases hr : doc.xmlDocGetRootElement with
    | none => simp [hr, pure, Except.pure]
    | some root =>
      by_cases hs : (xinc root).1 < 0
      · simp [hr, hs, pure, Except.pure]
      · by_cases hn : (xinc root).2.name = rootName
        · cases hv : rootRead (xinc root).2 with
          | error e =>
            simp [hr, hs, hn, hv, pure, Except.pure, bind, Except.bind]
            exact not_lt.1 hs
          | ok v =>
            simp [hr, hs, hn, hv, pure, Except.pure, bind, Except.bind]
            exact not_lt.1 hs
        · simp [hr, hs, hn, pure, Except.pure]

/-- C5, as stated, fails: the backend loads a document whose root element is named
`audioPolicyConfiguration`, the XInclude step succeeds, and yet `parse` and `read` return no
present result, because `MixPort::read` meets `maxOpenCount="many"` and `std::stoul` throws. -/
theorem driver_present_iff_root_counterexample :
    ((constantBackend (XmlNode.element "audioPolicyConfiguration" [("version", "7.0")]
        [XmlNode.element "modules" []
          [XmlNode.element "module" [("name", "primary")]
            [XmlNode.element "mixPorts" []
              [XmlNode.element "mixPort" [("name", "p"), ("maxOpenCount", "many")]
                []]]]])).xmlParseDoc "").map
      (fun doc => doc.xmlDocGetRootElement.map XmlNode.name) =
      some (some "audioPolicyConfiguration") ∧
    V7_0.parse (constantBackend (XmlNode.element "audioPolicyConfiguration"
        [("version", "7.0")]
        [XmlNode.element "modules" []
          [XmlNode.element "module" [("name", "primary")]
            [XmlNode.element "mixPorts" []
              [XmlNode.element "mixPort" [("name", "p"), ("maxOpenCount", "many")]
                []]]]])) "" = .error .invalid_argument ∧
    V7_0.read (constantBackend (XmlNode.element "audioPolicyConfiguration"
        [("version", "7.0")]
        [XmlNode.element "modules" []
          [XmlNode.element "module" [("name", "primary")]
            [XmlNode.element "mixPorts" []
              [XmlNode.element "mixPort" [("name", "p"), ("maxOpenCount", "many")]
                []]]]])) "" = .error .invalid_argument := by
  decide

/-- C5, amended: for each of the four drivers and every backend, the result is present if and
only if the backend loaded a document with a root element, the XInclude step succeeded, the name
of the root element equals the schema root name and the root reader returns normally on that
element; the present result is then the record the root reader returns; a load failure, a
missing root element, an XInclude failure and a root-name mismatch all give the same absent
result; an exception of the root reader leaves the driver unchanged; `read` and `parse` (and
`readApexInfoList` and `parseApexInfoList`) give the same result when the backend loads the same
document. -/
theorem document_driver (lib : XmlBackend) (configFile xml : String) :
    DriverContract (lib.xmlParseFile configFile) lib.xmlXIncludeProcess
      "audioPolicyConfiguration" V7_0.AudioPolicyConfiguration.read
      (V7_0.read lib configFile) ∧
    DriverContract (lib.xmlParseDoc xml) lib.xmlXIncludeProcess
      "audioPolicyConfiguration" V7_0.AudioPolicyConfiguration.read (V7_0.parse lib xml) ∧
    DriverContract (lib.xmlParseFile configFile) lib.xmlXIncludeProcess
      "apex-info-list" apex.ApexInfoList.read (apex.readApexInfoList lib configFile) ∧
    DriverContract (lib.xmlParseDoc xml) lib.xmlXIncludeProcess
      "apex-info-list" apex.ApexInfoList.read (apex.parseApexInfoList lib xml) ∧
    (lib.xmlParseFile configFile = lib.xmlParseDoc xml →
      V7_0.read lib configFile = V7_0.parse lib xml ∧
      apex.readApexInfoList lib configFile = apex.parseApexInfoList lib xml) := by
  refine ⟨driver_contract _ _ _ _, driver_contract _ _ _ _, driver_contract _ _ _ _,
    driver_contract _ _ _ _, fun h => ?_⟩
  simp only [V7_0.read, V7_0.parse, apex.readApexInfoList, apex.parseApexInfoList, h,
    and_self]

/-- Witness of the amended C5: the backend loads the same one-element document for the file and
for the text, and both drivers return the same present record. -/
theorem document_driver_witness :
    (constantBackend (XmlNode.element "audioPolicyConfiguration" [("version", "7.0")]
        [])).xmlParseFile "policy.xml" =
      (constantBackend (XmlNode.element "audioPolicyConfiguration" [("version", "7.0")]
        [])).xmlParseDoc "text" ∧
    V7_0.parse (constantBackend (XmlNode.element "audioPolicyConfiguration"
        [("version", "7.0")] [])) "text" =
      .ok (some (V7_0.AudioPolicyConfiguration.mk [] [] [] [] (some V7_0.Version._7_0))) ∧
    V7_0.read (constantBackend (XmlNode.element "audioPolicyConfiguration"
        [("version", "7.0")] [])) "policy.xml" =
      V7_0.parse (constantBackend (XmlNode.element "audioPolicyConfiguration"
        [("version", "7.0")] [])) "text" :=
  ⟨rfl, by decide, ((document_driver _ "policy.xml" "text").2.2.2.2 rfl).1⟩

/-! ## When a read returns -/

theorem exists_bind_ok {α β : Type} (x : Except CppException α)
    (f : α → Except CppException β) :
    (∃ r, (x >>= f) = .ok r) ↔ ∃ a, x = .ok a ∧ ∃ r, f a = .ok r := by
  constructor
  · rintro ⟨r, h⟩
    obtain ⟨a, ha, hr⟩ := (Except_bind_ok x f r).1 h
    exact ⟨a, ha, r, hr⟩
  · rintro ⟨a, ha, r, hr⟩
    exact ⟨r, (Except_bind_ok x f r).2 ⟨a, ha, hr⟩⟩

theorem exists_pure_ok {α : Type} (a : α) :
    (∃ r, (pure a : Except CppException α) = .ok r) ↔ True :=
  ⟨fun _ => trivial, fun _ => ⟨a, rfl⟩⟩

theorem exists_map_ok {α β : Type} (x : Except CppException α) (g : α → β) :
    (∃ v, g <$> x = .ok v) ↔ ∃ w, x = .ok w := by
  cases x with
  | error e => simp [Functor.map, Except.map]
  | ok w => simp [Functor.map, Except.map]

theorem reqBind_ok_iff {α : Type} (raw : String) (x : Except CppException α) (d : α) :
    (∃ v, (if raw ≠ "" then x else pure d) = .ok v) ↔ (raw = "" ∨ ∃ w, x = .ok w) := by
  by_cases hr : raw = ""
  · simp [hr, pure, Except.pure]
  · simp [hr]

theorem mapM_ok_iff {α β : Type} (f : α → Except CppException β) (l : List α) :
    (∃ v, l.mapM f = .ok v) ↔ ∀ a ∈ l, ∃ w, f a = .ok w := by
  induction l with
  | nil =>
    rw [List.mapM_nil]
    exact ⟨fun _ => by simp, fun _ => ⟨[], rfl⟩⟩
  | cons a l ih =>
    rw [List.mapM_cons]
    simp only [exists_bind_ok, exists_pure_ok, and_true, List.mem_cons, forall_eq_or_imp]
    rw [← ih]
    constructor
    · rintro ⟨w, hw, v, hv⟩
      exact ⟨⟨w, hw⟩, ⟨v, hv⟩⟩
    · rintro ⟨⟨w, hw⟩, ⟨v, hv⟩⟩
      exact ⟨w, hw, v, hv⟩

theorem foldlM_ok_iff {σ : Type} (body : σ → XmlNode → Except CppException σ)
    (Q : XmlNode → Prop) (hbody : ∀ s c, (∃ s', body s c = .ok s') ↔ Q c) :
    ∀ (cs : List XmlNode) (init : σ),
      (∃ s', cs.foldlM body init = .ok s') ↔ ∀ c ∈ cs, Q c := by
  intro cs
  induction cs with
  | nil =>
    intro init
    simp [List.foldlM, pure, Except.pure]
  | cons c cs ih =>
    intro init
    rw [List.foldlM_cons, exists_bind_ok]
    simp only [ih, List.mem_cons, forall_eq_or_imp]
    constructor
    · rintro ⟨a, ha, h⟩
      exact ⟨(hbody init c).1 ⟨a, ha⟩, h⟩
    · rintro ⟨hq, h⟩
      obtain ⟨a, ha⟩ := (hbody init c).2 hq
      exact ⟨a, ha, h⟩

theorem forall_mem_childrenNamed (n : XmlNode) (nm : String) (P : XmlNode → Prop) :
    (∀ c ∈ childrenNamed n nm, P c) ↔ ∀ c ∈ n.xmlChildrenNode, c.name = nm → P c := by
  simp only [childrenNamed, List.mem_filter, decide_eq_true_eq, and_imp]

theorem apexInfo_read_ok (n : XmlNode) :
    (∃ r, apex.ApexInfo.read n = .ok r) ↔ apexInfoNumericOk n := by
  simp only [apex.ApexInfo.read, apexInfoNumericOk, attrAccepted, exists_bind_ok,
    exists_pure_ok, and_true, exists_and_right, reqBind_ok_iff, exists_map_ok]

theorem apexInfoList_read_ok (n : XmlNode) :
    (∃ r, apex.ApexInfoList.read n = .ok r) ↔ apexInfoListNumericOk n := by
  simp only [apex.ApexInfoList.read, apexInfoListNumericOk, exists_bind_ok, exists_pure_ok,
    and_true, forall_mem_childrenNamed]
  rw [foldlM_ok_iff _ (fun c => c.name = "apex-info" → apexInfoNumericOk c)]
  intro s c
  split_ifs with h1
  · simp only [exists_bind_ok, exists_pure_ok, and_true, apexInfo_read_ok, h1, true_implies]
  · simp only [exists_pure_ok, h1, false_implies]

theorem profile_read_ok (n : XmlNode) :
    (∃ r, V7_0.Profile.read n = .ok r) ↔ profileNumericOk n := by
  simp only [V7_0.Profile.read, profileNumericOk, exists_bind_ok, exists_pure_ok, and_true,
    exists_and_right, reqBind_ok_iff, exists_map_ok, mapM_ok_iff]

theorem gain_read_ok (n : XmlNode) :
    (∃ r, V7_0.Gains.Gain.read n = .ok r) ↔ gainNumericOk n := by
  simp only [V7_0.Gains.Gain.read, gainNumericOk, attrAccepted, exists_bind_ok,
    exists_pure_ok, and_true, exists_and_right, reqBind_ok_iff, exists_map_ok]

theorem gains_read_ok (n : XmlNode) :
    (∃ r, V7_0.Gains.read n = .ok r) ↔ gainsNumericOk n := by
  simp only [V7_0.Gains.read, gainsNumericOk, exists_bind_ok, exists_pure_ok,
    and_true, forall_mem_childrenNamed]
  rw [foldlM_ok_iff _ (fun c => c.name = "gain" → gainNumericOk c)]
  intro s c
  split_ifs with h1
  · simp only [exists_bind_ok, exists_pure_ok, and_true, gain_read_ok, h1, true_implies]
  · simp only [exists_pure_ok, h1, false_implies]

theorem profile_gains_loop_ok (n : XmlNode) (init : List V7_0.Profile × List V7_0.Gains) :
    (∃ s, n.xmlChildrenNode.foldlM
      (fun (st : List V7_0.Profile × List V7_0.Gains) (_child : XmlNode) =>
        if _child.name = "profile" then do
          let _value ← V7_0.Profile.read _child
          pure (st.1 ++ [_value], st.2)
        else if _child.name = "gains" then do
          let _value ← V7_0.Gains.read _child
          pure (st.1, st.2 ++ [_value])
        else pure st) init = .ok s) ↔
    (∀ c ∈ childrenNamed n "profile", profileNumericOk c) ∧
    (∀ c ∈ childrenNamed n "gains", gainsNumericOk c) := by
  rw [foldlM_ok_iff _ (fun c => (c.name = "profile" → profileNumericOk c) ∧
    (c.name = "gains" → gainsNumericOk c))]
  · simp only [forall_mem_childrenNamed]
    exact ⟨fun h => ⟨fun c hc => (h c hc).1, fun c hc => (h c hc).2⟩,
      fun h c hc => ⟨h.1 c hc, h.2 c hc⟩⟩
  · intro s c
    split_ifs with h1 h2
    · simp only [exists_bind_ok, exists_pure_ok, and_true, profile_read_ok, h1, true_implies,
        String.reduceEq, false_implies]
    · simp only [exists_bind_ok, exists_pure_ok, and_true, gains_read_ok, h2,
        true_implies, false_implies, true_and, String.reduceEq]
    · simp only [exists_pure_ok, h1, h2, false_implies, and_self]

theorem mixPort_read_ok (n : XmlNode) :
    (∃ r, V7_0.MixPorts.MixPort.read n = .ok r) ↔ mixPortNumericOk n := by
  simp only [V7_0.MixPorts.MixPort.read, mixPortNumericOk, attrAccepted, exists_bind_ok,
    exists_pure_ok, and_true, exists_and_right, reqBind_ok_iff, exists_map_ok,
    profile_gains_loop_ok]

theorem mixPorts_read_ok (n : XmlNode) :
    (∃ r, V7_0.MixPorts.read n = .ok r) ↔ mixPortsNumericOk n := by
  simp only [V7_0.MixPorts.read, mixPortsNumericOk, exists_bind_ok, exists_pure_ok,
    and_true, forall_mem_childrenNamed]
  rw [foldlM_ok_iff _ (fun c => c.name = "mixPort" → mixPortNumericOk c)]
  intro s c
  split_ifs with h1
  · simp only [exists_bind_ok, exists_pure_ok, and_true, mixPort_read_ok, h1, true_implies]
  · simp only [exists_pure_ok, h1, false_implies]

theorem devicePort_read_ok (n : XmlNode) :
    (∃ r, V7_0.DevicePorts.DevicePort.read n = .ok r) ↔ devicePortNumericOk n := by
  simp only [V7_0.DevicePorts.DevicePort.read, devicePortNumericOk, exists_bind_ok,
    exists_pure_ok, and_true, exists_and_right, profile_gains_loop_ok]

theorem devicePorts_read_ok (n : XmlNode) :
    (∃ r, V7_0.DevicePorts.read n = .ok r) ↔ devicePortsNumericOk n := by
  simp only [V7_0.DevicePorts.read, devicePortsNumericOk, exists_bind_ok, exists_pure_ok,
    and_true, forall_mem_childrenNamed]
  rw [foldlM_ok_iff _ (fun c => c.name = "devicePort" → devicePortNumericOk c)]
  intro s c
  split_ifs with h1
  · simp only [exists_bind_ok, exists_pure_ok, and_true, devicePort_read_ok, h1,
      true_implies]
  · simp only [exists_pure_ok, h1, false_implies]

theorem total_loop_ok {σ : Type} (body : σ → XmlNode → Except CppException σ)
    (hbody : ∀ s c, ∃ s', body s c = .ok s') (cs : List XmlNode) (init : σ) :
    ∃ s', cs.foldlM body init = .ok s' :=
  (foldlM_ok_iff body (fun _ => True) (fun s c => ⟨fun _ => trivial, fun _ => hbody s c⟩)
    cs init).2 (fun _ _ => trivial)

theorem attachedDevices_read_ok (n : XmlNode) : ∃ r, V7_0.AttachedDevices.read n = .ok r := by
  simp only [V7_0.AttachedDevices.read, exists_bind_ok, exists_pure_ok, and_true]
  exact total_loop_ok _ (fun s c => by split_ifs <;> exact ⟨_, rfl⟩) _ _

theorem route_read_ok (n : XmlNode) : ∃ r, V7_0.Routes.Route.read n = .ok r :=
  ⟨_, rfl⟩

theorem routes_read_ok (n : XmlNode) : ∃ r, V7_0.Routes.read n = .ok r := by
  simp only [V7_0.Routes.read, exists_bind_ok, exists_pure_ok, and_true]
  exact total_loop_ok _ (fun s c => by split_ifs <;> exact ⟨_, rfl⟩) _ _

theorem globalConfiguration_read_ok (n : XmlNode) :
    ∃ r, V7_0.GlobalConfiguration.read n = .ok r :=
  ⟨_, rfl⟩

theorem volume_read_ok (n : XmlNode) : ∃ r, V7_0.Volume.read n = .ok r := by
  simp only [V7_0.Volume.read, exists_bind_ok, exists_pure_ok, and_true]
  exact total_loop_ok _ (fun s c => by split_ifs <;> exact ⟨_, rfl⟩) _ _

theorem reference_read_ok (n : XmlNode) : ∃ r, V7_0.Reference.read n = .ok r := by
  simp only [V7_0.Reference.read, exists_bind_ok, exists_pure_ok, and_true]
  exact total_loop_ok _ (fun s c => by split_ifs <;> exact ⟨_, rfl⟩) _ _

theorem volumes_read_ok (n : XmlNode) : ∃ r, V7_0.Volumes.read n = .ok r := by
  simp only [V7_0.Volumes.read, exists_bind_ok, exists_pure_ok, and_true]
  refine total_loop_ok _ (fun s c => ?_) _ _
  split_ifs
  · obtain ⟨v, hv⟩ := volume_read_ok c
    exact ⟨_, by rw [hv]; rfl⟩
  · obtain ⟨v, hv⟩ := reference_read_ok c
    exact ⟨_, by rw [hv]; rfl⟩
  · exact ⟨_, rfl⟩

theorem format_read_ok (n : XmlNode) : ∃ r, V7_0.SurroundFormats.Format.read n = .ok r :=
  ⟨_, rfl⟩

theorem surroundFormats_read_ok (n : XmlNode) :
    ∃ r, V7_0.SurroundFormats.read n = .ok r := by
  simp only [V7_0.SurroundFormats.read, exists_bind_ok, exists_pure_ok, and_true]
  exact total_loop_ok _ (fun s c => by split_ifs <;> exact ⟨_, rfl⟩) _ _

theorem surroundSound_read_ok (n : XmlNode) : ∃ r, V7_0.SurroundSound.read n = .ok r := by
  simp only [V7_0.SurroundSound.read, exists_bind_ok, exists_pure_ok, and_true]
  refine total_loop_ok _ (fun s c => ?_) _ _
  split_ifs
  · obtain ⟨v, hv⟩ := surroundFormats_read_ok c
    exact ⟨_, by rw [hv]; rfl⟩
  · exact ⟨_, rfl⟩

theorem module_read_ok (n : XmlNode) :
    (∃ r, V7_0.Modules.Module.read n = .ok r) ↔ moduleNumericOk n := by
  simp only [V7_0.Modules.Module.read, moduleNumericOk, exists_bind_ok, exists_pure_ok,
    and_true]
  rw [foldlM_ok_iff _ (fun c => (c.name = "mixPorts" → mixPortsNumericOk c) ∧
    (c.name = "devicePorts" → devicePortsNumericOk c))]
  · simp only [forall_mem_childrenNamed]
    exact ⟨fun h => ⟨fun c hc => (h c hc).1, fun c hc => (h c hc).2⟩,
      fun h c hc => ⟨h.1 c hc, h.2 c hc⟩⟩
  · intro s c
    split_ifs with h1 h2 h3 h4 h5
    · simp only [exists_bind_ok, exists_pure_ok, and_true, h1, String.reduceEq,
        false_implies, and_self, iff_true]
      exact attachedDevices_read_ok c
    · simp only [exists_pure_ok, h2, String.reduceEq, false_implies, and_self]
    · simp only [exists_bind_ok, exists_pure_ok, and_true, mixPorts_read_ok, h3,
        true_implies, false_implies, String.reduceEq]
    · simp only [exists_bind_ok, exists_pure_ok, and_true, devicePorts_read_ok, h4,
        true_implies, false_implies, true_and, String.reduceEq]
    · simp only [exists_bind_ok, exists_pure_ok, and_true, h3, h4, false_implies, and_self,
        iff_true]
      exact routes_read_ok c
    · simp only [exists_pure_ok, h3, h4, false_implies, and_self]

theorem modules_read_ok (n : XmlNode) :
    (∃ r, V7_0.Modules.read n = .ok r) ↔ modulesNumericOk n := by
  simp only [V7_0.Modules.read, modulesNumericOk, exists_bind_ok, exists_pure_ok,
    and_true, forall_mem_childrenNamed]
  rw [foldlM_ok_iff _ (fun c => c.name = "module" → moduleNumericOk c)]
  intro s c
  split_ifs with h1
  · simp only [exists_bind_ok, exists_pure_ok, and_true, module_read_ok, h1, true_implies]
  · simp only [exists_pure_ok, h1, false_implies]

theorem audioPolicyConfiguration_read_ok (n : XmlNode) :
    (∃ r, V7_0.AudioPolicyConfiguration.read n = .ok r) ↔ audioPolicyNumericOk n := by
  simp only [V7_0.AudioPolicyConfiguration.read, audioPolicyNumericOk, exists_bind_ok,
    exists_pure_ok, and_true, forall_mem_childrenNamed]
  rw [foldlM_ok_iff _ (fun c => c.name = "modules" → modulesNumericOk c)]
  intro s c
  split_ifs with h1 h2 h3 h4
  · simp only [exists_bind_ok, exists_pure_ok, and_true, h1, String.reduceEq, false_implies,
      iff_true]
    exact globalConfiguration_read_ok c
  · simp only [exists_bind_ok, exists_pure_ok, and_true, modules_read_ok, h2, true_implies]
  · simp only [exists_bind_ok, exists_pure_ok, and_true, h2, false_implies, iff_true]
    exact volumes_read_ok c
  · simp only [exists_bind_ok, exists_pure_ok, and_true, h2, false_implies, iff_true]
    exact surroundSound_read_ok c
  · simp only [exists_pure_ok, h2, false_implies]

theorem error_of_not_ok {α : Type} (x : Except CppException α) (h : ¬ ∃ r, x = .ok r) :
    ∃ e, x = .error e := by
  cases x with
  | error e => exact ⟨e, rfl⟩
  | ok r => exact absurd ⟨r, rfl⟩ h

/-- C6, as stated, fails: the backend accepts a document whose root element is `apex-info-list`,
and `parseApexInfoList` does not return: `versionCode="abc"` makes `std::stoll` throw
`invalid_argument`, and a `lastUpdateMillis` beyond the range of `long long` makes it throw
`out_of_range`; neither is turned into the absent result. -/
theorem read_never_throws_counterexample :
    apex.parseApexInfoList (constantBackend (XmlNode.element "apex-info-list" []
        [XmlNode.element "apex-info" [("moduleName", "m"), ("versionCode", "abc")] []])) "" =
      .error .invalid_argument ∧
    apex.parseApexInfoList (constantBackend (XmlNode.element "apex-info-list" []
        [XmlNode.element "apex-info"
          [("moduleName", "m"), ("versionCode", "1"),
           ("lastUpdateMillis", "9223372036854775808")] []])) "" =
      .error .out_of_range := by
  decide

/-- C6, amended: for every document the XML layer accepts (XInclude step included) whose root
element has the schema root name, `parse` and `parseApexInfoList` return a present result when
every numeric attribute text the readers convert (`versionCode`, `lastUpdateMillis`,
`maxOpenCount`, `maxActiveCount`, the six integer attributes of `gain`, the tokens of
`samplingRates`) is accepted by its conversion, and leave by an exception, never by the absent
result, when one of them is rejected; unknown elements and enum tokens play no part. -/
theorem read_fails_only_on_numeric (lib : XmlBackend) (xml : String) (doc : XmlDoc)
    (root : XmlNode) (hload : lib.xmlParseDoc xml = some doc)
    (hroot : doc.xmlDocGetRootElement = some root)
    (hxinclude : ¬ (lib.xmlXIncludeProcess root).1 < 0) :
    ((lib.xmlXIncludeProcess root).2.name = "audioPolicyConfiguration" →
      (audioPolicyNumericOk (lib.xmlXIncludeProcess root).2 →
        ∃ r, V7_0.parse lib xml = .ok (some r)) ∧
      (¬ audioPolicyNumericOk (lib.xmlXIncludeProcess root).2 →
        ∃ e, V7_0.parse lib xml = .error e)) ∧
    ((lib.xmlXIncludeProcess root).2.name = "apex-info-list" →
      (apexInfoListNumericOk (lib.xmlXIncludeProcess root).2 →
        ∃ r, apex.parseApexInfoList lib xml = .ok (some r)) ∧
      (¬ apexInfoListNumericOk (lib.xmlXIncludeProcess root).2 →
        ∃ e, apex.parseApexInfoList lib xml = .error e)) := by
  refine ⟨fun hn => ⟨fun hok => ?_, fun hbad => ?_⟩, fun hn => ⟨fun hok => ?_, fun hbad => ?_⟩⟩
  · obtain ⟨r, hr⟩ := (audioPolicyConfiguration_read_ok _).2 hok
    exact ⟨r, by simp only [V7_0.parse, hload, hroot, hxinclude, hn, if_true, if_false, hr]; rfl⟩
  · obtain ⟨e, he⟩ := error_of_not_ok _
      (fun h => hbad ((audioPolicyConfiguration_read_ok _).1 h))
    exact ⟨e, by simp only [V7_0.parse, hload, hroot, hxinclude, hn, if_true, if_false, he]; rfl⟩
  · obtain ⟨r, hr⟩ := (apexInfoList_read_ok _).2 hok
    exact ⟨r, by
      simp only [apex.parseApexInfoList, hload, hroot, hxinclude, hn, if_true, if_false, hr]
      rfl⟩
  · obtain ⟨e, he⟩ := error_of_not_ok _ (fun h => hbad ((apexInfoList_read_ok _).1 h))
    exact ⟨e, by
      simp only [apex.parseApexInfoList, hload, hroot, hxinclude, hn, if_true, if_false, he]
      rfl⟩

/-- Witness of the amended C6: an `apex-info-list` whose only `apex-info` carries
`versionCode="12abc"`, which `std::stoll` accepts. -/
theorem read_fails_only_on_numeric_witness :
    ∃ r, apex.parseApexInfoList (constantBackend (XmlNode.element "apex-info-list" []
        [XmlNode.element "apex-info" [("versionCode", "12abc")] []])) "<doc/>" = .ok (some r) :=
  ((read_fails_only_on_numeric
    (constantBackend (XmlNode.element "apex-info-list" []
      [XmlNode.element "apex-info" [("versionCode", "12abc")] []])) "<doc/>"
    (XmlDoc.mk (some (XmlNode.element "apex-info-list" []
      [XmlNode.element "apex-info" [("versionCode", "12abc")] []])))
    (XmlNode.element "apex-info-list" []
      [XmlNode.element "apex-info" [("versionCode", "12abc")] []])
    rfl rfl (by decide)).2 rfl).1
    (by
      intro c hc
      have : c = XmlNode.element "apex-info" [("versionCode", "12abc")] [] := by
        simpa [childrenNamed, constantBackend, XmlNode.element, XmlNode.xmlChildrenNode,
          XmlNode.name] using hc
      subst this
      exact ⟨Or.inr ⟨12, by decide⟩, Or.inl (by decide)⟩)

/-! ## Decimal text and the numeric conversions -/

theorem digitChar_spec : ∀ d, d < 10 →
    (digitChar d).toNat = 48 + d ∧ isdigit (digitChar d) = true ∧ isspace (digitChar d) = false ∧
    digitChar d ≠ '-' ∧ digitChar d ≠ '+' := by
  decide

theorem digitsValue_append (a : Nat) (xs ys : List Char) :
    digitsValue a (xs ++ ys) = digitsValue (digitsValue a xs) ys := by
  simp [digitsValue, List.foldl_append]

theorem decimalCore_spec (fuel : Nat) : ∀ n, n < fuel →
    ∃ ds : List Char, (∀ acc, decimalCore fuel n acc = ds ++ acc) ∧ ds ≠ [] ∧
      (∀ c ∈ ds, isdigit c = true) ∧ (∀ a, digitsValue a ds = a * 10 ^ ds.length + n) ∧
      (∃ d, d < 10 ∧ ds.head? = some (digitChar d)) := by
  induction fuel with
  | zero => intro n h; omega
  | succ fuel ih =>
    intro n hn
    by_cases h0 : n / 10 = 0
    · have hlt : n < 10 := by omega
      have hmod : n % 10 = n := Nat.mod_eq_of_lt hlt
      obtain ⟨h1, h2, _, _, _⟩ := digitChar_spec n hlt
      refine ⟨[digitChar n], ?_, by simp, ?_, ?_, ⟨n, hlt, rfl⟩⟩
      · intro acc
        simp [decimalCore, h0, hmod]
      · intro c hc
        rw [List.mem_singleton] at hc
        rw [hc]
        exact h2
      · intro a
        simp [digitsValue, h1]
        omega
    · have hlt : n / 10 < fuel := by omega
      obtain ⟨ds, hds, hne, hdig, hval, hhead⟩ := ih (n / 10) hlt
      have hm : n % 10 < 10 := Nat.mod_lt _ (by decide)
      obtain ⟨h1, h2, _, _, _⟩ := digitChar_spec (n % 10) hm
      refine ⟨ds ++ [digitChar (n % 10)], ?_, by simp, ?_, ?_, ?_⟩
      · intro acc
        simp [decimalCore, h0, hds]
      · intro c hc
        rcases List.mem_append.1 hc with h | h
        · exact hdig c h
        · rw [List.mem_singleton] at h
          rw [h]
          exact h2
      · intro a
        rw [digitsValue_append, hval]
        simp [digitsValue, h1, pow_succ]
        have := Nat.div_add_mod n 10
        nlinarith [Nat.div_add_mod n 10]
      · obtain ⟨d, hd, hh⟩ := hhead
        refine ⟨d, hd, ?_⟩
        cases ds with
        | nil => exact absurd rfl hne
        | cons x xs =>
          simpa using hh

theorem decimalNat_spec (n : Nat) :
    decimalNat n ≠ [] ∧ (∀ c ∈ decimalNat n, isdigit c = true) ∧
    digitsValue 0 (decimalNat n) = n ∧
    (∃ d, d < 10 ∧ (decimalNat n).head? = some (digitChar d)) := by
  obtain ⟨ds, hds, hne, hdig, hval, hhead⟩ := decimalCore_spec (n + 1) n (Nat.lt_succ_self n)
  have : decimalNat n = ds := by simp [decimalNat, hds]
  rw [this]
  exact ⟨hne, hdig, by simpa using hval 0, hhead⟩

theorem takeWhile_all {α : Type} (p : α → Bool) (l : List α) (h : ∀ c ∈ l, p c = true) :
    l.takeWhile p = l := by
  induction l with
  | nil => rfl
  | cons a l ih =>
    have ha := h a (List.mem_cons_self a l)
    simp only [List.takeWhile_cons, ha, if_true]
    rw [ih (fun c hc => h c (List.mem_cons_of_mem a hc))]

theorem numericPrefix_decimalInt (i : Int) :
    numericPrefix (decimalInt i) = some (decide (i < 0), i.natAbs) := by
  cases i with
  | ofNat n =>
    obtain ⟨hne, hdig, hval, d, hd, hhead⟩ := decimalNat_spec n
    obtain ⟨_, _, hsp, hm, hp⟩ := digitChar_spec d hd
    cases hds : decimalNat n with
    | nil => exact absurd hds hne
    | cons c cs =>
      rw [hds] at hhead hdig hval
      simp only [List.head?_cons, Option.some.injEq] at hhead
      subst hhead
      have htw : (digitChar d :: cs).takeWhile isdigit = digitChar d :: cs := takeWhile_all _ _ hdig
      simp only [numericPrefix, decimalInt, hds, List.dropWhile_cons, hsp, hm, hp, if_false,
        htw, Bool.false_eq_true]
      simp [hval]
  | negSucc n =>
    obtain ⟨hne, hdig, hval, d, hd, hhead⟩ := decimalNat_spec (n + 1)
    have htw : (decimalNat (n + 1)).takeWhile isdigit = decimalNat (n + 1) :=
      takeWhile_all _ _ hdig
    have hsp : isspace '-' = false := by decide
    simp only [numericPrefix, decimalInt, List.dropWhile_cons, hsp, if_true, htw,
      Bool.false_eq_true, if_false]
    simp [hne, hval, Int.negSucc_lt_zero]

theorem stoll_int64Text (i : Int) (hlo : LLONG_MIN ≤ i) (hhi : i ≤ LLONG_MAX) :
    stoll (apex.int64Text i) = .ok i := by
  have hs : signedValue (decide (i < 0), i.natAbs) = i := by
    unfold signedValue
    by_cases h : i < 0
    · simp only [h, decide_True, if_true]
      omega
    · simp only [h, decide_False, Bool.false_eq_true, if_false]
      omega
  simp only [stoll, apex.int64Text, numericPrefix_decimalInt, hs]
  rw [if_neg]
  omega

theorem int64Text_ne_empty (i : Int) : apex.int64Text i ≠ "" := by
  intro h
  have := congrArg String.data h
  simp only [apex.int64Text] at this
  cases i with
  | ofNat n => exact (decimalNat_spec n).1 this
  | negSucc n => simp [decimalInt] at this

/-! ## The text the apex writer produces -/

set_option maxRecDepth 8192 in
theorem ApexInfo_write_out (a : apex.ApexInfo) (w : apex.Writer) (name : String) :
    (a.write w name)._out.data =
      w._out.data ++ elementChars (apex.printIndent w.indentIndex).data name a.writtenAttributes
    ∧ (a.write w name).indentIndex = w.indentIndex := by
  obtain ⟨mn, mp, pre, vc, vn, f, act, lum, sh⟩ := a
  have e1 : (" moduleName=\"" : String).data = ' ' :: ("moduleName".data ++ ['=', '"']) := rfl
  have e2 : (" modulePath=\"" : String).data = ' ' :: ("modulePath".data ++ ['=', '"']) := rfl
  have e3 : (" preinstalledModulePath=\"" : String).data =
      ' ' :: ("preinstalledModulePath".data ++ ['=', '"']) := rfl
  have e4 : (" versionCode=\"" : String).data = ' ' :: ("versionCode".data ++ ['=', '"']) := rfl
  have e5 : (" versionName=\"" : String).data = ' ' :: ("versionName".data ++ ['=', '"']) := rfl
  have e6 : (" isFactory=\"" : String).data = ' ' :: ("isFactory".data ++ ['=', '"']) := rfl
  have e7 : (" isActive=\"" : String).data = ' ' :: ("isActive".data ++ ['=', '"']) := rfl
  have e8 : (" lastUpdateMillis=\"" : String).data =
      ' ' :: ("lastUpdateMillis".data ++ ['=', '"']) := rfl
  have e9 : (" provideSharedApexLibs=\"" : String).data =
      ' ' :: ("provideSharedApexLibs".data ++ ['=', '"']) := rfl
  have q1 : ("\"" : String).data = ['"'] := rfl
  have q2 : ("<" : String).data = ['<'] := rfl
  have q3 : (">" : String).data = ['>'] := rfl
  have q4 : ("\n" : String).data = ['\n'] := rfl
  have q5 : ("</" : String).data = ['<', '/'] := rfl
  constructor
  · cases pre <;> cases lum <;>
      simp only [apex.ApexInfo.write, apex.ApexInfo.hasModuleName, apex.ApexInfo.hasModulePath,
        apex.ApexInfo.hasPreinstalledModulePath, apex.ApexInfo.hasVersionCode,
        apex.ApexInfo.hasVersionName, apex.ApexInfo.hasIsFactory, apex.ApexInfo.hasIsActive,
        apex.ApexInfo.hasLastUpdateMillis, apex.ApexInfo.hasProvideSharedApexLibs,
        apex.ApexInfo.getModuleName, apex.ApexInfo.getModulePath,
        apex.ApexInfo.getPreinstalledModulePath, apex.ApexInfo.getVersionCode,
        apex.ApexInfo.getVersionName, apex.ApexInfo.getIsFactory, apex.ApexInfo.getIsActive,
        apex.ApexInfo.getLastUpdateMillis, apex.ApexInfo.getProvideSharedApexLibs,
        Option.isSome, if_true, Bool.false_eq_true, if_false, String.data_append,
        e1, e2, e3, e4, e5, e6, e7, e8, e9, q1, q2, q3, q4, q5,
        apex.ApexInfo.writtenAttributes, elementChars, attrsChars, List.append_assoc,
        List.cons_append, List.nil_append, List.append_nil, add_sub_cancel_right]
  · simp only [apex.ApexInfo.write, add_sub_cancel_right]

theorem boolText_spec (b : Bool) :
    apex.boolText b ≠ "" ∧ decide (apex.boolText b = "true") = b := by
  cases b <;> decide

set_option maxRecDepth 8192 in
theorem ApexInfo_read_written (a : apex.ApexInfo) (hinv : a.readInvariant)
    (children : List XmlNode) :
    apex.ApexInfo.read (XmlNode.element "apex-info" a.writtenAttributes children) = .ok a := by
  obtain ⟨mn, mp, pre, vc, vn, f, act, lum, sh⟩ := a
  obtain ⟨hpre, hlo, hhi, hlum⟩ := hinv
  have hvc := stoll_int64Text vc hlo hhi
  have hvcne := int64Text_ne_empty vc
  obtain ⟨hf1, hf2⟩ := boolText_spec f
  obtain ⟨ha1, ha2⟩ := boolText_spec act
  obtain ⟨hs1, hs2⟩ := boolText_spec sh
  have hite : ∀ s : String, (if s ≠ "" then s else "") = s := by
    intro s
    by_cases h : s = "" <;> simp [h]
  cases pre with
  | none =>
    cases lum with
    | none =>
      simp only [apex.ApexInfo.read, getXmlAttribute, xmlGetProp, XmlNode.element,
        XmlNode.type, XmlNode.properties, apex.ApexInfo.writtenAttributes, map_find,
        List.cons_append, List.nil_append, List.append_nil, String.reduceEq, if_true, if_false,
        hite, hvc, hvcne, hf1, hf2, ha1, ha2, hs1, hs2, ne_eq, not_false_eq_true,
        not_true_eq_false]
      rfl
    | some l =>
      obtain ⟨hl1, hl2⟩ := hlum l rfl
      have hl := stoll_int64Text l hl1 hl2
      have hlne := int64Text_ne_empty l
      simp only [apex.ApexInfo.read, getXmlAttribute, xmlGetProp, XmlNode.element,
        XmlNode.type, XmlNode.properties, apex.ApexInfo.writtenAttributes, map_find,
        List.cons_append, List.nil_append, List.append_nil, String.reduceEq, if_true, if_false,
        hite, hvc, hvcne, hf1, hf2, ha1, ha2, hs1, hs2, hl, hlne, ne_eq, not_false_eq_true,
        not_true_eq_false]
      rfl
  | some p =>
    have hp : p ≠ "" := fun h => hpre (by rw [h])
    cases lum with
    | none =>
      simp only [apex.ApexInfo.read, getXmlAttribute, xmlGetProp, XmlNode.element,
        XmlNode.type, XmlNode.properties, apex.ApexInfo.writtenAttributes, map_find,
        List.cons_append, List.nil_append, List.append_nil, String.reduceEq, if_true, if_false,
        hite, hvc, hvcne, hf1, hf2, ha1, ha2, hs1, hs2, hp, ne_eq, not_false_eq_true,
        not_true_eq_false]
      rfl
    | some l =>
      obtain ⟨hl1, hl2⟩ := hlum l rfl
      have hl := stoll_int64Text l hl1 hl2
      have hlne := int64Text_ne_empty l
      simp only [apex.ApexInfo.read, getXmlAttribute, xmlGetProp, XmlNode.element,
        XmlNode.type, XmlNode.properties, apex.ApexInfo.writtenAttributes, map_find,
        List.cons_append, List.nil_append, List.append_nil, String.reduceEq, if_true, if_false,
        hite, hvc, hvcne, hf1, hf2, ha1, ha2, hs1, hs2, hl, hlne, hp, ne_eq,
        not_false_eq_true, not_true_eq_false]
      rfl

/-! ## The modelled backend on the text of attributes -/

theorem attrs_ApexInfo (n : XmlNode) (r : apex.ApexInfo) (h : apex.ApexInfo.read n = .ok r) :
    r.moduleName_ = getXmlAttribute n "moduleName" ∧
    r.modulePath_ = getXmlAttribute n "modulePath" ∧
    r.preinstalledModulePath_ = (if getXmlAttribute n "preinstalledModulePath" ≠ ""
      then some (getXmlAttribute n "preinstalledModulePath") else none) ∧
    (if getXmlAttribute n "versionCode" ≠ "" then stoll (getXmlAttribute n "versionCode")
      else pure 0) = .ok r.versionCode_ ∧
    r.versionName_ = getXmlAttribute n "versionName" ∧
    r.isFactory_ = (if getXmlAttribute n "isFactory" ≠ ""
      then decide (getXmlAttribute n "isFactory" = "true") else false) ∧
    r.isActive_ = (if getXmlAttribute n "isActive" ≠ ""
      then decide (getXmlAttribute n "isActive" = "true") else false) ∧
    (if getXmlAttribute n "lastUpdateMillis" ≠ ""
      then some <$> stoll (getXmlAttribute n "lastUpdateMillis") else pure none) =
        .ok r.lastUpdateMillis_ ∧
    r.provideSharedApexLibs_ = (if getXmlAttribute n "provideSharedApexLibs" ≠ ""
      then decide (getXmlAttribute n "provideSharedApexLibs" = "true") else false) := by
  simp only [apex.ApexInfo.read, Except_bind_ok, Except_pure_ok] at h
  obtain ⟨vc, hvc, lum, hlum, rfl⟩ := h
  refine ⟨?_, ?_, rfl, hvc, ?_, rfl, rfl, hlum, rfl⟩ <;> dsimp only <;> split_ifs with h0 <;>
    simp_all

theorem attrs_GlobalConfiguration (n : XmlNode) (r : V7_0.GlobalConfiguration)
    (h : V7_0.GlobalConfiguration.read n = .ok r) :
    r.speaker_drc_enabled_ = (if getXmlAttribute n "speaker_drc_enabled" ≠ ""
      then decide (getXmlAttribute n "speaker_drc_enabled" = "true") else false) ∧
    r.call_screen_mode_supported_ = (if getXmlAttribute n "call_screen_mode_supported" ≠ ""
      then some (decide (getXmlAttribute n "call_screen_mode_supported" = "true")) else none) ∧
    r.engine_library_ = (if getXmlAttribute n "engine_library" ≠ ""
      then some (V7_0.stringToEngineSuffix (getXmlAttribute n "engine_library")) else none) := by
  simp only [V7_0.GlobalConfiguration.read, Except_pure_ok] at h
  subst h
  exact ⟨rfl, rfl, rfl⟩

theorem attrs_Profile (n : XmlNode) (r : V7_0.Profile) (h : V7_0.Profile.read n = .ok r) :
    r.name_ = (if getXmlAttribute n "name" ≠ "" then some (getXmlAttribute n "name")
      else none) ∧
    r.format_ = (if getXmlAttribute n "format" ≠ "" then some (getXmlAttribute n "format")
      else none) ∧
    (if getXmlAttribute n "samplingRates" ≠ ""
      then some <$> (istringstream_tokens (getXmlAttribute n "samplingRates")).mapM stoll
      else pure none) = .ok r.samplingRates_ ∧
    r.channelMasks_ = (if getXmlAttribute n "channelMasks" ≠ ""
      then some ((istringstream_tokens (getXmlAttribute n "channelMasks")).map
        V7_0.stringToAudioChannelMask) else none) ∧
    r.encapsulationType_ = (if getXmlAttribute n "encapsulationType" ≠ ""
      then some (V7_0.stringToAudioEncapsulationType (getXmlAttribute n "encapsulationType"))
      else none) := by
  simp only [V7_0.Profile.read, Except_bind_ok, Except_pure_ok] at h
  obtain ⟨_, h1, rfl⟩ := h
  exact ⟨rfl, rfl, h1, rfl, rfl⟩

theorem attrs_Gain (n : XmlNode) (r : V7_0.Gains.Gain) (h : V7_0.Gains.Gain.read n = .ok r) :
    r.name_ = getXmlAttribute n "name" ∧
    r.mode_ = (if getXmlAttribute n "mode" ≠ ""
      then (istringstream_tokens (getXmlAttribute n "mode")).map V7_0.stringToAudioGainMode
      else []) ∧
    r.channel_mask_ = (if getXmlAttribute n "channel_mask" ≠ ""
      then some (V7_0.stringToAudioChannelMask (getXmlAttribute n "channel_mask")) else none) ∧
    r.useForVolume_ = (if getXmlAttribute n "useForVolume" ≠ ""
      then some (decide (getXmlAttribute n "useForVolume" = "true")) else none) := by
  simp only [V7_0.Gains.Gain.read, Except_bind_ok, Except_pure_ok] at h
  obtain ⟨_, _, _, _, _, _, _, _, _, _, _, _, rfl⟩ := h
  refine ⟨?_, rfl, rfl, rfl⟩
  dsimp only
  split_ifs with h0 <;> simp_all

theorem attrs_MixPort (n : XmlNode) (r : V7_0.MixPorts.MixPort)
    (h : V7_0.MixPorts.MixPort.read n = .ok r) :
    r.name_ = getXmlAttribute n "name" ∧
    r.role_ = (if getXmlAttribute n "role" ≠ "" then V7_0.stringToRole (getXmlAttribute n "role")
      else V7_0.Role.UNKNOWN) ∧
    r.flags_ = (if getXmlAttribute n "flags" ≠ ""
      then some ((istringstream_tokens (getXmlAttribute n "flags")).map
        V7_0.stringToAudioInOutFlag) else none) ∧
    r.preferredUsage_ = (if getXmlAttribute n "preferredUsage" ≠ ""
      then some ((istringstream_tokens (getXmlAttribute n "preferredUsage")).map
        V7_0.stringToAudioUsage) else none) := by
  simp only [V7_0.MixPorts.MixPort.read, Except_bind_ok, Except_pure_ok] at h
  obtain ⟨_, _, _, _, ⟨s1, s2⟩, _, h⟩ := h
  simp only [Except_pure_ok] at h
  subst h
  refine ⟨?_, rfl, rfl, rfl⟩
  dsimp only
  split_ifs with h0 <;> simp_all

theorem attrs_DevicePort (n : XmlNode) (r : V7_0.DevicePorts.DevicePort)
    (h : V7_0.DevicePorts.DevicePort.read n = .ok r) :
    r.tagName_ = getXmlAttribute n "tagName" ∧
    r.type_ = getXmlAttribute n "type" ∧
    r.role_ = (if getXmlAttribute n "role" ≠ "" then V7_0.stringToRole (getXmlAttribute n "role")
      else V7_0.Role.UNKNOWN) ∧
    r.address_ = (if getXmlAttribute n "address" ≠ "" then some (getXmlAttribute n "address")
      else none) ∧
    r._default_ = (if getXmlAttribute n "default" ≠ ""
      then some (decide (getXmlAttribute n "default" = "true")) else none) ∧
    r.encodedFormats_ = (if getXmlAttribute n "encodedFormats" ≠ ""
      then some (istringstream_tokens (getXmlAttribute n "encodedFormats")) else none) := by
  simp only [V7_0.DevicePorts.DevicePort.read, Except_bind_ok, Except_pure_ok] at h
  obtain ⟨⟨s1, s2⟩, _, h⟩ := h
  simp only [Except_pure_ok] at h
  subst h
  refine ⟨?_, ?_, rfl, rfl, rfl, rfl⟩ <;> dsimp only <;> split_ifs with h0 <;> simp_all

theorem attrs_Route (n : XmlNode) (r : V7_0.Routes.Route)
    (h : V7_0.Routes.Route.read n = .ok r) :
    r.type_ = (if getXmlAttribute n "type" ≠ "" then V7_0.stringToMixType (getXmlAttribute n "type")
      else V7_0.MixType.UNKNOWN) ∧
    r.sink_ = getXmlAttribute n "sink" ∧
    r.sources_ = getXmlAttribute n "sources" := by
  simp only [V7_0.Routes.Route.read, Except_pure_ok] at h
  subst h
  refine ⟨rfl, ?_, ?_⟩ <;> dsimp only <;> split_ifs with h0 <;> simp_all

theorem attrs_Module (n : XmlNode) (r : V7_0.Modules.Module)
    (h : V7_0.Modules.Module.read n = .ok r) :
    r.name_ = getXmlAttribute n "name" ∧
    r.halVersion_ = (if getXmlAttribute n "halVersion" ≠ ""
      then V7_0.stringToHalVersion (getXmlAttribute n "halVersion")
      else V7_0.HalVersion.UNKNOWN) := by
  simp only [V7_0.Modules.Module.read, Except_bind_ok, Except_pure_ok] at h
  obtain ⟨_, _, rfl⟩ := h
  refine ⟨?_, rfl⟩
  dsimp only
  split_ifs with h0 <;> simp_all

theorem attrs_Volume (n : XmlNode) (r : V7_0.Volume) (h : V7_0.Volume.read n = .ok r) :
    r.stream_ = (if getXmlAttribute n "stream" ≠ ""
      then some (V7_0.stringToAudioStreamType (getXmlAttribute n "stream")) else none) ∧
    r.deviceCategory_ = (if getXmlAttribute n "deviceCategory" ≠ ""
      then some (V7_0.stringToDeviceCategory (getXmlAttribute n "deviceCategory")) else none) ∧
    r.ref_ = (if getXmlAttribute n "ref" ≠ "" then some (getXmlAttribute n "ref") else none) := by
  simp only [V7_0.Volume.read, Except_bind_ok, Except_pure_ok] at h
  obtain ⟨_, _, rfl⟩ := h
  exact ⟨rfl, rfl, rfl⟩

theorem attrs_Format (n : XmlNode) (r : V7_0.SurroundFormats.Format)
    (h : V7_0.SurroundFormats.Format.read n = .ok r) :
    r.name_ = getXmlAttribute n "name" ∧
    r.subformats_ = (if getXmlAttribute n "subformats" ≠ ""
      then some (istringstream_tokens (getXmlAttribute n "subformats")) else none) := by
  simp only [V7_0.SurroundFormats.Format.read, Except_pure_ok] at h
  subst h
  refine ⟨?_, rfl⟩
  dsimp only
  split_ifs with h0 <;> simp_all

theorem attrs_AudioPolicyConfiguration (n : XmlNode) (r : V7_0.AudioPolicyConfiguration)
    (h : V7_0.AudioPolicyConfiguration.read n = .ok r) :
    r.version_ = (if getXmlAttribute n "version" ≠ ""
      then some (V7_0.stringToVersion (getXmlAttribute n "version")) else none) := by
  simp only [V7_0.AudioPolicyConfiguration.read, Except_bind_ok, Except_pure_ok] at h
  obtain ⟨_, _, rfl⟩ := h
  rfl

theorem getXmlAttribute_absent (n : XmlNode) (a : String) (h : xmlGetProp n a = none) :
    getXmlAttribute n a = "" := by
  simp [getXmlAttribute, h]

theorem getXmlAttribute_present (n : XmlNode) (a s : String) (h : xmlGetProp n a = some s) :
    getXmlAttribute n a = s := by
  simp [getXmlAttribute, h]

/-! ## Enumeration attributes that are absent -/

/-- C11, as stated, fails for the required enum-typed attributes: a `mixPort` element without a
`role` attribute is read to a record whose `role` field is no optional at all, `hasRole()` is
true and `getRole()` is the sentinel `Role::UNKNOWN`; the same holds for `halVersion` of a
`module` and `type` of a `route`. -/
theorem enum_absence_counterexample :
    xmlGetProp (XmlNode.element "mixPort" [("name", "primary")] []) "role" = none ∧
    V7_0.MixPorts.MixPort.read (XmlNode.element "mixPort" [("name", "primary")] []) =
      .ok (V7_0.MixPorts.MixPort.mk [] [] "primary" V7_0.Role.UNKNOWN none none none none) ∧
    (V7_0.MixPorts.MixPort.mk [] [] "primary" V7_0.Role.UNKNOWN none none none none).hasRole
      = true ∧
    (V7_0.MixPorts.MixPort.mk [] [] "primary" V7_0.Role.UNKNOWN none none none none).getRole
      = V7_0.Role.UNKNOWN ∧
    xmlGetProp (XmlNode.element "module" [("name", "primary")] []) "halVersion" = none ∧
    V7_0.Modules.Module.read (XmlNode.element "module" [("name", "primary")] []) =
      .ok (V7_0.Modules.Module.mk [] none [] [] [] "primary" V7_0.HalVersion.UNKNOWN) ∧
    xmlGetProp (XmlNode.element "route" [("sink", "Speaker")] []) "type" = none ∧
    V7_0.Routes.Route.read (XmlNode.element "route" [("sink", "Speaker")] []) =
      .ok (V7_0.Routes.Route.mk V7_0.MixType.UNKNOWN "Speaker" "") := by
  decide

/-- C11, amended: what an absent enum-typed attribute gives depends on the multiplicity of the
field.  For every optional enum-typed attribute field (`engine_library`, `encapsulationType`,
`channelMasks`, `channel_mask`, `flags`, `preferredUsage`, `stream`, `deviceCategory`,
`version`), reading an element that lacks the attribute yields the empty optional, so `has` is
false and the sentinel is not produced.  For the required enum-typed attribute fields (`role` of
`mixPort` and of `devicePort`, `halVersion` of `module`, `type` of `route`) the field is not an
optional: `has` is true and the value read from an element that lacks the attribute is the
sentinel `UNKNOWN`; the required list `mode` of `gain` is the empty sequence. -/
theorem enum_absence :
    (∀ (n : XmlNode) (r : V7_0.GlobalConfiguration), V7_0.GlobalConfiguration.read n = .ok r →
      xmlGetProp n "engine_library" = none →
        r.engine_library_ = none ∧ r.hasEngine_library = false) ∧
    (∀ (n : XmlNode) (r : V7_0.Profile), V7_0.Profile.read n = .ok r →
      (xmlGetProp n "encapsulationType" = none →
        r.encapsulationType_ = none ∧ r.hasEncapsulationType = false) ∧
      (xmlGetProp n "channelMasks" = none →
        r.channelMasks_ = none ∧ r.hasChannelMasks = false)) ∧
    (∀ (n : XmlNode) (r : V7_0.Gains.Gain), V7_0.Gains.Gain.read n = .ok r →
      (xmlGetProp n "channel_mask" = none →
        r.channel_mask_ = none ∧ r.hasChannel_mask = false) ∧
      (xmlGetProp n "mode" = none → r.hasMode = true ∧ r.getMode = [])) ∧
    (∀ (n : XmlNode) (r : V7_0.MixPorts.MixPort), V7_0.MixPorts.MixPort.read n = .ok r →
      (xmlGetProp n "flags" = none → r.flags_ = none ∧ r.hasFlags = false) ∧
      (xmlGetProp n "preferredUsage" = none →
        r.preferredUsage_ = none ∧ r.hasPreferredUsage = false) ∧
      (xmlGetProp n "role" = none → r.hasRole = true ∧ r.getRole = V7_0.Role.UNKNOWN)) ∧
    (∀ (n : XmlNode) (r : V7_0.DevicePorts.DevicePort),
      V7_0.DevicePorts.DevicePort.read n = .ok r →
      xmlGetProp n "role" = none → r.hasRole = true ∧ r.getRole = V7_0.Role.UNKNOWN) ∧
    (∀ (n : XmlNode) (r : V7_0.Modules.Module), V7_0.Modules.Module.read n = .ok r →
      xmlGetProp n "halVersion" = none →
        r.hasHalVersion = true ∧ r.getHalVersion = V7_0.HalVersion.UNKNOWN) ∧
    (∀ (n : XmlNode) (r : V7_0.Routes.Route), V7_0.Routes.Route.read n = .ok r →
      xmlGetProp n "type" = none → r.hasType = true ∧ r.getType = V7_0.MixType.UNKNOWN) ∧
    (∀ (n : XmlNode) (r : V7_0.Volume), V7_0.Volume.read n = .ok r →
      (xmlGetProp n "stream" = none → r.stream_ = none ∧ r.hasStream = false) ∧
      (xmlGetProp n "deviceCategory" = none →
        r.deviceCategory_ = none ∧ r.hasDeviceCategory = false)) ∧
    (∀ (n : XmlNode) (r : V7_0.AudioPolicyConfiguration),
      V7_0.AudioPolicyConfiguration.read n = .ok r →
      xmlGetProp n "version" = none → r.version_ = none ∧ r.hasVersion = false) := by
  refine ⟨?_, ?_, ?_, ?_, ?_, ?_, ?_, ?_, ?_⟩
  · intro n r h ha
    have hf := (attrs_GlobalConfiguration n r h).2.2
    rw [getXmlAttribute_absent n _ ha] at hf
    simp [V7_0.GlobalConfiguration.hasEngine_library, hf]
  · intro n r h
    obtain ⟨_, _, _, h4, h5⟩ := attrs_Profile n r h
    constructor
    · intro ha
      rw [getXmlAttribute_absent n _ ha] at h5
      simp [V7_0.Profile.hasEncapsulationType, h5]
    · intro ha
      rw [getXmlAttribute_absent n _ ha] at h4
      simp [V7_0.Profile.hasChannelMasks, h4]
  · intro n r h
    obtain ⟨_, h2, h3, _⟩ := attrs_Gain n r h
    constructor
    · intro ha
      rw [getXmlAttribute_absent n _ ha] at h3
      simp [V7_0.Gains.Gain.hasChannel_mask, h3]
    · intro ha
      rw [getXmlAttribute_absent n _ ha] at h2
      simp [V7_0.Gains.Gain.hasMode, V7_0.Gains.Gain.getMode, h2]
  · intro n r h
    obtain ⟨_, h2, h3, h4⟩ := attrs_MixPort n r h
    refine ⟨?_, ?_, ?_⟩
    · intro ha
      rw [getXmlAttribute_absent n _ ha] at h3
      simp [V7_0.MixPorts.MixPort.hasFlags, h3]
    · intro ha
      rw [getXmlAttribute_absent n _ ha] at h4
      simp [V7_0.MixPorts.MixPort.hasPreferredUsage, h4]
    · intro ha
      rw [getXmlAttribute_absent n _ ha] at h2
      simp [V7_0.MixPorts.MixPort.hasRole, V7_0.MixPorts.MixPort.getRole, h2]
  · intro n r h ha
    have h3 := (attrs_DevicePort n r h).2.2.1
    rw [getXmlAttribute_absent n _ ha] at h3
    simp [V7_0.DevicePorts.DevicePort.hasRole, V7_0.DevicePorts.DevicePort.getRole, h3]
  · intro n r h ha
    have h2 := (attrs_Module n r h).2
    rw [getXmlAttribute_absent n _ ha] at h2
    simp [V7_0.Modules.Module.hasHalVersion, V7_0.Modules.Module.getHalVersion, h2]
  · intro n r h ha
    have h1 := (attrs_Route n r h).1
    rw [getXmlAttribute_absent n _ ha] at h1
    simp [V7_0.Routes.Route.hasType, V7_0.Routes.Route.getType, h1]
  · intro n r h
    obtain ⟨h1, h2, _⟩ := attrs_Volume n r h
    constructor
    · intro ha
      rw [getXmlAttribute_absent n _ ha] at h1
      simp [V7_0.Volume.hasStream, h1]
    · intro ha
      rw [getXmlAttribute_absent n _ ha] at h2
      simp [V7_0.Volume.hasDeviceCategory, h2]
  · intro n r h ha
    have h1 := attrs_AudioPolicyConfiguration n r h
    rw [getXmlAttribute_absent n _ ha] at h1
    simp [V7_0.AudioPolicyConfiguration.hasVersion, h1]

/-- Witness of the amended C11: a `devicePort` element without `role`, and a `volume` element
without `stream`. -/
theorem enum_absence_witness :
    V7_0.DevicePorts.DevicePort.read
        (XmlNode.element "devicePort" [("tagName", "Speaker"), ("type", "AUDIO_DEVICE_OUT_SPEAKER")]
          []) =
      .ok (V7_0.DevicePorts.DevicePort.mk [] [] "Speaker" "AUDIO_DEVICE_OUT_SPEAKER"
        V7_0.Role.UNKNOWN none none none) ∧
    ((V7_0.DevicePorts.DevicePort.mk [] [] "Speaker" "AUDIO_DEVICE_OUT_SPEAKER"
        V7_0.Role.UNKNOWN none none none).hasRole = true ∧
      (V7_0.DevicePorts.DevicePort.mk [] [] "Speaker" "AUDIO_DEVICE_OUT_SPEAKER"
        V7_0.Role.UNKNOWN none none none).getRole = V7_0.Role.UNKNOWN) ∧
    V7_0.Volume.read (XmlNode.element "volume" [("deviceCategory", "DEVICE_CATEGORY_SPEAKER")]
        []) =
      .ok (V7_0.Volume.mk [] none (some V7_0.DeviceCategory.DEVICE_CATEGORY_SPEAKER) none) ∧
    ((V7_0.Volume.mk [] none (some V7_0.DeviceCategory.DEVICE_CATEGORY_SPEAKER) none).stream_
        = none ∧
      (V7_0.Volume.mk [] none (some V7_0.DeviceCategory.DEVICE_CATEGORY_SPEAKER) none).hasStream
        = false) :=
  ⟨by decide,
    enum_absence.2.2.2.2.1
      (XmlNode.element "devicePort" [("tagName", "Speaker"), ("type", "AUDIO_DEVICE_OUT_SPEAKER")]
        []) _ (by decide) (by decide),
    by decide,
    (enum_absence.2.2.2.2.2.2.2.1
      (XmlNode.element "volume" [("deviceCategory", "DEVICE_CATEGORY_SPEAKER")] []) _
      (by decide)).1 (by decide)⟩

/-! ## Accessors -/

theorem list_not_isEmpty {α : Type} (l : List α) : (!l.isEmpty) = true ↔ l ≠ [] := by
  cases l <;> simp

theorem assertingGetter_of {R α : Type} (has : R → Bool) (get : R → Option α)
    (field : R → Option α) (hhas : ∀ r, has r = (field r).isSome)
    (hget : ∀ r, get r = if has r then field r else none) : AssertingGetter has get field := by
  intro r
  rw [hget r, hhas r]
  cases h : field r <;> simp

theorem firstElement_of {R α : Type} (getFirst : R → Option α) (get : R → List α)
    (h : ∀ r, getFirst r = if (get r).isEmpty then none else (get r)[0]?) :
    FirstElement getFirst get := by
  intro r
  rw [h r]
  cases get r <;> simp

/-- C12: presence predicates follow multiplicity.  For every record value, the has-predicate of
a required field is always true, that of an optional field is true exactly when the optional
holds a value, and that of a repeated field is true exactly when the sequence is non-empty; this
holds for all 77 has-predicates of both schemas. -/
theorem presence_follows_multiplicity :
    RepeatedPresence apex.ApexInfoList.hasApexInfo apex.ApexInfoList.getApexInfo ∧
    RequiredPresence apex.ApexInfo.hasModuleName ∧
    RequiredPresence apex.ApexInfo.hasModulePath ∧
    OptionalPresence apex.ApexInfo.hasPreinstalledModulePath apex.ApexInfo.preinstalledModulePath_ ∧
    RequiredPresence apex.ApexInfo.hasVersionCode ∧
    RequiredPresence apex.ApexInfo.hasVersionName ∧
    RequiredPresence apex.ApexInfo.hasIsFactory ∧
    RequiredPresence apex.ApexInfo.hasIsActive ∧
    OptionalPresence apex.ApexInfo.hasLastUpdateMillis apex.ApexInfo.lastUpdateMillis_ ∧
    RequiredPresence apex.ApexInfo.hasProvideSharedApexLibs ∧
    RequiredPresence V7_0.GlobalConfiguration.hasSpeaker_drc_enabled ∧
    OptionalPresence V7_0.GlobalConfiguration.hasCall_screen_mode_supported
      V7_0.GlobalConfiguration.call_screen_mode_supported_ ∧
    OptionalPresence V7_0.GlobalConfiguration.hasEngine_library
      V7_0.GlobalConfiguration.engine_library_ ∧
    RepeatedPresence V7_0.Modules.Module.hasAttachedDevices V7_0.Modules.Module.getAttachedDevices ∧
    OptionalPresence V7_0.Modules.Module.hasDefaultOutputDevice
      V7_0.Modules.Module.defaultOutputDevice_ ∧
    RepeatedPresence V7_0.Modules.Module.hasMixPorts V7_0.Modules.Module.getMixPorts ∧
    RepeatedPresence V7_0.Modules.Module.hasDevicePorts V7_0.Modules.Module.getDevicePorts ∧
    RepeatedPresence V7_0.Modules.Module.hasRoutes V7_0.Modules.Module.getRoutes ∧
    RequiredPresence V7_0.Modules.Module.hasName ∧
    RequiredPresence V7_0.Modules.Module.hasHalVersion ∧
    RepeatedPresence V7_0.Modules.has_module V7_0.Modules.get_module ∧
    RepeatedPresence V7_0.AttachedDevices.hasItem V7_0.AttachedDevices.getItem ∧
    RepeatedPresence V7_0.MixPorts.MixPort.hasProfile V7_0.MixPorts.MixPort.getProfile ∧
    RepeatedPresence V7_0.MixPorts.MixPort.hasGains V7_0.MixPorts.MixPort.getGains ∧
    RequiredPresence V7_0.MixPorts.MixPort.hasName ∧
    RequiredPresence V7_0.MixPorts.MixPort.hasRole ∧
    OptionalPresence V7_0.MixPorts.MixPort.hasFlags V7_0.MixPorts.MixPort.flags_ ∧
    OptionalPresence V7_0.MixPorts.MixPort.hasMaxOpenCount V7_0.MixPorts.MixPort.maxOpenCount_ ∧
    OptionalPresence V7_0.MixPorts.MixPort.hasMaxActiveCount V7_0.MixPorts.MixPort.maxActiveCount_ ∧
    OptionalPresence V7_0.MixPorts.MixPort.hasPreferredUsage V7_0.MixPorts.MixPort.preferredUsage_ ∧
    RepeatedPresence V7_0.MixPorts.hasMixPort V7_0.MixPorts.getMixPort ∧
    OptionalPresence V7_0.Profile.hasName V7_0.Profile.name_ ∧
    OptionalPresence V7_0.Profile.hasFormat V7_0.Profile.format_ ∧
    OptionalPresence V7_0.Profile.hasSamplingRates V7_0.Profile.samplingRates_ ∧
    OptionalPresence V7_0.Profile.hasChannelMasks V7_0.Profile.channelMasks_ ∧
    OptionalPresence V7_0.Profile.hasEncapsulationType V7_0.Profile.encapsulationType_ ∧
    RequiredPresence V7_0.Gains.Gain.hasName ∧
    RequiredPresence V7_0.Gains.Gain.hasMode ∧
    OptionalPresence V7_0.Gains.Gain.hasChannel_mask V7_0.Gains.Gain.channel_mask_ ∧
    OptionalPresence V7_0.Gains.Gain.hasMinValueMB V7_0.Gains.Gain.minValueMB_ ∧
    OptionalPresence V7_0.Gains.Gain.hasMaxValueMB V7_0.Gains.Gain.maxValueMB_ ∧
    OptionalPresence V7_0.Gains.Gain.hasDefaultValueMB V7_0.Gains.Gain.defaultValueMB_ ∧
    OptionalPresence V7_0.Gains.Gain.hasStepValueMB V7_0.Gains.Gain.stepValueMB_ ∧
    OptionalPresence V7_0.Gains.Gain.hasMinRampMs V7_0.Gains.Gain.minRampMs_ ∧
    OptionalPresence V7_0.Gains.Gain.hasMaxRampMs V7_0.Gains.Gain.maxRampMs_ ∧
    OptionalPresence V7_0.Gains.Gain.hasUseForVolume V7_0.Gains.Gain.useForVolume_ ∧
    RepeatedPresence V7_0.Gains.hasGain V7_0.Gains.getGain ∧
    RepeatedPresence V7_0.DevicePorts.DevicePort.hasProfile V7_0.DevicePorts.DevicePort.getProfile ∧
    RepeatedPresence V7_0.DevicePorts.DevicePort.hasGains V7_0.DevicePorts.DevicePort.getGains ∧
    RequiredPresence V7_0.DevicePorts.DevicePort.hasTagName ∧
    RequiredPresence V7_0.DevicePorts.DevicePort.hasType ∧
    RequiredPresence V7_0.DevicePorts.DevicePort.hasRole ∧
    OptionalPresence V7_0.DevicePorts.DevicePort.hasAddress V7_0.DevicePorts.DevicePort.address_ ∧
    OptionalPresence V7_0.DevicePorts.DevicePort.has_default V7_0.DevicePorts.DevicePort._default_ ∧
    OptionalPresence V7_0.DevicePorts.DevicePort.hasEncodedFormats
      V7_0.DevicePorts.DevicePort.encodedFormats_ ∧
    RepeatedPresence V7_0.DevicePorts.hasDevicePort V7_0.DevicePorts.getDevicePort ∧
    RequiredPresence V7_0.Routes.Route.hasType ∧
    RequiredPresence V7_0.Routes.Route.hasSink ∧
    RequiredPresence V7_0.Routes.Route.hasSources ∧
    RepeatedPresence V7_0.Routes.hasRoute V7_0.Routes.getRoute ∧
    RepeatedPresence V7_0.Volumes.hasVolume V7_0.Volumes.getVolume ∧
    RepeatedPresence V7_0.Volumes.hasReference V7_0.Volumes.getReference ∧
    RepeatedPresence V7_0.Volume.hasPoint V7_0.Volume.getPoint ∧
    OptionalPresence V7_0.Volume.hasStream V7_0.Volume.stream_ ∧
    OptionalPresence V7_0.Volume.hasDeviceCategory V7_0.Volume.deviceCategory_ ∧
    OptionalPresence V7_0.Volume.hasRef V7_0.Volume.ref_ ∧
    RepeatedPresence V7_0.Reference.hasPoint V7_0.Reference.getPoint ∧
    RequiredPresence V7_0.Reference.hasName ∧
    RepeatedPresence V7_0.SurroundSound.hasFormats V7_0.SurroundSound.getFormats ∧
    RequiredPresence V7_0.SurroundFormats.Format.hasName ∧
    OptionalPresence V7_0.SurroundFormats.Format.hasSubformats
      V7_0.SurroundFormats.Format.subformats_ ∧
    RepeatedPresence V7_0.SurroundFormats.hasFormat V7_0.SurroundFormats.getFormat ∧
    RepeatedPresence V7_0.AudioPolicyConfiguration.hasGlobalConfiguration
      V7_0.AudioPolicyConfiguration.getGlobalConfiguration ∧
    RepeatedPresence V7_0.AudioPolicyConfiguration.hasModules
      V7_0.AudioPolicyConfiguration.getModules ∧
    RepeatedPresence V7_0.AudioPolicyConfiguration.hasVolumes
      V7_0.AudioPolicyConfiguration.getVolumes ∧
    RepeatedPresence V7_0.AudioPolicyConfiguration.hasSurroundSound
      V7_0.AudioPolicyConfiguration.getSurroundSound ∧
    OptionalPresence V7_0.AudioPolicyConfiguration.hasVersion V7_0.AudioPolicyConfiguration.version_ :=
  ⟨fun _ => list_not_isEmpty _,
    fun _ => rfl,
    fun _ => rfl,
    fun _ => Option.isSome_iff_exists,
    fun _ => rfl,
    fun _ => rfl,
    fun _ => rfl,
    fun _ => rfl,
    fun _ => Option.isSome_iff_exists,
    fun _ => rfl,
    fun _ => rfl,
    fun _ => Option.isSome_iff_exists,
    fun _ => Option.isSome_iff_exists,
    fun _ => list_not_isEmpty _,
    fun _ => Option.isSome_iff_exists,
    fun _ => list_not_isEmpty _,
    fun _ => list_not_isEmpty _,
    fun _ => list_not_isEmpty _,
    fun _ => rfl,
    fun _ => rfl,
    fun _ => list_not_isEmpty _,
    fun _ => list_not_isEmpty _,
    fun _ => list_not_isEmpty _,
    fun _ => list_not_isEmpty _,
    fun _ => rfl,
    fun _ => rfl,
    fun _ => Option.isSome_iff_exists,
    fun _ => Option.isSome_iff_exists,
    fun _ => Option.isSome_iff_exists,
    fun _ => Option.isSome_iff_exists,
    fun _ => list_not_isEmpty _,
    fun _ => Option.isSome_iff_exists,
    fun _ => Option.isSome_iff_exists,
    fun _ => Option.isSome_iff_exists,
    fun _ => Option.isSome_iff_exists,
    fun _ => Option.isSome_iff_exists,
    fun _ => rfl,
    fun _ => rfl,
    fun _ => Option.isSome_iff_exists,
    fun _ => Option.isSome_iff_exists,
    fun _ => Option.isSome_iff_exists,
    fun _ => Option.isSome_iff_exists,
    fun _ => Option.isSome_iff_exists,
    fun _ => Option.isSome_iff_exists,
    fun _ => Option.isSome_iff_exists,
    fun _ => Option.isSome_iff_exists,
    fun _ => list_not_isEmpty _,
    fun _ => list_not_isEmpty _,
    fun _ => list_not_isEmpty _,
    fun _ => rfl,
    fun _ => rfl,
    fun _ => rfl,
    fun _ => Option.isSome_iff_exists,
    fun _ => Option.isSome_iff_exists,
    fun _ => Option.isSome_iff_exists,
    fun _ => list_not_isEmpty _,
    fun _ => rfl,
    fun _ => rfl,
    fun _ => rfl,
    fun _ => list_not_isEmpty _,
    fun _ => list_not_isEmpty _,
    fun _ => list_not_isEmpty _,
    fun _ => list_not_isEmpty _,
    fun _ => Option.isSome_iff_exists,
    fun _ => Option.isSome_iff_exists,
    fun _ => Option.isSome_iff_exists,
    fun _ => list_not_isEmpty _,
    fun _ => rfl,
    fun _ => list_not_isEmpty _,
    fun _ => rfl,
    fun _ => Option.isSome_iff_exists,
    fun _ => list_not_isEmpty _,
    fun _ => list_not_isEmpty _,
    fun _ => list_not_isEmpty _,
    fun _ => list_not_isEmpty _,
    fun _ => list_not_isEmpty _,
    fun _ => Option.isSome_iff_exists⟩

/-- Evaluation of C12 on records: an `ApexInfo` without `preinstalledModulePath`, an empty
`ApexInfoList`, and an `AttachedDevices` with one item. -/
theorem presence_follows_multiplicity_witness :
    (apex.ApexInfo.mk "m" "/p" none 1 "1" true true (some 5) false).hasModuleName = true ∧
    (apex.ApexInfo.mk "m" "/p" none 1 "1" true true (some 5) false).hasPreinstalledModulePath
      = false ∧
    (apex.ApexInfo.mk "m" "/p" none 1 "1" true true (some 5) false).hasLastUpdateMillis = true ∧
    (apex.ApexInfoList.mk []).hasApexInfo = false ∧
    ((V7_0.AttachedDevices.mk ["Speaker"]).hasItem = true ↔
      (V7_0.AttachedDevices.mk ["Speaker"]).getItem ≠ []) :=
  ⟨by decide, by decide, by decide, by decide,
    (presence_follows_multiplicity.2.2.2.2.2.2.2.2.2.2.2.2.2.2.2.2.2.2.2.2.2.1) (V7_0.AttachedDevices.mk ["Speaker"])⟩

/-- C13: optional getters assert presence.  For every optional field O of every record, `getO()`
returns the value held by the optional when `hasO()` is true, and reaches the assertion failure
(nothing, in the embedding) exactly when `hasO()` is false; the getters of required and repeated
fields return the field and have no assertion on their path. -/
theorem optional_getters_assert_presence :
    AssertingGetter apex.ApexInfo.hasPreinstalledModulePath apex.ApexInfo.getPreinstalledModulePath
      apex.ApexInfo.preinstalledModulePath_ ∧
    AssertingGetter apex.ApexInfo.hasLastUpdateMillis apex.ApexInfo.getLastUpdateMillis
      apex.ApexInfo.lastUpdateMillis_ ∧
    AssertingGetter V7_0.GlobalConfiguration.hasCall_screen_mode_supported
      V7_0.GlobalConfiguration.getCall_screen_mode_supported
      V7_0.GlobalConfiguration.call_screen_mode_supported_ ∧
    AssertingGetter V7_0.GlobalConfiguration.hasEngine_library
      V7_0.GlobalConfiguration.getEngine_library V7_0.GlobalConfiguration.engine_library_ ∧
    AssertingGetter V7_0.Modules.Module.hasDefaultOutputDevice
      V7_0.Modules.Module.getDefaultOutputDevice V7_0.Modules.Module.defaultOutputDevice_ ∧
    AssertingGetter V7_0.MixPorts.MixPort.hasFlags V7_0.MixPorts.MixPort.getFlags
      V7_0.MixPorts.MixPort.flags_ ∧
    AssertingGetter V7_0.MixPorts.MixPort.hasMaxOpenCount V7_0.MixPorts.MixPort.getMaxOpenCount
      V7_0.MixPorts.MixPort.maxOpenCount_ ∧
    AssertingGetter V7_0.MixPorts.MixPort.hasMaxActiveCount V7_0.MixPorts.MixPort.getMaxActiveCount
      V7_0.MixPorts.MixPort.maxActiveCount_ ∧
    AssertingGetter V7_0.MixPorts.MixPort.hasPreferredUsage V7_0.MixPorts.MixPort.getPreferredUsage
      V7_0.MixPorts.MixPort.preferredUsage_ ∧
    AssertingGetter V7_0.Profile.hasName V7_0.Profile.getName V7_0.Profile.name_ ∧
    AssertingGetter V7_0.Profile.hasFormat V7_0.Profile.getFormat V7_0.Profile.format_ ∧
    AssertingGetter V7_0.Profile.hasSamplingRates V7_0.Profile.getSamplingRates
      V7_0.Profile.samplingRates_ ∧
    AssertingGetter V7_0.Profile.hasChannelMasks V7_0.Profile.getChannelMasks
      V7_0.Profile.channelMasks_ ∧
    AssertingGetter V7_0.Profile.hasEncapsulationType V7_0.Profile.getEncapsulationType
      V7_0.Profile.encapsulationType_ ∧
    AssertingGetter V7_0.Gains.Gain.hasChannel_mask V7_0.Gains.Gain.getChannel_mask
      V7_0.Gains.Gain.channel_mask_ ∧
    AssertingGetter V7_0.Gains.Gain.hasMinValueMB V7_0.Gains.Gain.getMinValueMB
      V7_0.Gains.Gain.minValueMB_ ∧
    AssertingGetter V7_0.Gains.Gain.hasMaxValueMB V7_0.Gains.Gain.getMaxValueMB
      V7_0.Gains.Gain.maxValueMB_ ∧
    AssertingGetter V7_0.Gains.Gain.hasDefaultValueMB V7_0.Gains.Gain.getDefaultValueMB
      V7_0.Gains.Gain.defaultValueMB_ ∧
    AssertingGetter V7_0.Gains.Gain.hasStepValueMB V7_0.Gains.Gain.getStepValueMB
      V7_0.Gains.Gain.stepValueMB_ ∧
    AssertingGetter V7_0.Gains.Gain.hasMinRampMs V7_0.Gains.Gain.getMinRampMs
      V7_0.Gains.Gain.minRampMs_ ∧
    AssertingGetter V7_0.Gains.Gain.hasMaxRampMs V7_0.Gains.Gain.getMaxRampMs
      V7_0.Gains.Gain.maxRampMs_ ∧
    AssertingGetter V7_0.Gains.Gain.hasUseForVolume V7_0.Gains.Gain.getUseForVolume
      V7_0.Gains.Gain.useForVolume_ ∧
    AssertingGetter V7_0.DevicePorts.DevicePort.hasAddress V7_0.DevicePorts.DevicePort.getAddress
      V7_0.DevicePorts.DevicePort.address_ ∧
    AssertingGetter V7_0.DevicePorts.DevicePort.has_default V7_0.DevicePorts.DevicePort.get_default
      V7_0.DevicePorts.DevicePort._default_ ∧
    AssertingGetter V7_0.DevicePorts.DevicePort.hasEncodedFormats
      V7_0.DevicePorts.DevicePort.getEncodedFormats V7_0.DevicePorts.DevicePort.encodedFormats_ ∧
    AssertingGetter V7_0.Volume.hasStream V7_0.Volume.getStream V7_0.Volume.stream_ ∧
    AssertingGetter V7_0.Volume.hasDeviceCategory V7_0.Volume.getDeviceCategory
      V7_0.Volume.deviceCategory_ ∧
    AssertingGetter V7_0.Volume.hasRef V7_0.Volume.getRef V7_0.Volume.ref_ ∧
    AssertingGetter V7_0.SurroundFormats.Format.hasSubformats
      V7_0.SurroundFormats.Format.getSubformats V7_0.SurroundFormats.Format.subformats_ ∧
    AssertingGetter V7_0.AudioPolicyConfiguration.hasVersion
      V7_0.AudioPolicyConfiguration.getVersion V7_0.AudioPolicyConfiguration.version_ ∧
    PlainGetter apex.ApexInfoList.getApexInfo apex.ApexInfoList.apexInfo_ ∧
    PlainGetter apex.ApexInfo.getModuleName apex.ApexInfo.moduleName_ ∧
    PlainGetter apex.ApexInfo.getModulePath apex.ApexInfo.modulePath_ ∧
    PlainGetter apex.ApexInfo.getVersionCode apex.ApexInfo.versionCode_ ∧
    PlainGetter apex.ApexInfo.getVersionName apex.ApexInfo.versionName_ ∧
    PlainGetter apex.ApexInfo.getIsFactory apex.ApexInfo.isFactory_ ∧
    PlainGetter apex.ApexInfo.getIsActive apex.ApexInfo.isActive_ ∧
    PlainGetter apex.ApexInfo.getProvideSharedApexLibs apex.ApexInfo.provideSharedApexLibs_ ∧
    PlainGetter V7_0.GlobalConfiguration.getSpeaker_drc_enabled
      V7_0.GlobalConfiguration.speaker_drc_enabled_ ∧
    PlainGetter V7_0.Modules.Module.getAttachedDevices V7_0.Modules.Module.attachedDevices_ ∧
    PlainGetter V7_0.Modules.Module.getMixPorts V7_0.Modules.Module.mixPorts_ ∧
    PlainGetter V7_0.Modules.Module.getDevicePorts V7_0.Modules.Module.devicePorts_ ∧
    PlainGetter V7_0.Modules.Module.getRoutes V7_0.Modules.Module.routes_ ∧
    PlainGetter V7_0.Modules.Module.getName V7_0.Modules.Module.name_ ∧
    PlainGetter V7_0.Modules.Module.getHalVersion V7_0.Modules.Module.halVersion_ ∧
    PlainGetter V7_0.Modules.get_module V7_0.Modules._module_ ∧
    PlainGetter V7_0.AttachedDevices.getItem V7_0.AttachedDevices.item_ ∧
    PlainGetter V7_0.MixPorts.MixPort.getProfile V7_0.MixPorts.MixPort.profile_ ∧
    PlainGetter V7_0.MixPorts.MixPort.getGains V7_0.MixPorts.MixPort.gains_ ∧
    PlainGetter V7_0.MixPorts.MixPort.getName V7_0.MixPorts.MixPort.name_ ∧
    PlainGetter V7_0.MixPorts.MixPort.getRole V7_0.MixPorts.MixPort.role_ ∧
    PlainGetter V7_0.MixPorts.getMixPort V7_0.MixPorts.mixPort_ ∧
    PlainGetter V7_0.Gains.Gain.getName V7_0.Gains.Gain.name_ ∧
    PlainGetter V7_0.Gains.Gain.getMode V7_0.Gains.Gain.mode_ ∧
    PlainGetter V7_0.Gains.getGain V7_0.Gains.gain_ ∧
    PlainGetter V7_0.DevicePorts.DevicePort.getProfile V7_0.DevicePorts.DevicePort.profile_ ∧
    PlainGetter V7_0.DevicePorts.DevicePort.getGains V7_0.DevicePorts.DevicePort.gains_ ∧
    PlainGetter V7_0.DevicePorts.DevicePort.getTagName V7_0.DevicePorts.DevicePort.tagName_ ∧
    PlainGetter V7_0.DevicePorts.DevicePort.getType V7_0.DevicePorts.DevicePort.type_ ∧
    PlainGetter V7_0.DevicePorts.DevicePort.getRole V7_0.DevicePorts.DevicePort.role_ ∧
    PlainGetter V7_0.DevicePorts.getDevicePort V7_0.DevicePorts.devicePort_ ∧
    PlainGetter V7_0.Routes.Route.getType V7_0.Routes.Route.type_ ∧
    PlainGetter V7_0.Routes.Route.getSink V7_0.Routes.Route.sink_ ∧
    PlainGetter V7_0.Routes.Route.getSources V7_0.Routes.Route.sources_ ∧
    PlainGetter V7_0.Routes.getRoute V7_0.Routes.route_ ∧
    PlainGetter V7_0.Volumes.getVolume V7_0.Volumes.volume_ ∧
    PlainGetter V7_0.Volumes.getReference V7_0.Volumes.reference_ ∧
    PlainGetter V7_0.Volume.getPoint V7_0.Volume.point_ ∧
    PlainGetter V7_0.Reference.getPoint V7_0.Reference.point_ ∧
    PlainGetter V7_0.Reference.getName V7_0.Reference.name_ ∧
    PlainGetter V7_0.SurroundSound.getFormats V7_0.SurroundSound.formats_ ∧
    PlainGetter V7_0.SurroundFormats.Format.getName V7_0.SurroundFormats.Format.name_ ∧
    PlainGetter V7_0.SurroundFormats.getFormat V7_0.SurroundFormats.format_ ∧
    PlainGetter V7_0.AudioPolicyConfiguration.getGlobalConfiguration
      V7_0.AudioPolicyConfiguration.globalConfiguration_ ∧
    PlainGetter V7_0.AudioPolicyConfiguration.getModules V7_0.AudioPolicyConfiguration.modules_ ∧
    PlainGetter V7_0.AudioPolicyConfiguration.getVolumes V7_0.AudioPolicyConfiguration.volumes_ ∧
    PlainGetter V7_0.AudioPolicyConfiguration.getSurroundSound
      V7_0.AudioPolicyConfiguration.surroundSound_ :=
  ⟨assertingGetter_of _ _ _ (fun _ => rfl) (fun _ => rfl),
    assertingGetter_of _ _ _ (fun _ => rfl) (fun _ => rfl),
    assertingGetter_of _ _ _ (fun _ => rfl) (fun _ => rfl),
    assertingGetter_of _ _ _ (fun _ => rfl) (fun _ => rfl),
    assertingGetter_of _ _ _ (fun _ => rfl) (fun _ => rfl),
    assertingGetter_of _ _ _ (fun _ => rfl) (fun _ => rfl),
    assertingGetter_of _ _ _ (fun _ => rfl) (fun _ => rfl),
    assertingGetter_of _ _ _ (fun _ => rfl) (fun _ => rfl),
    assertingGetter_of _ _ _ (fun _ => rfl) (fun _ => rfl),
    assertingGetter_of _ _ _ (fun _ => rfl) (fun _ => rfl),
    assertingGetter_of _ _ _ (fun _ => rfl) (fun _ => rfl),
    assertingGetter_of _ _ _ (fun _ => rfl) (fun _ => rfl),
    assertingGetter_of _ _ _ (fun _ => rfl) (fun _ => rfl),
    assertingGetter_of _ _ _ (fun _ => rfl) (fun _ => rfl),
    assertingGetter_of _ _ _ (fun _ => rfl) (fun _ => rfl),
    assertingGetter_of _ _ _ (fun _ => rfl) (fun _ => rfl),
    assertingGetter_of _ _ _ (fun _ => rfl) (fun _ => rfl),
    assertingGetter_of _ _ _ (fun _ => rfl) (fun _ => rfl),
    assertingGetter_of _ _ _ (fun _ => rfl) (fun _ => rfl),
    assertingGetter_of _ _ _ (fun _ => rfl) (fun _ => rfl),
    assertingGetter_of _ _ _ (fun _ => rfl) (fun _ => rfl),
    assertingGetter_of _ _ _ (fun _ => rfl) (fun _ => rfl),
    assertingGetter_of _ _ _ (fun _ => rfl) (fun _ => rfl),
    assertingGetter_of _ _ _ (fun _ => rfl) (fun _ => rfl),
    assertingGetter_of _ _ _ (fun _ => rfl) (fun _ => rfl),
    assertingGetter_of _ _ _ (fun _ => rfl) (fun _ => rfl),
    assertingGetter_of _ _ _ (fun _ => rfl) (fun _ => rfl),
    assertingGetter_of _ _ _ (fun _ => rfl) (fun _ => rfl),
    assertingGetter_of _ _ _ (fun _ => rfl) (fun _ => rfl),
    assertingGetter_of _ _ _ (fun _ => rfl) (fun _ => rfl),
    fun _ => rfl,
    fun _ => rfl,
    fun _ => rfl,
    fun _ => rfl,
    fun _ => rfl,
    fun _ => rfl,
    fun _ => rfl,
    fun _ => rfl,
    fun _ => rfl,
    fun _ => rfl,
    fun _ => rfl,
    fun _ => rfl,
    fun _ => rfl,
    fun _ => rfl,
    fun _ => rfl,
    fun _ => rfl,
    fun _ => rfl,
    fun _ => rfl,
    fun _ => rfl,
    fun _ => rfl,
    fun _ => rfl,
    fun _ => rfl,
    fun _ => rfl,
    fun _ => rfl,
    fun _ => rfl,
    fun _ => rfl,
    fun _ => rfl,
    fun _ => rfl,
    fun _ => rfl,
    fun _ => rfl,
    fun _ => rfl,
    fun _ => rfl,
    fun _ => rfl,
    fun _ => rfl,
    fun _ => rfl,
    fun _ => rfl,
    fun _ => rfl,
    fun _ => rfl,
    fun _ => rfl,
    fun _ => rfl,
    fun _ => rfl,
    fun _ => rfl,
    fun _ => rfl,
    fun _ => rfl,
    fun _ => rfl,
    fun _ => rfl,
    fun _ => rfl⟩

/-- Evaluation of C13 on records: the getter of a present and of an absent optional. -/
theorem optional_getters_assert_presence_witness :
    (apex.ApexInfo.mk "m" "/p" none 1 "1" true true (some 5) false).getLastUpdateMillis
      = some 5 ∧
    (apex.ApexInfo.mk "m" "/p" none 1 "1" true true (some 5) false).getPreinstalledModulePath
      = none ∧
    ((apex.ApexInfo.mk "m" "/p" none 1 "1" true true (some 5) false).getPreinstalledModulePath
      = none ↔
      (apex.ApexInfo.mk "m" "/p" none 1 "1" true true (some 5) false).hasPreinstalledModulePath
        = false) :=
  ⟨by decide, by decide,
    (optional_getters_assert_presence.1
      (apex.ApexInfo.mk "m" "/p" none 1 "1" true true (some 5) false)).2⟩

/-- C14: first-element accessors.  For every repeated field F of every record, `getFirstF()`
returns the null sentinel if and only if `getF()` is empty, and otherwise the element at index 0
of `getF()`, an index within bounds; there is no assertion on its path. -/
theorem get_first_element :
    FirstElement apex.ApexInfoList.getFirstApexInfo apex.ApexInfoList.getApexInfo ∧
    FirstElement V7_0.Modules.Module.getFirstAttachedDevices V7_0.Modules.Module.getAttachedDevices
      ∧
    FirstElement V7_0.Modules.Module.getFirstMixPorts V7_0.Modules.Module.getMixPorts ∧
    FirstElement V7_0.Modules.Module.getFirstDevicePorts V7_0.Modules.Module.getDevicePorts ∧
    FirstElement V7_0.Modules.Module.getFirstRoutes V7_0.Modules.Module.getRoutes ∧
    FirstElement V7_0.Modules.getFirst_module V7_0.Modules.get_module ∧
    FirstElement V7_0.AttachedDevices.getFirstItem V7_0.AttachedDevices.getItem ∧
    FirstElement V7_0.MixPorts.MixPort.getFirstProfile V7_0.MixPorts.MixPort.getProfile ∧
    FirstElement V7_0.MixPorts.MixPort.getFirstGains V7_0.MixPorts.MixPort.getGains ∧
    FirstElement V7_0.MixPorts.getFirstMixPort V7_0.MixPorts.getMixPort ∧
    FirstElement V7_0.Gains.getFirstGain V7_0.Gains.getGain ∧
    FirstElement V7_0.DevicePorts.DevicePort.getFirstProfile V7_0.DevicePorts.DevicePort.getProfile
      ∧
    FirstElement V7_0.DevicePorts.DevicePort.getFirstGains V7_0.DevicePorts.DevicePort.getGains ∧
    FirstElement V7_0.DevicePorts.getFirstDevicePort V7_0.DevicePorts.getDevicePort ∧
    FirstElement V7_0.Routes.getFirstRoute V7_0.Routes.getRoute ∧
    FirstElement V7_0.Volumes.getFirstVolume V7_0.Volumes.getVolume ∧
    FirstElement V7_0.Volumes.getFirstReference V7_0.Volumes.getReference ∧
    FirstElement V7_0.Volume.getFirstPoint V7_0.Volume.getPoint ∧
    FirstElement V7_0.Reference.getFirstPoint V7_0.Reference.getPoint ∧
    FirstElement V7_0.SurroundSound.getFirstFormats V7_0.SurroundSound.getFormats ∧
    FirstElement V7_0.SurroundFormats.getFirstFormat V7_0.SurroundFormats.getFormat ∧
    FirstElement V7_0.AudioPolicyConfiguration.getFirstGlobalConfiguration
      V7_0.AudioPolicyConfiguration.getGlobalConfiguration ∧
    FirstElement V7_0.AudioPolicyConfiguration.getFirstModules
      V7_0.AudioPolicyConfiguration.getModules ∧
    FirstElement V7_0.AudioPolicyConfiguration.getFirstVolumes
      V7_0.AudioPolicyConfiguration.getVolumes ∧
    FirstElement V7_0.AudioPolicyConfiguration.getFirstSurroundSound
      V7_0.AudioPolicyConfiguration.getSurroundSound :=
  ⟨firstElement_of _ _ (fun _ => rfl),
    firstElement_of _ _ (fun _ => rfl),
    firstElement_of _ _ (fun _ => rfl),
    firstElement_of _ _ (fun _ => rfl),
    firstElement_of _ _ (fun _ => rfl),
    firstElement_of _ _ (fun _ => rfl),
    firstElement_of _ _ (fun _ => rfl),
    firstElement_of _ _ (fun _ => rfl),
    firstElement_of _ _ (fun _ => rfl),
    firstElement_of _ _ (fun _ => rfl),
    firstElement_of _ _ (fun _ => rfl),
    firstElement_of _ _ (fun _ => rfl),
    firstElement_of _ _ (fun _ => rfl),
    firstElement_of _ _ (fun _ => rfl),
    firstElement_of _ _ (fun _ => rfl),
    firstElement_of _ _ (fun _ => rfl),
    firstElement_of _ _ (fun _ => rfl),
    firstElement_of _ _ (fun _ => rfl),
    firstElement_of _ _ (fun _ => rfl),
    firstElement_of _ _ (fun _ => rfl),
    firstElement_of _ _ (fun _ => rfl),
    firstElement_of _ _ (fun _ => rfl),
    firstElement_of _ _ (fun _ => rfl),
    firstElement_of _ _ (fun _ => rfl),
    firstElement_of _ _ (fun _ => rfl)⟩

/-- Evaluation of C14 on records: a `Volume` with two points and an empty `ApexInfoList`. -/
theorem get_first_element_witness :
    (V7_0.Volume.mk ["0,-9600", "100,0"] none none none).getFirstPoint = some "0,-9600" ∧
    (apex.ApexInfoList.mk []).getFirstApexInfo = none ∧
    ((apex.ApexInfoList.mk []).getFirstApexInfo = none ↔
      (apex.ApexInfoList.mk []).getApexInfo = []) :=
  ⟨by decide, by decide, (get_first_element.1 (apex.ApexInfoList.mk [])).1⟩

/-! ## Boolean attributes -/

theorem bool_of_text (raw s : String) (h : raw = s) (hs : s ≠ "") :
    ((if raw ≠ "" then decide (raw = "true") else false) = true ↔ s = "true") ∧
    (if raw ≠ "" then some (decide (raw = "true")) else none) = some (decide (s = "true")) := by
  subst h
  simp [hs]

/-- C15: boolean attribute parsing.  For every boolean attribute (`isFactory`, `isActive`,
`provideSharedApexLibs`, `speaker_drc_enabled`, `call_screen_mode_supported`, `default`,
`useForVolume`) and every non-empty attribute text `s`, the value in the record `read` returns
is true if and only if `s` is exactly the string `true`; for the three optional ones the field
is present and holds that value. -/
theorem boolean_attribute_parsing :
    (∀ (n : XmlNode) (r : apex.ApexInfo), apex.ApexInfo.read n = .ok r →
      (∀ s, xmlGetProp n "isFactory" = some s → s ≠ "" →
        (r.getIsFactory = true ↔ s = "true")) ∧
      (∀ s, xmlGetProp n "isActive" = some s → s ≠ "" →
        (r.getIsActive = true ↔ s = "true")) ∧
      (∀ s, xmlGetProp n "provideSharedApexLibs" = some s → s ≠ "" →
        (r.getProvideSharedApexLibs = true ↔ s = "true"))) ∧
    (∀ (n : XmlNode) (r : V7_0.GlobalConfiguration), V7_0.GlobalConfiguration.read n = .ok r →
      (∀ s, xmlGetProp n "speaker_drc_enabled" = some s → s ≠ "" →
        (r.getSpeaker_drc_enabled = true ↔ s = "true")) ∧
      (∀ s, xmlGetProp n "call_screen_mode_supported" = some s → s ≠ "" →
        ∃ b, r.getCall_screen_mode_supported = some b ∧ (b = true ↔ s = "true"))) ∧
    (∀ (n : XmlNode) (r : V7_0.DevicePorts.DevicePort),
      V7_0.DevicePorts.DevicePort.read n = .ok r →
      ∀ s, xmlGetProp n "default" = some s → s ≠ "" →
        ∃ b, r.get_default = some b ∧ (b = true ↔ s = "true")) ∧
    (∀ (n : XmlNode) (r : V7_0.Gains.Gain), V7_0.Gains.Gain.read n = .ok r →
      ∀ s, xmlGetProp n "useForVolume" = some s → s ≠ "" →
        ∃ b, r.getUseForVolume = some b ∧ (b = true ↔ s = "true")) := by
  refine ⟨?_, ?_, ?_, ?_⟩
  · intro n r h
    obtain ⟨_, _, _, _, _, h6, h7, _, h9⟩ := attrs_ApexInfo n r h
    refine ⟨?_, ?_, ?_⟩
    · intro s hp hs
      rw [apex.ApexInfo.getIsFactory, h6]
      exact (bool_of_text _ s (getXmlAttribute_present n _ s hp) hs).1
    · intro s hp hs
      rw [apex.ApexInfo.getIsActive, h7]
      exact (bool_of_text _ s (getXmlAttribute_present n _ s hp) hs).1
    · intro s hp hs
      rw [apex.ApexInfo.getProvideSharedApexLibs, h9]
      exact (bool_of_text _ s (getXmlAttribute_present n _ s hp) hs).1
  · intro n r h
    obtain ⟨h1, h2, _⟩ := attrs_GlobalConfiguration n r h
    refine ⟨?_, ?_⟩
    · intro s hp hs
      rw [V7_0.GlobalConfiguration.getSpeaker_drc_enabled, h1]
      exact (bool_of_text _ s (getXmlAttribute_present n _ s hp) hs).1
    · intro s hp hs
      refine ⟨decide (s = "true"), ?_, by simp⟩
      rw [V7_0.GlobalConfiguration.getCall_screen_mode_supported,
        V7_0.GlobalConfiguration.hasCall_screen_mode_supported, h2,
        (bool_of_text _ s (getXmlAttribute_present n _ s hp) hs).2]
      rfl
  · intro n r h s hp hs
    have h5 := (attrs_DevicePort n r h).2.2.2.2.1
    refine ⟨decide (s = "true"), ?_, by simp⟩
    rw [V7_0.DevicePorts.DevicePort.get_default, V7_0.DevicePorts.DevicePort.has_default, h5,
      (bool_of_text _ s (getXmlAttribute_present n _ s hp) hs).2]
    rfl
  · intro n r h s hp hs
    have h4 := (attrs_Gain n r h).2.2.2
    refine ⟨decide (s = "true"), ?_, by simp⟩
    rw [V7_0.Gains.Gain.getUseForVolume, V7_0.Gains.Gain.hasUseForVolume, h4,
      (bool_of_text _ s (getXmlAttribute_present n _ s hp) hs).2]
    rfl

/-- Witness of C15: the texts `true`, `false` and `TRUE` read as true, false and false. -/
theorem boolean_attribute_parsing_witness :
    apex.ApexInfo.read (XmlNode.element "apex-info"
        [("isFactory", "true"), ("isActive", "false"), ("provideSharedApexLibs", "TRUE")] []) =
      .ok (apex.ApexInfo.mk "" "" none 0 "" true false none false) ∧
    ((apex.ApexInfo.mk "" "" none 0 "" true false none false).getProvideSharedApexLibs = true ↔
      "TRUE" = "true") :=
  ⟨by decide,
    (boolean_attribute_parsing.1
      (XmlNode.element "apex-info"
        [("isFactory", "true"), ("isActive", "false"), ("provideSharedApexLibs", "TRUE")] [])
      _ (by decide)).2.2 "TRUE" (by decide) (by decide)⟩

/-! ## List-typed attributes -/

theorem tokensCore_split (cs : List Char) : ∀ cur : List Char,
    tokensCore cur cs =
      (((cs.splitOnP isspace).modifyHead (fun piece => cur.reverse ++ piece)).filter
        (fun piece => !piece.isEmpty)).map String.mk := by
  induction cs with
  | nil =>
    intro cur
    cases cur <;> simp [tokensCore, List.splitOnP_nil]
  | cons c cs ih =>
    intro cur
    rw [tokensCore, List.splitOnP_cons]
    by_cases hc : isspace c = true
    · simp only [hc, if_true]
      have h0 := ih []
      simp only [List.reverse_nil, List.nil_append] at h0
      have hid : (List.splitOnP isspace cs).modifyHead (fun piece => piece) =
          List.splitOnP isspace cs := by
        cases List.splitOnP isspace cs <;> rfl
      rw [hid] at h0
      cases cur with
      | nil => simp [h0]
      | cons x xs => simp [h0]
    · simp only [hc, if_false, Bool.false_eq_true]
      rw [ih (c :: cur)]
      cases List.splitOnP isspace cs <;> simp

theorem istringstream_tokens_split (s : String) :
    istringstream_tokens s = splitOnWhitespace s := by
  unfold istringstream_tokens splitOnWhitespace
  rw [tokensCore_split]
  cases List.splitOnP isspace s.data <;> simp

theorem mapM_ok_forall₂ {α β : Type} (f : α → Except CppException β) :
    ∀ (l : List α) (vs : List β), l.mapM f = .ok vs →
      List.Forall₂ (fun t v => f t = .ok v) l vs := by
  intro l
  induction l with
  | nil =>
    intro vs h
    rw [List.mapM_nil, Except_pure_ok] at h
    subst h
    exact List.Forall₂.nil
  | cons a l ih =>
    intro vs h
    rw [List.mapM_cons, Except_bind_ok] at h
    obtain ⟨b, hb, h⟩ := h
    rw [Except_bind_ok] at h
    obtain ⟨bs, hbs, h⟩ := h
    rw [Except_pure_ok] at h
    subst h
    exact List.Forall₂.cons hb (ih bs hbs)

theorem list_of_text {β : Type} (raw s : String) (f : List String → β) (h : raw = s)
    (hs : s ≠ "") :
    (if raw ≠ "" then some (f (istringstream_tokens raw)) else none) =
      some (f (splitOnWhitespace s)) := by
  subst h
  simp [hs, istringstream_tokens_split]

/-- C16: list attribute parsing.  For every list-typed attribute (`flags`, `preferredUsage`,
`samplingRates`, `channelMasks`, `mode`, `encodedFormats`, `subformats`) with non-empty text
`s`, the value in the record `read` returns is the sequence of the tokens of `s`, split on runs
of whitespace with the empty tokens dropped, each converted by the parser of the element type
(`stringToE`, `std::stoll`, or nothing for strings), in the order of the tokens; so its length
is the number of tokens, and an unknown enum token gives `UNKNOWN` at its position. -/
theorem list_attribute_parsing :
    (∀ (n : XmlNode) (r : V7_0.MixPorts.MixPort), V7_0.MixPorts.MixPort.read n = .ok r →
      (∀ s, xmlGetProp n "flags" = some s → s ≠ "" →
        r.hasFlags = true ∧
        r.getFlags = some ((splitOnWhitespace s).map V7_0.stringToAudioInOutFlag)) ∧
      (∀ s, xmlGetProp n "preferredUsage" = some s → s ≠ "" →
        r.hasPreferredUsage = true ∧
        r.getPreferredUsage = some ((splitOnWhitespace s).map V7_0.stringToAudioUsage))) ∧
    (∀ (n : XmlNode) (r : V7_0.Profile), V7_0.Profile.read n = .ok r →
      (∀ s, xmlGetProp n "samplingRates" = some s → s ≠ "" →
        ∃ vs, r.hasSamplingRates = true ∧ r.getSamplingRates = some vs ∧
          List.Forall₂ (fun tok v => stoll tok = .ok v) (splitOnWhitespace s) vs ∧
          vs.length = (splitOnWhitespace s).length) ∧
      (∀ s, xmlGetProp n "channelMasks" = some s → s ≠ "" →
        r.hasChannelMasks = true ∧
        r.getChannelMasks = some ((splitOnWhitespace s).map V7_0.stringToAudioChannelMask))) ∧
    (∀ (n : XmlNode) (r : V7_0.Gains.Gain), V7_0.Gains.Gain.read n = .ok r →
      ∀ s, xmlGetProp n "mode" = some s → s ≠ "" →
        r.getMode = (splitOnWhitespace s).map V7_0.stringToAudioGainMode) ∧
    (∀ (n : XmlNode) (r : V7_0.DevicePorts.DevicePort),
      V7_0.DevicePorts.DevicePort.read n = .ok r →
      ∀ s, xmlGetProp n "encodedFormats" = some s → s ≠ "" →
        r.hasEncodedFormats = true ∧ r.getEncodedFormats = some (splitOnWhitespace s)) ∧
    (∀ (n : XmlNode) (r : V7_0.SurroundFormats.Format),
      V7_0.SurroundFormats.Format.read n = .ok r →
      ∀ s, xmlGetProp n "subformats" = some s → s ≠ "" →
        r.hasSubformats = true ∧ r.getSubformats = some (splitOnWhitespace s)) := by
  refine ⟨?_, ?_, ?_, ?_, ?_⟩
  · intro n r h
    obtain ⟨_, _, h3, h4⟩ := attrs_MixPort n r h
    refine ⟨?_, ?_⟩
    · intro s hp hs
      rw [list_of_text _ s (fun ts => ts.map V7_0.stringToAudioInOutFlag)
        (getXmlAttribute_present n _ s hp) hs] at h3
      simp [V7_0.MixPorts.MixPort.getFlags, V7_0.MixPorts.MixPort.hasFlags, h3]
    · intro s hp hs
      rw [list_of_text _ s (fun ts => ts.map V7_0.stringToAudioUsage)
        (getXmlAttribute_present n _ s hp) hs] at h4
      simp [V7_0.MixPorts.MixPort.getPreferredUsage, V7_0.MixPorts.MixPort.hasPreferredUsage, h4]
  · intro n r h
    obtain ⟨_, _, h3, h4, _⟩ := attrs_Profile n r h
    refine ⟨?_, ?_⟩
    · intro s hp hs
      rw [getXmlAttribute_present n _ s hp, if_pos hs, Except_map_ok,
        istringstream_tokens_split] at h3
      obtain ⟨vs, hvs, hr⟩ := h3
      have hall := mapM_ok_forall₂ stoll _ _ hvs
      refine ⟨vs, ?_, ?_, hall, hall.length_eq.symm⟩
      · simp [V7_0.Profile.hasSamplingRates, ← hr]
      · simp [V7_0.Profile.getSamplingRates, V7_0.Profile.hasSamplingRates, ← hr]
    · intro s hp hs
      rw [list_of_text _ s (fun ts => ts.map V7_0.stringToAudioChannelMask)
        (getXmlAttribute_present n _ s hp) hs] at h4
      simp [V7_0.Profile.getChannelMasks, V7_0.Profile.hasChannelMasks, h4]
  · intro n r h s hp hs
    have h2 := (attrs_Gain n r h).2.1
    rw [getXmlAttribute_present n _ s hp, if_pos hs, istringstream_tokens_split] at h2
    simp [V7_0.Gains.Gain.getMode, h2]
  · intro n r h s hp hs
    have h6 := (attrs_DevicePort n r h).2.2.2.2.2
    rw [list_of_text _ s (fun ts => ts) (getXmlAttribute_present n _ s hp) hs] at h6
    simp [V7_0.DevicePorts.DevicePort.getEncodedFormats,
      V7_0.DevicePorts.DevicePort.hasEncodedFormats, h6]
  · intro n r h s hp hs
    have h2 := (attrs_Format n r h).2
    rw [list_of_text _ s (fun ts => ts) (getXmlAttribute_present n _ s hp) hs] at h2
    simp [V7_0.SurroundFormats.Format.getSubformats, V7_0.SurroundFormats.Format.hasSubformats,
      h2]

/-- Witness of C16: the example of the specification, `flags` with two known tokens, and a text
with runs of different whitespace characters around an unknown token. -/
theorem list_attribute_parsing_witness :
    V7_0.MixPorts.MixPort.read (XmlNode.element "mixPort"
        [("flags", "AUDIO_OUTPUT_FLAG_DIRECT AUDIO_OUTPUT_FLAG_PRIMARY"),
         ("preferredUsage", " AUDIO_USAGE_MEDIA \t\n bogus  AUDIO_USAGE_ALARM ")] []) =
      .ok (V7_0.MixPorts.MixPort.mk [] [] "" V7_0.Role.UNKNOWN
        (some [V7_0.AudioInOutFlag.AUDIO_OUTPUT_FLAG_DIRECT,
          V7_0.AudioInOutFlag.AUDIO_OUTPUT_FLAG_PRIMARY]) none none
        (some [V7_0.AudioUsage.AUDIO_USAGE_MEDIA, V7_0.AudioUsage.UNKNOWN,
          V7_0.AudioUsage.AUDIO_USAGE_ALARM])) ∧
    splitOnWhitespace " AUDIO_USAGE_MEDIA \t\n bogus  AUDIO_USAGE_ALARM " =
      ["AUDIO_USAGE_MEDIA", "bogus", "AUDIO_USAGE_ALARM"] ∧
    ((V7_0.MixPorts.MixPort.mk [] [] "" V7_0.Role.UNKNOWN
        (some [V7_0.AudioInOutFlag.AUDIO_OUTPUT_FLAG_DIRECT,
          V7_0.AudioInOutFlag.AUDIO_OUTPUT_FLAG_PRIMARY]) none none
        (some [V7_0.AudioUsage.AUDIO_USAGE_MEDIA, V7_0.AudioUsage.UNKNOWN,
          V7_0.AudioUsage.AUDIO_USAGE_ALARM])).hasFlags = true ∧
      (V7_0.MixPorts.MixPort.mk [] [] "" V7_0.Role.UNKNOWN
        (some [V7_0.AudioInOutFlag.AUDIO_OUTPUT_FLAG_DIRECT,
          V7_0.AudioInOutFlag.AUDIO_OUTPUT_FLAG_PRIMARY]) none none
        (some [V7_0.AudioUsage.AUDIO_USAGE_MEDIA, V7_0.AudioUsage.UNKNOWN,
          V7_0.AudioUsage.AUDIO_USAGE_ALARM])).getFlags =
        some ((splitOnWhitespace "AUDIO_OUTPUT_FLAG_DIRECT AUDIO_OUTPUT_FLAG_PRIMARY").map
          V7_0.stringToAudioInOutFlag)) :=
  ⟨by decide, by decide,
    (list_attribute_parsing.1
      (XmlNode.element "mixPort"
        [("flags", "AUDIO_OUTPUT_FLAG_DIRECT AUDIO_OUTPUT_FLAG_PRIMARY"),
         ("preferredUsage", " AUDIO_USAGE_MEDIA \t\n bogus  AUDIO_USAGE_ALARM ")] [])
      _ (by decide)).1 "AUDIO_OUTPUT_FLAG_DIRECT AUDIO_OUTPUT_FLAG_PRIMARY" (by decide)
      (by decide)⟩

/-! ## Enumeration attributes that are present -/

theorem enum_of_text {E : Type} (raw s : String) (f : String → E) (unknown : E) (h : raw = s)
    (hs : s ≠ "") :
    (if raw ≠ "" then f raw else unknown) = f s ∧
    (if raw ≠ "" then some (f raw) else none) = some (f s) := by
  subst h
  simp [hs]

/-- C17: unknown enum tokens are not errors.  For every enum-typed attribute and every non-empty
attribute text `s`, `read` succeeds and stores `stringToE(s)` in the field, present when the
field is optional: `read` returns on the element exactly when the numeric attribute texts of
the element and of the elements below it are accepted by their conversions, a condition in
which the enum text does not occur (for `route`, `globalConfiguration` and `volume` it always
returns), every record it returns holds `stringToE(s)`, and on the element that carries this
attribute and nothing else `read` returns whatever the text is. -/
theorem enum_token_not_error :
    (∀ (n : XmlNode) (s : String), xmlGetProp n "role" = some s → s ≠ "" →
      ((∃ r, V7_0.MixPorts.MixPort.read n = .ok r) ↔ mixPortNumericOk n) ∧
      ∀ r, V7_0.MixPorts.MixPort.read n = .ok r →
        r.hasRole = true ∧ r.getRole = V7_0.stringToRole s) ∧
    (∀ (n : XmlNode) (s : String), xmlGetProp n "role" = some s → s ≠ "" →
      ((∃ r, V7_0.DevicePorts.DevicePort.read n = .ok r) ↔ devicePortNumericOk n) ∧
      ∀ r, V7_0.DevicePorts.DevicePort.read n = .ok r →
        r.hasRole = true ∧ r.getRole = V7_0.stringToRole s) ∧
    (∀ (n : XmlNode) (s : String), xmlGetProp n "halVersion" = some s → s ≠ "" →
      ((∃ r, V7_0.Modules.Module.read n = .ok r) ↔ moduleNumericOk n) ∧
      ∀ r, V7_0.Modules.Module.read n = .ok r →
        r.hasHalVersion = true ∧ r.getHalVersion = V7_0.stringToHalVersion s) ∧
    (∀ (n : XmlNode) (s : String), xmlGetProp n "type" = some s → s ≠ "" →
      ∃ r, V7_0.Routes.Route.read n = .ok r ∧
        r.hasType = true ∧ r.getType = V7_0.stringToMixType s) ∧
    (∀ (n : XmlNode) (s : String), xmlGetProp n "engine_library" = some s → s ≠ "" →
      ∃ r, V7_0.GlobalConfiguration.read n = .ok r ∧
        r.hasEngine_library = true ∧
        r.getEngine_library = some (V7_0.stringToEngineSuffix s)) ∧
    (∀ (n : XmlNode) (s : String), xmlGetProp n "encapsulationType" = some s → s ≠ "" →
      ((∃ r, V7_0.Profile.read n = .ok r) ↔ profileNumericOk n) ∧
      ∀ r, V7_0.Profile.read n = .ok r →
        r.hasEncapsulationType = true ∧
        r.getEncapsulationType = some (V7_0.stringToAudioEncapsulationType s)) ∧
    (∀ (n : XmlNode) (s : String), xmlGetProp n "channel_mask" = some s → s ≠ "" →
      ((∃ r, V7_0.Gains.Gain.read n = .ok r) ↔ gainNumericOk n) ∧
      ∀ r, V7_0.Gains.Gain.read n = .ok r →
        r.hasChannel_mask = true ∧
        r.getChannel_mask = some (V7_0.stringToAudioChannelMask s)) ∧
    (∀ (n : XmlNode) (s : String), xmlGetProp n "stream" = some s → s ≠ "" →
      ∃ r, V7_0.Volume.read n = .ok r ∧
        r.hasStream = true ∧ r.getStream = some (V7_0.stringToAudioStreamType s)) ∧
    (∀ (n : XmlNode) (s : String), xmlGetProp n "deviceCategory" = some s → s ≠ "" →
      ∃ r, V7_0.Volume.read n = .ok r ∧
        r.hasDeviceCategory = true ∧
        r.getDeviceCategory = some (V7_0.stringToDeviceCategory s)) ∧
    (∀ (n : XmlNode) (s : String), xmlGetProp n "version" = some s → s ≠ "" →
      ((∃ r, V7_0.AudioPolicyConfiguration.read n = .ok r) ↔ audioPolicyNumericOk n) ∧
      ∀ r, V7_0.AudioPolicyConfiguration.read n = .ok r →
        r.hasVersion = true ∧ r.getVersion = some (V7_0.stringToVersion s)) ∧
    (∀ s : String, s ≠ "" →
      ∃ r, V7_0.MixPorts.MixPort.read (XmlNode.element "mixPort" [("role", s)] []) = .ok r ∧
        r.hasRole = true ∧ r.getRole = V7_0.stringToRole s) ∧
    (∀ s : String, s ≠ "" →
      ∃ r, V7_0.DevicePorts.DevicePort.read (XmlNode.element "devicePort" [("role", s)] []) =
          .ok r ∧
        r.hasRole = true ∧ r.getRole = V7_0.stringToRole s) ∧
    (∀ s : String, s ≠ "" →
      ∃ r, V7_0.Modules.Module.read (XmlNode.element "module" [("halVersion", s)] []) = .ok r ∧
        r.hasHalVersion = true ∧ r.getHalVersion = V7_0.stringToHalVersion s) ∧
    (∀ s : String, s ≠ "" →
      ∃ r, V7_0.Profile.read (XmlNode.element "profile" [("encapsulationType", s)] []) =
          .ok r ∧
        r.hasEncapsulationType = true ∧
        r.getEncapsulationType = some (V7_0.stringToAudioEncapsulationType s)) ∧
    (∀ s : String, s ≠ "" →
      ∃ r, V7_0.Gains.Gain.read (XmlNode.element "gain" [("channel_mask", s)] []) = .ok r ∧
        r.hasChannel_mask = true ∧
        r.getChannel_mask = some (V7_0.stringToAudioChannelMask s)) ∧
    (∀ s : String, s ≠ "" →
      ∃ r, V7_0.AudioPolicyConfiguration.read
          (XmlNode.element "audioPolicyConfiguration" [("version", s)] []) = .ok r ∧
        r.hasVersion = true ∧ r.getVersion = some (V7_0.stringToVersion s)) := by
  have hnone : ∀ (tag a : String) (s : String) (nm : String) (c : XmlNode),
      c ∈ childrenNamed (XmlNode.element tag [(a, s)] []) nm → False := by
    intro tag a s nm c hc
    simp [childrenNamed, XmlNode.element, XmlNode.xmlChildrenNode] at hc
  refine ⟨?_, ?_, ?_, ?_, ?_, ?_, ?_, ?_, ?_, ?_, ?_, ?_, ?_, ?_, ?_, ?_⟩
  · intro n s hp hs
    refine ⟨mixPort_read_ok n, fun r h => ?_⟩
    have h2 := (attrs_MixPort n r h).2.1
    rw [(enum_of_text _ s V7_0.stringToRole V7_0.Role.UNKNOWN
      (getXmlAttribute_present n _ s hp) hs).1] at h2
    exact ⟨rfl, h2⟩
  · intro n s hp hs
    refine ⟨devicePort_read_ok n, fun r h => ?_⟩
    have h3 := (attrs_DevicePort n r h).2.2.1
    rw [(enum_of_text _ s V7_0.stringToRole V7_0.Role.UNKNOWN
      (getXmlAttribute_present n _ s hp) hs).1] at h3
    exact ⟨rfl, h3⟩
  · intro n s hp hs
    refine ⟨module_read_ok n, fun r h => ?_⟩
    have h2 := (attrs_Module n r h).2
    rw [(enum_of_text _ s V7_0.stringToHalVersion V7_0.HalVersion.UNKNOWN
      (getXmlAttribute_present n _ s hp) hs).1] at h2
    exact ⟨rfl, h2⟩
  · intro n s hp hs
    obtain ⟨r, h⟩ := route_read_ok n
    have h1 := (attrs_Route n r h).1
    rw [(enum_of_text _ s V7_0.stringToMixType V7_0.MixType.UNKNOWN
      (getXmlAttribute_present n _ s hp) hs).1] at h1
    exact ⟨r, h, rfl, h1⟩
  · intro n s hp hs
    obtain ⟨r, h⟩ := globalConfiguration_read_ok n
    have h3 := (attrs_GlobalConfiguration n r h).2.2
    rw [(enum_of_text _ s V7_0.stringToEngineSuffix V7_0.EngineSuffix.UNKNOWN
      (getXmlAttribute_present n _ s hp) hs).2] at h3
    refine ⟨r, h, ?_, ?_⟩ <;>
      simp [V7_0.GlobalConfiguration.getEngine_library,
        V7_0.GlobalConfiguration.hasEngine_library, h3]
  · intro n s hp hs
    refine ⟨profile_read_ok n, fun r h => ?_⟩
    have h5 := (attrs_Profile n r h).2.2.2.2
    rw [(enum_of_text _ s V7_0.stringToAudioEncapsulationType
      V7_0.AudioEncapsulationType.UNKNOWN (getXmlAttribute_present n _ s hp) hs).2] at h5
    constructor <;>
      simp [V7_0.Profile.getEncapsulationType, V7_0.Profile.hasEncapsulationType, h5]
  · intro n s hp hs
    refine ⟨gain_read_ok n, fun r h => ?_⟩
    have h3 := (attrs_Gain n r h).2.2.1
    rw [(enum_of_text _ s V7_0.stringToAudioChannelMask V7_0.AudioChannelMask.UNKNOWN
      (getXmlAttribute_present n _ s hp) hs).2] at h3
    constructor <;>
      simp [V7_0.Gains.Gain.getChannel_mask, V7_0.Gains.Gain.hasChannel_mask, h3]
  · intro n s hp hs
    obtain ⟨r, h⟩ := volume_read_ok n
    have h1 := (attrs_Volume n r h).1
    rw [(enum_of_text _ s V7_0.stringToAudioStreamType V7_0.AudioStreamType.UNKNOWN
      (getXmlAttribute_present n _ s hp) hs).2] at h1
    refine ⟨r, h, ?_, ?_⟩ <;> simp [V7_0.Volume.getStream, V7_0.Volume.hasStream, h1]
  · intro n s hp hs
    obtain ⟨r, h⟩ := volume_read_ok n
    have h2 := (attrs_Volume n r h).2.1
    rw [(enum_of_text _ s V7_0.stringToDeviceCategory V7_0.DeviceCategory.UNKNOWN
      (getXmlAttribute_present n _ s hp) hs).2] at h2
    refine ⟨r, h, ?_, ?_⟩ <;>
      simp [V7_0.Volume.getDeviceCategory, V7_0.Volume.hasDeviceCategory, h2]
  · intro n s hp hs
    refine ⟨audioPolicyConfiguration_read_ok n, fun r h => ?_⟩
    have h1 := attrs_AudioPolicyConfiguration n r h
    rw [(enum_of_text _ s V7_0.stringToVersion V7_0.Version.UNKNOWN
      (getXmlAttribute_present n _ s hp) hs).2] at h1
    constructor <;>
      simp [V7_0.AudioPolicyConfiguration.getVersion, V7_0.AudioPolicyConfiguration.hasVersion,
        h1]

  · intro s hs
    have hp : xmlGetProp (XmlNode.element "mixPort" [("role", s)] []) "role" = some s := rfl
    obtain ⟨r, h⟩ := (mixPort_read_ok (XmlNode.element "mixPort" [("role", s)] [])).2
      ⟨Or.inl rfl, Or.inl rfl, fun c hc => (hnone _ _ _ _ c hc).elim,
        fun c hc => (hnone _ _ _ _ c hc).elim⟩
    have h2 := (attrs_MixPort _ r h).2.1
    rw [(enum_of_text _ s V7_0.stringToRole V7_0.Role.UNKNOWN
      (getXmlAttribute_present _ _ s hp) hs).1] at h2
    exact ⟨r, h, rfl, h2⟩
  · intro s hs
    have hp : xmlGetProp (XmlNode.element "devicePort" [("role", s)] []) "role" = some s := rfl
    obtain ⟨r, h⟩ := (devicePort_read_ok (XmlNode.element "devicePort" [("role", s)] [])).2
      ⟨fun c hc => (hnone _ _ _ _ c hc).elim, fun c hc => (hnone _ _ _ _ c hc).elim⟩
    have h3 := (attrs_DevicePort _ r h).2.2.1
    rw [(enum_of_text _ s V7_0.stringToRole V7_0.Role.UNKNOWN
      (getXmlAttribute_present _ _ s hp) hs).1] at h3
    exact ⟨r, h, rfl, h3⟩
  · intro s hs
    have hp : xmlGetProp (XmlNode.element "module" [("halVersion", s)] []) "halVersion" = some s := rfl
    obtain ⟨r, h⟩ := (module_read_ok (XmlNode.element "module" [("halVersion", s)] [])).2
      ⟨fun c hc => (hnone _ _ _ _ c hc).elim, fun c hc => (hnone _ _ _ _ c hc).elim⟩
    have h2 := (attrs_Module _ r h).2
    rw [(enum_of_text _ s V7_0.stringToHalVersion V7_0.HalVersion.UNKNOWN
      (getXmlAttribute_present _ _ s hp) hs).1] at h2
    exact ⟨r, h, rfl, h2⟩
  · intro s hs
    have hp : xmlGetProp (XmlNode.element "profile" [("encapsulationType", s)] []) "encapsulationType" = some s := rfl
    obtain ⟨r, h⟩ := (profile_read_ok
      (XmlNode.element "profile" [("encapsulationType", s)] [])).2 (Or.inl rfl)
    have h5 := (attrs_Profile _ r h).2.2.2.2
    rw [(enum_of_text _ s V7_0.stringToAudioEncapsulationType
      V7_0.AudioEncapsulationType.UNKNOWN (getXmlAttribute_present _ _ s hp) hs).2] at h5
    refine ⟨r, h, ?_, ?_⟩ <;>
      simp [V7_0.Profile.getEncapsulationType, V7_0.Profile.hasEncapsulationType, h5]
  · intro s hs
    have hp : xmlGetProp (XmlNode.element "gain" [("channel_mask", s)] []) "channel_mask" = some s := rfl
    obtain ⟨r, h⟩ := (gain_read_ok (XmlNode.element "gain" [("channel_mask", s)] [])).2
      ⟨Or.inl rfl, Or.inl rfl, Or.inl rfl, Or.inl rfl, Or.inl rfl, Or.inl rfl⟩
    have h3 := (attrs_Gain _ r h).2.2.1
    rw [(enum_of_text _ s V7_0.stringToAudioChannelMask V7_0.AudioChannelMask.UNKNOWN
      (getXmlAttribute_present _ _ s hp) hs).2] at h3
    refine ⟨r, h, ?_, ?_⟩ <;>
      simp [V7_0.Gains.Gain.getChannel_mask, V7_0.Gains.Gain.hasChannel_mask, h3]
  · intro s hs
    have hp : xmlGetProp (XmlNode.element "audioPolicyConfiguration" [("version", s)] []) "version" = some s := rfl
    obtain ⟨r, h⟩ := (audioPolicyConfiguration_read_ok
      (XmlNode.element "audioPolicyConfiguration" [("version", s)] [])).2
      (fun c hc => (hnone _ _ _ _ c hc).elim)
    have h1 := attrs_AudioPolicyConfiguration _ r h
    rw [(enum_of_text _ s V7_0.stringToVersion V7_0.Version.UNKNOWN
      (getXmlAttribute_present _ _ s hp) hs).2] at h1
    refine ⟨r, h, ?_, ?_⟩ <;>
      simp [V7_0.AudioPolicyConfiguration.getVersion, V7_0.AudioPolicyConfiguration.hasVersion,
        h1]

/-- Evaluation of C17 on the example of the specification: a `mixPort` with `role="XYZ"` is read,
`hasRole()` is true and `getRole()` is `Role::UNKNOWN`. -/
theorem enum_token_not_error_witness :
    V7_0.MixPorts.MixPort.read
        (XmlNode.element "mixPort" [("name", "primary"), ("role", "XYZ")] []) =
      .ok (V7_0.MixPorts.MixPort.mk [] [] "primary" V7_0.Role.UNKNOWN none none none none) ∧
    V7_0.stringToRole "XYZ" = V7_0.Role.UNKNOWN ∧
    ((V7_0.MixPorts.MixPort.mk [] [] "primary" V7_0.Role.UNKNOWN none none none none).hasRole
        = true ∧
      (V7_0.MixPorts.MixPort.mk [] [] "primary" V7_0.Role.UNKNOWN none none none none).getRole
        = V7_0.stringToRole "XYZ") :=
  ⟨by decide, by decide,
    (enum_token_not_error.1
      (XmlNode.element "mixPort" [("name", "primary"), ("role", "XYZ")] []) "XYZ"
      (by decide) (by decide)).2 _ (by decide)⟩

/-! ## Required attributes that are absent -/

theorem map_find_insert_empty (ps : List (String × String)) (a b : String)
    (h : map_find ps a = none) : ∀ k : Nat,
    (map_find (ps.take k ++ (a, "") :: ps.drop k) b).getD "" = (map_find ps b).getD "" := by
  induction ps with
  | nil =>
    intro k
    by_cases hb : b = a <;> simp [map_find, hb]
  | cons p ps ih =>
    intro k
    obtain ⟨key, v⟩ := p
    have hne : a ≠ key := by
      intro hk
      simp [map_find, hk] at h
    have hrest : map_find ps a = none := by
      simpa [map_find, hne] using h
    cases k with
    | zero =>
      by_cases hb : b = a
      · subst hb
        simp [map_find, hne, hrest]
      · simp [map_find, hb]
    | succ k =>
      by_cases hb : b = key
      · simp [map_find, hb]
      · simpa [map_find, hb] using ih hrest k

theorem getXmlAttribute_withAttribute (n : XmlNode) (k : Nat) (a b : String)
    (h : xmlGetProp n a = none) :
    getXmlAttribute (n.withAttribute k a "") b = getXmlAttribute n b := by
  obtain ⟨t, nm, ps, cs, ct⟩ := n
  by_cases ht : t = XmlElementType.XML_ELEMENT_NODE
  · have hps : map_find ps a = none := by
      simpa [xmlGetProp, XmlNode.type, XmlNode.properties, ht] using h
    have key := map_find_insert_empty ps a b hps k
    simp only [getXmlAttribute, xmlGetProp, XmlNode.withAttribute, XmlNode.type,
      XmlNode.properties, ht, if_true]
    cases h1 : map_find (List.take k ps ++ (a, "") :: List.drop k ps) b <;>
      cases h2 : map_find ps b <;> simp_all
  · simp [getXmlAttribute, xmlGetProp, XmlNode.withAttribute, XmlNode.type, ht]

theorem withAttribute_children (n : XmlNode) (k : Nat) (a v : String) :
    (n.withAttribute k a v).xmlChildrenNode = n.xmlChildrenNode := by
  rfl

/-- C18: required fields take the zero value of their type when the attribute is absent.  In the
record `ApexInfo::read` returns, `moduleName`, `modulePath` and `versionName` are the empty
string, `versionCode` is 0 and `isFactory`, `isActive` and `provideSharedApexLibs` are false,
each when its attribute is missing; and reading an element that lacks an attribute gives the
same result as reading the same element carrying that attribute with the empty value, wherever
among the attributes it is placed, so an absent required string is indistinguishable from a
present empty one (the same holds of the readers of the audio policy schema that have a required
string attribute). -/
theorem required_absent_zero_value :
    (∀ (n : XmlNode) (r : apex.ApexInfo), apex.ApexInfo.read n = .ok r →
      (xmlGetProp n "moduleName" = none → r.getModuleName = "") ∧
      (xmlGetProp n "modulePath" = none → r.getModulePath = "") ∧
      (xmlGetProp n "versionName" = none → r.getVersionName = "") ∧
      (xmlGetProp n "versionCode" = none → r.getVersionCode = 0) ∧
      (xmlGetProp n "isFactory" = none → r.getIsFactory = false) ∧
      (xmlGetProp n "isActive" = none → r.getIsActive = false) ∧
      (xmlGetProp n "provideSharedApexLibs" = none → r.getProvideSharedApexLibs = false)) ∧
    (∀ (n : XmlNode) (k : Nat) (a : String), xmlGetProp n a = none →
      apex.ApexInfo.read (n.withAttribute k a "") = apex.ApexInfo.read n ∧
      V7_0.Modules.Module.read (n.withAttribute k a "") = V7_0.Modules.Module.read n ∧
      V7_0.MixPorts.MixPort.read (n.withAttribute k a "") = V7_0.MixPorts.MixPort.read n ∧
      V7_0.Gains.Gain.read (n.withAttribute k a "") = V7_0.Gains.Gain.read n ∧
      V7_0.DevicePorts.DevicePort.read (n.withAttribute k a "") =
        V7_0.DevicePorts.DevicePort.read n ∧
      V7_0.Routes.Route.read (n.withAttribute k a "") = V7_0.Routes.Route.read n ∧
      V7_0.Reference.read (n.withAttribute k a "") = V7_0.Reference.read n ∧
      V7_0.SurroundFormats.Format.read (n.withAttribute k a "") =
        V7_0.SurroundFormats.Format.read n) := by
  refine ⟨?_, ?_⟩
  · intro n r h
    obtain ⟨h1, h2, _, h4, h5, h6, h7, _, h9⟩ := attrs_ApexInfo n r h
    refine ⟨?_, ?_, ?_, ?_, ?_, ?_, ?_⟩ <;> intro ha
    · rw [apex.ApexInfo.getModuleName, h1, getXmlAttribute_absent n _ ha]
    · rw [apex.ApexInfo.getModulePath, h2, getXmlAttribute_absent n _ ha]
    · rw [apex.ApexInfo.getVersionName, h5, getXmlAttribute_absent n _ ha]
    · rw [getXmlAttribute_absent n _ ha] at h4
      simp only [ne_eq, not_true_eq_false, if_false, Except_pure_ok] at h4
      rw [apex.ApexInfo.getVersionCode, ← h4]
    · rw [apex.ApexInfo.getIsFactory, h6, getXmlAttribute_absent n _ ha]
      rfl
    · rw [apex.ApexInfo.getIsActive, h7, getXmlAttribute_absent n _ ha]
      rfl
    · rw [apex.ApexInfo.getProvideSharedApexLibs, h9, getXmlAttribute_absent n _ ha]
      rfl
  · intro n k a ha
    refine ⟨?_, ?_, ?_, ?_, ?_, ?_, ?_, ?_⟩
    · simp only [apex.ApexInfo.read, getXmlAttribute_withAttribute n k a _ ha]
    · simp only [V7_0.Modules.Module.read, getXmlAttribute_withAttribute n k a _ ha,
        withAttribute_children]
    · simp only [V7_0.MixPorts.MixPort.read, getXmlAttribute_withAttribute n k a _ ha,
        withAttribute_children]
    · simp only [V7_0.Gains.Gain.read, getXmlAttribute_withAttribute n k a _ ha]
    · simp only [V7_0.DevicePorts.DevicePort.read, getXmlAttribute_withAttribute n k a _ ha,
        withAttribute_children]
    · simp only [V7_0.Routes.Route.read, getXmlAttribute_withAttribute n k a _ ha]
    · simp only [V7_0.Reference.read, getXmlAttribute_withAttribute n k a _ ha,
        withAttribute_children]
    · simp only [V7_0.SurroundFormats.Format.read, getXmlAttribute_withAttribute n k a _ ha]

/-- Witness of C18: an `apex-info` element that carries only `isActive`; every other required
field takes its zero value, and adding `moduleName=""` in front does not change the record. -/
theorem required_absent_zero_value_witness :
    apex.ApexInfo.read (XmlNode.element "apex-info" [("isActive", "true")] []) =
      .ok (apex.ApexInfo.mk "" "" none 0 "" false true none false) ∧
    (XmlNode.element "apex-info" [("isActive", "true")] []).withAttribute 0 "moduleName" "" =
      XmlNode.element "apex-info" [("moduleName", ""), ("isActive", "true")] [] ∧
    (apex.ApexInfo.mk "" "" none 0 "" false true none false).getVersionCode = 0 ∧
    apex.ApexInfo.read
        ((XmlNode.element "apex-info" [("isActive", "true")] []).withAttribute 0
          "moduleName" "") =
      apex.ApexInfo.read (XmlNode.element "apex-info" [("isActive", "true")] []) :=
  ⟨by decide, rfl,
    (required_absent_zero_value.1
      (XmlNode.element "apex-info" [("isActive", "true")] []) _ (by decide)).2.2.2.1
      (by decide),
    (required_absent_zero_value.2
      (XmlNode.element "apex-info" [("isActive", "true")] []) 0 "moduleName"
      (by decide)).1⟩

/-! ## Layout of the written text -/

theorem digitChar_eq : ∀ d, d < 10 → digitChar d = Nat.digitChar d := by
  decide

theorem decimalCore_toDigits (fuel : Nat) : ∀ (n : Nat) (acc : List Char),
    decimalCore fuel n acc = Nat.toDigitsCore 10 fuel n acc := by
  induction fuel with
  | zero => intro n acc; rfl
  | succ fuel ih =>
    intro n acc
    simp only [decimalCore, Nat.toDigitsCore, digitChar_eq (n % 10) (Nat.mod_lt n (by decide)),
      ih]

theorem int64Text_signedDecimal (i : Int) : apex.int64Text i = signedDecimal i := by
  cases i with
  | ofNat n =>
    show String.mk (decimalCore (n + 1) n []) = (Nat.toDigits 10 n).asString
    rw [decimalCore_toDigits]
    rfl
  | negSucc n =>
    show String.mk ('-' :: decimalCore (n + 1 + 1) (n + 1) []) =
      "-" ++ (Nat.toDigits 10 (n + 1)).asString
    rw [decimalCore_toDigits]
    rfl

theorem attributesText_written (a : apex.ApexInfo) :
    (attributesText (apexInfoAttributeRows a)).data = attrsChars a.writtenAttributes := by
  obtain ⟨mn, mp, pre, vc, vn, f, act, lum, sh⟩ := a
  cases pre <;> cases lum <;>
    simp [attributesText, apexInfoAttributeRows, apex.ApexInfo.writtenAttributes, attrsChars,
      String.data_join, apex.ApexInfo.hasModuleName, apex.ApexInfo.hasModulePath,
      apex.ApexInfo.hasPreinstalledModulePath, apex.ApexInfo.hasVersionCode,
      apex.ApexInfo.hasVersionName, apex.ApexInfo.hasIsFactory, apex.ApexInfo.hasIsActive,
      apex.ApexInfo.hasLastUpdateMillis, apex.ApexInfo.hasProvideSharedApexLibs,
      apex.ApexInfo.getModuleName, apex.ApexInfo.getModulePath,
      apex.ApexInfo.getPreinstalledModulePath, apex.ApexInfo.getVersionCode,
      apex.ApexInfo.getVersionName, apex.ApexInfo.getIsFactory, apex.ApexInfo.getIsActive,
      apex.ApexInfo.getLastUpdateMillis, apex.ApexInfo.getProvideSharedApexLibs,
      int64Text_signedDecimal, apex.boolText]

theorem ApexInfo_write_text (a : apex.ApexInfo) (w : apex.Writer) (_name : String) :
    (a.write w _name)._out =
      w._out ++ apex.printIndent w.indentIndex ++ "<" ++ _name ++
        attributesText (apexInfoAttributeRows a) ++ ">\n" ++
        apex.printIndent w.indentIndex ++ "</" ++ _name ++ ">\n" := by
  apply String.ext
  have q1 : ("<" : String).data = ['<'] := rfl
  have q2 : (">\n" : String).data = ['>', '\n'] := rfl
  have q3 : ("</" : String).data = ['<', '/'] := rfl
  rw [(ApexInfo_write_out a w _name).1]
  simp only [String.data_append, attributesText_written, elementChars, q1, q2, q3,
    List.append_assoc, List.cons_append, List.nil_append, List.singleton_append]

/-- C20: attribute emission.  For every `ApexInfo`, `ApexInfo::write` sends, after the indent
and `<` and the element name, the attributes in the declaration order `moduleName`,
`modulePath`, `preinstalledModulePath`, `versionCode`, `versionName`, `isFactory`, `isActive`,
`lastUpdateMillis`, `provideSharedApexLibs`, each as a space, the name, `="`, the value and `"`,
an attribute being sent if and only if its has-predicate is true: the seven required ones
always, `preinstalledModulePath` and `lastUpdateMillis` exactly when the optional holds a value;
booleans are sent as the literals `true` and `false`, 64-bit integers in signed decimal. -/
theorem attribute_emission (a : apex.ApexInfo) (w : apex.Writer) (_name : String) :
    (a.write w _name)._out =
      w._out ++ apex.printIndent w.indentIndex ++ "<" ++ _name ++
        attributesText (apexInfoAttributeRows a) ++ ">\n" ++
        apex.printIndent w.indentIndex ++ "</" ++ _name ++ ">\n" ∧
    (apexInfoAttributeRows a).map (fun row => row.1) =
      ["moduleName", "modulePath", "preinstalledModulePath", "versionCode", "versionName",
        "isFactory", "isActive", "lastUpdateMillis", "provideSharedApexLibs"] ∧
    (∀ row ∈ apexInfoAttributeRows a,
      row.1 ≠ "preinstalledModulePath" → row.1 ≠ "lastUpdateMillis" → row.2.1 = true) ∧
    (∀ row ∈ apexInfoAttributeRows a, row.1 = "preinstalledModulePath" →
      (row.2.1 = true ↔ ∃ v, a.preinstalledModulePath_ = some v ∧ row.2.2 = v)) ∧
    (∀ row ∈ apexInfoAttributeRows a, row.1 = "lastUpdateMillis" →
      (row.2.1 = true ↔ ∃ v, a.lastUpdateMillis_ = some v ∧ row.2.2 = signedDecimal v)) := by
  refine ⟨ApexInfo_write_text a w _name, rfl, ?_, ?_, ?_⟩
  · intro row hrow h1 h2
    simp only [apexInfoAttributeRows, List.mem_cons, List.mem_singleton, List.not_mem_nil,
      or_false] at hrow
    rcases hrow with h | h | h | h | h | h | h | h | h <;> subst h <;>
      first | rfl | exact absurd rfl h1 | exact absurd rfl h2
  · intro row hrow h1
    simp only [apexInfoAttributeRows, List.mem_cons, List.mem_singleton, List.not_mem_nil,
      or_false] at hrow
    obtain ⟨mn, mp, pre, vc, vn, f, act, lum, sh⟩ := a
    rcases hrow with h | h | h | h | h | h | h | h | h <;> subst h <;>
      first
      | (exfalso; simp at h1; done)
      | (cases pre <;>
          simp [apex.ApexInfo.hasPreinstalledModulePath,
            apex.ApexInfo.getPreinstalledModulePath])
  · intro row hrow h1
    simp only [apexInfoAttributeRows, List.mem_cons, List.mem_singleton, List.not_mem_nil,
      or_false] at hrow
    obtain ⟨mn, mp, pre, vc, vn, f, act, lum, sh⟩ := a
    rcases hrow with h | h | h | h | h | h | h | h | h <;> subst h <;>
      first
      | (exfalso; simp at h1; done)
      | (cases lum <;>
          simp [apex.ApexInfo.hasLastUpdateMillis, apex.ApexInfo.getLastUpdateMillis])

/-- Evaluation of C20 on a record without `preinstalledModulePath`, with a negative
`versionCode` and with `lastUpdateMillis`, written at one level of indent. -/
theorem attribute_emission_witness :
    ((apex.ApexInfo.mk "com.android.foo" "/apex/foo" none (-3) "1.0" true false (some 1700)
        false).write (apex.Writer.mk "" 1) "apex-info")._out =
      "    <apex-info moduleName=\"com.android.foo\" modulePath=\"/apex/foo\"" ++
        " versionCode=\"-3\" versionName=\"1.0\" isFactory=\"true\" isActive=\"false\"" ++
        " lastUpdateMillis=\"1700\" provideSharedApexLibs=\"false\">\n    </apex-info>\n" :=
  (attribute_emission
    (apex.ApexInfo.mk "com.android.foo" "/apex/foo" none (-3) "1.0" true false (some 1700)
      false) (apex.Writer.mk "" 1) "apex-info").1.trans (by rfl)

theorem foldl_write_text (rs : List apex.ApexInfo) : ∀ (w : apex.Writer),
    w.indentIndex = 1 →
    (rs.foldl (fun (st : apex.Writer) (v : apex.ApexInfo) => v.write st "apex-info") w)._out
      = w._out ++ String.join (rs.map (fun c =>
          "    <apex-info" ++ attributesText (apexInfoAttributeRows c) ++ ">\n" ++
            "    </apex-info>\n")) ∧
    (rs.foldl (fun (st : apex.Writer) (v : apex.ApexInfo) => v.write st "apex-info")
      w).indentIndex = 1 := by
  induction rs with
  | nil =>
    intro w hw
    simp [String.join, hw]
  | cons a rs ih =>
    intro w hw
    have h1 := ApexInfo_write_text a w "apex-info"
    have h2 := (ApexInfo_write_out a w "apex-info").2
    obtain ⟨h3, h4⟩ := ih (a.write w "apex-info") (h2.trans hw)
    rw [List.foldl_cons]
    refine ⟨?_, h4⟩
    rw [h3, h1, hw]
    apply String.ext
    have hi : (apex.printIndent 1).data = [' ', ' ', ' ', ' '] := rfl
    have q1 : ("<" : String).data = ['<'] := rfl
    have q2 : ("</" : String).data = ['<', '/'] := rfl
    have q3 : ("    <apex-info" : String).data =
        [' ', ' ', ' ', ' ', '<'] ++ "apex-info".data := rfl
    have q4 : ("    </apex-info>\n" : String).data =
        [' ', ' ', ' ', ' ', '<', '/'] ++ "apex-info".data ++ ">\n".data := rfl
    simp only [String.data_append, String.data_join, List.map_cons, List.flatten_cons, hi, q1,
      q2, q3, q4, List.append_assoc, List.cons_append, List.nil_append, List.singleton_append]

/-- C19: canonical output layout.  For every `ApexInfoList` with children c1..cn, `write`,
started with the indent counter at 0, sends exactly the declaration line
`<?xml version="1.0" encoding="utf-8"?>`, the line `<apex-info-list>`, then for each child in
sequence order the line of four spaces, `<apex-info`, its attributes and `>` followed by the
line of four spaces and `</apex-info>`, and last the line `</apex-info-list>`; every line ends
with a line feed, every element is closed by an end tag on a line of its own at the indent of
its start tag, also when it has no children, and the indent counter is back at 0. -/
theorem canonical_output_layout (out : String) (l : apex.ApexInfoList) :
    (apex.write (apex.Writer.mk out 0) l)._out =
      out ++ canonicalLayout
        (l.getApexInfo.map (fun c => attributesText (apexInfoAttributeRows c))) ∧
    (apex.write (apex.Writer.mk out 0) l).indentIndex = 0 := by
  obtain ⟨h1, h2⟩ := foldl_write_text l.getApexInfo
    (apex.Writer.mk (out ++ "<?xml version=\"1.0\" encoding=\"utf-8\"?>\n" ++
      apex.printIndent 0 ++ "<" ++ "apex-info-list" ++ ">" ++ "\n") (0 + 1)) (Int.zero_add 1)
  constructor
  · apply String.ext
    have hi : (apex.printIndent (1 - 1)).data = [] := rfl
    have hj : (apex.printIndent 0).data = [] := rfl
    have q1 : ("<apex-info-list>\n" : String).data =
        "<".data ++ ("apex-info-list".data ++ (">".data ++ "\n".data)) := rfl
    have q2 : ("</apex-info-list>\n" : String).data =
        "</".data ++ ("apex-info-list".data ++ (">".data ++ "\n".data)) := rfl
    simp only [apex.write, apex.ApexInfoList.write, canonicalLayout, h1, h2, hi, hj, q1, q2,
      String.data_append, String.data_join, List.map_map, Function.comp_def, List.append_assoc,
      List.nil_append, List.cons_append, List.singleton_append]
  · simp only [apex.write, apex.ApexInfoList.write, h2]
    decide

set_option maxRecDepth 100000 in
/-- Evaluation of C19 on a list of two children, the first without the two optional attributes,
and on the empty list, written to an empty stream. -/
theorem canonical_output_layout_witness :
    (apex.write (apex.Writer.mk "" 0) (apex.ApexInfoList.mk
        [apex.ApexInfo.mk "a" "/a" none 1 "1" true true none false,
         apex.ApexInfo.mk "b" "/b" (some "/p") 2 "2" false true (some 7) true]))._out =
      "<?xml version=\"1.0\" encoding=\"utf-8\"?>\n" ++
      "<apex-info-list>\n" ++
      "    <apex-info moduleName=\"a\" modulePath=\"/a\" versionCode=\"1\" versionName=\"1\"" ++
        " isFactory=\"true\" isActive=\"true\" provideSharedApexLibs=\"false\">\n" ++
      "    </apex-info>\n" ++
      "    <apex-info moduleName=\"b\" modulePath=\"/b\" preinstalledModulePath=\"/p\"" ++
        " versionCode=\"2\" versionName=\"2\" isFactory=\"false\" isActive=\"true\"" ++
        " lastUpdateMillis=\"7\" provideSharedApexLibs=\"true\">\n" ++
      "    </apex-info>\n" ++
      "</apex-info-list>\n" ∧
    (apex.write (apex.Writer.mk "" 0) (apex.ApexInfoList.mk []))._out =
      "<?xml version=\"1.0\" encoding=\"utf-8\"?>\n<apex-info-list>\n</apex-info-list>\n" :=
  ⟨(canonical_output_layout "" (apex.ApexInfoList.mk
      [apex.ApexInfo.mk "a" "/a" none 1 "1" true true none false,
       apex.ApexInfo.mk "b" "/b" (some "/p") 2 "2" false true (some 7) true])).1.trans
      (by rfl),
    by rfl⟩

/-! ## Successive writes -/

theorem write_text (out : String) (l : apex.ApexInfoList) :
    (apex.write (apex.Writer.mk out 0) l)._out =
      out ++ canonicalLayout
        (l.getApexInfo.map (fun c => attributesText (apexInfoAttributeRows c))) ∧
    (apex.write (apex.Writer.mk out 0) l).indentIndex = 0 := by
  obtain ⟨h1, h2⟩ := foldl_write_text l.getApexInfo
    (apex.Writer.mk (out ++ "<?xml version=\"1.0\" encoding=\"utf-8\"?>\n" ++
      apex.printIndent 0 ++ "<" ++ "apex-info-list" ++ ">" ++ "\n") (0 + 1)) (Int.zero_add 1)
  constructor
  · apply String.ext
    have hi : (apex.printIndent (1 - 1)).data = [] := rfl
    have hj : (apex.printIndent 0).data = [] := rfl
    have q1 : ("<apex-info-list>\n" : String).data =
        "<".data ++ ("apex-info-list".data ++ (">".data ++ "\n".data)) := rfl
    have q2 : ("</apex-info-list>\n" : String).data =
        "</".data ++ ("apex-info-list".data ++ (">".data ++ "\n".data)) := rfl
    simp only [apex.write, apex.ApexInfoList.write, canonicalLayout, h1, h2, hi, hj, q1, q2,
      String.data_append, String.data_join, List.map_map, Function.comp_def, List.append_assoc,
      List.nil_append, List.cons_append, List.singleton_append]
  · simp only [apex.write, apex.ApexInfoList.write, h2]
    decide

theorem leftBehind_zero (i : Int) (h : LeftBehind i) : i = 0 := by
  induction h with
  | initial => rfl
  | afterWrite i out l _ ih =>
    subst ih
    exact (write_text out l).2

/-- C21: idempotence of write.  For every `ApexInfoList` value and every value `i` of the indent
counter that the initialisation or a previous `write` left behind, a call of `write` and the
call that follows it send the same text: there is one text `t`, depending on the list only, such
that the first call appends `t` to its stream and the second call, starting from the counter
the first one left, appends `t` to its stream as well. -/
theorem write_idempotent (i : Int) (h : LeftBehind i) (l : apex.ApexInfoList)
    (out₁ out₂ : String) :
    ∃ t : String,
      (apex.write (apex.Writer.mk out₁ i) l)._out = out₁ ++ t ∧
      (apex.write (apex.Writer.mk out₂ (apex.write (apex.Writer.mk out₁ i) l).indentIndex)
        l)._out = out₂ ++ t ∧
      LeftBehind (apex.write (apex.Writer.mk out₁ i) l).indentIndex := by
  have hi := leftBehind_zero i h
  subst hi
  refine ⟨_, (write_text out₁ l).1, ?_, LeftBehind.afterWrite 0 out₁ l h⟩
  rw [(write_text out₁ l).2]
  exact (write_text out₂ l).1

set_option maxRecDepth 100000 in
/-- Witness of C21: a list of one child is written twice in a row to the same stream, the second
call starting from what the first one left; the stream holds the same text twice. -/
theorem write_idempotent_witness :
    LeftBehind 0 ∧
    (apex.write (apex.write (apex.Writer.mk "" 0)
        (apex.ApexInfoList.mk [apex.ApexInfo.mk "a" "/a" none 1 "1" true true none false]))
        (apex.ApexInfoList.mk [apex.ApexInfo.mk "a" "/a" none 1 "1" true true none false]))._out
      =
      "<?xml version=\"1.0\" encoding=\"utf-8\"?>\n<apex-info-list>\n" ++
      "    <apex-info moduleName=\"a\" modulePath=\"/a\" versionCode=\"1\" versionName=\"1\"" ++
      " isFactory=\"true\" isActive=\"true\" provideSharedApexLibs=\"false\">\n" ++
      "    </apex-info>\n</apex-info-list>\n" ++
      ("<?xml version=\"1.0\" encoding=\"utf-8\"?>\n<apex-info-list>\n" ++
      "    <apex-info moduleName=\"a\" modulePath=\"/a\" versionCode=\"1\" versionName=\"1\"" ++
      " isFactory=\"true\" isActive=\"true\" provideSharedApexLibs=\"false\">\n" ++
      "    </apex-info>\n</apex-info-list>\n") ∧
    ∃ t : String,
      (apex.write (apex.Writer.mk "" 0)
        (apex.ApexInfoList.mk [apex.ApexInfo.mk "a" "/a" none 1 "1" true true none false]))._out
        = "" ++ t ∧
      (apex.write (apex.Writer.mk "x" (apex.write (apex.Writer.mk "" 0)
        (apex.ApexInfoList.mk [apex.ApexInfo.mk "a" "/a" none 1 "1" true true none
          false])).indentIndex)
        (apex.ApexInfoList.mk [apex.ApexInfo.mk "a" "/a" none 1 "1" true true none false]))._out
        = "x" ++ t ∧
      LeftBehind (apex.write (apex.Writer.mk "" 0)
        (apex.ApexInfoList.mk [apex.ApexInfo.mk "a" "/a" none 1 "1" true true none
          false])).indentIndex :=
  ⟨LeftBehind.initial, by rfl,
    write_idempotent 0 LeftBehind.initial
      (apex.ApexInfoList.mk [apex.ApexInfo.mk "a" "/a" none 1 "1" true true none false])
      "" "x"⟩

/-! ## Order of the attributes -/

theorem map_find_mem_nodup {E : Type} (ps : List (String × E))
    (hnd : (ps.map (fun p => p.1)).Nodup) (a : String) (v : E) :
    map_find ps a = some v ↔ (a, v) ∈ ps := by
  induction ps with
  | nil => simp [map_find]
  | cons p ps ih =>
    obtain ⟨key, w⟩ := p
    simp only [List.map_cons, List.nodup_cons, List.mem_map, not_exists, not_and] at hnd
    obtain ⟨hk, hnd⟩ := hnd
    by_cases ha : a = key
    · subst ha
      simp only [map_find, if_true, Option.some.injEq, List.mem_cons, Prod.mk.injEq, true_and]
      constructor
      · intro h
        exact Or.inl h.symm
      · rintro (h | h)
        · exact h.symm
        · exact absurd rfl (hk (a, v) h)
    · simp only [map_find, ha, if_false, List.mem_cons, Prod.mk.injEq, false_and, false_or]
      exact ih hnd

theorem map_find_perm {E : Type} (ps qs : List (String × E)) (hperm : qs.Perm ps)
    (hnd : (ps.map (fun p => p.1)).Nodup) (a : String) : map_find qs a = map_find ps a := by
  have hnd2 : (qs.map (fun p => p.1)).Nodup := (hperm.map _).nodup_iff.2 hnd
  cases h : map_find ps a with
  | some v =>
    exact (map_find_mem_nodup qs hnd2 a v).2
      (hperm.mem_iff.2 ((map_find_mem_nodup ps hnd a v).1 h))
  | none =>
    cases h2 : map_find qs a with
    | none => rfl
    | some v =>
      have := (map_find_mem_nodup ps hnd a v).2
        (hperm.mem_iff.1 ((map_find_mem_nodup qs hnd2 a v).1 h2))
      rw [h] at this
      cases this

theorem getXmlAttribute_withProperties (n : XmlNode) (qs : List (String × String))
    (hperm : qs.Perm n.properties) (hnd : (n.properties.map (fun p => p.1)).Nodup)
    (a : String) : getXmlAttribute (n.withProperties qs) a = getXmlAttribute n a := by
  obtain ⟨t, nm, ps, cs, ct⟩ := n
  simp only [getXmlAttribute, xmlGetProp, XmlNode.withProperties, XmlNode.type,
    XmlNode.properties]
  rw [map_find_perm ps qs hperm hnd a]

theorem withProperties_children (n : XmlNode) (qs : List (String × String)) :
    (n.withProperties qs).xmlChildrenNode = n.xmlChildrenNode := by
  rfl

/-- C22: attributes are order-insensitive.  For every element whose attribute names are
pairwise distinct and every permutation of its attribute list, each of the 22 record readers
returns from the element with the permuted list what it returns from the element itself (the
same record, or the same exception): every attribute is looked up by its name. -/
theorem attribute_order_insensitive (n : XmlNode) (properties : List (String × String))
    (hperm : properties.Perm n.properties)
    (hnd : (n.properties.map (fun p => p.1)).Nodup) :
    apex.ApexInfo.read (n.withProperties properties) = apex.ApexInfo.read n ∧
    apex.ApexInfoList.read (n.withProperties properties) = apex.ApexInfoList.read n ∧
    V7_0.GlobalConfiguration.read (n.withProperties properties) = V7_0.GlobalConfiguration.read n ∧
    V7_0.Profile.read (n.withProperties properties) = V7_0.Profile.read n ∧
    V7_0.Gains.Gain.read (n.withProperties properties) = V7_0.Gains.Gain.read n ∧
    V7_0.Gains.read (n.withProperties properties) = V7_0.Gains.read n ∧
    V7_0.MixPorts.MixPort.read (n.withProperties properties) = V7_0.MixPorts.MixPort.read n ∧
    V7_0.MixPorts.read (n.withProperties properties) = V7_0.MixPorts.read n ∧
    V7_0.DevicePorts.DevicePort.read (n.withProperties properties) = V7_0.DevicePorts.DevicePort.read n ∧
    V7_0.DevicePorts.read (n.withProperties properties) = V7_0.DevicePorts.read n ∧
    V7_0.Routes.Route.read (n.withProperties properties) = V7_0.Routes.Route.read n ∧
    V7_0.Routes.read (n.withProperties properties) = V7_0.Routes.read n ∧
    V7_0.AttachedDevices.read (n.withProperties properties) = V7_0.AttachedDevices.read n ∧
    V7_0.Modules.Module.read (n.withProperties properties) = V7_0.Modules.Module.read n ∧
    V7_0.Modules.read (n.withProperties properties) = V7_0.Modules.read n ∧
    V7_0.Volume.read (n.withProperties properties) = V7_0.Volume.read n ∧
    V7_0.Reference.read (n.withProperties properties) = V7_0.Reference.read n ∧
    V7_0.Volumes.read (n.withProperties properties) = V7_0.Volumes.read n ∧
    V7_0.SurroundFormats.Format.read (n.withProperties properties) = V7_0.SurroundFormats.Format.read n ∧
    V7_0.SurroundFormats.read (n.withProperties properties) = V7_0.SurroundFormats.read n ∧
    V7_0.SurroundSound.read (n.withProperties properties) = V7_0.SurroundSound.read n ∧
    V7_0.AudioPolicyConfiguration.read (n.withProperties properties) = V7_0.AudioPolicyConfiguration.read n := by
  refine ⟨?_, ?_, ?_, ?_, ?_, ?_, ?_, ?_, ?_, ?_, ?_, ?_, ?_, ?_, ?_, ?_, ?_, ?_, ?_, ?_, ?_, ?_⟩
  · simp only [apex.ApexInfo.read, getXmlAttribute_withProperties n properties hperm hnd,
      withProperties_children]
  · simp only [apex.ApexInfoList.read, getXmlAttribute_withProperties n properties hperm hnd,
      withProperties_children]
  · simp only [V7_0.GlobalConfiguration.read, getXmlAttribute_withProperties n properties hperm hnd,
      withProperties_children]
  · simp only [V7_0.Profile.read, getXmlAttribute_withProperties n properties hperm hnd,
      withProperties_children]
  · simp only [V7_0.Gains.Gain.read, getXmlAttribute_withProperties n properties hperm hnd,
      withProperties_children]
  · simp only [V7_0.Gains.read, getXmlAttribute_withProperties n properties hperm hnd,
      withProperties_children]
  · simp only [V7_0.MixPorts.MixPort.read, getXmlAttribute_withProperties n properties hperm hnd,
      withProperties_children]
  · simp only [V7_0.MixPorts.read, getXmlAttribute_withProperties n properties hperm hnd,
      withProperties_children]
  · simp only [V7_0.DevicePorts.DevicePort.read, getXmlAttribute_withProperties n properties hperm hnd,
      withProperties_children]
  · simp only [V7_0.DevicePorts.read, getXmlAttribute_withProperties n properties hperm hnd,
      withProperties_children]
  · simp only [V7_0.Routes.Route.read, getXmlAttribute_withProperties n properties hperm hnd,
      withProperties_children]
  · simp only [V7_0.Routes.read, getXmlAttribute_withProperties n properties hperm hnd,
      withProperties_children]
  · simp only [V7_0.AttachedDevices.read, getXmlAttribute_withProperties n properties hperm hnd,
      withProperties_children]
  · simp only [V7_0.Modules.Module.read, getXmlAttribute_withProperties n properties hperm hnd,
      withProperties_children]
  · simp only [V7_0.Modules.read, getXmlAttribute_withProperties n properties hperm hnd,
      withProperties_children]
  · simp only [V7_0.Volume.read, getXmlAttribute_withProperties n properties hperm hnd,
      withProperties_children]
  · simp only [V7_0.Reference.read, getXmlAttribute_withProperties n properties hperm hnd,
      withProperties_children]
  · simp only [V7_0.Volumes.read, getXmlAttribute_withProperties n properties hperm hnd,
      withProperties_children]
  · simp only [V7_0.SurroundFormats.Format.read, getXmlAttribute_withProperties n properties hperm hnd,
      withProperties_children]
  · simp only [V7_0.SurroundFormats.read, getXmlAttribute_withProperties n properties hperm hnd,
      withProperties_children]
  · simp only [V7_0.SurroundSound.read, getXmlAttribute_withProperties n properties hperm hnd,
      withProperties_children]
  · simp only [V7_0.AudioPolicyConfiguration.read, getXmlAttribute_withProperties n properties hperm hnd,
      withProperties_children]

/-- Witness of C22: the three attributes of an `apex-info` element in reverse order. -/
theorem attribute_order_insensitive_witness :
    [("isActive", "true"), ("versionCode", "7"), ("moduleName", "m")].Perm
      (XmlNode.element "apex-info"
        [("moduleName", "m"), ("versionCode", "7"), ("isActive", "true")] []).properties ∧
    apex.ApexInfo.read (XmlNode.element "apex-info"
        [("isActive", "true"), ("versionCode", "7"), ("moduleName", "m")] []) =
      .ok (apex.ApexInfo.mk "m" "" none 7 "" false true none false) ∧
    apex.ApexInfo.read ((XmlNode.element "apex-info"
        [("moduleName", "m"), ("versionCode", "7"), ("isActive", "true")] []).withProperties
        [("isActive", "true"), ("versionCode", "7"), ("moduleName", "m")]) =
      apex.ApexInfo.read (XmlNode.element "apex-info"
        [("moduleName", "m"), ("versionCode", "7"), ("isActive", "true")] []) :=
  ⟨by decide, by decide,
    (attribute_order_insensitive
      (XmlNode.element "apex-info"
        [("moduleName", "m"), ("versionCode", "7"), ("isActive", "true")] [])
      [("isActive", "true"), ("versionCode", "7"), ("moduleName", "m")]
      (by decide) (by decide)).1⟩

/-! ## Integer attributes -/

theorem signedValue_decimal (i : Int) : signedValue (decide (i < 0), i.natAbs) = i := by
  unfold signedValue
  by_cases h : i < 0
  · simp only [h, decide_True, if_true]
    omega
  · simp only [h, decide_False, Bool.false_eq_true, if_false]
    omega

theorem stoll_signedDecimal (i : Int) :
    stoll (signedDecimal i) =
      if i < LLONG_MIN ∨ LLONG_MAX < i then .error .out_of_range else .ok i := by
  rw [← int64Text_signedDecimal]
  simp only [stoll, apex.int64Text, numericPrefix_decimalInt, signedValue_decimal]

theorem stoi_signedDecimal (i : Int) :
    stoi (signedDecimal i) =
      if i < INT_MIN ∨ INT_MAX < i then .error .out_of_range else .ok i := by
  rw [← int64Text_signedDecimal]
  simp only [stoi, apex.int64Text, numericPrefix_decimalInt, signedValue_decimal]

theorem signedDecimal_ne_empty (i : Int) : signedDecimal i ≠ "" := by
  rw [← int64Text_signedDecimal]
  exact int64Text_ne_empty i

/-- C23: integer attribute parsing.  For every 64-bit value `v`, when `ApexInfo::read` returns a
record from an element whose `versionCode` (resp. `lastUpdateMillis`) attribute is the signed
decimal text of `v`, `getVersionCode()` is `v` (resp. `hasLastUpdateMillis()` is true and
`getLastUpdateMillis()` is `v`); for every 32-bit value `v`, when `Gains::Gain::read` returns a
record from a `gain` whose `minValueMB` is the decimal text of `v`, `getMinValueMB()` is `v`.
For the decimal text of an integer outside the range of the target type the conversion throws
`out_of_range`, so the reader does not return and no wrapped value is stored. -/
theorem integer_attribute_parsing (v : Int) (n : XmlNode) :
    (LLONG_MIN ≤ v → v ≤ LLONG_MAX →
      (xmlGetProp n "versionCode" = some (signedDecimal v) →
        ∀ r, apex.ApexInfo.read n = .ok r → r.getVersionCode = v) ∧
      (xmlGetProp n "lastUpdateMillis" = some (signedDecimal v) →
        ∀ r, apex.ApexInfo.read n = .ok r →
          r.hasLastUpdateMillis = true ∧ r.getLastUpdateMillis = some v)) ∧
    (INT_MIN ≤ v → v ≤ INT_MAX →
      xmlGetProp n "minValueMB" = some (signedDecimal v) →
        ∀ r, V7_0.Gains.Gain.read n = .ok r →
          r.hasMinValueMB = true ∧ r.getMinValueMB = some v) ∧
    (v < LLONG_MIN ∨ LLONG_MAX < v →
      stoll (signedDecimal v) = .error .out_of_range ∧
      (xmlGetProp n "versionCode" = some (signedDecimal v) →
        apex.ApexInfo.read n = .error .out_of_range) ∧
      (xmlGetProp n "lastUpdateMillis" = some (signedDecimal v) →
        ∃ e, apex.ApexInfo.read n = .error e)) ∧
    (v < INT_MIN ∨ INT_MAX < v →
      stoi (signedDecimal v) = .error .out_of_range ∧
      (xmlGetProp n "minValueMB" = some (signedDecimal v) →
        V7_0.Gains.Gain.read n = .error .out_of_range)) := by
  have hne := signedDecimal_ne_empty v
  refine ⟨?_, ?_, ?_, ?_⟩
  · intro hlo hhi
    have hconv : stoll (signedDecimal v) = .ok v := by
      rw [stoll_signedDecimal, if_neg]
      omega
    constructor
    · intro hp r h
      have h4 := (attrs_ApexInfo n r h).2.2.2.1
      rw [getXmlAttribute_present n _ _ hp, if_pos hne, hconv] at h4
      exact (Except.ok.inj h4).symm
    · intro hp r h
      have h8 := (attrs_ApexInfo n r h).2.2.2.2.2.2.2.1
      rw [getXmlAttribute_present n _ _ hp, if_pos hne, hconv] at h8
      have h8 : some v = r.lastUpdateMillis_ := Except.ok.inj h8
      simp [apex.ApexInfo.hasLastUpdateMillis, apex.ApexInfo.getLastUpdateMillis, ← h8]
  · intro hlo hhi hp r h
    have hconv : stoi (signedDecimal v) = .ok v := by
      rw [stoi_signedDecimal, if_neg]
      omega
    simp only [V7_0.Gains.Gain.read, Except_bind_ok, Except_pure_ok] at h
    obtain ⟨mv, hmv, _, _, _, _, _, _, _, _, _, _, rfl⟩ := h
    rw [getXmlAttribute_present n _ _ hp, if_pos hne, hconv] at hmv
    have hmv : some v = mv := Except.ok.inj hmv
    simp [V7_0.Gains.Gain.hasMinValueMB, V7_0.Gains.Gain.getMinValueMB, ← hmv]
  · intro hout
    have hconv : stoll (signedDecimal v) = .error .out_of_range := by
      rw [stoll_signedDecimal, if_pos hout]
    refine ⟨hconv, ?_, ?_⟩
    · intro hp
      simp only [apex.ApexInfo.read, getXmlAttribute_present n _ _ hp, if_pos hne, hconv]
      rfl
    · intro hp
      apply error_of_not_ok
      rintro ⟨r, h⟩
      have h8 := (attrs_ApexInfo n r h).2.2.2.2.2.2.2.1
      rw [getXmlAttribute_present n _ _ hp, if_pos hne, hconv] at h8
      cases h8
  · intro hout
    have hconv : stoi (signedDecimal v) = .error .out_of_range := by
      rw [stoi_signedDecimal, if_pos hout]
    refine ⟨hconv, ?_⟩
    intro hp
    simp only [V7_0.Gains.Gain.read, getXmlAttribute_present n _ _ hp, if_pos hne, hconv]
    rfl

/-- Witness of C23: the least 64-bit value as `versionCode` is read back, and the text of the
integer one above the greatest 64-bit value makes `ApexInfo::read` throw. -/
theorem integer_attribute_parsing_witness :
    signedDecimal (-9223372036854775808) = "-9223372036854775808" ∧
    apex.ApexInfo.read (XmlNode.element "apex-info"
        [("versionCode", "-9223372036854775808")] []) =
      .ok (apex.ApexInfo.mk "" "" none (-9223372036854775808) "" false false none false) ∧
    (apex.ApexInfo.mk "" "" none (-9223372036854775808) "" false false none
      false).getVersionCode = -9223372036854775808 ∧
    apex.ApexInfo.read (XmlNode.element "apex-info"
        [("versionCode", "9223372036854775808")] []) = .error .out_of_range :=
  ⟨by rfl, by decide,
    ((integer_attribute_parsing (-9223372036854775808)
      (XmlNode.element "apex-info" [("versionCode", "-9223372036854775808")] [])).1
      (by decide) (by decide)).1 (by rfl) _ (by decide),
    ((integer_attribute_parsing 9223372036854775808
      (XmlNode.element "apex-info" [("versionCode", "9223372036854775808")] [])).2.2.1
      (Or.inr (by decide))).2.1 (by rfl)⟩

/-! ## The minimal document and the presence of the children of the root -/

/-- C24, as stated, fails in its general part: the root element below carries the attribute and
one child, the processing instruction `<?modules?>`, which the XML backend hands over as a child
node of kind `XML_PI_NODE` whose name is its target.  `AudioPolicyConfiguration::read` compares
the names of the children without looking at their kind, reads the node with `Modules::read`
and `hasModules()` is true, although the root has no child element named `modules`. -/
theorem child_presence_counterexample :
    V7_0.AudioPolicyConfiguration.read
      (XmlNode.element "audioPolicyConfiguration" [("version", "7.0")]
        [XmlNode.mk .XML_PI_NODE "modules" [] [] ""]) =
      .ok (V7_0.AudioPolicyConfiguration.mk [] [V7_0.Modules.mk []] [] []
        (some V7_0.Version._7_0)) ∧
    (V7_0.AudioPolicyConfiguration.mk [] [V7_0.Modules.mk []] [] []
      (some V7_0.Version._7_0)).hasModules = true ∧
    ¬ ∃ c ∈ (XmlNode.element "audioPolicyConfiguration" [("version", "7.0")]
          [XmlNode.mk .XML_PI_NODE "modules" [] [] ""]).xmlChildrenNode,
        c.type = .XML_ELEMENT_NODE ∧ c.name = "modules" := by
  decide

theorem mapM_ok_length {α β : Type} (f : α → Except CppException β) (l : List α)
    (vs : List β) (h : l.mapM f = .ok vs) : vs.length = l.length :=
  (mapM_ok_forall₂ f l vs h).length_eq.symm

theorem childrenNamed_ne_nil (n : XmlNode) (name : String) :
    childrenNamed n name ≠ [] ↔ ∃ c ∈ n.xmlChildrenNode, c.name = name := by
  simp only [childrenNamed, ne_eq, List.filter_eq_nil_iff, decide_eq_true_eq, not_forall,
    not_not, exists_prop]

theorem has_iff_children {α : Type} (vs : List α) (n : XmlNode) (name : String)
    (h : vs.length = (childrenNamed n name).length) :
    (!vs.isEmpty) = true ↔ ∃ c ∈ n.xmlChildrenNode, c.name = name := by
  rw [← childrenNamed_ne_nil, list_not_isEmpty]
  constructor
  · intro hv hc
    rw [hc] at h
    exact hv (List.length_eq_zero.1 h)
  · intro hc hv
    rw [hv] at h
    exact hc (List.length_eq_zero.1 h.symm)

theorem named_iff_element (n : XmlNode) (name : String)
    (helem : ∀ c ∈ n.xmlChildrenNode, c.name = name → c.type = .XML_ELEMENT_NODE) :
    (∃ c ∈ n.xmlChildrenNode, c.name = name) ↔
      ∃ c ∈ n.xmlChildrenNode, c.type = .XML_ELEMENT_NODE ∧ c.name = name := by
  constructor
  · rintro ⟨c, hc, hn⟩
    exact ⟨c, hc, helem c hc hn, hn⟩
  · rintro ⟨c, hc, _, hn⟩
    exact ⟨c, hc, hn⟩

/-- C24, amended: the minimal document.  When the XML backend hands over, for a text, the tree
of `<audioPolicyConfiguration version="7.0"/>` (an element of that name with that one attribute
and no child), `parse` returns a present root with `hasVersion()` true, `getVersion()` equal to
`Version::_7_0`, and `hasModules()`, `hasVolumes()`, `hasSurroundSound()` and
`hasGlobalConfiguration()` all false.  In general, when `AudioPolicyConfiguration::read`
returns, each of these four predicates is true if and only if the root has at least one child
node with the corresponding name; the readers compare names only, so this is a child element of
that name whenever the children of that name are all elements. -/
theorem minimal_document (lib : XmlBackend) (xml : String) (doc : XmlDoc) (root : XmlNode) :
    (lib.xmlParseDoc xml = some doc → doc.xmlDocGetRootElement = some root →
      ¬ (lib.xmlXIncludeProcess root).1 < 0 →
      (lib.xmlXIncludeProcess root).2 =
        XmlNode.element "audioPolicyConfiguration" [("version", "7.0")] [] →
      ∃ r, V7_0.parse lib xml = .ok (some r) ∧
        r.hasVersion = true ∧ r.getVersion = some V7_0.Version._7_0 ∧
        r.hasModules = false ∧ r.hasVolumes = false ∧ r.hasSurroundSound = false ∧
        r.hasGlobalConfiguration = false) ∧
    (∀ (n : XmlNode) (r : V7_0.AudioPolicyConfiguration),
      V7_0.AudioPolicyConfiguration.read n = .ok r →
      (r.hasModules = true ↔ ∃ c ∈ n.xmlChildrenNode, c.name = "modules") ∧
      (r.hasVolumes = true ↔ ∃ c ∈ n.xmlChildrenNode, c.name = "volumes") ∧
      (r.hasSurroundSound = true ↔ ∃ c ∈ n.xmlChildrenNode, c.name = "surroundSound") ∧
      (r.hasGlobalConfiguration = true ↔
        ∃ c ∈ n.xmlChildrenNode, c.name = "globalConfiguration")) ∧
    (∀ (n : XmlNode) (r : V7_0.AudioPolicyConfiguration),
      V7_0.AudioPolicyConfiguration.read n = .ok r →
      ((∀ c ∈ n.xmlChildrenNode, c.name = "modules" → c.type = .XML_ELEMENT_NODE) →
        (r.hasModules = true ↔
          ∃ c ∈ n.xmlChildrenNode, c.type = .XML_ELEMENT_NODE ∧ c.name = "modules")) ∧
      ((∀ c ∈ n.xmlChildrenNode, c.name = "volumes" → c.type = .XML_ELEMENT_NODE) →
        (r.hasVolumes = true ↔
          ∃ c ∈ n.xmlChildrenNode, c.type = .XML_ELEMENT_NODE ∧ c.name = "volumes")) ∧
      ((∀ c ∈ n.xmlChildrenNode, c.name = "surroundSound" → c.type = .XML_ELEMENT_NODE) →
        (r.hasSurroundSound = true ↔
          ∃ c ∈ n.xmlChildrenNode, c.type = .XML_ELEMENT_NODE ∧ c.name = "surroundSound")) ∧
      ((∀ c ∈ n.xmlChildrenNode, c.name = "globalConfiguration" →
          c.type = .XML_ELEMENT_NODE) →
        (r.hasGlobalConfiguration = true ↔
          ∃ c ∈ n.xmlChildrenNode,
            c.type = .XML_ELEMENT_NODE ∧ c.name = "globalConfiguration"))) := by
  refine ⟨?_, ?_, ?_⟩
  · intro hload hroot hx htree
    refine ⟨V7_0.AudioPolicyConfiguration.mk [] [] [] [] (some V7_0.Version._7_0), ?_,
      by decide, by decide, by decide, by decide, by decide, by decide⟩
    have hname : (XmlNode.element "audioPolicyConfiguration" [("version", "7.0")] []).name =
        "audioPolicyConfiguration" := rfl
    have hread : V7_0.AudioPolicyConfiguration.read
        (XmlNode.element "audioPolicyConfiguration" [("version", "7.0")] []) =
        .ok (V7_0.AudioPolicyConfiguration.mk [] [] [] [] (some V7_0.Version._7_0)) := by
      decide
    simp only [V7_0.parse, hload, hroot, hx, htree, hname, hread, if_false, if_true]
    rfl
  · intro n r h
    exact ⟨has_iff_children _ n _
        (mapM_ok_length _ _ _ (collect_AudioPolicyConfiguration_modules n r h)),
      has_iff_children _ n _
        (mapM_ok_length _ _ _ (collect_AudioPolicyConfiguration_volumes n r h)),
      has_iff_children _ n _
        (mapM_ok_length _ _ _ (collect_AudioPolicyConfiguration_surroundSound n r h)),
      has_iff_children _ n _
        (mapM_ok_length _ _ _ (collect_AudioPolicyConfiguration_globalConfiguration n r h))⟩
  · intro n r h
    exact ⟨fun helem => (has_iff_children _ n _
        (mapM_ok_length _ _ _ (collect_AudioPolicyConfiguration_modules n r h))).trans
        (named_iff_element n _ helem),
      fun helem => (has_iff_children _ n _
        (mapM_ok_length _ _ _ (collect_AudioPolicyConfiguration_volumes n r h))).trans
        (named_iff_element n _ helem),
      fun helem => (has_iff_children _ n _
        (mapM_ok_length _ _ _ (collect_AudioPolicyConfiguration_surroundSound n r h))).trans
        (named_iff_element n _ helem),
      fun helem => (has_iff_children _ n _
        (mapM_ok_length _ _ _
          (collect_AudioPolicyConfiguration_globalConfiguration n r h))).trans
        (named_iff_element n _ helem)⟩

/-- Witness of the amended C24: the modelled backend parses the text of the minimal document,
and `parse` returns the root with the version and nothing else. -/
theorem minimal_document_witness :
    V7_0.parse (xmlModel (fun _ => none)) "<audioPolicyConfiguration version=\"7.0\"/>" =
      .ok (some (V7_0.AudioPolicyConfiguration.mk [] [] [] [] (some V7_0.Version._7_0))) ∧
    ∃ r, V7_0.parse (xmlModel (fun _ => none))
        "<audioPolicyConfiguration version=\"7.0\"/>" = .ok (some r) ∧
      r.hasVersion = true ∧ r.getVersion = some V7_0.Version._7_0 ∧
      r.hasModules = false ∧ r.hasVolumes = false ∧ r.hasSurroundSound = false ∧
      r.hasGlobalConfiguration = false :=
  ⟨by rfl,
    (minimal_document (xmlModel (fun _ => none))
      "<audioPolicyConfiguration version=\"7.0\"/>"
      (XmlDoc.mk (some (XmlNode.element "audioPolicyConfiguration" [("version", "7.0")] [])))
      (XmlNode.element "audioPolicyConfiguration" [("version", "7.0")] [])).1
      (by rfl) rfl (by decide) rfl⟩

/-! ## Empty attribute values -/

/-- C25, as stated, fails: an `apex-info` element that carries `preinstalledModulePath` with the
empty value is read with `hasPreinstalledModulePath()` false, the same as an element that lacks
the attribute; `getXmlAttribute` gives the empty string in both cases and the reader stores a
value only under `_raw != ""`. -/
theorem empty_attribute_counterexample :
    xmlGetProp (XmlNode.element "apex-info"
      [("moduleName", "m"), ("preinstalledModulePath", "")] []) "preinstalledModulePath"
      = some "" ∧
    apex.ApexInfo.read (XmlNode.element "apex-info"
      [("moduleName", "m"), ("preinstalledModulePath", "")] []) =
      .ok (apex.ApexInfo.mk "m" "" none 0 "" false false none false) ∧
    (apex.ApexInfo.mk "m" "" none 0 "" false false none false).hasPreinstalledModulePath
      = false ∧
    apex.ApexInfo.read (XmlNode.element "apex-info" [("moduleName", "m")] []) =
      .ok (apex.ApexInfo.mk "m" "" none 0 "" false false none false) := by
  decide

theorem not_carriesNonEmpty_iff (n : XmlNode) (a : String) :
    ¬ carriesNonEmpty n a ↔ absentOrEmpty n a := by
  unfold carriesNonEmpty absentOrEmpty
  cases xmlGetProp n a with
  | none => simp
  | some v => by_cases hv : v = "" <;> simp [hv]

theorem has_false_iff (b : Bool) (n : XmlNode) (a : String)
    (h : b = true ↔ carriesNonEmpty n a) : b = false ↔ absentOrEmpty n a := by
  rw [← not_carriesNonEmpty_iff, ← h]
  cases b <;> simp

/-- C25, amended: the presence bit does not distinguish an absent attribute from an attribute
present with empty content.  For every optional attribute field of both schemas, when `read`
returns a record from an element, `hasField()` is false if and only if the element lacks the
attribute or carries it with the empty value; so reading an element that carries the attribute
with the empty value yields `hasField()` false, like reading an element that lacks it, and
`hasField()` is true exactly for a non-empty value. -/
theorem empty_attribute_absent :
    (∀ (n : XmlNode) (r : apex.ApexInfo), apex.ApexInfo.read n = .ok r →
      (r.hasPreinstalledModulePath = false ↔ absentOrEmpty n "preinstalledModulePath") ∧
      (r.hasLastUpdateMillis = false ↔ absentOrEmpty n "lastUpdateMillis")) ∧
    (∀ (n : XmlNode) (r : V7_0.GlobalConfiguration), V7_0.GlobalConfiguration.read n = .ok r →
      (r.hasCall_screen_mode_supported = false ↔ absentOrEmpty n "call_screen_mode_supported") ∧
      (r.hasEngine_library = false ↔ absentOrEmpty n "engine_library")) ∧
    (∀ (n : XmlNode) (r : V7_0.MixPorts.MixPort), V7_0.MixPorts.MixPort.read n = .ok r →
      (r.hasFlags = false ↔ absentOrEmpty n "flags") ∧
      (r.hasMaxOpenCount = false ↔ absentOrEmpty n "maxOpenCount") ∧
      (r.hasMaxActiveCount = false ↔ absentOrEmpty n "maxActiveCount") ∧
      (r.hasPreferredUsage = false ↔ absentOrEmpty n "preferredUsage")) ∧
    (∀ (n : XmlNode) (r : V7_0.Profile), V7_0.Profile.read n = .ok r →
      (r.hasName = false ↔ absentOrEmpty n "name") ∧
      (r.hasFormat = false ↔ absentOrEmpty n "format") ∧
      (r.hasSamplingRates = false ↔ absentOrEmpty n "samplingRates") ∧
      (r.hasChannelMasks = false ↔ absentOrEmpty n "channelMasks") ∧
      (r.hasEncapsulationType = false ↔ absentOrEmpty n "encapsulationType")) ∧
    (∀ (n : XmlNode) (r : V7_0.Gains.Gain), V7_0.Gains.Gain.read n = .ok r →
      (r.hasChannel_mask = false ↔ absentOrEmpty n "channel_mask") ∧
      (r.hasMinValueMB = false ↔ absentOrEmpty n "minValueMB") ∧
      (r.hasMaxValueMB = false ↔ absentOrEmpty n "maxValueMB") ∧
      (r.hasDefaultValueMB = false ↔ absentOrEmpty n "defaultValueMB") ∧
      (r.hasStepValueMB = false ↔ absentOrEmpty n "stepValueMB") ∧
      (r.hasMinRampMs = false ↔ absentOrEmpty n "minRampMs") ∧
      (r.hasMaxRampMs = false ↔ absentOrEmpty n "maxRampMs") ∧
      (r.hasUseForVolume = false ↔ absentOrEmpty n "useForVolume")) ∧
    (∀ (n : XmlNode) (r : V7_0.DevicePorts.DevicePort), V7_0.DevicePorts.DevicePort.read n = .ok r →
      (r.hasAddress = false ↔ absentOrEmpty n "address") ∧
      (r.has_default = false ↔ absentOrEmpty n "default") ∧
      (r.hasEncodedFormats = false ↔ absentOrEmpty n "encodedFormats")) ∧
    (∀ (n : XmlNode) (r : V7_0.Volume), V7_0.Volume.read n = .ok r →
      (r.hasStream = false ↔ absentOrEmpty n "stream") ∧
      (r.hasDeviceCategory = false ↔ absentOrEmpty n "deviceCategory") ∧
      (r.hasRef = false ↔ absentOrEmpty n "ref")) ∧
    (∀ (n : XmlNode) (r : V7_0.SurroundFormats.Format), V7_0.SurroundFormats.Format.read n = .ok r →
      (r.hasSubformats = false ↔ absentOrEmpty n "subformats")) ∧
    (∀ (n : XmlNode) (r : V7_0.AudioPolicyConfiguration), V7_0.AudioPolicyConfiguration.read n = .ok r →
      (r.hasVersion = false ↔ absentOrEmpty n "version")) := by
  refine ⟨?_, ?_, ?_, ?_, ?_, ?_, ?_, ?_, ?_⟩
  · intro n r h
    exact ⟨has_false_iff _ n _ (absence_ApexInfo n r h).1,
      has_false_iff _ n _ (absence_ApexInfo n r h).2⟩
  · intro n r h
    exact ⟨has_false_iff _ n _ (absence_GlobalConfiguration n r h).1,
      has_false_iff _ n _ (absence_GlobalConfiguration n r h).2⟩
  · intro n r h
    exact ⟨has_false_iff _ n _ (absence_MixPort n r h).1,
      has_false_iff _ n _ (absence_MixPort n r h).2.1,
      has_false_iff _ n _ (absence_MixPort n r h).2.2.1,
      has_false_iff _ n _ (absence_MixPort n r h).2.2.2⟩
  · intro n r h
    exact ⟨has_false_iff _ n _ (absence_Profile n r h).1,
      has_false_iff _ n _ (absence_Profile n r h).2.1,
      has_false_iff _ n _ (absence_Profile n r h).2.2.1,
      has_false_iff _ n _ (absence_Profile n r h).2.2.2.1,
      has_false_iff _ n _ (absence_Profile n r h).2.2.2.2⟩
  · intro n r h
    exact ⟨has_false_iff _ n _ (absence_Gain n r h).1,
      has_false_iff _ n _ (absence_Gain n r h).2.1,
      has_false_iff _ n _ (absence_Gain n r h).2.2.1,
      has_false_iff _ n _ (absence_Gain n r h).2.2.2.1,
      has_false_iff _ n _ (absence_Gain n r h).2.2.2.2.1,
      has_false_iff _ n _ (absence_Gain n r h).2.2.2.2.2.1,
      has_false_iff _ n _ (absence_Gain n r h).2.2.2.2.2.2.1,
      has_false_iff _ n _ (absence_Gain n r h).2.2.2.2.2.2.2⟩
  · intro n r h
    exact ⟨has_false_iff _ n _ (absence_DevicePort n r h).1,
      has_false_iff _ n _ (absence_DevicePort n r h).2.1,
      has_false_iff _ n _ (absence_DevicePort n r h).2.2⟩
  · intro n r h
    exact ⟨has_false_iff _ n _ (absence_Volume n r h).1,
      has_false_iff _ n _ (absence_Volume n r h).2.1,
      has_false_iff _ n _ (absence_Volume n r h).2.2⟩
  · intro n r h
    exact has_false_iff _ n _ (absence_Format n r h)
  · intro n r h
    exact has_false_iff _ n _ (absence_AudioPolicyConfiguration n r h)

/-- Witness of the amended C25: a `volume` element with an empty `ref` and without `stream`. -/
theorem empty_attribute_absent_witness :
    V7_0.Volume.read (XmlNode.element "volume"
        [("deviceCategory", "DEVICE_CATEGORY_SPEAKER"), ("ref", "")] []) =
      .ok (V7_0.Volume.mk [] none (some V7_0.DeviceCategory.DEVICE_CATEGORY_SPEAKER) none) ∧
    absentOrEmpty (XmlNode.element "volume"
        [("deviceCategory", "DEVICE_CATEGORY_SPEAKER"), ("ref", "")] []) "ref" ∧
    ((V7_0.Volume.mk [] none (some V7_0.DeviceCategory.DEVICE_CATEGORY_SPEAKER) none).hasRef
        = false ↔
      absentOrEmpty (XmlNode.element "volume"
        [("deviceCategory", "DEVICE_CATEGORY_SPEAKER"), ("ref", "")] []) "ref") :=
  ⟨by decide, Or.inr (by decide),
    (empty_attribute_absent.2.2.2.2.2.2.1
      (XmlNode.element "volume"
        [("deviceCategory", "DEVICE_CATEGORY_SPEAKER"), ("ref", "")] []) _ (by decide)).2.2⟩

/-! ## Constructors -/

/-- C26, as stated, fails: the constructor of `Modules::Module` takes its five child-element
fields first and its two attribute fields `name` and `halVersion` last, the constructor of
`MixPorts::MixPort` takes `profile` and `gains` before its six attribute fields, and the
constructor of `AudioPolicyConfiguration` takes `version` last; none of them has the attribute
fields first. -/
theorem constructor_order_counterexample :
    (ElementKind.module.constructorParameters.map (fun p => p.1) =
        ["attachedDevices", "defaultOutputDevice", "mixPorts", "devicePorts", "routes", "name",
          "halVersion"] ∧
      ElementKind.module.constructorParameters.map (fun p => p.1) ≠
        ["name", "halVersion", "attachedDevices", "defaultOutputDevice", "mixPorts",
          "devicePorts", "routes"] ∧
      attributesFirst ElementKind.module.constructorParameters = false) ∧
    (ElementKind.mixPort.constructorParameters.map (fun p => p.1) =
        ["profile", "gains", "name", "role", "flags", "maxOpenCount", "maxActiveCount",
          "preferredUsage"] ∧
      ElementKind.mixPort.constructorParameters.map (fun p => p.1) ≠
        ["name", "role", "flags", "maxOpenCount", "maxActiveCount", "preferredUsage", "profile",
          "gains"] ∧
      attributesFirst ElementKind.mixPort.constructorParameters = false) ∧
    (ElementKind.audioPolicyConfiguration.constructorParameters.map (fun p => p.1) =
        ["globalConfiguration", "modules", "volumes", "surroundSound", "version"] ∧
      ElementKind.audioPolicyConfiguration.constructorParameters.map (fun p => p.1) ≠
        ["version", "globalConfiguration", "modules", "volumes", "surroundSound"] ∧
      attributesFirst ElementKind.audioPolicyConfiguration.constructorParameters = false) ∧
    (V7_0.Modules.Module.mk [V7_0.AttachedDevices.mk ["Speaker"]] none [] [] [] "primary"
        V7_0.HalVersion.UNKNOWN).getAttachedDevices = [V7_0.AttachedDevices.mk ["Speaker"]] ∧
    (V7_0.Modules.Module.mk [V7_0.AttachedDevices.mk ["Speaker"]] none [] [] [] "primary"
        V7_0.HalVersion.UNKNOWN).getName = "primary" := by
  decide

/-- C26, amended: constructor parameter order.  The constructor of every record class takes its
child-element fields first and then its attribute fields, each group in the order of the member
declarations of the class (for `Modules::Module`: attachedDevices, defaultOutputDevice, mixPorts,
devicePorts, routes, then name, halVersion; for `MixPorts::MixPort`: profile, gains, then name,
role, flags, maxOpenCount, maxActiveCount, preferredUsage; for `AudioPolicyConfiguration`:
globalConfiguration, modules, volumes, surroundSound, then version); the parameter at each
position initialises the member declared at that position. -/
theorem constructor_order :
    (∀ k : ElementKind, childElementsFirst k.constructorParameters = true) ∧
    (∀ apexInfo,
      apex.ApexInfoList.mk apexInfo =
        ({ apexInfo_ := apexInfo } : apex.ApexInfoList)) ∧
    (∀ moduleName modulePath preinstalledModulePath versionCode versionName isFactory isActive
      lastUpdateMillis provideSharedApexLibs,
      apex.ApexInfo.mk moduleName modulePath preinstalledModulePath versionCode versionName
        isFactory isActive lastUpdateMillis provideSharedApexLibs =
        ({ moduleName_ := moduleName, modulePath_ := modulePath,
           preinstalledModulePath_ := preinstalledModulePath, versionCode_ := versionCode,
           versionName_ := versionName, isFactory_ := isFactory, isActive_ := isActive,
           lastUpdateMillis_ := lastUpdateMillis,
           provideSharedApexLibs_ := provideSharedApexLibs } : apex.ApexInfo)) ∧
    (∀ speaker_drc_enabled call_screen_mode_supported engine_library,
      V7_0.GlobalConfiguration.mk speaker_drc_enabled call_screen_mode_supported engine_library =
        ({ speaker_drc_enabled_ := speaker_drc_enabled,
           call_screen_mode_supported_ := call_screen_mode_supported,
           engine_library_ := engine_library } : V7_0.GlobalConfiguration)) ∧
    (∀ attachedDevices defaultOutputDevice mixPorts devicePorts routes name halVersion,
      V7_0.Modules.Module.mk attachedDevices defaultOutputDevice mixPorts devicePorts routes name
        halVersion =
        ({ attachedDevices_ := attachedDevices, defaultOutputDevice_ := defaultOutputDevice,
           mixPorts_ := mixPorts, devicePorts_ := devicePorts, routes_ := routes, name_ := name,
           halVersion_ := halVersion } : V7_0.Modules.Module)) ∧
    (∀ _module,
      V7_0.Modules.mk _module =
        ({ _module_ := _module } : V7_0.Modules)) ∧
    (∀ item,
      V7_0.AttachedDevices.mk item =
        ({ item_ := item } : V7_0.AttachedDevices)) ∧
    (∀ profile gains name role flags maxOpenCount maxActiveCount preferredUsage,
      V7_0.MixPorts.MixPort.mk profile gains name role flags maxOpenCount maxActiveCount
        preferredUsage =
        ({ profile_ := profile, gains_ := gains, name_ := name, role_ := role, flags_ := flags,
           maxOpenCount_ := maxOpenCount, maxActiveCount_ := maxActiveCount,
           preferredUsage_ := preferredUsage } : V7_0.MixPorts.MixPort)) ∧
    (∀ mixPort,
      V7_0.MixPorts.mk mixPort =
        ({ mixPort_ := mixPort } : V7_0.MixPorts)) ∧
    (∀ name format samplingRates channelMasks encapsulationType,
      V7_0.Profile.mk name format samplingRates channelMasks encapsulationType =
        ({ name_ := name, format_ := format, samplingRates_ := samplingRates,
           channelMasks_ := channelMasks,
           encapsulationType_ := encapsulationType } : V7_0.Profile)) ∧
    (∀ name mode channel_mask minValueMB maxValueMB defaultValueMB stepValueMB minRampMs
      maxRampMs useForVolume,
      V7_0.Gains.Gain.mk name mode channel_mask minValueMB maxValueMB defaultValueMB stepValueMB
        minRampMs maxRampMs useForVolume =
        ({ name_ := name, mode_ := mode, channel_mask_ := channel_mask,
           minValueMB_ := minValueMB, maxValueMB_ := maxValueMB,
           defaultValueMB_ := defaultValueMB, stepValueMB_ := stepValueMB,
           minRampMs_ := minRampMs, maxRampMs_ := maxRampMs,
           useForVolume_ := useForVolume } : V7_0.Gains.Gain)) ∧
    (∀ gain,
      V7_0.Gains.mk gain =
        ({ gain_ := gain } : V7_0.Gains)) ∧
    (∀ profile gains tagName type role address _default encodedFormats,
      V7_0.DevicePorts.DevicePort.mk profile gains tagName type role address _default
        encodedFormats =
        ({ profile_ := profile, gains_ := gains, tagName_ := tagName, type_ := type,
           role_ := role, address_ := address, _default_ := _default,
           encodedFormats_ := encodedFormats } : V7_0.DevicePorts.DevicePort)) ∧
    (∀ devicePort,
      V7_0.DevicePorts.mk devicePort =
        ({ devicePort_ := devicePort } : V7_0.DevicePorts)) ∧
    (∀ type sink sources,
      V7_0.Routes.Route.mk type sink sources =
        ({ type_ := type, sink_ := sink, sources_ := sources } : V7_0.Routes.Route)) ∧
    (∀ route,
      V7_0.Routes.mk route =
        ({ route_ := route } : V7_0.Routes)) ∧
    (∀ volume reference,
      V7_0.Volumes.mk volume reference =
        ({ volume_ := volume, reference_ := reference } : V7_0.Volumes)) ∧
    (∀ point stream deviceCategory ref,
      V7_0.Volume.mk point stream deviceCategory ref =
        ({ point_ := point, stream_ := stream, deviceCategory_ := deviceCategory,
           ref_ := ref } : V7_0.Volume)) ∧
    (∀ point name,
      V7_0.Reference.mk point name =
        ({ point_ := point, name_ := name } : V7_0.Reference)) ∧
    (∀ formats,
      V7_0.SurroundSound.mk formats =
        ({ formats_ := formats } : V7_0.SurroundSound)) ∧
    (∀ name subformats,
      V7_0.SurroundFormats.Format.mk name subformats =
        ({ name_ := name, subformats_ := subformats } : V7_0.SurroundFormats.Format)) ∧
    (∀ format,
      V7_0.SurroundFormats.mk format =
        ({ format_ := format } : V7_0.SurroundFormats)) ∧
    (∀ globalConfiguration modules volumes surroundSound version,
      V7_0.AudioPolicyConfiguration.mk globalConfiguration modules volumes surroundSound version =
        ({ globalConfiguration_ := globalConfiguration, modules_ := modules, volumes_ := volumes,
           surroundSound_ := surroundSound, version_ := version } : V7_0.AudioPolicyConfiguration)) :=
  ⟨fun k => by cases k <;> rfl,
    fun _ => rfl,
    fun _ _ _ _ _ _ _ _ _ => rfl,
    fun _ _ _ => rfl,
    fun _ _ _ _ _ _ _ => rfl,
    fun _ => rfl,
    fun _ => rfl,
    fun _ _ _ _ _ _ _ _ => rfl,
    fun _ => rfl,
    fun _ _ _ _ _ => rfl,
    fun _ _ _ _ _ _ _ _ _ _ => rfl,
    fun _ => rfl,
    fun _ _ _ _ _ _ _ _ => rfl,
    fun _ => rfl,
    fun _ _ _ => rfl,
    fun _ => rfl,
    fun _ _ => rfl,
    fun _ _ _ _ => rfl,
    fun _ _ => rfl,
    fun _ => rfl,
    fun _ _ => rfl,
    fun _ => rfl,
    fun _ _ _ _ _ => rfl⟩

/-! ## Simple-typed child elements -/

/-- C27, as stated, fails: the `attachedDevices` element below has one child element `item` with
the text `Speaker` and, after it, the processing instruction `<?item?>`, a child node of kind
`XML_PI_NODE` whose name is its target.  `AttachedDevices::read` compares the names of the
children without looking at their kind, so `getItem()` has two entries, `Speaker` and the empty
string, not one entry per `item` child element. -/
theorem simple_children_counterexample :
    V7_0.AttachedDevices.read
      (XmlNode.element "attachedDevices" []
        [XmlNode.element "item" [] [XmlNode.text "Speaker"],
         XmlNode.mk .XML_PI_NODE "item" [] [] ""]) =
      .ok (V7_0.AttachedDevices.mk ["Speaker", ""]) ∧
    (V7_0.AttachedDevices.mk ["Speaker", ""]).getItem = ["Speaker", ""] ∧
    (childElementsNamed
      (XmlNode.element "attachedDevices" []
        [XmlNode.element "item" [] [XmlNode.text "Speaker"],
         XmlNode.mk .XML_PI_NODE "item" [] [] ""]) "item").map childText = ["Speaker"] := by
  decide

theorem childText_of_hasNoText (c : XmlNode) (h : hasNoText c) : childText c = "" := by
  unfold childText xmlNodeListGetString
  have : c.xmlChildrenNode.filter (fun n => decide (n.type = .XML_TEXT_NODE) ||
      decide (n.type = .XML_CDATA_SECTION_NODE) || decide (n.type = .XML_ENTITY_REF_NODE))
      = [] := by
    rw [List.filter_eq_nil_iff]
    intro t ht
    obtain ⟨h1, h2, h3⟩ := h t ht
    simp [h1, h2, h3]
  rw [this]

theorem childrenNamed_elements (n : XmlNode) (name : String)
    (helem : ∀ c ∈ n.xmlChildrenNode, c.name = name → c.type = .XML_ELEMENT_NODE) :
    childrenNamed n name = childElementsNamed n name := by
  unfold childrenNamed childElementsNamed
  apply List.filter_congr
  intro c hc
  by_cases hn : c.name = name
  · simp [hn, helem c hc hn]
  · simp [hn]

/-- C27, amended: simple-typed child elements.  For every `attachedDevices` node,
`AttachedDevices::read` returns, and `getItem()` holds, in document order, one entry per child
node named `item` (the reader compares names only; these are the `item` child elements whenever
the children of that name are all elements): the concatenated content of the text, CDATA and
entity reference nodes directly below that child, or the empty string when it has none; so
`hasItem()` is true as soon as one child named `item` exists.  The same holds for `point` under
`volume` and under `reference`. -/
theorem simple_children (n : XmlNode) :
    (∃ r, V7_0.AttachedDevices.read n = .ok r ∧
      r.getItem = (childrenNamed n "item").map childText ∧
      (r.hasItem = true ↔ ∃ c ∈ n.xmlChildrenNode, c.name = "item") ∧
      ((∀ c ∈ n.xmlChildrenNode, c.name = "item" → c.type = .XML_ELEMENT_NODE) →
        r.getItem = (childElementsNamed n "item").map childText)) ∧
    (∃ r, V7_0.Volume.read n = .ok r ∧
      r.getPoint = (childrenNamed n "point").map childText ∧
      (r.hasPoint = true ↔ ∃ c ∈ n.xmlChildrenNode, c.name = "point") ∧
      ((∀ c ∈ n.xmlChildrenNode, c.name = "point" → c.type = .XML_ELEMENT_NODE) →
        r.getPoint = (childElementsNamed n "point").map childText)) ∧
    (∃ r, V7_0.Reference.read n = .ok r ∧
      r.getPoint = (childrenNamed n "point").map childText ∧
      (r.hasPoint = true ↔ ∃ c ∈ n.xmlChildrenNode, c.name = "point") ∧
      ((∀ c ∈ n.xmlChildrenNode, c.name = "point" → c.type = .XML_ELEMENT_NODE) →
        r.getPoint = (childElementsNamed n "point").map childText)) ∧
    (∀ c : XmlNode, hasNoText c → childText c = "") := by
  refine ⟨?_, ?_, ?_, childText_of_hasNoText⟩
  · obtain ⟨r, h⟩ := attachedDevices_read_ok n
    have hc := collect_AttachedDevices_item n r h
    refine ⟨r, h, hc.symm, ?_, ?_⟩
    · exact has_iff_children _ n _ ((congrArg List.length hc).symm.trans (List.length_map _ _))
    · intro helem
      rw [← hc, childrenNamed_elements n _ helem]
  · obtain ⟨r, h⟩ := volume_read_ok n
    have hc := collect_Volume_point n r h
    refine ⟨r, h, hc.symm, ?_, ?_⟩
    · exact has_iff_children _ n _ ((congrArg List.length hc).symm.trans (List.length_map _ _))
    · intro helem
      rw [← hc, childrenNamed_elements n _ helem]
  · obtain ⟨r, h⟩ := reference_read_ok n
    have hc := collect_Reference_point n r h
    refine ⟨r, h, hc.symm, ?_, ?_⟩
    · exact has_iff_children _ n _ ((congrArg List.length hc).symm.trans (List.length_map _ _))
    · intro helem
      rw [← hc, childrenNamed_elements n _ helem]

/-- Witness of the amended C27: three `item` children, the second without text and the third
with its text in two pieces; a comment and an element of another name are passed over. -/
theorem simple_children_witness :
    V7_0.AttachedDevices.read
      (XmlNode.element "attachedDevices" []
        [XmlNode.element "item" [] [XmlNode.text "Speaker"],
         XmlNode.mk .XML_COMMENT_NODE "comment" [] [] "no text below",
         XmlNode.element "item" [] [],
         XmlNode.element "other" [] [XmlNode.text "x"],
         XmlNode.element "item" [] [XmlNode.text "Built-In", XmlNode.text " Mic"]]) =
      .ok (V7_0.AttachedDevices.mk ["Speaker", "", "Built-In Mic"]) ∧
    ∃ r, V7_0.AttachedDevices.read (XmlNode.element "attachedDevices" []
        [XmlNode.element "item" [] []]) = .ok r ∧
      r.getItem = (childrenNamed (XmlNode.element "attachedDevices" []
        [XmlNode.element "item" [] []]) "item").map childText ∧
      (r.hasItem = true ↔ ∃ c ∈ (XmlNode.element "attachedDevices" []
        [XmlNode.element "item" [] []]).xmlChildrenNode, c.name = "item") ∧
      ((∀ c ∈ (XmlNode.element "attachedDevices" []
          [XmlNode.element "item" [] []]).xmlChildrenNode,
          c.name = "item" → c.type = .XML_ELEMENT_NODE) →
        r.getItem = (childElementsNamed (XmlNode.element "attachedDevices" []
          [XmlNode.element "item" [] []]) "item").map childText) :=
  ⟨by decide,
    (simple_children (XmlNode.element "attachedDevices" [] [XmlNode.element "item" [] []])).1⟩

/-! ## Uniqueness of the canonical strings -/

theorem EnumBinding.canonicalStrings {E : Type} {table : List (String × E)} {unknown : E}
    {stringTo : String → E} {toStr : E → String}
    (b : EnumBinding table unknown stringTo toStr) :
    CanonicalStrings table unknown stringTo toStr := by
  refine ⟨fun t₁ t₂ h₁ h₂ hne heq => hne ?_, fun p hp => ?_⟩
  · rw [← b.roundTrip t₁ h₁, ← b.roundTrip t₂ h₂, heq]
  · rw [b.of_mem p.1 p.2 hp]
    exact b.2.1 p hp

/-- C28: canonical strings are unique and the two conversions are mutually inverse on the table.
For each of the sixteen enumerations, two distinct declared tags (values other than the
sentinel `UNKNOWN`) have distinct `toString` results, and for every string `s` that is a key of
the lookup table of the enumeration, `toString (stringToE s)` is `s`; this holds whatever
integers the enum declarations give the tags. -/
theorem canonical_strings_unique (cast : EnumCasts) :
    CanonicalStrings V7_0.VersionString V7_0.Version.UNKNOWN V7_0.stringToVersion
      (V7_0.Version.toString cast.Version) ∧
    CanonicalStrings V7_0.HalVersionString V7_0.HalVersion.UNKNOWN V7_0.stringToHalVersion
      (V7_0.HalVersion.toString cast.HalVersion) ∧
    CanonicalStrings V7_0.AudioInOutFlagString V7_0.AudioInOutFlag.UNKNOWN V7_0.stringToAudioInOutFlag
      (V7_0.AudioInOutFlag.toString cast.AudioInOutFlag) ∧
    CanonicalStrings V7_0.RoleString V7_0.Role.UNKNOWN V7_0.stringToRole
      (V7_0.Role.toString cast.Role) ∧
    CanonicalStrings V7_0.AudioDeviceString V7_0.AudioDevice.UNKNOWN V7_0.stringToAudioDevice
      (V7_0.AudioDevice.toString cast.AudioDevice) ∧
    CanonicalStrings V7_0.AudioFormatString V7_0.AudioFormat.UNKNOWN V7_0.stringToAudioFormat
      (V7_0.AudioFormat.toString cast.AudioFormat) ∧
    CanonicalStrings V7_0.AudioUsageString V7_0.AudioUsage.UNKNOWN V7_0.stringToAudioUsage
      (V7_0.AudioUsage.toString cast.AudioUsage) ∧
    CanonicalStrings V7_0.AudioContentTypeString V7_0.AudioContentType.UNKNOWN V7_0.stringToAudioContentType
      (V7_0.AudioContentType.toString cast.AudioContentType) ∧
    CanonicalStrings V7_0.AudioChannelMaskString V7_0.AudioChannelMask.UNKNOWN V7_0.stringToAudioChannelMask
      (V7_0.AudioChannelMask.toString cast.AudioChannelMask) ∧
    CanonicalStrings V7_0.AudioEncapsulationTypeString V7_0.AudioEncapsulationType.UNKNOWN V7_0.stringToAudioEncapsulationType
      (V7_0.AudioEncapsulationType.toString cast.AudioEncapsulationType) ∧
    CanonicalStrings V7_0.AudioGainModeString V7_0.AudioGainMode.UNKNOWN V7_0.stringToAudioGainMode
      (V7_0.AudioGainMode.toString cast.AudioGainMode) ∧
    CanonicalStrings V7_0.MixTypeString V7_0.MixType.UNKNOWN V7_0.stringToMixType
      (V7_0.MixType.toString cast.MixType) ∧
    CanonicalStrings V7_0.AudioStreamTypeString V7_0.AudioStreamType.UNKNOWN V7_0.stringToAudioStreamType
      (V7_0.AudioStreamType.toString cast.AudioStreamType) ∧
    CanonicalStrings V7_0.AudioSourceString V7_0.AudioSource.UNKNOWN V7_0.stringToAudioSource
      (V7_0.AudioSource.toString cast.AudioSource) ∧
    CanonicalStrings V7_0.DeviceCategoryString V7_0.DeviceCategory.UNKNOWN V7_0.stringToDeviceCategory
      (V7_0.DeviceCategory.toString cast.DeviceCategory) ∧
    CanonicalStrings V7_0.EngineSuffixString V7_0.EngineSuffix.UNKNOWN V7_0.stringToEngineSuffix
      (V7_0.EngineSuffix.toString cast.EngineSuffix) :=
  ⟨(V7_0.Version_binding cast.Version).canonicalStrings,
   (V7_0.HalVersion_binding cast.HalVersion).canonicalStrings,
   (V7_0.AudioInOutFlag_binding cast.AudioInOutFlag).canonicalStrings,
   (V7_0.Role_binding cast.Role).canonicalStrings,
   (V7_0.AudioDevice_binding cast.AudioDevice).canonicalStrings,
   (V7_0.AudioFormat_binding cast.AudioFormat).canonicalStrings,
   (V7_0.AudioUsage_binding cast.AudioUsage).canonicalStrings,
   (V7_0.AudioContentType_binding cast.AudioContentType).canonicalStrings,
   (V7_0.AudioChannelMask_binding cast.AudioChannelMask).canonicalStrings,
   (V7_0.AudioEncapsulationType_binding cast.AudioEncapsulationType).canonicalStrings,
   (V7_0.AudioGainMode_binding cast.AudioGainMode).canonicalStrings,
   (V7_0.MixType_binding cast.MixType).canonicalStrings,
   (V7_0.AudioStreamType_binding cast.AudioStreamType).canonicalStrings,
   (V7_0.AudioSource_binding cast.AudioSource).canonicalStrings,
   (V7_0.DeviceCategory_binding cast.DeviceCategory).canonicalStrings,
   (V7_0.EngineSuffix_binding cast.EngineSuffix).canonicalStrings⟩

/-- Evaluation of C28 on `Role`: the two declared tags have different texts, and the key `sink`
comes back from the tag it converts to. -/
theorem canonical_strings_unique_witness :
    V7_0.Role.toString (fun _ => 0) V7_0.Role.sink ≠
      V7_0.Role.toString (fun _ => 0) V7_0.Role.source ∧
    V7_0.Role.toString (fun _ => 0) (V7_0.stringToRole "sink") = "sink" ∧
    ∀ p ∈ V7_0.RoleString, V7_0.Role.toString (fun _ => 0) (V7_0.stringToRole p.1) = p.1 :=
  ⟨by decide, by decide,
    (canonical_strings_unique
      (EnumCasts.mk (fun _ => 0) (fun _ => 0) (fun _ => 0) (fun _ => 0) (fun _ => 0) (fun _ => 0)
        (fun _ => 0) (fun _ => 0) (fun _ => 0) (fun _ => 0) (fun _ => 0) (fun _ => 0)
        (fun _ => 0) (fun _ => 0) (fun _ => 0) (fun _ => 0))).2.2.2.1.2⟩

/-! ## Verbatim attribute values -/

theorem attributesText_verbatim (a : apex.ApexInfo) :
    attributesText (apexInfoAttributeRows a) =
      " moduleName=\"" ++ a.moduleName_ ++ "\"" ++
      " modulePath=\"" ++ a.modulePath_ ++ "\"" ++
      (match a.preinstalledModulePath_ with
        | some v => " preinstalledModulePath=\"" ++ v ++ "\""
        | none => "") ++
      " versionCode=\"" ++ signedDecimal a.versionCode_ ++ "\"" ++
      " versionName=\"" ++ a.versionName_ ++ "\"" ++
      " isFactory=\"" ++ (if a.isFactory_ then "true" else "false") ++ "\"" ++
      " isActive=\"" ++ (if a.isActive_ then "true" else "false") ++ "\"" ++
      (match a.lastUpdateMillis_ with
        | some v => " lastUpdateMillis=\"" ++ signedDecimal v ++ "\""
        | none => "") ++
      " provideSharedApexLibs=\"" ++ (if a.provideSharedApexLibs_ then "true" else "false") ++
      "\"" := by
  obtain ⟨mn, mp, pre, vc, vn, f, act, lum, sh⟩ := a
  apply String.ext
  cases pre <;> cases lum <;>
    simp [attributesText, apexInfoAttributeRows, String.data_join,
      apex.ApexInfo.hasModuleName, apex.ApexInfo.hasModulePath,
      apex.ApexInfo.hasPreinstalledModulePath, apex.ApexInfo.hasVersionCode,
      apex.ApexInfo.hasVersionName, apex.ApexInfo.hasIsFactory, apex.ApexInfo.hasIsActive,
      apex.ApexInfo.hasLastUpdateMillis, apex.ApexInfo.hasProvideSharedApexLibs,
      apex.ApexInfo.getModuleName, apex.ApexInfo.getModulePath,
      apex.ApexInfo.getPreinstalledModulePath, apex.ApexInfo.getVersionCode,
      apex.ApexInfo.getVersionName, apex.ApexInfo.getIsFactory, apex.ApexInfo.getIsActive,
      apex.ApexInfo.getLastUpdateMillis, apex.ApexInfo.getProvideSharedApexLibs]

set_option maxRecDepth 100000 in
/-- C29: the writer performs no XML escaping.  For every `ApexInfo`, the text `ApexInfo::write`
sends for a string attribute is the field as it is, character for character, between the
opening `="` and the closing `"`.  Hence there are records whose written text is not a
well-formed element with the same attribute values: with a double quote, a `<` or a bare `&` in
`moduleName` the text is not well-formed, and with `moduleName` equal to `&lt;` the text is
well-formed but carries the value `<`; a record with plain values is read back as written. -/
theorem writer_no_escaping :
    (∀ (a : apex.ApexInfo) (w : apex.Writer) (_name : String),
      (a.write w _name)._out =
        w._out ++ apex.printIndent w.indentIndex ++ "<" ++ _name ++
          (" moduleName=\"" ++ a.moduleName_ ++ "\"" ++
          " modulePath=\"" ++ a.modulePath_ ++ "\"" ++
          (match a.preinstalledModulePath_ with
            | some v => " preinstalledModulePath=\"" ++ v ++ "\""
            | none => "") ++
          " versionCode=\"" ++ signedDecimal a.versionCode_ ++ "\"" ++
          " versionName=\"" ++ a.versionName_ ++ "\"" ++
          " isFactory=\"" ++ (if a.isFactory_ then "true" else "false") ++ "\"" ++
          " isActive=\"" ++ (if a.isActive_ then "true" else "false") ++ "\"" ++
          (match a.lastUpdateMillis_ with
            | some v => " lastUpdateMillis=\"" ++ signedDecimal v ++ "\""
            | none => "") ++
          " provideSharedApexLibs=\"" ++
            (if a.provideSharedApexLibs_ then "true" else "false") ++ "\"") ++
          ">\n" ++ apex.printIndent w.indentIndex ++ "</" ++ _name ++ ">\n") ∧
    elementOfText ((apex.ApexInfo.mk "a\"b" "/p" none 1 "1" true true none false).write
      (apex.Writer.mk "" 0) "apex-info")._out = none ∧
    elementOfText ((apex.ApexInfo.mk "a<b" "/p" none 1 "1" true true none false).write
      (apex.Writer.mk "" 0) "apex-info")._out = none ∧
    elementOfText ((apex.ApexInfo.mk "a&b" "/p" none 1 "1" true true none false).write
      (apex.Writer.mk "" 0) "apex-info")._out = none ∧
    (elementOfText ((apex.ApexInfo.mk "&lt;" "/p" none 1 "1" true true none false).write
      (apex.Writer.mk "" 0) "apex-info")._out).map (fun node => xmlGetProp node "moduleName")
      = some (some "<") ∧
    (elementOfText ((apex.ApexInfo.mk "ab" "/p" none 1 "1" true true none false).write
      (apex.Writer.mk "" 0) "apex-info")._out).map (fun node => xmlGetProp node "moduleName")
      = some (some "ab") := by
  refine ⟨fun a w _name => ?_, by rfl, by rfl, by rfl, by rfl, by rfl⟩
  rw [ApexInfo_write_text, attributesText_verbatim]

set_option maxRecDepth 100000 in
/-- Evaluation of C29: the text written for a `moduleName` that holds a double quote. -/
theorem writer_no_escaping_witness :
    ((apex.ApexInfo.mk "a\"b" "/p" none 1 "1" true true none false).write
      (apex.Writer.mk "" 0) "apex-info")._out =
      "<apex-info moduleName=\"a\"b\" modulePath=\"/p\" versionCode=\"1\" versionName=\"1\"" ++
      " isFactory=\"true\" isActive=\"true\" provideSharedApexLibs=\"false\">\n</apex-info>\n" :=
  (writer_no_escaping.1 (apex.ApexInfo.mk "a\"b" "/p" none 1 "1" true true none false)
    (apex.Writer.mk "" 0) "apex-info").trans (by rfl)

/-! ## Round trip of the attributes of one record -/

/-- C30: attribute-level round trip.  For every `ApexInfo` `r` whose optional field
`preinstalledModulePath` is not the present empty string (its 64-bit fields being 64-bit
values), the text `ApexInfo::write` sends is the element with the attributes
`r.writtenAttributes`, as name and value pairs in the order of emission, and `ApexInfo::read`
applied to an `apex-info` element with exactly these attributes, whatever its children, returns
a record equal to `r`: the strings unchanged, the 64-bit values recovered from their decimal
text, the booleans from `true` and `false`, and the absent optionals absent. -/
theorem attribute_round_trip (r : apex.ApexInfo) (children : List XmlNode)
    (w : apex.Writer) (_name : String)
    (hpre : r.preinstalledModulePath_ ≠ some "")
    (hcode : LLONG_MIN ≤ r.versionCode_ ∧ r.versionCode_ ≤ LLONG_MAX)
    (hmillis : ∀ v, r.lastUpdateMillis_ = some v → LLONG_MIN ≤ v ∧ v ≤ LLONG_MAX) :
    (r.write w _name)._out.data =
      w._out.data ++
        elementChars (apex.printIndent w.indentIndex).data _name r.writtenAttributes ∧
    apex.ApexInfo.read (XmlNode.element "apex-info" r.writtenAttributes children) = .ok r :=
  ⟨(ApexInfo_write_out r w _name).1,
    ApexInfo_read_written r ⟨hpre, hcode.1, hcode.2, hmillis⟩ children⟩

set_option maxRecDepth 100000 in
/-- Witness of C30: a record with a quote and an ampersand in its strings, a negative
`versionCode` and a present `lastUpdateMillis` comes back from the attributes written for it;
a record whose `preinstalledModulePath` is the present empty string does not. -/
theorem attribute_round_trip_witness :
    (apex.ApexInfo.mk "a\"b" "/p&q" none (-3) "" true false (some 1700) false).writtenAttributes =
      [("moduleName", "a\"b"), ("modulePath", "/p&q"), ("versionCode", "-3"),
       ("versionName", ""), ("isFactory", "true"), ("isActive", "false"),
       ("lastUpdateMillis", "1700"), ("provideSharedApexLibs", "false")] ∧
    apex.ApexInfo.read (XmlNode.element "apex-info"
      (apex.ApexInfo.mk "a\"b" "/p&q" none (-3) "" true false (some 1700)
        false).writtenAttributes []) =
      .ok (apex.ApexInfo.mk "a\"b" "/p&q" none (-3) "" true false (some 1700) false) ∧
    apex.ApexInfo.read (XmlNode.element "apex-info"
      (apex.ApexInfo.mk "m" "/p" (some "") 1 "1" true false none false).writtenAttributes []) =
      .ok (apex.ApexInfo.mk "m" "/p" none 1 "1" true false none false) :=
  ⟨by rfl,
    (attribute_round_trip
      (apex.ApexInfo.mk "a\"b" "/p&q" none (-3) "" true false (some 1700) false) []
      (apex.Writer.mk "" 0) "apex-info" (by decide) (by decide)
      (by
        intro v hv
        have : v = 1700 := by
          simpa using hv.symm
        subst this
        decide)).2,
    by decide⟩

/-! ## Optional string attributes are never present and empty after a read -/

theorem present_nonEmpty (raw : String) (o : Option String)
    (h : o = (if raw ≠ "" then some raw else none)) (hp : o.isSome = true) :
    ∃ v, (if o.isSome then o else none) = some v ∧ v ≠ "" := by
  subst h
  by_cases h0 : raw = ""
  · simp [h0] at hp
  · exact ⟨raw, by simp [h0], h0⟩

/-- C31: no record produced by a read holds a present but empty string in an optional string
attribute field.  For `preinstalledModulePath` of `ApexInfo`, `name` and `format` of `Profile`,
`address` of `DevicePort` and `ref` of `Volume`: whenever `read` returns a record and `hasO()` is
true on it, `getO()` is a string different from the empty one.  A record whose optional field
holds the empty string exists, built by the constructor, and no `read` returns such a record. -/
theorem no_present_empty_string :
    (∀ (n : XmlNode) (r : apex.ApexInfo), apex.ApexInfo.read n = .ok r →
      r.hasPreinstalledModulePath = true →
      ∃ v, r.getPreinstalledModulePath = some v ∧ v ≠ "") ∧
    (∀ (n : XmlNode) (r : V7_0.Profile), V7_0.Profile.read n = .ok r →
      (r.hasName = true → ∃ v, r.getName = some v ∧ v ≠ "") ∧
      (r.hasFormat = true → ∃ v, r.getFormat = some v ∧ v ≠ "")) ∧
    (∀ (n : XmlNode) (r : V7_0.DevicePorts.DevicePort), V7_0.DevicePorts.DevicePort.read n = .ok r →
      r.hasAddress = true → ∃ v, r.getAddress = some v ∧ v ≠ "") ∧
    (∀ (n : XmlNode) (r : V7_0.Volume), V7_0.Volume.read n = .ok r →
      r.hasRef = true → ∃ v, r.getRef = some v ∧ v ≠ "") ∧
    ((apex.ApexInfo.mk "m" "" (some "") 0 "" false false none false).hasPreinstalledModulePath
        = true ∧
      (apex.ApexInfo.mk "m" "" (some "") 0 "" false false none false).getPreinstalledModulePath
        = some "" ∧
      ∀ n : XmlNode, apex.ApexInfo.read n ≠
        .ok (apex.ApexInfo.mk "m" "" (some "") 0 "" false false none false)) ∧
    ((V7_0.Volume.mk [] none none (some "")).hasRef = true ∧
      (V7_0.Volume.mk [] none none (some "")).getRef = some "" ∧
      ∀ n : XmlNode, V7_0.Volume.read n ≠ .ok (V7_0.Volume.mk [] none none (some ""))) ∧
    ((V7_0.Profile.mk (some "") none none none none).hasName = true ∧
      (V7_0.Profile.mk (some "") none none none none).getName = some "" ∧
      ∀ n : XmlNode, V7_0.Profile.read n ≠ .ok (V7_0.Profile.mk (some "") none none none none)) ∧
    ((V7_0.Profile.mk none (some "") none none none).hasFormat = true ∧
      (V7_0.Profile.mk none (some "") none none none).getFormat = some "" ∧
      ∀ n : XmlNode, V7_0.Profile.read n ≠ .ok (V7_0.Profile.mk none (some "") none none none)) ∧
    ((V7_0.DevicePorts.DevicePort.mk [] [] "" "" V7_0.Role.UNKNOWN (some "") none
        none).hasAddress = true ∧
      (V7_0.DevicePorts.DevicePort.mk [] [] "" "" V7_0.Role.UNKNOWN (some "") none
        none).getAddress = some "" ∧
      ∀ n : XmlNode, V7_0.DevicePorts.DevicePort.read n ≠
        .ok (V7_0.DevicePorts.DevicePort.mk [] [] "" "" V7_0.Role.UNKNOWN (some "") none
          none)) := by
  have hA : ∀ (n : XmlNode) (r : apex.ApexInfo), apex.ApexInfo.read n = .ok r →
      r.hasPreinstalledModulePath = true →
      ∃ v, r.getPreinstalledModulePath = some v ∧ v ≠ "" := fun n r h hp =>
    present_nonEmpty _ _ (attrs_ApexInfo n r h).2.2.1 hp
  have hV : ∀ (n : XmlNode) (r : V7_0.Volume), V7_0.Volume.read n = .ok r →
      r.hasRef = true → ∃ v, r.getRef = some v ∧ v ≠ "" := fun n r h hp =>
    present_nonEmpty _ _ (attrs_Volume n r h).2.2 hp
  have hP : ∀ (n : XmlNode) (r : V7_0.Profile), V7_0.Profile.read n = .ok r →
      (r.hasName = true → ∃ v, r.getName = some v ∧ v ≠ "") ∧
      (r.hasFormat = true → ∃ v, r.getFormat = some v ∧ v ≠ "") := fun n r h =>
    ⟨fun hp => present_nonEmpty _ _ (attrs_Profile n r h).1 hp,
      fun hp => present_nonEmpty _ _ (attrs_Profile n r h).2.1 hp⟩
  have hD : ∀ (n : XmlNode) (r : V7_0.DevicePorts.DevicePort),
      V7_0.DevicePorts.DevicePort.read n = .ok r →
      r.hasAddress = true → ∃ v, r.getAddress = some v ∧ v ≠ "" := fun n r h hp =>
    present_nonEmpty _ _ (attrs_DevicePort n r h).2.2.2.1 hp
  refine ⟨hA, hP, hD, hV, ⟨rfl, rfl, ?_⟩, ⟨rfl, rfl, ?_⟩, ⟨rfl, rfl, ?_⟩, ⟨rfl, rfl, ?_⟩,
    ⟨rfl, rfl, ?_⟩⟩
  · intro n h
    obtain ⟨v, hv, hne⟩ := hA n _ h rfl
    exact hne (Option.some.inj hv).symm
  · intro n h
    obtain ⟨v, hv, hne⟩ := hV n _ h rfl
    exact hne (Option.some.inj hv).symm
  · intro n h
    obtain ⟨v, hv, hne⟩ := (hP n _ h).1 rfl
    exact hne (Option.some.inj hv).symm
  · intro n h
    obtain ⟨v, hv, hne⟩ := (hP n _ h).2 rfl
    exact hne (Option.some.inj hv).symm
  · intro n h
    obtain ⟨v, hv, hne⟩ := hD n _ h rfl
    exact hne (Option.some.inj hv).symm

/-- Witness of C31: an `apex-info` element with a `preinstalledModulePath`. -/
theorem no_present_empty_string_witness :
    ∃ v, (apex.ApexInfo.mk "m" "" (some "/system/apex/m.apex") 0 "" false false none
      false).getPreinstalledModulePath = some v ∧ v ≠ "" :=
  no_present_empty_string.1
    (XmlNode.element "apex-info"
      [("moduleName", "m"), ("preinstalledModulePath", "/system/apex/m.apex")] [])
    (apex.ApexInfo.mk "m" "" (some "/system/apex/m.apex") 0 "" false false none false)
    (by decide) (by decide)

/-! ## The indent counter across nested writes -/

theorem join_replicate_spaces (k : Nat) :
    (String.join (List.replicate k "    ")).data = List.replicate (4 * k) ' ' := by
  induction k with
  | zero => rfl
  | succ k ih =>
    have h4 : ("    " : String).data = [' ', ' ', ' ', ' '] := rfl
    have e : 4 * (k + 1) = 4 * k + 1 + 1 + 1 + 1 := by omega
    rw [List.replicate_succ, String.data_join, List.map_cons, List.flatten_cons,
      ← String.data_join, ih, h4, e]
    simp only [List.replicate_succ, List.cons_append, List.nil_append]

theorem printIndent_spaces (k : Int) : apex.printIndent k = spaces (4 * k).toNat := by
  apply String.ext
  have e : (4 * k).toNat = 4 * k.toNat := by omega
  rw [apex.printIndent, join_replicate_spaces, spaces, e]

theorem foldl_write_indent (rs : List apex.ApexInfo) : ∀ (w : apex.Writer),
    (rs.foldl (fun (st : apex.Writer) (v : apex.ApexInfo) => v.write st "apex-info") w)._out
      = w._out ++ String.join (rs.map (fun c =>
          apex.printIndent w.indentIndex ++ "<apex-info" ++
            attributesText (apexInfoAttributeRows c) ++ ">\n" ++
            apex.printIndent w.indentIndex ++ "</apex-info>\n")) ∧
    (rs.foldl (fun (st : apex.Writer) (v : apex.ApexInfo) => v.write st "apex-info")
      w).indentIndex = w.indentIndex := by
  induction rs with
  | nil =>
    intro w
    simp [String.join]
  | cons a rs ih =>
    intro w
    have h1 := ApexInfo_write_text a w "apex-info"
    have h2 := (ApexInfo_write_out a w "apex-info").2
    obtain ⟨h3, h4⟩ := ih (a.write w "apex-info")
    rw [List.foldl_cons]
    refine ⟨?_, h4.trans h2⟩
    rw [h3, h1, h2]
    apply String.ext
    have q1 : ("<apex-info" : String).data = "<".data ++ "apex-info".data := rfl
    have q4 : ("</apex-info>\n" : String).data = "</".data ++ "apex-info".data ++ ">\n".data :=
      rfl
    simp only [String.data_append, String.data_join, List.map_cons, List.flatten_cons, q1,
      q4, List.append_assoc, List.cons_append, List.nil_append, List.singleton_append]

/-- C32: the writer restores the indent counter.  For every record and every starting value `d`
of the counter `indentIndex`, after `ApexInfoList::write` and after `ApexInfo::write` the counter
equals `d` again, and each child of the list is written with the counter at `d + 1`.  The text
sent is the start tag and the end tag of the element, each after the indent of `d`, around the
two lines of every child, each after the indent of `d + 1`, where the indent of a counter value
`k` is `(4 * k).toNat` spaces: exactly `4 * (d + 1)` spaces for the children whenever that is a
number of spaces at all. -/
theorem indent_counter_restored (d : Int) (out _name : String) (l : apex.ApexInfoList)
    (a : apex.ApexInfo) :
    (l.write (apex.Writer.mk out d) _name).indentIndex = d ∧
    (a.write (apex.Writer.mk out d) _name).indentIndex = d ∧
    (∀ k : Nat, ((l.getApexInfo.take k).foldl
        (fun (st : apex.Writer) (_value : apex.ApexInfo) => _value.write st "apex-info")
        (apex.Writer.mk (out ++ apex.printIndent d ++ "<" ++ _name ++ ">" ++ "\n")
          (d + 1))).indentIndex = d + 1) ∧
    (l.write (apex.Writer.mk out d) _name)._out =
      out ++ nestedLayout _name (4 * d).toNat (4 * (d + 1)).toNat
        (l.getApexInfo.map (fun c => attributesText (apexInfoAttributeRows c))) ∧
    (a.write (apex.Writer.mk out d) _name)._out =
      out ++ spaces (4 * d).toNat ++ "<" ++ _name ++
        attributesText (apexInfoAttributeRows a) ++ ">\n" ++
        spaces (4 * d).toNat ++ "</" ++ _name ++ ">\n" ∧
    (0 ≤ d + 1 → ((4 * (d + 1)).toNat : Int) = 4 * (d + 1)) := by
  obtain ⟨h1, h2⟩ := foldl_write_indent l.getApexInfo
    (apex.Writer.mk (out ++ apex.printIndent d ++ "<" ++ _name ++ ">" ++ "\n") (d + 1))
  dsimp only at h1 h2
  have h3 : (l.write (apex.Writer.mk out d) _name).indentIndex = d := by
    simp only [apex.ApexInfoList.write, h2]
    omega
  refine ⟨h3, (ApexInfo_write_out a _ _name).2, fun k => (foldl_write_indent _ _).2, ?_, ?_,
    fun hd => by omega⟩
  · apply String.ext
    have e : d + 1 - 1 = d := by omega
    simp only [apex.ApexInfoList.write, h1, h2, e]
    simp only [nestedLayout, printIndent_spaces,
      String.data_append, String.data_join, List.map_map, Function.comp_def, List.append_assoc,
      List.nil_append, List.cons_append, List.singleton_append]
  · rw [ApexInfo_write_text, printIndent_spaces]

set_option maxRecDepth 100000 in
/-- Evaluation of C32 on a list of one child written with the counter at 1: the tags of the list
after four spaces, the tags of the child after eight, and the counter back at 1. -/
theorem indent_counter_restored_witness :
    ((apex.ApexInfoList.mk [apex.ApexInfo.mk "a" "/a" none 1 "1" true true none false]).write
        (apex.Writer.mk "" 1) "apex-info-list").indentIndex = 1 ∧
    ((apex.ApexInfoList.mk [apex.ApexInfo.mk "a" "/a" none 1 "1" true true none false]).write
        (apex.Writer.mk "" 1) "apex-info-list")._out =
      "    <apex-info-list>\n" ++
      "        <apex-info moduleName=\"a\" modulePath=\"/a\" versionCode=\"1\"" ++
        " versionName=\"1\" isFactory=\"true\" isActive=\"true\"" ++
        " provideSharedApexLibs=\"false\">\n" ++
      "        </apex-info>\n" ++
      "    </apex-info-list>\n" :=
  ⟨(indent_counter_restored 1 "" "apex-info-list"
      (apex.ApexInfoList.mk [apex.ApexInfo.mk "a" "/a" none 1 "1" true true none false])
      (apex.ApexInfo.mk "a" "/a" none 1 "1" true true none false)).1,
    (indent_counter_restored 1 "" "apex-info-list"
      (apex.ApexInfoList.mk [apex.ApexInfo.mk "a" "/a" none 1 "1" true true none false])
      (apex.ApexInfo.mk "a" "/a" none 1 "1" true true none false)).2.2.2.1.trans (by rfl)⟩

/-! ## The numeric prefix of a text -/

theorem isdigit_not_space (c : Char) (h : isdigit c = true) :
    isspace c = false ∧ c ≠ '-' ∧ c ≠ '+' := by
  refine ⟨?_, ?_, ?_⟩
  · cases hs : isspace c with
    | false => rfl
    | true =>
      exfalso
      simp only [isspace, Bool.or_eq_true, decide_eq_true_eq] at hs
      rcases hs with ((((hs | hs) | hs) | hs) | hs) | hs <;> subst hs <;> revert h <;> decide
  · intro hc
    subst hc
    revert h
    decide
  · intro hc
    subst hc
    revert h
    decide

theorem dropWhile_isspace_append (ws t : List Char) (hws : ∀ c ∈ ws, isspace c = true) :
    (ws ++ t).dropWhile isspace = t.dropWhile isspace := by
  induction ws with
  | nil => rfl
  | cons a ws ih =>
    have ha := hws a (List.mem_cons_self a ws)
    rw [List.cons_append, List.dropWhile_cons, ha, if_pos rfl]
    exact ih (fun c hc => hws c (List.mem_cons_of_mem a hc))

theorem takeWhile_isdigit_append (ds rest : List Char) (hds : ∀ c ∈ ds, isdigit c = true)
    (hrest : ∀ c ∈ rest.head?, isdigit c = false) : (ds ++ rest).takeWhile isdigit = ds := by
  induction ds with
  | nil =>
    cases rest with
    | nil => rfl
    | cons r rest =>
      have hr := hrest r (by simp)
      simp [List.takeWhile_cons, hr]
  | cons a ds ih =>
    have ha := hds a (List.mem_cons_self a ds)
    rw [List.cons_append, List.takeWhile_cons, ha, if_pos rfl,
      ih (fun c hc => hds c (List.mem_cons_of_mem a hc))]

theorem head_dropWhile {α : Type} (p : α → Bool) (l : List α) :
    ∀ c ∈ (l.dropWhile p).head?, p c = false := by
  induction l with
  | nil => simp
  | cons a l ih =>
    by_cases ha : p a = true
    · rw [List.dropWhile_cons, if_pos ha]
      exact ih
    · rw [List.dropWhile_cons, if_neg ha]
      intro c hc
      simp only [List.head?_cons, Option.mem_def, Option.some.injEq] at hc
      subst hc
      simpa using ha

theorem mem_takeWhile {α : Type} (p : α → Bool) (l : List α) :
    ∀ c ∈ l.takeWhile p, p c = true := by
  induction l with
  | nil => simp
  | cons a l ih =>
    by_cases ha : p a = true
    · rw [List.takeWhile_cons, if_pos ha]
      intro c hc
      rcases List.mem_cons.mp hc with h | h
      · exact h ▸ ha
      · exact ih c h
    · rw [List.takeWhile_cons, if_neg ha]
      simp

theorem numericPrefix_of_text (s : String) (negative : Bool) (ds : List Char)
    (h : NumericText s negative ds) :
    numericPrefix s.data = some (negative, digitsValue 0 ds) := by
  obtain ⟨ws, sign, rest, hs, hws, hsign, hne, hds, hrest⟩ := h
  cases ds with
  | nil => exact absurd rfl hne
  | cons d ds =>
    obtain ⟨h1, h2, h3⟩ := isdigit_not_space d (hds d (List.mem_cons_self d ds))
    have htw := takeWhile_isdigit_append (d :: ds) rest hds hrest
    have hcons : d :: ds ≠ [] := List.cons_ne_nil d ds
    rw [hs, numericPrefix, List.append_assoc, List.append_assoc, dropWhile_isspace_append _ _ hws]
    rcases hsign with ⟨rfl, rfl⟩ | ⟨rfl, rfl⟩ | ⟨rfl, rfl⟩
    · simp only [List.nil_append, List.cons_append, List.dropWhile_cons, h1,
        Bool.false_eq_true, if_false, h2, h3]
      rw [← List.cons_append, htw, if_neg hcons]
    · have hp : isspace '+' = false := by decide
      have hm : ('+' : Char) ≠ '-' := by decide
      simp only [List.cons_append, List.nil_append, List.dropWhile_cons, hp,
        Bool.false_eq_true, if_false, hm, if_true]
      rw [← List.cons_append, htw, if_neg hcons]
    · have hp : isspace '-' = false := by decide
      simp only [List.cons_append, List.nil_append, List.dropWhile_cons, hp,
        Bool.false_eq_true, if_false, if_true]
      rw [← List.cons_append, htw, if_neg hcons]

theorem text_of_numericPrefix (s : String) (negative : Bool) (m : Nat)
    (h : numericPrefix s.data = some (negative, m)) :
    ∃ ds, NumericText s negative ds ∧ digitsValue 0 ds = m := by
  have hsplit : s.data = s.data.takeWhile isspace ++ s.data.dropWhile isspace :=
    (List.takeWhile_append_dropWhile isspace s.data).symm
  have hws := mem_takeWhile isspace s.data
  generalize s.data.takeWhile isspace = ws at hsplit hws
  unfold numericPrefix at h
  generalize s.data.dropWhile isspace = body at hsplit h
  have key : ∀ (sign tail : List Char), body = sign ++ tail →
      (sign = [] ∧ negative = false ∨ sign = ['+'] ∧ negative = false ∨
        sign = ['-'] ∧ negative = true) →
      tail.takeWhile isdigit ≠ [] → digitsValue 0 (tail.takeWhile isdigit) = m →
      ∃ ds, NumericText s negative ds ∧ digitsValue 0 ds = m := by
    intro sign tail hb hsign hne hval
    refine ⟨tail.takeWhile isdigit, ⟨ws, sign, tail.dropWhile isdigit, ?_, hws, hsign, hne,
      mem_takeWhile isdigit tail, head_dropWhile isdigit tail⟩, hval⟩
    rw [hsplit, hb, List.append_assoc, List.append_assoc,
      List.takeWhile_append_dropWhile]
  cases body with
  | nil => simp at h
  | cons c rest =>
    by_cases hm : c = '-'
    · subst hm
      simp only [if_true] at h
      split_ifs at h with h0
      simp only [Option.some.injEq, Prod.mk.injEq] at h
      exact key ['-'] rest rfl (Or.inr (Or.inr ⟨rfl, h.1.symm⟩)) h0 h.2
    · by_cases hp : c = '+'
      · subst hp
        simp only [hm, if_false, if_true] at h
        split_ifs at h with h0
        simp only [Option.some.injEq, Prod.mk.injEq] at h
        exact key ['+'] rest rfl (Or.inr (Or.inl ⟨rfl, h.1.symm⟩)) h0 h.2
      · simp only [hm, hp, if_false] at h
        split_ifs at h with h0
        simp only [Option.some.injEq, Prod.mk.injEq] at h
        exact key [] (c :: rest) rfl (Or.inl ⟨rfl, h.1.symm⟩) h0 h.2

theorem numericPrefix_none_iff (s : String) :
    numericPrefix s.data = none ↔ ¬ ∃ negative ds, NumericText s negative ds := by
  constructor
  · rintro h ⟨negative, ds, ht⟩
    rw [numericPrefix_of_text s negative ds ht] at h
    cases h
  · intro h
    cases hp : numericPrefix s.data with
    | none => rfl
    | some p =>
      obtain ⟨negative, m⟩ := p
      obtain ⟨ds, ht, _⟩ := text_of_numericPrefix s negative m hp
      exact absurd ⟨negative, ds, ht⟩ h

theorem numericPrefix_some_iff (s : String) (p : Bool × Nat) :
    numericPrefix s.data = some p ↔
      ∃ negative ds, NumericText s negative ds ∧ p = (negative, digitsValue 0 ds) := by
  constructor
  · intro h
    obtain ⟨negative, m⟩ := p
    obtain ⟨ds, ht, hm⟩ := text_of_numericPrefix s negative m h
    exact ⟨negative, ds, ht, by rw [hm]⟩
  · rintro ⟨negative, ds, ht, rfl⟩
    exact numericPrefix_of_text s negative ds ht

theorem stoll_ok_iff (s : String) (v : Int) :
    stoll s = .ok v ↔ ∃ negative ds, NumericText s negative ds ∧
      signedValue (negative, digitsValue 0 ds) = v ∧ LLONG_MIN ≤ v ∧ v ≤ LLONG_MAX := by
  unfold stoll
  constructor
  · intro h
    split at h
    · cases h
    · rename_i p hp
      obtain ⟨negative, ds, ht, rfl⟩ := (numericPrefix_some_iff s p).1 hp
      split_ifs at h with hr
      cases h
      exact ⟨negative, ds, ht, rfl, by omega, by omega⟩
  · rintro ⟨negative, ds, ht, rfl, hlo, hhi⟩
    rw [numericPrefix_of_text s negative ds ht]
    dsimp only
    rw [if_neg (by omega)]

theorem stoi_ok_iff (s : String) (v : Int) :
    stoi s = .ok v ↔ ∃ negative ds, NumericText s negative ds ∧
      signedValue (negative, digitsValue 0 ds) = v ∧ INT_MIN ≤ v ∧ v ≤ INT_MAX := by
  unfold stoi
  constructor
  · intro h
    split at h
    · cases h
    · rename_i p hp
      obtain ⟨negative, ds, ht, rfl⟩ := (numericPrefix_some_iff s p).1 hp
      split_ifs at h with hr
      cases h
      exact ⟨negative, ds, ht, rfl, by omega, by omega⟩
  · rintro ⟨negative, ds, ht, rfl, hlo, hhi⟩
    rw [numericPrefix_of_text s negative ds ht]
    dsimp only
    rw [if_neg (by omega)]

theorem stoul_ok_iff (s : String) (v : Nat) :
    stoul s = .ok v ↔ ∃ negative ds, NumericText s negative ds ∧
      digitsValue 0 ds < 2 ^ 64 ∧
      v = (if negative then (2 ^ 64 - digitsValue 0 ds) % 2 ^ 64 else digitsValue 0 ds) := by
  have hU : ULONG_MAX + 1 = 2 ^ 64 := by decide
  unfold stoul
  constructor
  · intro h
    split at h
    · cases h
    · rename_i p hp
      obtain ⟨negative, ds, ht, rfl⟩ := (numericPrefix_some_iff s p).1 hp
      dsimp only at h
      split_ifs at h with hr h2
      · cases h
        exact ⟨negative, ds, ht, by omega, by rw [if_pos h2, hU]⟩
      · cases h
        exact ⟨negative, ds, ht, by omega, by rw [if_neg h2]⟩
  · rintro ⟨negative, ds, ht, hlt, rfl⟩
    rw [numericPrefix_of_text s negative ds ht]
    dsimp only
    rw [if_neg (by omega), hU]

/-! ## Unsigned 32-bit attributes -/

theorem counts_MixPort (n : XmlNode) (r : V7_0.MixPorts.MixPort)
    (h : V7_0.MixPorts.MixPort.read n = .ok r) :
    (if getXmlAttribute n "maxOpenCount" ≠ ""
      then (fun v => some (static_cast_unsigned_int v)) <$> stoul (getXmlAttribute n "maxOpenCount")
      else pure none) = .ok r.maxOpenCount_ ∧
    (if getXmlAttribute n "maxActiveCount" ≠ ""
      then (fun v => some (static_cast_unsigned_int v)) <$>
        stoul (getXmlAttribute n "maxActiveCount")
      else pure none) = .ok r.maxActiveCount_ := by
  simp only [V7_0.MixPorts.MixPort.read, Except_bind_ok, Except_pure_ok] at h
  obtain ⟨_, h1, _, h2, ⟨s1, s2⟩, _, h⟩ := h
  simp only [Except_pure_ok] at h
  subst h
  exact ⟨h1, h2⟩

theorem stoul_of_text (s : String) (negative : Bool) (ds : List Char)
    (ht : NumericText s negative ds) (hr : digitsValue 0 ds < 2 ^ 64) :
    stoul s = .ok (unsignedLongValue negative (digitsValue 0 ds)) :=
  (stoul_ok_iff s _).2 ⟨negative, ds, ht, hr, rfl⟩

theorem numericText_ne_empty (s : String) (negative : Bool) (ds : List Char)
    (ht : NumericText s negative ds) : s ≠ "" := by
  obtain ⟨ws, sign, rest, hs, _, _, hne, _, _⟩ := ht
  intro h
  subst h
  cases ds with
  | nil => exact hne rfl
  | cons d ds =>
    have := congrArg List.length hs
    simp at this
    omega

theorem count_of_text (raw s : String) (negative : Bool) (ds : List Char) (o : Option Nat)
    (hraw : raw = s) (ht : NumericText s negative ds) (hr : digitsValue 0 ds < 2 ^ 64)
    (h : (if raw ≠ "" then (fun v => some (static_cast_unsigned_int v)) <$> stoul raw
      else pure none) = .ok o) :
    o = some (unsignedLongValue negative (digitsValue 0 ds) % 2 ^ 32) := by
  subst hraw
  rw [if_pos (numericText_ne_empty raw negative ds ht), stoul_of_text raw negative ds ht hr] at h
  cases h
  rfl

/-- C33: unsigned 32-bit attributes wrap silently.  For every text `s` that starts with a
number of magnitude below `2 ^ 64` (in particular every decimal text denoting a value `v` with
`0 <= v < 2 ^ 64`), `std::stoul` accepts `s`, and `MixPorts::MixPort::read` stores the value
modulo `2 ^ 32` in `maxOpenCount` (resp. `maxActiveCount`) without failing, where the value of a
text with a minus sign is the negated magnitude modulo `2 ^ 64`: on a `mixPort` that carries the
attribute with the text `s`, `read` returns exactly when the other numeric texts of the element
and of its `profile` and `gains` children are accepted, a condition in which `s` does not occur,
every record it returns holds the reduced value, and on the element that carries this attribute
and nothing else `read` returns.  So a value of `2 ^ 32` or more, and a text such as `-1`, is
accepted and truncated instead of rejected. -/
theorem unsigned_attribute_wraps (n : XmlNode) (s : String) (negative : Bool) (ds : List Char)
    (ht : NumericText s negative ds) (hr : digitsValue 0 ds < 2 ^ 64) :
    stoul s = .ok (unsignedLongValue negative (digitsValue 0 ds)) ∧
    (xmlGetProp n "maxOpenCount" = some s →
      ((∃ r, V7_0.MixPorts.MixPort.read n = .ok r) ↔
        attrAccepted stoul n "maxActiveCount" ∧
        (∀ c ∈ childrenNamed n "profile", profileNumericOk c) ∧
        (∀ c ∈ childrenNamed n "gains", gainsNumericOk c)) ∧
      ∀ r, V7_0.MixPorts.MixPort.read n = .ok r →
        r.hasMaxOpenCount = true ∧
        r.getMaxOpenCount = some (unsignedLongValue negative (digitsValue 0 ds) % 2 ^ 32)) ∧
    (xmlGetProp n "maxActiveCount" = some s →
      ((∃ r, V7_0.MixPorts.MixPort.read n = .ok r) ↔
        attrAccepted stoul n "maxOpenCount" ∧
        (∀ c ∈ childrenNamed n "profile", profileNumericOk c) ∧
        (∀ c ∈ childrenNamed n "gains", gainsNumericOk c)) ∧
      ∀ r, V7_0.MixPorts.MixPort.read n = .ok r →
        r.hasMaxActiveCount = true ∧
        r.getMaxActiveCount = some (unsignedLongValue negative (digitsValue 0 ds) % 2 ^ 32)) ∧
    (∃ r, V7_0.MixPorts.MixPort.read (XmlNode.element "mixPort" [("maxOpenCount", s)] []) =
        .ok r ∧
      r.hasMaxOpenCount = true ∧
      r.getMaxOpenCount = some (unsignedLongValue negative (digitsValue 0 ds) % 2 ^ 32)) ∧
    (∃ r, V7_0.MixPorts.MixPort.read (XmlNode.element "mixPort" [("maxActiveCount", s)] []) =
        .ok r ∧
      r.hasMaxActiveCount = true ∧
      r.getMaxActiveCount = some (unsignedLongValue negative (digitsValue 0 ds) % 2 ^ 32)) := by
  have hs := stoul_of_text s negative ds ht hr
  have hnone : ∀ (a nm : String) (c : XmlNode),
      c ∈ childrenNamed (XmlNode.element "mixPort" [(a, s)] []) nm → False := by
    intro a nm c hc
    simp [childrenNamed, XmlNode.element, XmlNode.xmlChildrenNode] at hc
  refine ⟨hs, ?_, ?_, ?_, ?_⟩
  · intro hp
    have hraw := getXmlAttribute_present n _ s hp
    have hacc : attrAccepted stoul n "maxOpenCount" := Or.inr ⟨_, by rw [hraw]; exact hs⟩
    refine ⟨?_, fun r h => ?_⟩
    · rw [mixPort_read_ok, mixPortNumericOk]
      exact ⟨fun h => h.2, fun h => ⟨hacc, h⟩⟩
    · have h1 := count_of_text _ s negative ds _ hraw ht hr (counts_MixPort n r h).1
      simp [V7_0.MixPorts.MixPort.hasMaxOpenCount, V7_0.MixPorts.MixPort.getMaxOpenCount, h1]
  · intro hp
    have hraw := getXmlAttribute_present n _ s hp
    have hacc : attrAccepted stoul n "maxActiveCount" := Or.inr ⟨_, by rw [hraw]; exact hs⟩
    refine ⟨?_, fun r h => ?_⟩
    · rw [mixPort_read_ok, mixPortNumericOk]
      exact ⟨fun h => ⟨h.1, h.2.2⟩, fun h => ⟨h.1, hacc, h.2⟩⟩
    · have h1 := count_of_text _ s negative ds _ hraw ht hr (counts_MixPort n r h).2
      simp [V7_0.MixPorts.MixPort.hasMaxActiveCount, V7_0.MixPorts.MixPort.getMaxActiveCount, h1]

  · have hp : xmlGetProp (XmlNode.element "mixPort" [("maxOpenCount", s)] [])
        "maxOpenCount" = some s := rfl
    have hraw := getXmlAttribute_present _ _ s hp
    obtain ⟨r, h⟩ := (mixPort_read_ok (XmlNode.element "mixPort" [("maxOpenCount", s)] [])).2
      ⟨Or.inr ⟨_, by rw [hraw]; exact hs⟩, Or.inl rfl, fun c hc => (hnone _ _ c hc).elim,
        fun c hc => (hnone _ _ c hc).elim⟩
    have h1 := count_of_text _ s negative ds _ hraw ht hr (counts_MixPort _ r h).1
    refine ⟨r, h, ?_, ?_⟩ <;>
      simp [V7_0.MixPorts.MixPort.hasMaxOpenCount, V7_0.MixPorts.MixPort.getMaxOpenCount, h1]
  · have hp : xmlGetProp (XmlNode.element "mixPort" [("maxActiveCount", s)] [])
        "maxActiveCount" = some s := rfl
    have hraw := getXmlAttribute_present _ _ s hp
    obtain ⟨r, h⟩ := (mixPort_read_ok (XmlNode.element "mixPort" [("maxActiveCount", s)] [])).2
      ⟨Or.inl rfl, Or.inr ⟨_, by rw [hraw]; exact hs⟩, fun c hc => (hnone _ _ c hc).elim,
        fun c hc => (hnone _ _ c hc).elim⟩
    have h1 := count_of_text _ s negative ds _ hraw ht hr (counts_MixPort _ r h).2
    refine ⟨r, h, ?_, ?_⟩ <;>
      simp [V7_0.MixPorts.MixPort.hasMaxActiveCount, V7_0.MixPorts.MixPort.getMaxActiveCount,
        h1]

/-- Evaluation of C33: the text of `2 ^ 32 + 5` is read as 5, and the text `-1` as
`2 ^ 32 - 1`. -/
theorem unsigned_attribute_wraps_witness :
    (V7_0.MixPorts.MixPort.mk [] [] "" V7_0.Role.UNKNOWN none (some 5) none
      none).getMaxOpenCount = some 5 ∧
    (V7_0.MixPorts.MixPort.mk [] [] "" V7_0.Role.UNKNOWN none none (some 4294967295)
      none).getMaxActiveCount = some 4294967295 :=
  ⟨(((unsigned_attribute_wraps
      (XmlNode.element "mixPort" [("maxOpenCount", "4294967301")] [])
      "4294967301" false "4294967301".data
      ⟨[], [], [], rfl, by simp, Or.inl ⟨rfl, rfl⟩, by decide, by decide, by simp⟩
      (by decide)).2.1 rfl).2
      (V7_0.MixPorts.MixPort.mk [] [] "" V7_0.Role.UNKNOWN none (some 5) none none)
      (by decide)).2,
    (((unsigned_attribute_wraps
      (XmlNode.element "mixPort" [("maxActiveCount", "-1")] [])
      "-1" true ['1']
      ⟨[], ['-'], [], rfl, by simp, Or.inr (Or.inr ⟨rfl, rfl⟩), by decide, by decide,
        by simp⟩
      (by decide)).2.2.1 rfl).2
      (V7_0.MixPorts.MixPort.mk [] [] "" V7_0.Role.UNKNOWN none none (some 4294967295) none)
      (by decide)).2⟩

/-! ## Numeric attributes are read by their longest numeric prefix -/

theorem ints_Gain (n : XmlNode) (r : V7_0.Gains.Gain) (h : V7_0.Gains.Gain.read n = .ok r) :
    (if getXmlAttribute n "minValueMB" ≠ "" then some <$> stoi (getXmlAttribute n "minValueMB")
      else pure none) = .ok r.minValueMB_ ∧
    (if getXmlAttribute n "maxValueMB" ≠ "" then some <$> stoi (getXmlAttribute n "maxValueMB")
      else pure none) = .ok r.maxValueMB_ ∧
    (if getXmlAttribute n "defaultValueMB" ≠ ""
      then some <$> stoi (getXmlAttribute n "defaultValueMB")
      else pure none) = .ok r.defaultValueMB_ ∧
    (if getXmlAttribute n "stepValueMB" ≠ "" then some <$> stoi (getXmlAttribute n "stepValueMB")
      else pure none) = .ok r.stepValueMB_ ∧
    (if getXmlAttribute n "minRampMs" ≠ "" then some <$> stoi (getXmlAttribute n "minRampMs")
      else pure none) = .ok r.minRampMs_ ∧
    (if getXmlAttribute n "maxRampMs" ≠ "" then some <$> stoi (getXmlAttribute n "maxRampMs")
      else pure none) = .ok r.maxRampMs_ := by
  simp only [V7_0.Gains.Gain.read, Except_bind_ok, Except_pure_ok] at h
  obtain ⟨_, h1, _, h2, _, h3, _, h4, _, h5, _, h6, rfl⟩ := h
  exact ⟨h1, h2, h3, h4, h5, h6⟩

theorem stoll_accepts_iff (s : String) :
    (∃ v, stoll s = .ok v) ↔ PrefixWithin LLONG_MIN LLONG_MAX s := by
  constructor
  · rintro ⟨v, h⟩
    obtain ⟨negative, ds, ht, rfl, hlo, hhi⟩ := (stoll_ok_iff s v).1 h
    exact ⟨negative, ds, ht, hlo, hhi⟩
  · rintro ⟨negative, ds, ht, hlo, hhi⟩
    exact ⟨_, (stoll_ok_iff s _).2 ⟨negative, ds, ht, rfl, hlo, hhi⟩⟩

theorem stoi_accepts_iff (s : String) :
    (∃ v, stoi s = .ok v) ↔ PrefixWithin INT_MIN INT_MAX s := by
  constructor
  · rintro ⟨v, h⟩
    obtain ⟨negative, ds, ht, rfl, hlo, hhi⟩ := (stoi_ok_iff s v).1 h
    exact ⟨negative, ds, ht, hlo, hhi⟩
  · rintro ⟨negative, ds, ht, hlo, hhi⟩
    exact ⟨_, (stoi_ok_iff s _).2 ⟨negative, ds, ht, rfl, hlo, hhi⟩⟩

theorem numericText_unique (s : String) (negative negative2 : Bool) (ds ds2 : List Char)
    (h1 : NumericText s negative ds) (h2 : NumericText s negative2 ds2) :
    prefixValue negative ds = prefixValue negative2 ds2 ∧
    negative = negative2 ∧ digitsValue 0 ds = digitsValue 0 ds2 := by
  have e1 := numericPrefix_of_text s negative ds h1
  have e2 := numericPrefix_of_text s negative2 ds2 h2
  rw [e1] at e2
  simp only [Option.some.injEq, Prod.mk.injEq] at e2
  obtain ⟨rfl, e3⟩ := e2
  exact ⟨by unfold prefixValue; rw [e3], rfl, e3⟩

theorem stoll_of_text (s : String) (negative : Bool) (ds : List Char) (v : Int)
    (ht : NumericText s negative ds) (h : stoll s = .ok v) : v = prefixValue negative ds := by
  obtain ⟨negative2, ds2, ht2, rfl, _, _⟩ := (stoll_ok_iff s v).1 h
  exact (numericText_unique s negative2 negative ds2 ds ht2 ht).1

theorem stoi_of_text (s : String) (negative : Bool) (ds : List Char) (v : Int)
    (ht : NumericText s negative ds) (h : stoi s = .ok v) : v = prefixValue negative ds := by
  obtain ⟨negative2, ds2, ht2, rfl, _, _⟩ := (stoi_ok_iff s v).1 h
  exact (numericText_unique s negative2 negative ds2 ds ht2 ht).1

theorem optInt_of_text (conv : String → Except CppException Int)
    (hconv : ∀ (s : String) (negative : Bool) (ds : List Char) (v : Int),
      NumericText s negative ds → conv s = .ok v → v = prefixValue negative ds)
    (raw s : String) (negative : Bool) (ds : List Char) (o : Option Int)
    (hraw : raw = s) (ht : NumericText s negative ds)
    (h : (if raw ≠ "" then some <$> conv raw else pure none) = .ok o) :
    o = some (prefixValue negative ds) := by
  subst hraw
  rw [if_pos (numericText_ne_empty raw negative ds ht), Except_map_ok] at h
  obtain ⟨v, hv, rfl⟩ := h
  rw [hconv raw negative ds v ht hv]

theorem getOpt_eq {α : Type} (o : Option α) (v : α) (h : o = some v) :
    (if o.isSome then o else none) = some v := by
  subst h
  rfl

/-- C34, as stated, fails.  An `apex-info` whose `versionCode` is present with the empty text,
in which no digit prefix exists, is read without failure, with `versionCode` 0.  A `mixPort`
whose `maxOpenCount` is the decimal text of `2 ^ 32`, a number that does not fit the unsigned
32-bit field, is read without failure too, and the value stored is 0, not the value of the digit
prefix. -/
theorem numeric_prefix_counterexample :
    xmlGetProp (XmlNode.element "apex-info" [("moduleName", "m"), ("versionCode", "")] [])
      "versionCode" = some "" ∧
    (¬ ∃ negative ds, NumericText "" negative ds) ∧
    apex.ApexInfo.read (XmlNode.element "apex-info" [("moduleName", "m"), ("versionCode", "")]
      []) = .ok (apex.ApexInfo.mk "m" "" none 0 "" false false none false) ∧
    NumericText "4294967296" false "4294967296".data ∧
    prefixValue false "4294967296".data = 4294967296 ∧
    V7_0.MixPorts.MixPort.read (XmlNode.element "mixPort" [("maxOpenCount", "4294967296")] []) =
      .ok (V7_0.MixPorts.MixPort.mk [] [] "" V7_0.Role.UNKNOWN none (some 0) none none) := by
  refine ⟨by decide, (numericPrefix_none_iff "").1 rfl, by decide,
    ⟨[], [], [], rfl, by simp, Or.inl ⟨rfl, rfl⟩, by decide, by decide, by simp⟩,
    by decide, by decide⟩

/-- C34, amended: numeric attributes are parsed by longest numeric prefix.  A text counts when
it is not empty (an attribute with the empty text is treated as absent and not converted).  For
the signed attributes (`versionCode` and `lastUpdateMillis` through `std::stoll`, each token of
`samplingRates` through `std::stoll`, the six integer attributes of `gain` through `std::stoi`):
`read` returns exactly when every such text is empty or is made of optional leading whitespace,
an optional sign, one or more digits whose value is within the range of the conversion, and
then arbitrary trailing characters; it throws exactly when one of the texts is not empty and has
no digit prefix or a prefix out of range; and the value stored is the value of the digit prefix,
whatever follows it.  For the unsigned attributes `maxOpenCount` and `maxActiveCount` the
magnitude of an accepted prefix is below `2 ^ 64` and the value stored is reduced modulo
`2 ^ 32`. -/
theorem numeric_prefix_parsing :
    (∀ n : XmlNode,
      ((∃ r, apex.ApexInfo.read n = .ok r) ↔
        numericAttributeOk LLONG_MIN LLONG_MAX n "versionCode" ∧
        numericAttributeOk LLONG_MIN LLONG_MAX n "lastUpdateMillis") ∧
      ((∃ e, apex.ApexInfo.read n = .error e) ↔
        (getXmlAttribute n "versionCode" ≠ "" ∧
          ¬ PrefixWithin LLONG_MIN LLONG_MAX (getXmlAttribute n "versionCode")) ∨
        (getXmlAttribute n "lastUpdateMillis" ≠ "" ∧
          ¬ PrefixWithin LLONG_MIN LLONG_MAX (getXmlAttribute n "lastUpdateMillis"))) ∧
      ∀ (r : apex.ApexInfo) (s : String) (negative : Bool) (ds : List Char),
        apex.ApexInfo.read n = .ok r → NumericText s negative ds →
        (xmlGetProp n "versionCode" = some s → r.getVersionCode = prefixValue negative ds) ∧
        (xmlGetProp n "lastUpdateMillis" = some s →
          r.getLastUpdateMillis = some (prefixValue negative ds))) ∧
    (∀ n : XmlNode,
      ((∃ r, V7_0.Profile.read n = .ok r) ↔
        getXmlAttribute n "samplingRates" = "" ∨
        ∀ tok ∈ splitOnWhitespace (getXmlAttribute n "samplingRates"),
          PrefixWithin LLONG_MIN LLONG_MAX tok) ∧
      ∀ (r : V7_0.Profile) (s : String), V7_0.Profile.read n = .ok r →
        xmlGetProp n "samplingRates" = some s → s ≠ "" →
        ∃ vs, r.getSamplingRates = some vs ∧
          List.Forall₂ (fun tok v => ∀ (negative : Bool) (ds : List Char),
            NumericText tok negative ds → v = prefixValue negative ds)
            (splitOnWhitespace s) vs) ∧
    (∀ n : XmlNode,
      ((∃ r, V7_0.Gains.Gain.read n = .ok r) ↔
        ∀ a ∈ ["minValueMB", "maxValueMB", "defaultValueMB", "stepValueMB", "minRampMs",
          "maxRampMs"], numericAttributeOk INT_MIN INT_MAX n a) ∧
      ∀ (r : V7_0.Gains.Gain) (s : String) (negative : Bool) (ds : List Char),
        V7_0.Gains.Gain.read n = .ok r → NumericText s negative ds →
        (xmlGetProp n "minValueMB" = some s →
          r.getMinValueMB = some (prefixValue negative ds)) ∧
        (xmlGetProp n "maxValueMB" = some s →
          r.getMaxValueMB = some (prefixValue negative ds)) ∧
        (xmlGetProp n "defaultValueMB" = some s →
          r.getDefaultValueMB = some (prefixValue negative ds)) ∧
        (xmlGetProp n "stepValueMB" = some s →
          r.getStepValueMB = some (prefixValue negative ds)) ∧
        (xmlGetProp n "minRampMs" = some s →
          r.getMinRampMs = some (prefixValue negative ds)) ∧
        (xmlGetProp n "maxRampMs" = some s →
          r.getMaxRampMs = some (prefixValue negative ds))) ∧
    (∀ (n : XmlNode) (r : V7_0.MixPorts.MixPort) (s : String) (negative : Bool)
        (ds : List Char), V7_0.MixPorts.MixPort.read n = .ok r → NumericText s negative ds →
      (xmlGetProp n "maxOpenCount" = some s →
        digitsValue 0 ds < 2 ^ 64 ∧
        r.getMaxOpenCount = some (unsignedLongValue negative (digitsValue 0 ds) % 2 ^ 32)) ∧
      (xmlGetProp n "maxActiveCount" = some s →
        digitsValue 0 ds < 2 ^ 64 ∧
        r.getMaxActiveCount =
          some (unsignedLongValue negative (digitsValue 0 ds) % 2 ^ 32))) := by
  refine ⟨fun n => ?_, fun n => ?_, fun n => ?_, fun n r s negative ds h ht => ?_⟩
  · have hok : (∃ r, apex.ApexInfo.read n = .ok r) ↔
        numericAttributeOk LLONG_MIN LLONG_MAX n "versionCode" ∧
        numericAttributeOk LLONG_MIN LLONG_MAX n "lastUpdateMillis" := by
      rw [apexInfo_read_ok, apexInfoNumericOk]
      simp only [attrAccepted, numericAttributeOk, stoll_accepts_iff]
    refine ⟨hok, ?_, fun r s negative ds h ht => ⟨fun hp => ?_, fun hp => ?_⟩⟩
    · constructor
      · rintro ⟨e, he⟩
        have hno : ¬ ∃ r, apex.ApexInfo.read n = .ok r := by
          rintro ⟨r, hr⟩
          rw [hr] at he
          cases he
        rw [hok] at hno
        simp only [numericAttributeOk] at hno
        by_contra hcon
        apply hno
        simp only [not_or, not_and, not_not] at hcon
        constructor
        · by_cases h0 : getXmlAttribute n "versionCode" = ""
          · exact Or.inl h0
          · exact Or.inr (hcon.1 h0)
        · by_cases h0 : getXmlAttribute n "lastUpdateMillis" = ""
          · exact Or.inl h0
          · exact Or.inr (hcon.2 h0)
      · intro hbad
        apply error_of_not_ok
        rw [hok]
        simp only [numericAttributeOk]
        rintro ⟨h1, h2⟩
        rcases hbad with ⟨h0, hb⟩ | ⟨h0, hb⟩
        · exact hb (h1.resolve_left h0)
        · exact hb (h2.resolve_left h0)
    · have h4 := (attrs_ApexInfo n r h).2.2.2.1
      rw [getXmlAttribute_present n _ s hp,
        if_pos (numericText_ne_empty s negative ds ht)] at h4
      exact stoll_of_text s negative ds _ ht h4
    · have h8 := (attrs_ApexInfo n r h).2.2.2.2.2.2.2.1
      exact getOpt_eq _ _ (optInt_of_text stoll stoll_of_text _ s negative ds _
        (getXmlAttribute_present n _ s hp) ht h8)
  · refine ⟨?_, fun r s h hp hs => ?_⟩
    · rw [profile_read_ok, profileNumericOk]
      simp only [stoll_accepts_iff, istringstream_tokens_split]
    · have h3 := (attrs_Profile n r h).2.2.1
      rw [getXmlAttribute_present n _ s hp, if_pos hs, Except_map_ok] at h3
      obtain ⟨vs, hvs, hr⟩ := h3
      refine ⟨vs, getOpt_eq _ _ hr.symm, ?_⟩
      rw [← istringstream_tokens_split]
      exact (mapM_ok_forall₂ stoll _ vs hvs).imp
        (fun {tok v} hv negative ds ht => stoll_of_text tok negative ds v ht hv)
  · refine ⟨?_, fun r s negative ds h ht => ?_⟩
    · rw [gain_read_ok, gainNumericOk]
      simp only [attrAccepted, numericAttributeOk, stoi_accepts_iff, List.mem_cons,
        List.mem_singleton, List.not_mem_nil, or_false, forall_eq_or_imp, forall_eq]
    · obtain ⟨h1, h2, h3, h4, h5, h6⟩ := ints_Gain n r h
      exact ⟨fun hp => getOpt_eq _ _ (optInt_of_text stoi stoi_of_text _ s negative ds _
          (getXmlAttribute_present n _ s hp) ht h1),
        fun hp => getOpt_eq _ _ (optInt_of_text stoi stoi_of_text _ s negative ds _
          (getXmlAttribute_present n _ s hp) ht h2),
        fun hp => getOpt_eq _ _ (optInt_of_text stoi stoi_of_text _ s negative ds _
          (getXmlAttribute_present n _ s hp) ht h3),
        fun hp => getOpt_eq _ _ (optInt_of_text stoi stoi_of_text _ s negative ds _
          (getXmlAttribute_present n _ s hp) ht h4),
        fun hp => getOpt_eq _ _ (optInt_of_text stoi stoi_of_text _ s negative ds _
          (getXmlAttribute_present n _ s hp) ht h5),
        fun hp => getOpt_eq _ _ (optInt_of_text stoi stoi_of_text _ s negative ds _
          (getXmlAttribute_present n _ s hp) ht h6)⟩
  · have hlt : ∀ (a : String) (o : Option Nat), xmlGetProp n a = some s →
        (if getXmlAttribute n a ≠ ""
          then (fun v => some (static_cast_unsigned_int v)) <$> stoul (getXmlAttribute n a)
          else pure none) = .ok o →
        digitsValue 0 ds < 2 ^ 64 ∧
        o = some (unsignedLongValue negative (digitsValue 0 ds) % 2 ^ 32) := by
      intro a o hp ho
      have hraw := getXmlAttribute_present n _ s hp
      have hlt : digitsValue 0 ds < 2 ^ 64 := by
        have ho2 := ho
        rw [hraw, if_pos (numericText_ne_empty s negative ds ht), Except_map_ok] at ho2
        obtain ⟨v, hv, _⟩ := ho2
        obtain ⟨negative2, ds2, ht2, hlt2, _⟩ := (stoul_ok_iff s v).1 hv
        rw [(numericText_unique s negative negative2 ds ds2 ht ht2).2.2]
        exact hlt2
      exact ⟨hlt, count_of_text _ s negative ds o hraw ht hlt ho⟩
    obtain ⟨h1, h2⟩ := counts_MixPort n r h
    exact ⟨fun hp => ⟨(hlt _ _ hp h1).1, getOpt_eq _ _ (hlt _ _ hp h1).2⟩,
      fun hp => ⟨(hlt _ _ hp h2).1, getOpt_eq _ _ (hlt _ _ hp h2).2⟩⟩

/-- Evaluation of the amended C34 on `versionCode="12abc"`: the element is read and the version
code is 12; a `profile` with `samplingRates=" 48000Hz +44100"` is read too. -/
theorem numeric_prefix_parsing_witness :
    apex.ApexInfo.read (XmlNode.element "apex-info"
      [("moduleName", "m"), ("versionCode", "12abc")] []) =
      .ok (apex.ApexInfo.mk "m" "" none 12 "" false false none false) ∧
    (apex.ApexInfo.mk "m" "" none 12 "" false false none false).getVersionCode =
      prefixValue false ['1', '2'] ∧
    prefixValue false ['1', '2'] = 12 ∧
    V7_0.Profile.read (XmlNode.element "profile" [("samplingRates", " 48000Hz +44100")] []) =
      .ok (V7_0.Profile.mk none none (some [48000, 44100]) none none) :=
  ⟨by decide,
    ((numeric_prefix_parsing.1 (XmlNode.element "apex-info"
      [("moduleName", "m"), ("versionCode", "12abc")] [])).2.2
      (apex.ApexInfo.mk "m" "" none 12 "" false false none false) "12abc" false ['1', '2']
      (by decide)
      ⟨[], [], ['a', 'b', 'c'], rfl, by simp, Or.inl ⟨rfl, rfl⟩, by decide, by decide,
        by decide⟩).1 rfl,
    by decide, by decide⟩

/-! ## List attributes made of whitespace only -/

theorem tokens_of_whitespace (s : String) (h : ∀ c ∈ s.data, isspace c = true) :
    istringstream_tokens s = [] := by
  unfold istringstream_tokens
  generalize s.data = cs at h
  induction cs with
  | nil => rfl
  | cons c cs ih =>
    rw [tokensCore, if_pos (h c (List.mem_cons_self c cs)), if_pos rfl]
    exact ih (fun d hd => h d (List.mem_cons_of_mem c hd))

theorem emptyList_of_whitespace {β : Type} (raw s : String) (f : List String → List β)
    (hf : f [] = []) (o : Option (List β))
    (ho : o = (if raw ≠ "" then some (f (istringstream_tokens raw)) else none))
    (hraw : raw = s) (hs : s ≠ "") (hw : ∀ c ∈ s.data, isspace c = true) :
    o.isSome = true ∧ (if o.isSome then o else none) = some [] := by
  subst hraw
  rw [ho, if_pos hs, tokens_of_whitespace raw hw, hf]
  exact ⟨rfl, rfl⟩

/-- C35: a list attribute that is not empty but consists of whitespace only is present and
empty.  For every optional list attribute (`flags` and `preferredUsage` of `mixPort`,
`samplingRates` and `channelMasks` of `profile`, `encodedFormats` of `devicePort`, `subformats`
of `format`): when `read` returns a record from an element that carries the attribute with a
non-empty text of whitespace characters only, `hasField()` is true and `getField()` is the empty
sequence; when the element lacks the attribute or carries it with the empty text, `hasField()`
is false. -/
theorem whitespace_list_present_empty :
    (∀ (n : XmlNode) (r : V7_0.MixPorts.MixPort), V7_0.MixPorts.MixPort.read n = .ok r →
      (∀ s, xmlGetProp n "flags" = some s → s ≠ "" → (∀ c ∈ s.data, isspace c = true) →
        r.hasFlags = true ∧ r.getFlags = some []) ∧
      (absentOrEmpty n "flags" → r.hasFlags = false) ∧
      (∀ s, xmlGetProp n "preferredUsage" = some s → s ≠ "" →
        (∀ c ∈ s.data, isspace c = true) →
        r.hasPreferredUsage = true ∧ r.getPreferredUsage = some []) ∧
      (absentOrEmpty n "preferredUsage" → r.hasPreferredUsage = false)) ∧
    (∀ (n : XmlNode) (r : V7_0.Profile), V7_0.Profile.read n = .ok r →
      (∀ s, xmlGetProp n "samplingRates" = some s → s ≠ "" →
        (∀ c ∈ s.data, isspace c = true) →
        r.hasSamplingRates = true ∧ r.getSamplingRates = some []) ∧
      (absentOrEmpty n "samplingRates" → r.hasSamplingRates = false) ∧
      (∀ s, xmlGetProp n "channelMasks" = some s → s ≠ "" →
        (∀ c ∈ s.data, isspace c = true) →
        r.hasChannelMasks = true ∧ r.getChannelMasks = some []) ∧
      (absentOrEmpty n "channelMasks" → r.hasChannelMasks = false)) ∧
    (∀ (n : XmlNode) (r : V7_0.DevicePorts.DevicePort),
      V7_0.DevicePorts.DevicePort.read n = .ok r →
      (∀ s, xmlGetProp n "encodedFormats" = some s → s ≠ "" →
        (∀ c ∈ s.data, isspace c = true) →
        r.hasEncodedFormats = true ∧ r.getEncodedFormats = some []) ∧
      (absentOrEmpty n "encodedFormats" → r.hasEncodedFormats = false)) ∧
    (∀ (n : XmlNode) (r : V7_0.SurroundFormats.Format),
      V7_0.SurroundFormats.Format.read n = .ok r →
      (∀ s, xmlGetProp n "subformats" = some s → s ≠ "" →
        (∀ c ∈ s.data, isspace c = true) →
        r.hasSubformats = true ∧ r.getSubformats = some []) ∧
      (absentOrEmpty n "subformats" → r.hasSubformats = false)) := by
  refine ⟨fun n r h => ⟨fun s hp hs hw => ?_, ?_, fun s hp hs hw => ?_, ?_⟩,
    fun n r h => ⟨fun s hp hs hw => ?_, ?_, fun s hp hs hw => ?_, ?_⟩,
    fun n r h => ⟨fun s hp hs hw => ?_, ?_⟩, fun n r h => ⟨fun s hp hs hw => ?_, ?_⟩⟩
  · exact emptyList_of_whitespace _ s (List.map V7_0.stringToAudioInOutFlag) rfl _
      (attrs_MixPort n r h).2.2.1 (getXmlAttribute_present n _ s hp) hs hw
  · exact (has_false_iff _ n _ (absence_MixPort n r h).1).2
  · exact emptyList_of_whitespace _ s (List.map V7_0.stringToAudioUsage) rfl _
      (attrs_MixPort n r h).2.2.2 (getXmlAttribute_present n _ s hp) hs hw
  · exact (has_false_iff _ n _ (absence_MixPort n r h).2.2.2).2
  · have h3 := (attrs_Profile n r h).2.2.1
    rw [getXmlAttribute_present n _ s hp, if_pos hs, tokens_of_whitespace s hw,
      Except_map_ok] at h3
    obtain ⟨vs, hvs, hr⟩ := h3
    rw [List.mapM_nil, Except_pure_ok] at hvs
    subst hvs
    simp [V7_0.Profile.hasSamplingRates, V7_0.Profile.getSamplingRates, ← hr]
  · exact (has_false_iff _ n _ (absence_Profile n r h).2.2.1).2
  · exact emptyList_of_whitespace _ s (List.map V7_0.stringToAudioChannelMask) rfl _
      (attrs_Profile n r h).2.2.2.1 (getXmlAttribute_present n _ s hp) hs hw
  · exact (has_false_iff _ n _ (absence_Profile n r h).2.2.2.1).2
  · exact emptyList_of_whitespace _ s id rfl _
      (attrs_DevicePort n r h).2.2.2.2.2 (getXmlAttribute_present n _ s hp) hs hw
  · exact (has_false_iff _ n _ (absence_DevicePort n r h).2.2).2
  · exact emptyList_of_whitespace _ s id rfl _
      (attrs_Format n r h).2 (getXmlAttribute_present n _ s hp) hs hw
  · exact (has_false_iff _ n _ (absence_Format n r h)).2

/-- Evaluation of C35 on a `mixPort` with `flags=" "`, as against one with `flags=""`. -/
theorem whitespace_list_present_empty_witness :
    ((V7_0.MixPorts.MixPort.mk [] [] "" V7_0.Role.UNKNOWN (some []) none none none).hasFlags
        = true ∧
      (V7_0.MixPorts.MixPort.mk [] [] "" V7_0.Role.UNKNOWN (some []) none none none).getFlags
        = some []) ∧
    V7_0.MixPorts.MixPort.read (XmlNode.element "mixPort" [("flags", "")] []) =
      .ok (V7_0.MixPorts.MixPort.mk [] [] "" V7_0.Role.UNKNOWN none none none none) :=
  ⟨(whitespace_list_present_empty.1 (XmlNode.element "mixPort" [("flags", " ")] [])
      (V7_0.MixPorts.MixPort.mk [] [] "" V7_0.Role.UNKNOWN (some []) none none none)
      (by decide)).1 " " rfl (by decide) (by decide),
    by decide⟩

/-! ## The last `defaultOutputDevice` child wins -/

theorem last_Module_defaultOutputDevice (n : XmlNode) (r : V7_0.Modules.Module)
    (h : V7_0.Modules.Module.read n = .ok r) :
    r.defaultOutputDevice_ =
      (childrenNamed n "defaultOutputDevice").getLast?.map childText := by
  simp only [V7_0.Modules.Module.read, Except_bind_ok, Except_pure_ok] at h
  obtain ⟨s, hs, rfl⟩ := h
  have key := foldlM_invariant _
    (fun pre (st : V7_0.Modules.Module.Locals) =>
      st.defaultOutputDevice =
        (pre.filter (fun _child => decide (_child.name = "defaultOutputDevice"))).getLast?.map
          childText)
    (by
      intro pre c st st' hP hb
      show st'.defaultOutputDevice = _
      rw [List.filter_append]
      split_ifs at hb with h1 h2 h3 h4 h5 <;>
        simp only [Except_bind_ok, Except_pure_ok] at hb
      · obtain ⟨v, _, rfl⟩ := hb
        have : c.name ≠ "defaultOutputDevice" := by rw [h1]; decide
        simp [hP, this]
      · subst hb
        simp [h2]
      · obtain ⟨v, _, rfl⟩ := hb
        simp [hP, h2]
      · obtain ⟨v, _, rfl⟩ := hb
        simp [hP, h2]
      · obtain ⟨v, _, rfl⟩ := hb
        simp [hP, h2]
      · subst hb
        simp [hP, h2])
    n.xmlChildrenNode [] _ s (by simp) hs
  simpa [childrenNamed] using key

/-- C36: last occurrence wins for the optional child.  For every `module` element with one or
more children named `defaultOutputDevice`, when `Modules::Module::read` returns a record,
`hasDefaultOutputDevice()` is true and `getDefaultOutputDevice()` is the text content of the
last of these children in document order; the earlier ones leave no trace. -/
theorem last_default_output_device (n : XmlNode) (r : V7_0.Modules.Module)
    (earlier : List XmlNode) (last : XmlNode)
    (h : V7_0.Modules.Module.read n = .ok r)
    (hc : childrenNamed n "defaultOutputDevice" = earlier ++ [last]) :
    r.hasDefaultOutputDevice = true ∧ r.getDefaultOutputDevice = some (childText last) := by
  have h1 := last_Module_defaultOutputDevice n r h
  rw [hc, List.getLast?_append, List.getLast?_singleton] at h1
  simp [V7_0.Modules.Module.hasDefaultOutputDevice, V7_0.Modules.Module.getDefaultOutputDevice,
    h1]

/-- Evaluation of C36 on a module with two `defaultOutputDevice` children around a `routes`
child: the text of the second is kept. -/
theorem last_default_output_device_witness :
    (V7_0.Modules.Module.mk [] (some "Earpiece") [] [] [V7_0.Routes.mk []] ""
      V7_0.HalVersion.UNKNOWN).getDefaultOutputDevice = some "Earpiece" :=
  (last_default_output_device
    (XmlNode.element "module" []
      [XmlNode.element "defaultOutputDevice" [] [XmlNode.text "Speaker"],
       XmlNode.element "routes" [] [],
       XmlNode.element "defaultOutputDevice" [] [XmlNode.text "Earpiece"]])
    (V7_0.Modules.Module.mk [] (some "Earpiece") [] [] [V7_0.Routes.mk []] ""
      V7_0.HalVersion.UNKNOWN)
    [XmlNode.element "defaultOutputDevice" [] [XmlNode.text "Speaker"]]
    (XmlNode.element "defaultOutputDevice" [] [XmlNode.text "Earpiece"])
    (by decide) rfl).2

/-! ## The interleaving of differently named children is not recorded -/

theorem ok_unique {α : Type} (x y : Except CppException α) (a b : α) (hxy : x = y)
    (hx : x = .ok a) (hy : y = .ok b) : a = b := by
  rw [hxy, hy] at hx
  exact (Except.ok.inj hx).symm

theorem getXmlAttribute_same (a b : XmlNode) (h : sameAttributes a b) (attributeName : String) :
    getXmlAttribute a attributeName = getXmlAttribute b attributeName := by
  unfold getXmlAttribute
  rw [h attributeName]

/-- C37: the interleaving of differently named children is not recorded.  For every two
elements with the same attributes whose child lists have, for each declared child name, the
same subsequence of children with that name, `AudioPolicyConfiguration::read` (and likewise
`Volumes::read`, `Modules::Module::read`, `MixPorts::MixPort::read` and
`DevicePorts::DevicePort::read`) returns on the one exactly when it returns on the other, and the
two records returned are equal. -/
theorem interleaving_not_recorded :
    (∀ a b : XmlNode, sameAttributes a b →
      sameChildrenNamed ["globalConfiguration", "modules", "volumes", "surroundSound"] a b →
      ((∃ r, V7_0.AudioPolicyConfiguration.read a = .ok r) ↔
        ∃ r, V7_0.AudioPolicyConfiguration.read b = .ok r) ∧
      ∀ ra rb, V7_0.AudioPolicyConfiguration.read a = .ok ra →
        V7_0.AudioPolicyConfiguration.read b = .ok rb → ra = rb) ∧
    (∀ a b : XmlNode, sameAttributes a b → sameChildrenNamed ["volume", "reference"] a b →
      ((∃ r, V7_0.Volumes.read a = .ok r) ↔ ∃ r, V7_0.Volumes.read b = .ok r) ∧
      ∀ ra rb, V7_0.Volumes.read a = .ok ra → V7_0.Volumes.read b = .ok rb → ra = rb) ∧
    (∀ a b : XmlNode, sameAttributes a b →
      sameChildrenNamed ["attachedDevices", "defaultOutputDevice", "mixPorts", "devicePorts",
        "routes"] a b →
      ((∃ r, V7_0.Modules.Module.read a = .ok r) ↔ ∃ r, V7_0.Modules.Module.read b = .ok r) ∧
      ∀ ra rb, V7_0.Modules.Module.read a = .ok ra → V7_0.Modules.Module.read b = .ok rb →
        ra = rb) ∧
    (∀ a b : XmlNode, sameAttributes a b → sameChildrenNamed ["profile", "gains"] a b →
      ((∃ r, V7_0.MixPorts.MixPort.read a = .ok r) ↔
        ∃ r, V7_0.MixPorts.MixPort.read b = .ok r) ∧
      ∀ ra rb, V7_0.MixPorts.MixPort.read a = .ok ra → V7_0.MixPorts.MixPort.read b = .ok rb →
        ra = rb) ∧
    (∀ a b : XmlNode, sameAttributes a b → sameChildrenNamed ["profile", "gains"] a b →
      ((∃ r, V7_0.DevicePorts.DevicePort.read a = .ok r) ↔
        ∃ r, V7_0.DevicePorts.DevicePort.read b = .ok r) ∧
      ∀ ra rb, V7_0.DevicePorts.DevicePort.read a = .ok ra →
        V7_0.DevicePorts.DevicePort.read b = .ok rb → ra = rb) := by
  refine ⟨fun a b ha hc => ⟨?_, fun ra rb h1 h2 => ?_⟩,
    fun a b ha hc => ⟨?_, fun ra rb h1 h2 => ?_⟩,
    fun a b ha hc => ⟨?_, fun ra rb h1 h2 => ?_⟩,
    fun a b ha hc => ⟨?_, fun ra rb h1 h2 => ?_⟩,
    fun a b ha hc => ⟨?_, fun ra rb h1 h2 => ?_⟩⟩
  · rw [audioPolicyConfiguration_read_ok, audioPolicyConfiguration_read_ok,
      audioPolicyNumericOk, audioPolicyNumericOk, hc "modules" (by simp)]
  · have e1 := ok_unique _ _ _ _ (by rw [hc "globalConfiguration" (by simp)])
      (collect_AudioPolicyConfiguration_globalConfiguration a ra h1)
      (collect_AudioPolicyConfiguration_globalConfiguration b rb h2)
    have e2 := ok_unique _ _ _ _ (by rw [hc "modules" (by simp)])
      (collect_AudioPolicyConfiguration_modules a ra h1)
      (collect_AudioPolicyConfiguration_modules b rb h2)
    have e3 := ok_unique _ _ _ _ (by rw [hc "volumes" (by simp)])
      (collect_AudioPolicyConfiguration_volumes a ra h1)
      (collect_AudioPolicyConfiguration_volumes b rb h2)
    have e4 := ok_unique _ _ _ _ (by rw [hc "surroundSound" (by simp)])
      (collect_AudioPolicyConfiguration_surroundSound a ra h1)
      (collect_AudioPolicyConfiguration_surroundSound b rb h2)
    have e5 := attrs_AudioPolicyConfiguration a ra h1
    have e6 := attrs_AudioPolicyConfiguration b rb h2
    rw [getXmlAttribute_same a b ha] at e5
    obtain ⟨f1, f2, f3, f4, f5⟩ := ra
    obtain ⟨g1, g2, g3, g4, g5⟩ := rb
    simp only [V7_0.AudioPolicyConfiguration.getGlobalConfiguration,
      V7_0.AudioPolicyConfiguration.getModules, V7_0.AudioPolicyConfiguration.getVolumes,
      V7_0.AudioPolicyConfiguration.getSurroundSound] at e1 e2 e3 e4 e5 e6
    rw [e1, e2, e3, e4, e5, e6]
  · exact ⟨fun _ => volumes_read_ok b, fun _ => volumes_read_ok a⟩
  · have e1 := ok_unique _ _ _ _ (by rw [hc "volume" (by simp)])
      (collect_Volumes_volume a ra h1) (collect_Volumes_volume b rb h2)
    have e2 := ok_unique _ _ _ _ (by rw [hc "reference" (by simp)])
      (collect_Volumes_reference a ra h1) (collect_Volumes_reference b rb h2)
    obtain ⟨f1, f2⟩ := ra
    obtain ⟨g1, g2⟩ := rb
    simp only [V7_0.Volumes.getVolume, V7_0.Volumes.getReference] at e1 e2
    rw [e1, e2]
  · rw [module_read_ok, module_read_ok, moduleNumericOk, moduleNumericOk,
      hc "mixPorts" (by simp), hc "devicePorts" (by simp)]
  · have e1 := ok_unique _ _ _ _ (by rw [hc "attachedDevices" (by simp)])
      (collect_Modules_Module_attachedDevices a ra h1)
      (collect_Modules_Module_attachedDevices b rb h2)
    have e2 := last_Module_defaultOutputDevice a ra h1
    have e2b := last_Module_defaultOutputDevice b rb h2
    rw [hc "defaultOutputDevice" (by simp)] at e2
    have e3 := ok_unique _ _ _ _ (by rw [hc "mixPorts" (by simp)])
      (collect_Modules_Module_mixPorts a ra h1) (collect_Modules_Module_mixPorts b rb h2)
    have e4 := ok_unique _ _ _ _ (by rw [hc "devicePorts" (by simp)])
      (collect_Modules_Module_devicePorts a ra h1)
      (collect_Modules_Module_devicePorts b rb h2)
    have e5 := ok_unique _ _ _ _ (by rw [hc "routes" (by simp)])
      (collect_Modules_Module_routes a ra h1) (collect_Modules_Module_routes b rb h2)
    obtain ⟨e6, e7⟩ := attrs_Module a ra h1
    obtain ⟨e8, e9⟩ := attrs_Module b rb h2
    rw [getXmlAttribute_same a b ha] at e6 e7
    obtain ⟨f1, f2, f3, f4, f5, f6, f7⟩ := ra
    obtain ⟨g1, g2, g3, g4, g5, g6, g7⟩ := rb
    simp only [V7_0.Modules.Module.getAttachedDevices, V7_0.Modules.Module.getMixPorts,
      V7_0.Modules.Module.getDevicePorts, V7_0.Modules.Module.getRoutes]
      at e1 e2 e2b e3 e4 e5 e6 e7 e8 e9
    rw [e1, e2, e2b, e3, e4, e5, e6, e7, e8, e9]
  · rw [mixPort_read_ok, mixPort_read_ok, mixPortNumericOk, mixPortNumericOk, attrAccepted,
      attrAccepted, attrAccepted, attrAccepted, hc "profile" (by simp), hc "gains" (by simp),
      getXmlAttribute_same a b ha, getXmlAttribute_same a b ha]
  · have e1 := ok_unique _ _ _ _ (by rw [hc "profile" (by simp)])
      (collect_MixPorts_MixPort_profile a ra h1) (collect_MixPorts_MixPort_profile b rb h2)
    have e2 := ok_unique _ _ _ _ (by rw [hc "gains" (by simp)])
      (collect_MixPorts_MixPort_gains a ra h1) (collect_MixPorts_MixPort_gains b rb h2)
    obtain ⟨e3, e4, e5, e6⟩ := attrs_MixPort a ra h1
    obtain ⟨k3, k4, k5, k6⟩ := attrs_MixPort b rb h2
    rw [getXmlAttribute_same a b ha] at e3 e4 e5 e6
    have e7 := ok_unique _ _ _ _ (by rw [getXmlAttribute_same a b ha])
      (counts_MixPort a ra h1).1 (counts_MixPort b rb h2).1
    have e8 := ok_unique _ _ _ _ (by rw [getXmlAttribute_same a b ha])
      (counts_MixPort a ra h1).2 (counts_MixPort b rb h2).2
    obtain ⟨f1, f2, f3, f4, f5, f6, f7, f8⟩ := ra
    obtain ⟨g1, g2, g3, g4, g5, g6, g7, g8⟩ := rb
    simp only [V7_0.MixPorts.MixPort.getProfile, V7_0.MixPorts.MixPort.getGains]
      at e1 e2 e3 e4 e5 e6 e7 e8 k3 k4 k5 k6
    rw [e1, e2, e3, e4, e5, e6, e7, e8, k3, k4, k5, k6]
  · rw [devicePort_read_ok, devicePort_read_ok, devicePortNumericOk, devicePortNumericOk,
      hc "profile" (by simp), hc "gains" (by simp)]
  · have e1 := ok_unique _ _ _ _ (by rw [hc "profile" (by simp)])
      (collect_DevicePorts_DevicePort_profile a ra h1)
      (collect_DevicePorts_DevicePort_profile b rb h2)
    have e2 := ok_unique _ _ _ _ (by rw [hc "gains" (by simp)])
      (collect_DevicePorts_DevicePort_gains a ra h1)
      (collect_DevicePorts_DevicePort_gains b rb h2)
    obtain ⟨e3, e4, e5, e6, e7, e8⟩ := attrs_DevicePort a ra h1
    obtain ⟨k3, k4, k5, k6, k7, k8⟩ := attrs_DevicePort b rb h2
    rw [getXmlAttribute_same a b ha] at e3 e4 e5 e6 e7 e8
    obtain ⟨f1, f2, f3, f4, f5, f6, f7, f8⟩ := ra
    obtain ⟨g1, g2, g3, g4, g5, g6, g7, g8⟩ := rb
    simp only [V7_0.DevicePorts.DevicePort.getProfile, V7_0.DevicePorts.DevicePort.getGains]
      at e1 e2 e3 e4 e5 e6 e7 e8 k3 k4 k5 k6 k7 k8
    rw [e1, e2, e3, e4, e5, e6, e7, e8, k3, k4, k5, k6, k7, k8]

/-- Evaluation of C37 on two `volumes` elements that hold the same `volume` children and the
same `reference` child, interleaved differently: both are read as the same record. -/
theorem interleaving_not_recorded_witness :
    V7_0.Volumes.read (XmlNode.element "volumes" []
      [XmlNode.element "volume" [("ref", "a")] [],
       XmlNode.element "reference" [("name", "r")] [],
       XmlNode.element "volume" [("ref", "b")] []]) =
      .ok (V7_0.Volumes.mk [V7_0.Volume.mk [] none none (some "a"),
        V7_0.Volume.mk [] none none (some "b")] [V7_0.Reference.mk [] "r"]) ∧
    ∀ ra rb,
      V7_0.Volumes.read (XmlNode.element "volumes" []
        [XmlNode.element "volume" [("ref", "a")] [],
         XmlNode.element "reference" [("name", "r")] [],
         XmlNode.element "volume" [("ref", "b")] []]) = .ok ra →
      V7_0.Volumes.read (XmlNode.element "volumes" []
        [XmlNode.element "reference" [("name", "r")] [],
         XmlNode.element "volume" [("ref", "a")] [],
         XmlNode.element "volume" [("ref", "b")] []]) = .ok rb → ra = rb :=
  ⟨by decide,
    (interleaving_not_recorded.2.1
      (XmlNode.element "volumes" []
        [XmlNode.element "volume" [("ref", "a")] [],
         XmlNode.element "reference" [("name", "r")] [],
         XmlNode.element "volume" [("ref", "b")] []])
      (XmlNode.element "volumes" []
        [XmlNode.element "reference" [("name", "r")] [],
         XmlNode.element "volume" [("ref", "a")] [],
         XmlNode.element "volume" [("ref", "b")] []])
      (fun _ => rfl)
      (fun name hn => by
        simp only [List.mem_cons, List.mem_singleton, List.not_mem_nil, or_false] at hn
        rcases hn with rfl | rfl <;> rfl)).2⟩

/-! ## The text of the sentinel is no canonical string -/

theorem to_string_numeral (i : Int) : holdsNonNumeral (to_string i) = false := by
  have hn : ∀ n : Nat, ∀ c ∈ decimalNat n, (!(isdigit c || c == '-')) = false := by
    intro n c hc
    rw [(decimalNat_spec n).2.1 c hc]
    rfl
  unfold holdsNonNumeral to_string
  rw [List.any_eq_false]
  intro c hc
  rw [Bool.not_eq_true]
  cases i with
  | ofNat n => exact hn n c hc
  | negSucc n =>
    rcases List.mem_cons.1 hc with h | h
    · subst h
      rfl
    · exact hn (n + 1) c h

theorem EnumBinding.sentinelApart {E : Type} {table : List (String × E)} {unknown : E}
    {stringTo : String → E} {toStr : E → String}
    (b : EnumBinding table unknown stringTo toStr) (i : Int) (hu : toStr unknown = to_string i)
    (hk : ∀ p ∈ table, holdsNonNumeral p.1 = true) :
    SentinelApart table unknown stringTo toStr := by
  have h1 : ∀ p ∈ table, p.1 ≠ toStr unknown := by
    intro p hp heq
    have := hk p hp
    rw [heq, hu, to_string_numeral] at this
    cases this
  have hkey : ∀ t, t ≠ unknown → toStr t ≠ toStr unknown := fun t ht heq =>
    h1 (toStr t, t) (map_find_mem table _ t (b.2.2.2 t ht)) heq
  refine ⟨h1, (b.unknown_iff _).2 h1, fun t₁ t₂ heq => ?_⟩
  by_cases e1 : t₁ = unknown
  · by_cases e2 : t₂ = unknown
    · rw [e1, e2]
    · rw [e1] at heq
      exact absurd heq.symm (hkey t₂ e2)
  · by_cases e2 : t₂ = unknown
    · rw [e2] at heq
      exact absurd heq (hkey t₁ e1)
    · rw [← b.roundTrip t₁ e1, ← b.roundTrip t₂ e2, heq]

set_option maxRecDepth 100000 in
theorem Version_keys_nonNumeral : ∀ p ∈ V7_0.VersionString, holdsNonNumeral p.1 = true := by
  decide

set_option maxRecDepth 100000 in
theorem HalVersion_keys_nonNumeral : ∀ p ∈ V7_0.HalVersionString, holdsNonNumeral p.1 = true := by
  decide

set_option maxRecDepth 100000 in
theorem AudioInOutFlag_keys_nonNumeral : ∀ p ∈ V7_0.AudioInOutFlagString, holdsNonNumeral p.1 = true := by
  decide

set_option maxRecDepth 100000 in
theorem Role_keys_nonNumeral : ∀ p ∈ V7_0.RoleString, holdsNonNumeral p.1 = true := by
  decide

set_option maxRecDepth 100000 in
theorem AudioDevice_keys_nonNumeral : ∀ p ∈ V7_0.AudioDeviceString, holdsNonNumeral p.1 = true := by
  decide

set_option maxRecDepth 100000 in
theorem AudioFormat_keys_nonNumeral : ∀ p ∈ V7_0.AudioFormatString, holdsNonNumeral p.1 = true := by
  decide

set_option maxRecDepth 100000 in
theorem AudioUsage_keys_nonNumeral : ∀ p ∈ V7_0.AudioUsageString, holdsNonNumeral p.1 = true := by
  decide

set_option maxRecDepth 100000 in
theorem AudioContentType_keys_nonNumeral : ∀ p ∈ V7_0.AudioContentTypeString, holdsNonNumeral p.1 = true := by
  decide

set_option maxRecDepth 100000 in
theorem AudioChannelMask_keys_nonNumeral : ∀ p ∈ V7_0.AudioChannelMaskString, holdsNonNumeral p.1 = true := by
  decide

set_option maxRecDepth 100000 in
theorem AudioEncapsulationType_keys_nonNumeral : ∀ p ∈ V7_0.AudioEncapsulationTypeString, holdsNonNumeral p.1 = true := by
  decide

set_option maxRecDepth 100000 in
theorem AudioGainMode_keys_nonNumeral : ∀ p ∈ V7_0.AudioGainModeString, holdsNonNumeral p.1 = true := by
  decide

set_option maxRecDepth 100000 in
theorem MixType_keys_nonNumeral : ∀ p ∈ V7_0.MixTypeString, holdsNonNumeral p.1 = true := by
  decide

set_option maxRecDepth 100000 in
theorem AudioStreamType_keys_nonNumeral : ∀ p ∈ V7_0.AudioStreamTypeString, holdsNonNumeral p.1 = true := by
  decide

set_option maxRecDepth 100000 in
theorem AudioSource_keys_nonNumeral : ∀ p ∈ V7_0.AudioSourceString, holdsNonNumeral p.1 = true := by
  decide

set_option maxRecDepth 100000 in
theorem DeviceCategory_keys_nonNumeral : ∀ p ∈ V7_0.DeviceCategoryString, holdsNonNumeral p.1 = true := by
  decide

set_option maxRecDepth 100000 in
theorem EngineSuffix_keys_nonNumeral : ∀ p ∈ V7_0.EngineSuffixString, holdsNonNumeral p.1 = true := by
  decide

/-- C38: the text of the sentinel never collides with a canonical string.  For each of the
sixteen enumerations, whatever integers the enum declarations give the tags: `toString` of
`UNKNOWN` is the decimal text of its integer and no key of the lookup table of the enumeration,
so `stringToE (toString UNKNOWN)` is `UNKNOWN`, and `toString` is injective on the declared tags
together with `UNKNOWN`. -/
theorem sentinel_text_apart (cast : EnumCasts) :
    (V7_0.Version.toString cast.Version V7_0.Version.UNKNOWN = to_string (cast.Version V7_0.Version.UNKNOWN) ∧
      SentinelApart V7_0.VersionString V7_0.Version.UNKNOWN V7_0.stringToVersion
        (V7_0.Version.toString cast.Version)) ∧
    (V7_0.HalVersion.toString cast.HalVersion V7_0.HalVersion.UNKNOWN = to_string (cast.HalVersion V7_0.HalVersion.UNKNOWN) ∧
      SentinelApart V7_0.HalVersionString V7_0.HalVersion.UNKNOWN V7_0.stringToHalVersion
        (V7_0.HalVersion.toString cast.HalVersion)) ∧
    (V7_0.AudioInOutFlag.toString cast.AudioInOutFlag V7_0.AudioInOutFlag.UNKNOWN = to_string (cast.AudioInOutFlag V7_0.AudioInOutFlag.UNKNOWN) ∧
      SentinelApart V7_0.AudioInOutFlagString V7_0.AudioInOutFlag.UNKNOWN V7_0.stringToAudioInOutFlag
        (V7_0.AudioInOutFlag.toString cast.AudioInOutFlag)) ∧
    (V7_0.Role.toString cast.Role V7_0.Role.UNKNOWN = to_string (cast.Role V7_0.Role.UNKNOWN) ∧
      SentinelApart V7_0.RoleString V7_0.Role.UNKNOWN V7_0.stringToRole
        (V7_0.Role.toString cast.Role)) ∧
    (V7_0.AudioDevice.toString cast.AudioDevice V7_0.AudioDevice.UNKNOWN = to_string (cast.AudioDevice V7_0.AudioDevice.UNKNOWN) ∧
      SentinelApart V7_0.AudioDeviceString V7_0.AudioDevice.UNKNOWN V7_0.stringToAudioDevice
        (V7_0.AudioDevice.toString cast.AudioDevice)) ∧
    (V7_0.AudioFormat.toString cast.AudioFormat V7_0.AudioFormat.UNKNOWN = to_string (cast.AudioFormat V7_0.AudioFormat.UNKNOWN) ∧
      SentinelApart V7_0.AudioFormatString V7_0.AudioFormat.UNKNOWN V7_0.stringToAudioFormat
        (V7_0.AudioFormat.toString cast.AudioFormat)) ∧
    (V7_0.AudioUsage.toString cast.AudioUsage V7_0.AudioUsage.UNKNOWN = to_string (cast.AudioUsage V7_0.AudioUsage.UNKNOWN) ∧
      SentinelApart V7_0.AudioUsageString V7_0.AudioUsage.UNKNOWN V7_0.stringToAudioUsage
        (V7_0.AudioUsage.toString cast.AudioUsage)) ∧
    (V7_0.AudioContentType.toString cast.AudioContentType V7_0.AudioContentType.UNKNOWN = to_string (cast.AudioContentType V7_0.AudioContentType.UNKNOWN) ∧
      SentinelApart V7_0.AudioContentTypeString V7_0.AudioContentType.UNKNOWN V7_0.stringToAudioContentType
        (V7_0.AudioContentType.toString cast.AudioContentType)) ∧
    (V7_0.AudioChannelMask.toString cast.AudioChannelMask V7_0.AudioChannelMask.UNKNOWN = to_string (cast.AudioChannelMask V7_0.AudioChannelMask.UNKNOWN) ∧
      SentinelApart V7_0.AudioChannelMaskString V7_0.AudioChannelMask.UNKNOWN V7_0.stringToAudioChannelMask
        (V7_0.AudioChannelMask.toString cast.AudioChannelMask)) ∧
    (V7_0.AudioEncapsulationType.toString cast.AudioEncapsulationType V7_0.AudioEncapsulationType.UNKNOWN = to_string (cast.AudioEncapsulationType V7_0.AudioEncapsulationType.UNKNOWN) ∧
      SentinelApart V7_0.AudioEncapsulationTypeString V7_0.AudioEncapsulationType.UNKNOWN V7_0.stringToAudioEncapsulationType
        (V7_0.AudioEncapsulationType.toString cast.AudioEncapsulationType)) ∧
    (V7_0.AudioGainMode.toString cast.AudioGainMode V7_0.AudioGainMode.UNKNOWN = to_string (cast.AudioGainMode V7_0.AudioGainMode.UNKNOWN) ∧
      SentinelApart V7_0.AudioGainModeString V7_0.AudioGainMode.UNKNOWN V7_0.stringToAudioGainMode
        (V7_0.AudioGainMode.toString cast.AudioGainMode)) ∧
    (V7_0.MixType.toString cast.MixType V7_0.MixType.UNKNOWN = to_string (cast.MixType V7_0.MixType.UNKNOWN) ∧
      SentinelApart V7_0.MixTypeString V7_0.MixType.UNKNOWN V7_0.stringToMixType
        (V7_0.MixType.toString cast.MixType)) ∧
    (V7_0.AudioStreamType.toString cast.AudioStreamType V7_0.AudioStreamType.UNKNOWN = to_string (cast.AudioStreamType V7_0.AudioStreamType.UNKNOWN) ∧
      SentinelApart V7_0.AudioStreamTypeString V7_0.AudioStreamType.UNKNOWN V7_0.stringToAudioStreamType
        (V7_0.AudioStreamType.toString cast.AudioStreamType)) ∧
    (V7_0.AudioSource.toString cast.AudioSource V7_0.AudioSource.UNKNOWN = to_string (cast.AudioSource V7_0.AudioSource.UNKNOWN) ∧
      SentinelApart V7_0.AudioSourceString V7_0.AudioSource.UNKNOWN V7_0.stringToAudioSource
        (V7_0.AudioSource.toString cast.AudioSource)) ∧
    (V7_0.DeviceCategory.toString cast.DeviceCategory V7_0.DeviceCategory.UNKNOWN = to_string (cast.DeviceCategory V7_0.DeviceCategory.UNKNOWN) ∧
      SentinelApart V7_0.DeviceCategoryString V7_0.DeviceCategory.UNKNOWN V7_0.stringToDeviceCategory
        (V7_0.DeviceCategory.toString cast.DeviceCategory)) ∧
    (V7_0.EngineSuffix.toString cast.EngineSuffix V7_0.EngineSuffix.UNKNOWN = to_string (cast.EngineSuffix V7_0.EngineSuffix.UNKNOWN) ∧
      SentinelApart V7_0.EngineSuffixString V7_0.EngineSuffix.UNKNOWN V7_0.stringToEngineSuffix
        (V7_0.EngineSuffix.toString cast.EngineSuffix)) :=
  ⟨⟨rfl, (V7_0.Version_binding cast.Version).sentinelApart _ rfl Version_keys_nonNumeral⟩,
   ⟨rfl, (V7_0.HalVersion_binding cast.HalVersion).sentinelApart _ rfl HalVersion_keys_nonNumeral⟩,
   ⟨rfl, (V7_0.AudioInOutFlag_binding cast.AudioInOutFlag).sentinelApart _ rfl AudioInOutFlag_keys_nonNumeral⟩,
   ⟨rfl, (V7_0.Role_binding cast.Role).sentinelApart _ rfl Role_keys_nonNumeral⟩,
   ⟨rfl, (V7_0.AudioDevice_binding cast.AudioDevice).sentinelApart _ rfl AudioDevice_keys_nonNumeral⟩,
   ⟨rfl, (V7_0.AudioFormat_binding cast.AudioFormat).sentinelApart _ rfl AudioFormat_keys_nonNumeral⟩,
   ⟨rfl, (V7_0.AudioUsage_binding cast.AudioUsage).sentinelApart _ rfl AudioUsage_keys_nonNumeral⟩,
   ⟨rfl, (V7_0.AudioContentType_binding cast.AudioContentType).sentinelApart _ rfl AudioContentType_keys_nonNumeral⟩,
   ⟨rfl, (V7_0.AudioChannelMask_binding cast.AudioChannelMask).sentinelApart _ rfl AudioChannelMask_keys_nonNumeral⟩,
   ⟨rfl, (V7_0.AudioEncapsulationType_binding cast.AudioEncapsulationType).sentinelApart _ rfl AudioEncapsulationType_keys_nonNumeral⟩,
   ⟨rfl, (V7_0.AudioGainMode_binding cast.AudioGainMode).sentinelApart _ rfl AudioGainMode_keys_nonNumeral⟩,
   ⟨rfl, (V7_0.MixType_binding cast.MixType).sentinelApart _ rfl MixType_keys_nonNumeral⟩,
   ⟨rfl, (V7_0.AudioStreamType_binding cast.AudioStreamType).sentinelApart _ rfl AudioStreamType_keys_nonNumeral⟩,
   ⟨rfl, (V7_0.AudioSource_binding cast.AudioSource).sentinelApart _ rfl AudioSource_keys_nonNumeral⟩,
   ⟨rfl, (V7_0.DeviceCategory_binding cast.DeviceCategory).sentinelApart _ rfl DeviceCategory_keys_nonNumeral⟩,
   ⟨rfl, (V7_0.EngineSuffix_binding cast.EngineSuffix).sentinelApart _ rfl EngineSuffix_keys_nonNumeral⟩⟩

/-- Evaluation of C38 on `Role` with the sentinel at minus one: its text `-1` converts back to
the sentinel. -/
theorem sentinel_text_apart_witness :
    V7_0.Role.toString (fun _ => -1) V7_0.Role.UNKNOWN = "-1" ∧
    V7_0.stringToRole (V7_0.Role.toString (fun _ => -1) V7_0.Role.UNKNOWN) =
      V7_0.Role.UNKNOWN :=
  ⟨by decide,
    (sentinel_text_apart
      (EnumCasts.mk (fun _ => -1) (fun _ => -1) (fun _ => -1) (fun _ => -1) (fun _ => -1)
        (fun _ => -1) (fun _ => -1) (fun _ => -1) (fun _ => -1) (fun _ => -1) (fun _ => -1)
        (fun _ => -1) (fun _ => -1) (fun _ => -1) (fun _ => -1)
        (fun _ => -1))).2.2.2.1.2.2.1⟩

/-! ## Reader-to-getter wiring of `Gain` -/

theorem wired_pure {α : Type} (n : XmlNode) (a : String) (o : Option α) (f : String → α)
    (h : o = (if getXmlAttribute n a ≠ "" then some (f (getXmlAttribute n a)) else none)) :
    wiredTo n a o.isSome (if o.isSome then o else none) (fun s v => v = f s) := by
  subst h
  refine ⟨(optPure_isSome _ _).trans (getXmlAttribute_ne_empty _ _), ?_, ?_⟩
  · intro hp
    rw [optPure_isSome] at hp
    exact ⟨f (getXmlAttribute n a), by simp [hp], rfl⟩
  · intro hp
    rw [hp]
    rfl

theorem wired_conv {α : Type} (n : XmlNode) (a : String) (o : Option α)
    (conv : String → Except CppException α)
    (h : (if getXmlAttribute n a ≠ "" then some <$> conv (getXmlAttribute n a) else pure none)
      = .ok o) :
    wiredTo n a o.isSome (if o.isSome then o else none) (fun s v => conv s = .ok v) := by
  have hs := optBind_isSome _ _ some o h (fun _ => rfl)
  refine ⟨hs.trans (getXmlAttribute_ne_empty _ _), ?_, ?_⟩
  · intro hp
    rw [if_pos (hs.1 hp), Except_map_ok] at h
    obtain ⟨v, hv, rfl⟩ := h
    exact ⟨v, rfl, hv⟩
  · intro hp
    rw [hp]
    rfl

/-- C39: reader-to-getter wiring of `Gain`.  For every `gain` element, when `Gains::Gain::read`
returns a record: `getName()` is the text of the attribute `name`, `getMode()` the converted
tokens of the attribute `mode`, and each optional getter is wired to the attribute of its own
name: `getChannel_mask` to `channel_mask` through `stringToAudioChannelMask`, `getMinValueMB`,
`getMaxValueMB`, `getDefaultValueMB`, `getStepValueMB`, `getMinRampMs` and `getMaxRampMs` to
`minValueMB`, `maxValueMB`, `defaultValueMB`, `stepValueMB`, `minRampMs` and `maxRampMs` through
`std::stoi`, `getUseForVolume` to `useForVolume` through the comparison with `true`; the
presence of each depends on its own attribute only. -/
theorem gain_wiring (n : XmlNode) (r : V7_0.Gains.Gain)
    (h : V7_0.Gains.Gain.read n = .ok r) :
    r.getName = getXmlAttribute n "name" ∧
    r.getMode = (splitOnWhitespace (getXmlAttribute n "mode")).map V7_0.stringToAudioGainMode ∧
    wiredTo n "channel_mask" r.hasChannel_mask r.getChannel_mask
      (fun s v => v = V7_0.stringToAudioChannelMask s) ∧
    wiredTo n "minValueMB" r.hasMinValueMB r.getMinValueMB (fun s v => stoi s = .ok v) ∧
    wiredTo n "maxValueMB" r.hasMaxValueMB r.getMaxValueMB (fun s v => stoi s = .ok v) ∧
    wiredTo n "defaultValueMB" r.hasDefaultValueMB r.getDefaultValueMB
      (fun s v => stoi s = .ok v) ∧
    wiredTo n "stepValueMB" r.hasStepValueMB r.getStepValueMB (fun s v => stoi s = .ok v) ∧
    wiredTo n "minRampMs" r.hasMinRampMs r.getMinRampMs (fun s v => stoi s = .ok v) ∧
    wiredTo n "maxRampMs" r.hasMaxRampMs r.getMaxRampMs (fun s v => stoi s = .ok v) ∧
    wiredTo n "useForVolume" r.hasUseForVolume r.getUseForVolume
      (fun s v => v = decide (s = "true")) := by
  obtain ⟨a1, a2, a3, a4⟩ := attrs_Gain n r h
  obtain ⟨i1, i2, i3, i4, i5, i6⟩ := ints_Gain n r h
  refine ⟨a1, ?_, wired_pure n _ _ _ a3, wired_conv n _ _ stoi i1, wired_conv n _ _ stoi i2,
    wired_conv n _ _ stoi i3, wired_conv n _ _ stoi i4, wired_conv n _ _ stoi i5,
    wired_conv n _ _ stoi i6, wired_pure n _ _ (fun s => decide (s = "true")) a4⟩
  show r.mode_ = _
  rw [a2, ← istringstream_tokens_split]
  by_cases h0 : getXmlAttribute n "mode" = ""
  · rw [h0]
    rfl
  · rw [if_pos h0]

/-- Evaluation of C39 on a `gain` whose six integer attributes hold six different numbers: each
getter returns the number of the attribute of its own name. -/
theorem gain_wiring_witness :
    V7_0.Gains.Gain.read (XmlNode.element "gain"
      [("maxRampMs", "6"), ("minRampMs", "5"), ("stepValueMB", "4"), ("defaultValueMB", "3"),
       ("maxValueMB", "2"), ("minValueMB", "1"), ("useForVolume", "true"), ("name", "g"),
       ("mode", "AUDIO_GAIN_MODE_JOINT")] []) =
      .ok (V7_0.Gains.Gain.mk "g" [V7_0.AudioGainMode.AUDIO_GAIN_MODE_JOINT] none (some 1)
        (some 2) (some 3) (some 4) (some 5) (some 6) (some true)) ∧
    wiredTo (XmlNode.element "gain"
        [("maxRampMs", "6"), ("minRampMs", "5"), ("stepValueMB", "4"), ("defaultValueMB", "3"),
         ("maxValueMB", "2"), ("minValueMB", "1"), ("useForVolume", "true"), ("name", "g"),
         ("mode", "AUDIO_GAIN_MODE_JOINT")] []) "minValueMB"
      (V7_0.Gains.Gain.mk "g" [V7_0.AudioGainMode.AUDIO_GAIN_MODE_JOINT] none (some 1)
        (some 2) (some 3) (some 4) (some 5) (some 6) (some true)).hasMinValueMB
      (V7_0.Gains.Gain.mk "g" [V7_0.AudioGainMode.AUDIO_GAIN_MODE_JOINT] none (some 1)
        (some 2) (some 3) (some 4) (some 5) (some 6) (some true)).getMinValueMB
      (fun s v => stoi s = .ok v) :=
  ⟨by decide,
    (gain_wiring
      (XmlNode.element "gain"
        [("maxRampMs", "6"), ("minRampMs", "5"), ("stepValueMB", "4"), ("defaultValueMB", "3"),
         ("maxValueMB", "2"), ("minValueMB", "1"), ("useForVolume", "true"), ("name", "g"),
         ("mode", "AUDIO_GAIN_MODE_JOINT")] [])
      (V7_0.Gains.Gain.mk "g" [V7_0.AudioGainMode.AUDIO_GAIN_MODE_JOINT] none (some 1)
        (some 2) (some 3) (some 4) (some 5) (some 6) (some true))
      (by decide)).2.2.2.1⟩
